import Mathlib

/-!
# libspatialite: the EWKT and GML geometry parsers

A shallow embedding of the hand-written parts of `src/gaiageo/gg_ewkt.c`
(the builder callbacks, the validity checker, the SRID prefix scan and the
entry point `gaiaParseEWKT`) and of `src/gaiageo/gg_gml.c` (the translation
of the list of GML nodes into a geometry), followed by the properties proved
about them.

Conventions of the embedding.

* A C `double` is an element of an arbitrary type `R` with a zero (the 0.0
  of the allocators); the EWKT code only ever copies coordinates, so every
  result holds for any carrier, the IEEE doubles included. The GML code also
  compares coordinates with `==` (decidable equality on `R`) and reads them
  with `atof`, a parameter of the embedding.
* A `NULL`-terminated linked list (`Next` pointers) is a Lean `List`; the
  `First…`/`Last…` pointer pairs of a geometry are the list itself.
* A pointer that may be `NULL` is an `Option`.
* A coordinate buffer (`double *Coords`) is a flat `List R`, addressed with
  the index arithmetic of the `gaiaSetPoint…`/`gaiaGetPoint…` macros.
* Counters (`int`) that count list cells are natural numbers.
* Behaviour that C leaves undefined (a write past the end of a fixed buffer,
  an `atoi` overflow) is `none`.
-/

namespace Spatialite

set_option linter.unusedSectionVars false
set_option linter.unusedVariables false

/-! ## Constants of `gaiageo.h` -/

/-- Modelled from the spec: the dimension-model constant `GAIA_XY` of the
header `gaiageo.h`, which is not among the sources (2D). -/
def GAIA_XY : Int := 0
/-- Modelled from the spec: the dimension-model constant `GAIA_XY_Z` of the
header `gaiageo.h` (3D). -/
def GAIA_XY_Z : Int := 1
/-- Modelled from the spec: the dimension-model constant `GAIA_XY_M` of the
header `gaiageo.h` (2D + measure). -/
def GAIA_XY_M : Int := 2
/-- Modelled from the spec: the dimension-model constant `GAIA_XY_Z_M` of the
header `gaiageo.h` (3D + measure). -/
def GAIA_XY_Z_M : Int := 3

/-- Modelled from the spec: geometry class constant of `gaiageo.h`. -/
def GAIA_UNKNOWN : Int := 0
/-- Modelled from the spec: geometry class constant of `gaiageo.h`. -/
def GAIA_POINT : Int := 1
/-- Modelled from the spec: geometry class constant of `gaiageo.h`. -/
def GAIA_LINESTRING : Int := 2
/-- Modelled from the spec: geometry class constant of `gaiageo.h`. -/
def GAIA_POLYGON : Int := 3
/-- Modelled from the spec: geometry class constant of `gaiageo.h`. -/
def GAIA_MULTIPOINT : Int := 4
/-- Modelled from the spec: geometry class constant of `gaiageo.h`. -/
def GAIA_MULTILINESTRING : Int := 5
/-- Modelled from the spec: geometry class constant of `gaiageo.h`. -/
def GAIA_MULTIPOLYGON : Int := 6
/-- Modelled from the spec: geometry class constant of `gaiageo.h`. -/
def GAIA_GEOMETRYCOLLECTION : Int := 7
/-- Modelled from the spec: geometry class constant of `gaiageo.h`
(a Point carrying Z). -/
def GAIA_POINTZ : Int := 1001
/-- Modelled from the spec: geometry class constant of `gaiageo.h`
(a Point carrying M). -/
def GAIA_POINTM : Int := 2001
/-- Modelled from the spec: geometry class constant of `gaiageo.h`
(a Point carrying Z and M). -/
def GAIA_POINTZM : Int := 3001

/-! ## Data model (`gaiageo.h` structures) -/

/-- The C struct `gaiaPoint`; the `Next`/`Prev` links are the enclosing list. -/
structure gaiaPoint (R : Type) where
  X : R
  Y : R
  Z : R
  M : R
  DimensionModel : Int
deriving DecidableEq, Repr

/-- The C struct `gaiaLinestring`: `Points` vertices stored in the flat
buffer `Coords`. -/
structure gaiaLinestring (R : Type) where
  Points : Nat
  Coords : List R
  DimensionModel : Int
deriving DecidableEq, Repr

/-- The C struct `gaiaRing`: `Points` vertices stored in the flat buffer
`Coords`. -/
structure gaiaRing (R : Type) where
  Points : Nat
  Coords : List R
  DimensionModel : Int
deriving DecidableEq, Repr

/-- The C struct `gaiaPolygon`. The array `Interiors` of `NumInteriors`
rings is a list; `NextInterior` is the C cursor of `gaiaAddInteriorRing`. -/
structure gaiaPolygon (R : Type) where
  Exterior : gaiaRing R
  Interiors : List (gaiaRing R)
  NextInterior : Nat
  DimensionModel : Int
deriving DecidableEq, Repr

/-- The C field `NumInteriors`: the size of the array `Interiors`. -/
def gaiaPolygon.NumInteriors {R : Type} (pg : gaiaPolygon R) : Nat :=
  pg.Interiors.length

/-- Modelled from the spec: the bounding envelope of a Geometry, the four C
fields `MinX`, `MinY`, `MaxX`, `MaxY` of `gaiaGeomColl` that `gaiaMbrGeometry`
computes and stores. -/
structure gaiaMbr (R : Type) where
  MinX : R
  MinY : R
  MaxX : R
  MaxY : R
deriving DecidableEq, Repr

/-- The C struct `gaiaGeomColl`. `FirstPoint`, `FirstLinestring` and
`FirstPolygon` are the three linked lists (their `Last…` pointers are the
last cells of the lists). `Mbr` stands for the envelope fields: `none` is the
content that the allocator leaves, an envelope that is not computed; the
parsers of `gg_ewkt.c` and `gg_gml.c` never assign these fields themselves,
only `gaiaMbrGeometry` stores an envelope there. -/
structure gaiaGeomColl (R : Type) where
  Srid : Int
  FirstPoint : List (gaiaPoint R)
  FirstLinestring : List (gaiaLinestring R)
  FirstPolygon : List (gaiaPolygon R)
  DimensionModel : Int
  DeclaredType : Int
  Mbr : Option (gaiaMbr R) := none
deriving DecidableEq, Repr

section Ewkt

variable {R : Type}

/-! ## `ewktCheckValidity` -/

/-- The first loop of `ewktCheckValidity`: `entities++` for every point. -/
def ewktCheckValidity.points : List (gaiaPoint R) → Int → Int
  | [], entities => entities
  | _ :: pt, entities => ewktCheckValidity.points pt (entities + 1)

/-- The second loop of `ewktCheckValidity`; `none` is the early `return 0`. -/
def ewktCheckValidity.linestrings : List (gaiaLinestring R) → Int → Option Int
  | [], entities => some entities
  | ln :: next, entities =>
    if ln.Points < 2 then none
    else ewktCheckValidity.linestrings next (entities + 1)

/-- The inner `for (ib = 0; ib < pg->NumInteriors; ib++)` loop; `false` is
the early `return 0`. -/
def ewktCheckValidity.interiors : List (gaiaRing R) → Bool
  | [] => true
  | rng :: rest =>
    if rng.Points < 4 then false else ewktCheckValidity.interiors rest

/-- The third loop of `ewktCheckValidity`; `none` is the early `return 0`. -/
def ewktCheckValidity.polygons : List (gaiaPolygon R) → Int → Option Int
  | [], entities => some entities
  | pg :: next, entities =>
    if pg.Exterior.Points < 4 then none
    else if ewktCheckValidity.interiors pg.Interiors = false then none
    else ewktCheckValidity.polygons next (entities + 1)

/-- The C function `ewktCheckValidity`: checks if this one is a degenerated
geometry (0 = degenerate, 1 = valid). -/
def ewktCheckValidity (geom : gaiaGeomColl R) : Int :=
  let entities := ewktCheckValidity.points geom.FirstPoint 0
  match ewktCheckValidity.linestrings geom.FirstLinestring entities with
  | none => 0
  | some entities =>
    match ewktCheckValidity.polygons geom.FirstPolygon entities with
    | none => 0
    | some entities => if entities = 0 then 0 else 1


/-- The memory that a run of `ewktCheckValidity` works on: the geometry that
the argument `geom` points to, the locals of the function (a pointer into a
linked list is the list of the cells from the one it points to, `NULL` the
empty list) and, once a `return` statement is executed, the returned
value. -/
structure ewktCheckValidity.State (R : Type) where
  geom : gaiaGeomColl R
  pt : List (gaiaPoint R)
  ln : List (gaiaLinestring R)
  pg : List (gaiaPolygon R)
  rng : Option (gaiaRing R)
  ib : Nat
  entities : Int
  returned : Option Int

/-- The loop `while (pt)` of `ewktCheckValidity` as a step on the memory; the
list is the value of `pt` at the test. -/
def ewktCheckValidity.run.points :
    List (gaiaPoint R) → ewktCheckValidity.State R → ewktCheckValidity.State R
  | [], s => s
  | _ :: next, s =>
    let s := { s with entities := s.entities + 1 }
    let s := { s with pt := next }
    ewktCheckValidity.run.points next s

/-- The loop `while (ln)` of `ewktCheckValidity` as a step on the memory; the
list is the value of `ln` at the test. -/
def ewktCheckValidity.run.linestrings :
    List (gaiaLinestring R) → ewktCheckValidity.State R → ewktCheckValidity.State R
  | [], s => s
  | ln :: next, s =>
    if ln.Points < 2 then { s with returned := some 0 }
    else
      let s := { s with entities := s.entities + 1 }
      let s := { s with ln := next }
      ewktCheckValidity.run.linestrings next s

/-- The loop `for (ib = 0; ib < pg->NumInteriors; ib++)` of
`ewktCheckValidity` as a step on the memory, after `ib = 0`; the list holds
the rings `pg->Interiors + ib` and the following ones. -/
def ewktCheckValidity.run.interiors :
    List (gaiaRing R) → ewktCheckValidity.State R → ewktCheckValidity.State R
  | [], s => s
  | rng :: rest, s =>
    let s := { s with rng := some rng }
    if rng.Points < 4 then { s with returned := some 0 }
    else
      let s := { s with ib := s.ib + 1 }
      ewktCheckValidity.run.interiors rest s

/-- The loop `while (pg)` of `ewktCheckValidity` as a step on the memory; the
list is the value of `pg` at the test. -/
def ewktCheckValidity.run.polygons :
    List (gaiaPolygon R) → ewktCheckValidity.State R → ewktCheckValidity.State R
  | [], s => s
  | pg :: next, s =>
    let s := { s with rng := some pg.Exterior }
    if pg.Exterior.Points < 4 then { s with returned := some 0 }
    else
      let s := { s with ib := 0 }
      let s := ewktCheckValidity.run.interiors pg.Interiors s
      match s.returned with
      | some _ => s
      | none =>
        let s := { s with entities := s.entities + 1 }
        let s := { s with pg := next }
        ewktCheckValidity.run.polygons next s

/-- The statements of `ewktCheckValidity` from `pg = geom->FirstPolygon` to
the end, as a step on the memory: the returned `int` and the geometry as it
stands at the `return`. -/
def ewktCheckValidity.run.fromPolygons (s : ewktCheckValidity.State R) :
    Int × gaiaGeomColl R :=
  let s := { s with pg := s.geom.FirstPolygon }
  let s := ewktCheckValidity.run.polygons s.pg s
  match s.returned with
  | some value => (value, s.geom)
  | none => if s.entities = 0 then (0, s.geom) else (1, s.geom)

/-- The statements of `ewktCheckValidity` from `ln = geom->FirstLinestring`
to the end, as a step on the memory. -/
def ewktCheckValidity.run.fromLinestrings (s : ewktCheckValidity.State R) :
    Int × gaiaGeomColl R :=
  let s := { s with ln := s.geom.FirstLinestring }
  let s := ewktCheckValidity.run.linestrings s.ln s
  match s.returned with
  | some value => (value, s.geom)
  | none => ewktCheckValidity.run.fromPolygons s

/-- The C function `ewktCheckValidity` as a step on the memory it is handed,
statement by statement: the returned `int` together with the geometry as it
stands after the call. The locals `pt`, `ln`, `pg`, `rng` and `ib` have no
initial value and are assigned before they are read; every read of the
geometry is a read of the geometry of the current memory. -/
def ewktCheckValidity.run (geom : gaiaGeomColl R) : Int × gaiaGeomColl R :=
  let s : ewktCheckValidity.State R :=
    { geom := geom, pt := [], ln := [], pg := [], rng := none, ib := 0, entities := 0,
      returned := none }
  let s := { s with pt := s.geom.FirstPoint }
  let s := ewktCheckValidity.run.points s.pt s
  ewktCheckValidity.run.fromLinestrings s

/-! ## Constructors and accessors of the geometry model

The functions and macros of this part belong to `gaiageo.h` and
`gg_geometries.c`, which are not among the sources; the builders of
`gg_ewkt.c` call them. -/

variable [Zero R]

/-- Modelled from the spec: the macro `gaiaSetPoint(xy, v, x, y)` of
`gaiageo.h`: `xy[v*2] = x; xy[v*2+1] = y`. -/
def gaiaSetPoint (xy : List R) (v : Nat) (x y : R) : List R :=
  (xy.set (v * 2) x).set (v * 2 + 1) y

/-- Modelled from the spec: the macro `gaiaGetPoint(xy, v, x, y)` of
`gaiageo.h`: `x = xy[v*2]; y = xy[v*2+1]`. -/
def gaiaGetPoint (xy : List R) (v : Nat) : R × R :=
  (xy.getD (v * 2) 0, xy.getD (v * 2 + 1) 0)

/-- Modelled from the spec: the macro `gaiaSetPointXYZ(xyz, v, x, y, z)` of
`gaiageo.h`: cells `v*3`, `v*3+1`, `v*3+2`. -/
def gaiaSetPointXYZ (xyz : List R) (v : Nat) (x y z : R) : List R :=
  ((xyz.set (v * 3) x).set (v * 3 + 1) y).set (v * 3 + 2) z

/-- Modelled from the spec: the macro `gaiaGetPointXYZ(xyz, v, x, y, z)` of
`gaiageo.h`. -/
def gaiaGetPointXYZ (xyz : List R) (v : Nat) : R × R × R :=
  (xyz.getD (v * 3) 0, xyz.getD (v * 3 + 1) 0, xyz.getD (v * 3 + 2) 0)

/-- Modelled from the spec: the macro `gaiaSetPointXYM(xym, v, x, y, m)` of
`gaiageo.h`: cells `v*3`, `v*3+1`, `v*3+2`. -/
def gaiaSetPointXYM (xym : List R) (v : Nat) (x y m : R) : List R :=
  ((xym.set (v * 3) x).set (v * 3 + 1) y).set (v * 3 + 2) m

/-- Modelled from the spec: the macro `gaiaGetPointXYM(xym, v, x, y, m)` of
`gaiageo.h`. -/
def gaiaGetPointXYM (xym : List R) (v : Nat) : R × R × R :=
  (xym.getD (v * 3) 0, xym.getD (v * 3 + 1) 0, xym.getD (v * 3 + 2) 0)

/-- Modelled from the spec: the macro `gaiaSetPointXYZM(xyzm, v, x, y, z, m)`
of `gaiageo.h`: cells `v*4` … `v*4+3`. -/
def gaiaSetPointXYZM (xyzm : List R) (v : Nat) (x y z m : R) : List R :=
  (((xyzm.set (v * 4) x).set (v * 4 + 1) y).set (v * 4 + 2) z).set (v * 4 + 3) m

/-- Modelled from the spec: the macro `gaiaGetPointXYZM(xyzm, v, x, y, z, m)`
of `gaiageo.h`. -/
def gaiaGetPointXYZM (xyzm : List R) (v : Nat) : R × R × R × R :=
  (xyzm.getD (v * 4) 0, xyzm.getD (v * 4 + 1) 0, xyzm.getD (v * 4 + 2) 0,
    xyzm.getD (v * 4 + 3) 0)

/-- Modelled from the spec: `gaiaAllocPoint` of `gg_geometries.c` (a 2D
point; the unused Z and M are 0.0). -/
def gaiaAllocPoint (x y : R) : gaiaPoint R :=
  { X := x, Y := y, Z := 0, M := 0, DimensionModel := GAIA_XY }

/-- Modelled from the spec: `gaiaAllocPointXYZ` of `gg_geometries.c`. -/
def gaiaAllocPointXYZ (x y z : R) : gaiaPoint R :=
  { X := x, Y := y, Z := z, M := 0, DimensionModel := GAIA_XY_Z }

/-- Modelled from the spec: `gaiaAllocPointXYM` of `gg_geometries.c`. -/
def gaiaAllocPointXYM (x y m : R) : gaiaPoint R :=
  { X := x, Y := y, Z := 0, M := m, DimensionModel := GAIA_XY_M }

/-- Modelled from the spec: `gaiaAllocPointXYZM` of `gg_geometries.c`. -/
def gaiaAllocPointXYZM (x y z m : R) : gaiaPoint R :=
  { X := x, Y := y, Z := z, M := m, DimensionModel := GAIA_XY_Z_M }

/-- Modelled from the spec: `gaiaAllocLinestring` of `gg_geometries.c`: a 2D
linestring of `vert` vertices (the fresh buffer of `vert*2` cells is filled
with 0.0 here). -/
def gaiaAllocLinestring (vert : Nat) : gaiaLinestring R :=
  { Points := vert, Coords := List.replicate (vert * 2) 0, DimensionModel := GAIA_XY }

/-- Modelled from the spec: `gaiaAllocLinestringXYZ` of `gg_geometries.c`
(`vert*3` cells). -/
def gaiaAllocLinestringXYZ (vert : Nat) : gaiaLinestring R :=
  { Points := vert, Coords := List.replicate (vert * 3) 0, DimensionModel := GAIA_XY_Z }

/-- Modelled from the spec: `gaiaAllocLinestringXYM` of `gg_geometries.c`
(`vert*3` cells). -/
def gaiaAllocLinestringXYM (vert : Nat) : gaiaLinestring R :=
  { Points := vert, Coords := List.replicate (vert * 3) 0, DimensionModel := GAIA_XY_M }

/-- Modelled from the spec: `gaiaAllocLinestringXYZM` of `gg_geometries.c`
(`vert*4` cells). -/
def gaiaAllocLinestringXYZM (vert : Nat) : gaiaLinestring R :=
  { Points := vert, Coords := List.replicate (vert * 4) 0, DimensionModel := GAIA_XY_Z_M }

/-- Modelled from the spec: `gaiaAllocRing` of `gg_geometries.c`. -/
def gaiaAllocRing (vert : Nat) : gaiaRing R :=
  { Points := vert, Coords := List.replicate (vert * 2) 0, DimensionModel := GAIA_XY }

/-- Modelled from the spec: `gaiaAllocRingXYZ` of `gg_geometries.c`. -/
def gaiaAllocRingXYZ (vert : Nat) : gaiaRing R :=
  { Points := vert, Coords := List.replicate (vert * 3) 0, DimensionModel := GAIA_XY_Z }

/-- Modelled from the spec: `gaiaAllocRingXYM` of `gg_geometries.c`. -/
def gaiaAllocRingXYM (vert : Nat) : gaiaRing R :=
  { Points := vert, Coords := List.replicate (vert * 3) 0, DimensionModel := GAIA_XY_M }

/-- Modelled from the spec: `gaiaAllocRingXYZM` of `gg_geometries.c`. -/
def gaiaAllocRingXYZM (vert : Nat) : gaiaRing R :=
  { Points := vert, Coords := List.replicate (vert * 4) 0, DimensionModel := GAIA_XY_Z_M }

/-- Modelled from the spec: `gaiaAllocGeomColl` of `gg_geometries.c`: an
empty 2D geometry of unknown class. -/
def gaiaAllocGeomColl : gaiaGeomColl R :=
  { Srid := 0, FirstPoint := [], FirstLinestring := [], FirstPolygon := [],
    DimensionModel := GAIA_XY, DeclaredType := GAIA_UNKNOWN }

/-- Modelled from the spec: `gaiaAllocGeomCollXYZ` of `gg_geometries.c`. -/
def gaiaAllocGeomCollXYZ : gaiaGeomColl R :=
  { Srid := 0, FirstPoint := [], FirstLinestring := [], FirstPolygon := [],
    DimensionModel := GAIA_XY_Z, DeclaredType := GAIA_UNKNOWN }

/-- Modelled from the spec: `gaiaAllocGeomCollXYM` of `gg_geometries.c`. -/
def gaiaAllocGeomCollXYM : gaiaGeomColl R :=
  { Srid := 0, FirstPoint := [], FirstLinestring := [], FirstPolygon := [],
    DimensionModel := GAIA_XY_M, DeclaredType := GAIA_UNKNOWN }

/-- Modelled from the spec: `gaiaAllocGeomCollXYZM` of `gg_geometries.c`. -/
def gaiaAllocGeomCollXYZM : gaiaGeomColl R :=
  { Srid := 0, FirstPoint := [], FirstLinestring := [], FirstPolygon := [],
    DimensionModel := GAIA_XY_Z_M, DeclaredType := GAIA_UNKNOWN }

/-- Modelled from the spec: `gaiaAddPointToGeomColl` of `gg_geometries.c`:
appends a new 2D point at the tail of the point list. -/
def gaiaAddPointToGeomColl (p : gaiaGeomColl R) (x y : R) : gaiaGeomColl R :=
  { p with FirstPoint := p.FirstPoint ++ [gaiaAllocPoint x y] }

/-- Modelled from the spec: `gaiaAddPointToGeomCollXYZ` of `gg_geometries.c`. -/
def gaiaAddPointToGeomCollXYZ (p : gaiaGeomColl R) (x y z : R) : gaiaGeomColl R :=
  { p with FirstPoint := p.FirstPoint ++ [gaiaAllocPointXYZ x y z] }

/-- Modelled from the spec: `gaiaAddPointToGeomCollXYM` of `gg_geometries.c`. -/
def gaiaAddPointToGeomCollXYM (p : gaiaGeomColl R) (x y m : R) : gaiaGeomColl R :=
  { p with FirstPoint := p.FirstPoint ++ [gaiaAllocPointXYM x y m] }

/-- Modelled from the spec: `gaiaAddPointToGeomCollXYZM` of `gg_geometries.c`. -/
def gaiaAddPointToGeomCollXYZM (p : gaiaGeomColl R) (x y z m : R) : gaiaGeomColl R :=
  { p with FirstPoint := p.FirstPoint ++ [gaiaAllocPointXYZM x y z m] }

/-- Modelled from the spec: the allocation step of
`gaiaAddLinestringToGeomColl` (`gg_geometries.c`): the new linestring takes
the dimension model of the geometry it is added to. -/
def gaiaAddLinestringToGeomColl.alloc (p : gaiaGeomColl R) (vert : Nat) :
    gaiaLinestring R :=
  if p.DimensionModel = GAIA_XY_Z then gaiaAllocLinestringXYZ vert
  else if p.DimensionModel = GAIA_XY_M then gaiaAllocLinestringXYM vert
  else if p.DimensionModel = GAIA_XY_Z_M then gaiaAllocLinestringXYZM vert
  else gaiaAllocLinestring vert

/-- Modelled from the spec: the linking step of `gaiaAddLinestringToGeomColl`
(`gg_geometries.c`): the linestring becomes the tail of the list. The C
function links the fresh linestring first and hands out a pointer through
which the caller fills it; here the caller fills it and then links it. -/
def gaiaAddLinestringToGeomColl.link (p : gaiaGeomColl R) (line : gaiaLinestring R) :
    gaiaGeomColl R :=
  { p with FirstLinestring := p.FirstLinestring ++ [line] }


/-! ## Point and linestring builders of `gg_ewkt.c` -/

/-- The C function `gaiaEwktGeometryFromPoint`: builds a GEOMETRY containing
a POINT. -/
def gaiaEwktGeometryFromPoint (point : gaiaPoint R) : gaiaGeomColl R :=
  let geom : gaiaGeomColl R := gaiaAllocGeomColl
  let geom := { geom with DeclaredType := GAIA_POINT }
  gaiaAddPointToGeomColl geom point.X point.Y

/-- The C function `gaiaEwktGeometryFromPointZ`: builds a GEOMETRY containing
a POINTZ. -/
def gaiaEwktGeometryFromPointZ (point : gaiaPoint R) : gaiaGeomColl R :=
  let geom : gaiaGeomColl R := gaiaAllocGeomCollXYZ
  let geom := { geom with DeclaredType := GAIA_POINTZ }
  gaiaAddPointToGeomCollXYZ geom point.X point.Y point.Z

/-- The C function `gaiaEwktGeometryFromPointM`: builds a GEOMETRY containing
a POINTM. -/
def gaiaEwktGeometryFromPointM (point : gaiaPoint R) : gaiaGeomColl R :=
  let geom : gaiaGeomColl R := gaiaAllocGeomCollXYM
  let geom := { geom with DeclaredType := GAIA_POINTM }
  gaiaAddPointToGeomCollXYM geom point.X point.Y point.M

/-- The C function `gaiaEwktGeometryFromPointZM`: builds a GEOMETRY
containing a POINTZM. -/
def gaiaEwktGeometryFromPointZM (point : gaiaPoint R) : gaiaGeomColl R :=
  let geom : gaiaGeomColl R := gaiaAllocGeomCollXYZM
  let geom := { geom with DeclaredType := GAIA_POINTZM }
  gaiaAddPointToGeomCollXYZM geom point.X point.Y point.Z point.M

/-- The C function `ewkt_point_xy`. -/
def ewkt_point_xy (x y : R) : gaiaPoint R := gaiaAllocPoint x y

/-- The C function `ewkt_point_xyz`. -/
def ewkt_point_xyz (x y z : R) : gaiaPoint R := gaiaAllocPointXYZ x y z

/-- The C function `ewkt_point_xym`. -/
def ewkt_point_xym (x y m : R) : gaiaPoint R := gaiaAllocPointXYM x y m

/-- The C function `ewkt_point_xyzm`. -/
def ewkt_point_xyzm (x y z m : R) : gaiaPoint R := gaiaAllocPointXYZM x y z m

/-- The C function `ewkt_buildGeomFromPoint`: the `switch` on the point's
dimension model; `none` is the final `return NULL`. -/
def ewkt_buildGeomFromPoint (point : gaiaPoint R) : Option (gaiaGeomColl R) :=
  if point.DimensionModel = GAIA_XY then some (gaiaEwktGeometryFromPoint point)
  else if point.DimensionModel = GAIA_XY_Z then some (gaiaEwktGeometryFromPointZ point)
  else if point.DimensionModel = GAIA_XY_M then some (gaiaEwktGeometryFromPointM point)
  else if point.DimensionModel = GAIA_XY_Z_M then some (gaiaEwktGeometryFromPointZM point)
  else none

/-- The copy loop of `gaiaEwktGeometryFromLinestring`,
`for (iv = 0; iv < line2->Points; iv++)`: `n` is the number of iterations
left, `iv` the loop counter, `src` the buffer `line->Coords` and the last
argument the buffer `line2->Coords`. -/
def gaiaEwktGeometryFromLinestring.loop (src : List R) : Nat → Nat → List R → List R
  | 0, _, dst => dst
  | n + 1, iv, dst =>
    let (x, y) := gaiaGetPoint src iv
    gaiaEwktGeometryFromLinestring.loop src n (iv + 1) (gaiaSetPoint dst iv x y)

/-- The C function `gaiaEwktGeometryFromLinestring`: builds a GEOMETRY
containing a LINESTRING. -/
def gaiaEwktGeometryFromLinestring (line : gaiaLinestring R) : gaiaGeomColl R :=
  let geom : gaiaGeomColl R := gaiaAllocGeomColl
  let geom := { geom with DeclaredType := GAIA_LINESTRING }
  let line2 := gaiaAddLinestringToGeomColl.alloc geom line.Points
  let line2 := { line2 with
    Coords := gaiaEwktGeometryFromLinestring.loop line.Coords line2.Points 0 line2.Coords }
  gaiaAddLinestringToGeomColl.link geom line2

/-- The copy loop of `gaiaEwktGeometryFromLinestringZ`. -/
def gaiaEwktGeometryFromLinestringZ.loop (src : List R) : Nat → Nat → List R → List R
  | 0, _, dst => dst
  | n + 1, iv, dst =>
    let (x, y, z) := gaiaGetPointXYZ src iv
    gaiaEwktGeometryFromLinestringZ.loop src n (iv + 1) (gaiaSetPointXYZ dst iv x y z)

/-- The C function `gaiaEwktGeometryFromLinestringZ`: builds a GEOMETRY
containing a LINESTRINGZ. -/
def gaiaEwktGeometryFromLinestringZ (line : gaiaLinestring R) : gaiaGeomColl R :=
  let geom : gaiaGeomColl R := gaiaAllocGeomCollXYZ
  let geom := { geom with DeclaredType := GAIA_LINESTRING }
  let line2 := gaiaAddLinestringToGeomColl.alloc geom line.Points
  let line2 := { line2 with
    Coords := gaiaEwktGeometryFromLinestringZ.loop line.Coords line2.Points 0 line2.Coords }
  gaiaAddLinestringToGeomColl.link geom line2

/-- The copy loop of `gaiaEwktGeometryFromLinestringM`. -/
def gaiaEwktGeometryFromLinestringM.loop (src : List R) : Nat → Nat → List R → List R
  | 0, _, dst => dst
  | n + 1, iv, dst =>
    let (x, y, m) := gaiaGetPointXYM src iv
    gaiaEwktGeometryFromLinestringM.loop src n (iv + 1) (gaiaSetPointXYM dst iv x y m)

/-- The C function `gaiaEwktGeometryFromLinestringM`: builds a GEOMETRY
containing a LINESTRINGM. -/
def gaiaEwktGeometryFromLinestringM (line : gaiaLinestring R) : gaiaGeomColl R :=
  let geom : gaiaGeomColl R := gaiaAllocGeomCollXYM
  let geom := { geom with DeclaredType := GAIA_LINESTRING }
  let line2 := gaiaAddLinestringToGeomColl.alloc geom line.Points
  let line2 := { line2 with
    Coords := gaiaEwktGeometryFromLinestringM.loop line.Coords line2.Points 0 line2.Coords }
  gaiaAddLinestringToGeomColl.link geom line2

/-- The copy loop of `gaiaEwktGeometryFromLinestringZM`. -/
def gaiaEwktGeometryFromLinestringZM.loop (src : List R) : Nat → Nat → List R → List R
  | 0, _, dst => dst
  | n + 1, iv, dst =>
    let (x, y, z, m) := gaiaGetPointXYZM src iv
    gaiaEwktGeometryFromLinestringZM.loop src n (iv + 1) (gaiaSetPointXYZM dst iv x y z m)

/-- The C function `gaiaEwktGeometryFromLinestringZM`: builds a GEOMETRY
containing a LINESTRINGZM. -/
def gaiaEwktGeometryFromLinestringZM (line : gaiaLinestring R) : gaiaGeomColl R :=
  let geom : gaiaGeomColl R := gaiaAllocGeomCollXYZM
  let geom := { geom with DeclaredType := GAIA_LINESTRING }
  let line2 := gaiaAddLinestringToGeomColl.alloc geom line.Points
  let line2 := { line2 with
    Coords := gaiaEwktGeometryFromLinestringZM.loop line.Coords line2.Points 0 line2.Coords }
  gaiaAddLinestringToGeomColl.link geom line2

/-- The C function `ewkt_buildGeomFromLinestring`: the `switch` on the
linestring's dimension model; `none` is the final `return NULL`. -/
def ewkt_buildGeomFromLinestring (line : gaiaLinestring R) : Option (gaiaGeomColl R) :=
  if line.DimensionModel = GAIA_XY then some (gaiaEwktGeometryFromLinestring line)
  else if line.DimensionModel = GAIA_XY_Z then some (gaiaEwktGeometryFromLinestringZ line)
  else if line.DimensionModel = GAIA_XY_M then some (gaiaEwktGeometryFromLinestringM line)
  else if line.DimensionModel = GAIA_XY_Z_M then some (gaiaEwktGeometryFromLinestringZM line)
  else none

/-- The first loop of `ewkt_linestring_xy` (and of its three variants):
counts the points of the list. -/
def ewkt_linestring_count : List (gaiaPoint R) → Nat → Nat
  | [], points => points
  | _ :: p, points => ewkt_linestring_count p (points + 1)

/-- The second loop of `ewkt_linestring_xy`: stores point `i` of the list in
cell `i` of the buffer. -/
def ewkt_linestring_xy.fill : List (gaiaPoint R) → Nat → List R → List R
  | [], _, c => c
  | p :: p_n, i, c => ewkt_linestring_xy.fill p_n (i + 1) (gaiaSetPoint c i p.X p.Y)

/-- The C function `ewkt_linestring_xy`: creates a 2D linestring from a list
of 2D points. -/
def ewkt_linestring_xy (first : List (gaiaPoint R)) : gaiaLinestring R :=
  let points := ewkt_linestring_count first 0
  let linestring : gaiaLinestring R := gaiaAllocLinestring points
  { linestring with Coords := ewkt_linestring_xy.fill first 0 linestring.Coords }

/-- The second loop of `ewkt_linestring_xyz`. -/
def ewkt_linestring_xyz.fill : List (gaiaPoint R) → Nat → List R → List R
  | [], _, c => c
  | p :: p_n, i, c => ewkt_linestring_xyz.fill p_n (i + 1) (gaiaSetPointXYZ c i p.X p.Y p.Z)

/-- The C function `ewkt_linestring_xyz`. -/
def ewkt_linestring_xyz (first : List (gaiaPoint R)) : gaiaLinestring R :=
  let points := ewkt_linestring_count first 0
  let linestring : gaiaLinestring R := gaiaAllocLinestringXYZ points
  { linestring with Coords := ewkt_linestring_xyz.fill first 0 linestring.Coords }

/-- The second loop of `ewkt_linestring_xym`. -/
def ewkt_linestring_xym.fill : List (gaiaPoint R) → Nat → List R → List R
  | [], _, c => c
  | p :: p_n, i, c => ewkt_linestring_xym.fill p_n (i + 1) (gaiaSetPointXYM c i p.X p.Y p.M)

/-- The C function `ewkt_linestring_xym`. -/
def ewkt_linestring_xym (first : List (gaiaPoint R)) : gaiaLinestring R :=
  let points := ewkt_linestring_count first 0
  let linestring : gaiaLinestring R := gaiaAllocLinestringXYM points
  { linestring with Coords := ewkt_linestring_xym.fill first 0 linestring.Coords }

/-- The second loop of `ewkt_linestring_xyzm`. -/
def ewkt_linestring_xyzm.fill : List (gaiaPoint R) → Nat → List R → List R
  | [], _, c => c
  | p :: p_n, i, c =>
    ewkt_linestring_xyzm.fill p_n (i + 1) (gaiaSetPointXYZM c i p.X p.Y p.Z p.M)

/-- The C function `ewkt_linestring_xyzm`. -/
def ewkt_linestring_xyzm (first : List (gaiaPoint R)) : gaiaLinestring R :=
  let points := ewkt_linestring_count first 0
  let linestring : gaiaLinestring R := gaiaAllocLinestringXYZM points
  { linestring with Coords := ewkt_linestring_xyzm.fill first 0 linestring.Coords }


/-! ## Ring and polygon builders of `gg_ewkt.c` -/

/-- The loop of the C function `ewkt_count_points`. -/
def ewkt_count_points.loop : List (gaiaPoint R) → Nat → Nat
  | [], numpoints => numpoints
  | _ :: p, numpoints => ewkt_count_points.loop p (numpoints + 1)

/-- The C function `ewkt_count_points`: the number of points in the linked
list. -/
def ewkt_count_points (first : List (gaiaPoint R)) : Nat :=
  ewkt_count_points.loop first 0

/-- The loop `for (index = 0; index < numpoints; index++)` of
`ewkt_ring_xy`: `n` iterations are left, `index` is the loop counter and
the list is the pointer `p`. (The last equation, `p == NULL` with iterations
left, cannot occur: `numpoints` is the length of the list.) -/
def ewkt_ring_xy.loop : Nat → Nat → List (gaiaPoint R) → List R → List R
  | 0, _, _, c => c
  | _ + 1, _, [], c => c
  | n + 1, index, p :: p_n, c =>
    ewkt_ring_xy.loop n (index + 1) p_n (gaiaSetPoint c index p.X p.Y)

/-- The C function `ewkt_ring_xy`; `none` is `return NULL`. -/
def ewkt_ring_xy (first : List (gaiaPoint R)) : Option (gaiaRing R) :=
  match first with
  | [] => none
  | _ :: _ =>
    let numpoints := ewkt_count_points first
    if numpoints < 4 then none
    else
      let ring : gaiaRing R := gaiaAllocRing numpoints
      some { ring with Coords := ewkt_ring_xy.loop numpoints 0 first ring.Coords }

/-- The loop `for (index = 0; index < numpoints; index++)` of
`ewkt_ring_xyz`: `n` iterations are left, `index` is the loop counter and
the list is the pointer `p`. (The last equation, `p == NULL` with iterations
left, cannot occur: `numpoints` is the length of the list.) -/
def ewkt_ring_xyz.loop : Nat → Nat → List (gaiaPoint R) → List R → List R
  | 0, _, _, c => c
  | _ + 1, _, [], c => c
  | n + 1, index, p :: p_n, c =>
    ewkt_ring_xyz.loop n (index + 1) p_n (gaiaSetPointXYZ c index p.X p.Y p.Z)

/-- The C function `ewkt_ring_xyz`; `none` is `return NULL`. -/
def ewkt_ring_xyz (first : List (gaiaPoint R)) : Option (gaiaRing R) :=
  match first with
  | [] => none
  | _ :: _ =>
    let numpoints := ewkt_count_points first
    if numpoints < 4 then none
    else
      let ring : gaiaRing R := gaiaAllocRingXYZ numpoints
      some { ring with Coords := ewkt_ring_xyz.loop numpoints 0 first ring.Coords }

/-- The loop `for (index = 0; index < numpoints; index++)` of
`ewkt_ring_xym`: `n` iterations are left, `index` is the loop counter and
the list is the pointer `p`. (The last equation, `p == NULL` with iterations
left, cannot occur: `numpoints` is the length of the list.) -/
def ewkt_ring_xym.loop : Nat → Nat → List (gaiaPoint R) → List R → List R
  | 0, _, _, c => c
  | _ + 1, _, [], c => c
  | n + 1, index, p :: p_n, c =>
    ewkt_ring_xym.loop n (index + 1) p_n (gaiaSetPointXYM c index p.X p.Y p.M)

/-- The C function `ewkt_ring_xym`; `none` is `return NULL`. -/
def ewkt_ring_xym (first : List (gaiaPoint R)) : Option (gaiaRing R) :=
  match first with
  | [] => none
  | _ :: _ =>
    let numpoints := ewkt_count_points first
    if numpoints < 4 then none
    else
      let ring : gaiaRing R := gaiaAllocRingXYM numpoints
      some { ring with Coords := ewkt_ring_xym.loop numpoints 0 first ring.Coords }

/-- The loop `for (index = 0; index < numpoints; index++)` of
`ewkt_ring_xyzm`: `n` iterations are left, `index` is the loop counter and
the list is the pointer `p`. (The last equation, `p == NULL` with iterations
left, cannot occur: `numpoints` is the length of the list.) -/
def ewkt_ring_xyzm.loop : Nat → Nat → List (gaiaPoint R) → List R → List R
  | 0, _, _, c => c
  | _ + 1, _, [], c => c
  | n + 1, index, p :: p_n, c =>
    ewkt_ring_xyzm.loop n (index + 1) p_n (gaiaSetPointXYZM c index p.X p.Y p.Z p.M)

/-- The C function `ewkt_ring_xyzm`; `none` is `return NULL`. -/
def ewkt_ring_xyzm (first : List (gaiaPoint R)) : Option (gaiaRing R) :=
  match first with
  | [] => none
  | _ :: _ =>
    let numpoints := ewkt_count_points first
    if numpoints < 4 then none
    else
      let ring : gaiaRing R := gaiaAllocRingXYZM numpoints
      some { ring with Coords := ewkt_ring_xyzm.loop numpoints 0 first ring.Coords }

/-- Modelled from the spec: the body of the copy loop shared by
`gaiaCopyRingCoords` and `gaiaCopyLinestringCoords` (`gg_geometries.c`):
vertex `iv` is read from `src` with the macro of the source model (a missing
Z or M is 0.0) and stored in `dst` with the macro of the destination model. -/
def gaiaCopyCoords.step (srcDim : Int) (src : List R) (dstDim : Int) (dst : List R)
    (iv : Nat) : List R :=
  let (x, y, z, m) : R × R × R × R :=
    if srcDim = GAIA_XY_Z then
      let (x, y, z) := gaiaGetPointXYZ src iv
      (x, y, z, 0)
    else if srcDim = GAIA_XY_M then
      let (x, y, m) := gaiaGetPointXYM src iv
      (x, y, 0, m)
    else if srcDim = GAIA_XY_Z_M then gaiaGetPointXYZM src iv
    else
      let (x, y) := gaiaGetPoint src iv
      (x, y, 0, 0)
  if dstDim = GAIA_XY_Z then gaiaSetPointXYZ dst iv x y z
  else if dstDim = GAIA_XY_M then gaiaSetPointXYM dst iv x y m
  else if dstDim = GAIA_XY_Z_M then gaiaSetPointXYZM dst iv x y z m
  else gaiaSetPoint dst iv x y

/-- Modelled from the spec: the loop `for (iv = 0; iv < dst->Points; iv++)`
shared by `gaiaCopyRingCoords` and `gaiaCopyLinestringCoords`. -/
def gaiaCopyCoords.loop (srcDim : Int) (src : List R) (dstDim : Int) :
    Nat → Nat → List R → List R
  | 0, _, dst => dst
  | n + 1, iv, dst =>
    gaiaCopyCoords.loop srcDim src dstDim n (iv + 1)
      (gaiaCopyCoords.step srcDim src dstDim dst iv)

/-- Modelled from the spec: `gaiaCopyRingCoords` of `gg_geometries.c`: copies
the coordinates of `src` into `dst`, vertex by vertex; nothing is done when
the two rings differ in their number of points. -/
def gaiaCopyRingCoords (dst src : gaiaRing R) : gaiaRing R :=
  if src.Points ≠ dst.Points then dst
  else { dst with
    Coords := gaiaCopyCoords.loop src.DimensionModel src.Coords dst.DimensionModel
      dst.Points 0 dst.Coords }

/-- Modelled from the spec: `gaiaCopyLinestringCoords` of `gg_geometries.c`:
copies the coordinates of `src` into `dst`, vertex by vertex; nothing is done
when the two linestrings differ in their number of points. -/
def gaiaCopyLinestringCoords (dst src : gaiaLinestring R) : gaiaLinestring R :=
  if src.Points ≠ dst.Points then dst
  else { dst with
    Coords := gaiaCopyCoords.loop src.DimensionModel src.Coords dst.DimensionModel
      dst.Points 0 dst.Coords }

/-- Modelled from the spec: the choice of allocator made by
`gaiaCreatePolygon`, `gaiaAddPolygonToGeomColl` and `gaiaAddInteriorRing`
(`gg_geometries.c`): a fresh ring of `vert` vertices in dimension model
`dim` (anything but the three extended models counts as 2D). -/
def gaiaAllocRingByModel (dim : Int) (vert : Nat) : gaiaRing R :=
  if dim = GAIA_XY_Z then gaiaAllocRingXYZ vert
  else if dim = GAIA_XY_M then gaiaAllocRingXYM vert
  else if dim = GAIA_XY_Z_M then gaiaAllocRingXYZM vert
  else gaiaAllocRing vert

/-- Modelled from the spec: `gaiaCreatePolygon` of `gg_geometries.c`: a
polygon without holes, of the ring's dimension model, whose exterior ring is
a fresh copy of `ring`. -/
def gaiaCreatePolygon (ring : gaiaRing R) : gaiaPolygon R :=
  { Exterior := gaiaCopyRingCoords (gaiaAllocRingByModel ring.DimensionModel ring.Points) ring,
    Interiors := [], NextInterior := 0, DimensionModel := ring.DimensionModel }

/-- Modelled from the spec: `gaiaAddRingToPolyg` of `gg_geometries.c`: the
ring becomes the last interior ring of the polygon (`NumInteriors` grows by
one). -/
def gaiaAddRingToPolyg (polyg : gaiaPolygon R) (ring : gaiaRing R) : gaiaPolygon R :=
  { polyg with Interiors := polyg.Interiors ++ [ring] }

/-- The `while (p != NULL)` loop of `ewkt_polygon_any_type` once past the
first ring (which is freed, `p == first`): every further ring is added as an
interior ring. -/
def ewkt_polygon_any_type.loop : List (gaiaRing R) → gaiaPolygon R → gaiaPolygon R
  | [], polygon => polygon
  | p :: p_n, polygon => ewkt_polygon_any_type.loop p_n (gaiaAddRingToPolyg polygon p)

/-- The C function `ewkt_polygon_any_type`: the first ring of the list is the
exterior ring, the others are interior rings; `none` is `return NULL`. -/
def ewkt_polygon_any_type (first : List (gaiaRing R)) : Option (gaiaPolygon R) :=
  match first with
  | [] => none
  | ring :: p_n =>
    let polygon := gaiaCreatePolygon ring
    some (ewkt_polygon_any_type.loop p_n polygon)

/-- The C function `ewkt_polygon_xy`. -/
def ewkt_polygon_xy (first : List (gaiaRing R)) : Option (gaiaPolygon R) :=
  ewkt_polygon_any_type first

/-- The C function `ewkt_polygon_xyz`. -/
def ewkt_polygon_xyz (first : List (gaiaRing R)) : Option (gaiaPolygon R) :=
  ewkt_polygon_any_type first

/-- The C function `ewkt_polygon_xym`. -/
def ewkt_polygon_xym (first : List (gaiaRing R)) : Option (gaiaPolygon R) :=
  ewkt_polygon_any_type first

/-- The C function `ewkt_polygon_xyzm`. -/
def ewkt_polygon_xyzm (first : List (gaiaRing R)) : Option (gaiaPolygon R) :=
  ewkt_polygon_any_type first

/-- The C function `ewkt_buildGeomFromPolygon`. The argument is the pointer
`polygon` followed through `Next` (`[]` is `NULL`); `none` is `return NULL`
(a dimension model outside the four leaves `geom` at `NULL`). -/
def ewkt_buildGeomFromPolygon (polygon : List (gaiaPolygon R)) : Option (gaiaGeomColl R) :=
  match polygon with
  | [] => none
  | pg :: _ =>
    let geom : Option (gaiaGeomColl R) :=
      if pg.DimensionModel = GAIA_XY then some gaiaAllocGeomColl
      else if pg.DimensionModel = GAIA_XY_Z then some gaiaAllocGeomCollXYZ
      else if pg.DimensionModel = GAIA_XY_M then some gaiaAllocGeomCollXYM
      else if pg.DimensionModel = GAIA_XY_Z_M then some gaiaAllocGeomCollXYZM
      else none
    match geom with
    | none => none
    | some geom => some { geom with DeclaredType := GAIA_POLYGON, FirstPolygon := polygon }


/-! ## Multi-geometry and collection builders of `gg_ewkt.c` -/

/-- The `while (p != NULL)` loop of `ewkt_multipoint_xy`. -/
def ewkt_multipoint_xy.loop : List (gaiaPoint R) → gaiaGeomColl R → gaiaGeomColl R
  | [], geom => geom
  | p :: p_n, geom => ewkt_multipoint_xy.loop p_n (gaiaAddPointToGeomColl geom p.X p.Y)

/-- The C function `ewkt_multipoint_xy`: creates a 2D (xy) multipoint
object; `none` is `return NULL`. -/
def ewkt_multipoint_xy (first : List (gaiaPoint R)) : Option (gaiaGeomColl R) :=
  match first with
  | [] => none
  | _ :: _ =>
    let geom : gaiaGeomColl R := gaiaAllocGeomColl
    let geom := { geom with DeclaredType := GAIA_MULTIPOINT }
    some (ewkt_multipoint_xy.loop first geom)

/-- The `while (p != NULL)` loop of `ewkt_multipoint_xyz`. -/
def ewkt_multipoint_xyz.loop : List (gaiaPoint R) → gaiaGeomColl R → gaiaGeomColl R
  | [], geom => geom
  | p :: p_n, geom => ewkt_multipoint_xyz.loop p_n (gaiaAddPointToGeomCollXYZ geom p.X p.Y p.Z)

/-- The C function `ewkt_multipoint_xyz`: creates a 3D (xyz) multipoint
object; `none` is `return NULL`. -/
def ewkt_multipoint_xyz (first : List (gaiaPoint R)) : Option (gaiaGeomColl R) :=
  match first with
  | [] => none
  | _ :: _ =>
    let geom : gaiaGeomColl R := gaiaAllocGeomCollXYZ
    let geom := { geom with DeclaredType := GAIA_MULTIPOINT }
    some (ewkt_multipoint_xyz.loop first geom)

/-- The `while (p != NULL)` loop of `ewkt_multipoint_xym`. -/
def ewkt_multipoint_xym.loop : List (gaiaPoint R) → gaiaGeomColl R → gaiaGeomColl R
  | [], geom => geom
  | p :: p_n, geom => ewkt_multipoint_xym.loop p_n (gaiaAddPointToGeomCollXYM geom p.X p.Y p.M)

/-- The C function `ewkt_multipoint_xym`: creates a 2D (xym) multipoint
object; `none` is `return NULL`. -/
def ewkt_multipoint_xym (first : List (gaiaPoint R)) : Option (gaiaGeomColl R) :=
  match first with
  | [] => none
  | _ :: _ =>
    let geom : gaiaGeomColl R := gaiaAllocGeomCollXYM
    let geom := { geom with DeclaredType := GAIA_MULTIPOINT }
    some (ewkt_multipoint_xym.loop first geom)

/-- The `while (p != NULL)` loop of `ewkt_multipoint_xyzm`. -/
def ewkt_multipoint_xyzm.loop : List (gaiaPoint R) → gaiaGeomColl R → gaiaGeomColl R
  | [], geom => geom
  | p :: p_n, geom => ewkt_multipoint_xyzm.loop p_n (gaiaAddPointToGeomCollXYZM geom p.X p.Y p.Z p.M)

/-- The C function `ewkt_multipoint_xyzm`: creates a 3D (xyzm) multipoint
object; `none` is `return NULL`. -/
def ewkt_multipoint_xyzm (first : List (gaiaPoint R)) : Option (gaiaGeomColl R) :=
  match first with
  | [] => none
  | _ :: _ =>
    let geom : gaiaGeomColl R := gaiaAllocGeomCollXYZM
    let geom := { geom with DeclaredType := GAIA_MULTIPOINT }
    some (ewkt_multipoint_xyzm.loop first geom)

/-- The `while (p)` loop of `ewkt_multilinestring_xy` (the loops of the three
other variants have the same text): every linestring of the list is copied
into a fresh linestring added to the geometry `a`. -/
def ewkt_multilinestring.loop : List (gaiaLinestring R) → gaiaGeomColl R → gaiaGeomColl R
  | [], a => a
  | p :: p_n, a =>
    let new_line := gaiaAddLinestringToGeomColl.alloc a p.Points
    let new_line := gaiaCopyLinestringCoords new_line p
    ewkt_multilinestring.loop p_n (gaiaAddLinestringToGeomColl.link a new_line)

/-- The C function `ewkt_multilinestring_xy`: creates a geometry
collection containing 2D (xy) linestrings. The function has no `return NULL`:
its result is always a geometry. -/
def ewkt_multilinestring_xy (first : List (gaiaLinestring R)) :
    Option (gaiaGeomColl R) :=
  let a : gaiaGeomColl R := gaiaAllocGeomColl
  let a := { a with DeclaredType := GAIA_MULTILINESTRING }
  let a := { a with DimensionModel := GAIA_XY }
  some (ewkt_multilinestring.loop first a)

/-- The C function `ewkt_multilinestring_xyz`: creates a geometry
collection containing 3D (xyz) linestrings. The function has no `return NULL`:
its result is always a geometry. -/
def ewkt_multilinestring_xyz (first : List (gaiaLinestring R)) :
    Option (gaiaGeomColl R) :=
  let a : gaiaGeomColl R := gaiaAllocGeomCollXYZ
  let a := { a with DeclaredType := GAIA_MULTILINESTRING }
  let a := { a with DimensionModel := GAIA_XY_Z }
  some (ewkt_multilinestring.loop first a)

/-- The C function `ewkt_multilinestring_xym`: creates a geometry
collection containing 2D (xy) with m value linestrings. The function has no `return NULL`:
its result is always a geometry. -/
def ewkt_multilinestring_xym (first : List (gaiaLinestring R)) :
    Option (gaiaGeomColl R) :=
  let a : gaiaGeomColl R := gaiaAllocGeomCollXYM
  let a := { a with DeclaredType := GAIA_MULTILINESTRING }
  let a := { a with DimensionModel := GAIA_XY_M }
  some (ewkt_multilinestring.loop first a)

/-- The C function `ewkt_multilinestring_xyzm`: creates a geometry
collection containing 4D (xyz) with m value linestrings. The function has no `return NULL`:
its result is always a geometry. -/
def ewkt_multilinestring_xyzm (first : List (gaiaLinestring R)) :
    Option (gaiaGeomColl R) :=
  let a : gaiaGeomColl R := gaiaAllocGeomCollXYZM
  let a := { a with DeclaredType := GAIA_MULTILINESTRING }
  let a := { a with DimensionModel := GAIA_XY_Z_M }
  some (ewkt_multilinestring.loop first a)

/-- Modelled from the spec: `gaiaAllocPolygon` and its `XYZ`, `XYM`, `XYZM`
variants (`gg_geometries.c`), selected by `gaiaAddPolygonToGeomColl` from the
dimension model of the geometry: a polygon with an exterior ring of `vert`
vertices and an array of `interiors` rings that are still empty
(`Points = 0`, no buffer). -/
def gaiaAddPolygonToGeomColl.alloc (p : gaiaGeomColl R) (vert interiors : Nat) :
    gaiaPolygon R :=
  let dim : Int :=
    if p.DimensionModel = GAIA_XY_Z then GAIA_XY_Z
    else if p.DimensionModel = GAIA_XY_M then GAIA_XY_M
    else if p.DimensionModel = GAIA_XY_Z_M then GAIA_XY_Z_M
    else GAIA_XY
  { Exterior := gaiaAllocRingByModel dim vert,
    Interiors := List.replicate interiors { Points := 0, Coords := [], DimensionModel := GAIA_XY },
    NextInterior := 0, DimensionModel := dim }

/-- Modelled from the spec: the linking step of `gaiaAddPolygonToGeomColl`
(`gg_geometries.c`): the polygon becomes the tail of the list. As for
linestrings, the caller fills the polygon and then links it. -/
def gaiaAddPolygonToGeomColl.link (p : gaiaGeomColl R) (polyg : gaiaPolygon R) :
    gaiaGeomColl R :=
  { p with FirstPolygon := p.FirstPolygon ++ [polyg] }

/-- Modelled from the spec: the ring that `gaiaAddInteriorRing`
(`gg_geometries.c`) installs in a slot of the array `Interiors`: `vert`
vertices, the dimension model of the polygon, a fresh buffer. -/
def gaiaAddInteriorRing.ring (p : gaiaPolygon R) (vert : Nat) : gaiaRing R :=
  gaiaAllocRingByModel p.DimensionModel vert

/-- The loop `for (i = 0; i < new_polyg->NumInteriors; i++)` of
`ewkt_multipolygon_xy`: `n` iterations are left, `i` is the loop counter, `p`
the source polygon. Slot `i` of the new polygon receives a copy of interior
ring `i` of `p`. (An `i` outside the array of `p` cannot occur: both arrays
have `p->NumInteriors` slots.) -/
def ewkt_multipolygon.interiors (p : gaiaPolygon R) :
    Nat → Nat → gaiaPolygon R → gaiaPolygon R
  | 0, _, new_polyg => new_polyg
  | n + 1, i, new_polyg =>
    match p.Interiors[i]? with
    | none => new_polyg
    | some i_ring =>
      let o_ring := gaiaAddInteriorRing.ring new_polyg i_ring.Points
      let o_ring := gaiaCopyRingCoords o_ring i_ring
      ewkt_multipolygon.interiors p n (i + 1)
        { new_polyg with Interiors := new_polyg.Interiors.set i o_ring }

/-- The `while (p)` loop of `ewkt_multipolygon_xy` (the loops of the three
other variants have the same text): every polygon of the list is copied, ring
by ring, into a fresh polygon added to the geometry. -/
def ewkt_multipolygon.loop : List (gaiaPolygon R) → gaiaGeomColl R → gaiaGeomColl R
  | [], geom => geom
  | p :: p_n, geom =>
    let i_ring := p.Exterior
    let new_polyg := gaiaAddPolygonToGeomColl.alloc geom i_ring.Points p.NumInteriors
    let new_polyg := { new_polyg with Exterior := gaiaCopyRingCoords new_polyg.Exterior i_ring }
    let new_polyg := ewkt_multipolygon.interiors p new_polyg.NumInteriors 0 new_polyg
    ewkt_multipolygon.loop p_n (gaiaAddPolygonToGeomColl.link geom new_polyg)

/-- The C function `ewkt_multipolygon_xy`: creates a geometry collection
containing 2D (xy) polygons. The function has no `return NULL`: its result is
always a geometry. -/
def ewkt_multipolygon_xy (first : List (gaiaPolygon R)) : Option (gaiaGeomColl R) :=
  let geom : gaiaGeomColl R := gaiaAllocGeomColl
  let geom := { geom with DeclaredType := GAIA_MULTIPOLYGON }
  some (ewkt_multipolygon.loop first geom)

/-- The C function `ewkt_multipolygon_xyz`: creates a geometry collection
containing 3D (xyz) polygons. The function has no `return NULL`: its result is
always a geometry. -/
def ewkt_multipolygon_xyz (first : List (gaiaPolygon R)) : Option (gaiaGeomColl R) :=
  let geom : gaiaGeomColl R := gaiaAllocGeomCollXYZ
  let geom := { geom with DeclaredType := GAIA_MULTIPOLYGON }
  some (ewkt_multipolygon.loop first geom)

/-- The C function `ewkt_multipolygon_xym`: creates a geometry collection
containing 2D (xy) with m value polygons. The function has no `return NULL`: its result is
always a geometry. -/
def ewkt_multipolygon_xym (first : List (gaiaPolygon R)) : Option (gaiaGeomColl R) :=
  let geom : gaiaGeomColl R := gaiaAllocGeomCollXYM
  let geom := { geom with DeclaredType := GAIA_MULTIPOLYGON }
  some (ewkt_multipolygon.loop first geom)

/-- The C function `ewkt_multipolygon_xyzm`: creates a geometry collection
containing 4D (xyz) with m value polygons. The function has no `return NULL`: its result is
always a geometry. -/
def ewkt_multipolygon_xyzm (first : List (gaiaPolygon R)) : Option (gaiaGeomColl R) :=
  let geom : gaiaGeomColl R := gaiaAllocGeomCollXYZM
  let geom := { geom with DeclaredType := GAIA_MULTIPOLYGON }
  some (ewkt_multipolygon.loop first geom)

/-- The loop over the points of one source geometry in
`ewkt_geomColl_common`: each point is linked at the tail of the destination. -/
def ewkt_geomColl_common.points : List (gaiaPoint R) → gaiaGeomColl R → gaiaGeomColl R
  | [], dst => dst
  | pt :: pt_n, dst =>
    ewkt_geomColl_common.points pt_n { dst with FirstPoint := dst.FirstPoint ++ [pt] }

/-- The loop over the linestrings of one source geometry in
`ewkt_geomColl_common`. -/
def ewkt_geomColl_common.linestrings :
    List (gaiaLinestring R) → gaiaGeomColl R → gaiaGeomColl R
  | [], dst => dst
  | ln :: ln_n, dst =>
    ewkt_geomColl_common.linestrings ln_n
      { dst with FirstLinestring := dst.FirstLinestring ++ [ln] }

/-- The loop over the polygons of one source geometry in
`ewkt_geomColl_common`. -/
def ewkt_geomColl_common.polygons : List (gaiaPolygon R) → gaiaGeomColl R → gaiaGeomColl R
  | [], dst => dst
  | pg :: pg_n, dst =>
    ewkt_geomColl_common.polygons pg_n { dst with FirstPolygon := dst.FirstPolygon ++ [pg] }

/-- The C function `ewkt_geomColl_common`: xfers entities between the Origin
chain and the Destination geometry. -/
def ewkt_geomColl_common : List (gaiaGeomColl R) → gaiaGeomColl R → gaiaGeomColl R
  | [], dst => dst
  | p :: p_n, dst =>
    let dst := ewkt_geomColl_common.points p.FirstPoint dst
    let dst := ewkt_geomColl_common.linestrings p.FirstLinestring dst
    let dst := ewkt_geomColl_common.polygons p.FirstPolygon dst
    ewkt_geomColl_common p_n dst

/-- The C function `ewkt_geomColl_xy`. The argument is the chain of
geometries linked through `Next`. The only `return NULL` guards the
allocation of the result, so the result is always a geometry. -/
def ewkt_geomColl_xy (first : List (gaiaGeomColl R)) : Option (gaiaGeomColl R) :=
  let geom : gaiaGeomColl R := gaiaAllocGeomColl
  let geom := { geom with DeclaredType := GAIA_GEOMETRYCOLLECTION }
  let geom := { geom with DimensionModel := GAIA_XY }
  some (ewkt_geomColl_common first geom)

/-- The C function `ewkt_geomColl_xyz`. The argument is the chain of
geometries linked through `Next`. The only `return NULL` guards the
allocation of the result, so the result is always a geometry. -/
def ewkt_geomColl_xyz (first : List (gaiaGeomColl R)) : Option (gaiaGeomColl R) :=
  let geom : gaiaGeomColl R := gaiaAllocGeomColl
  let geom := { geom with DeclaredType := GAIA_GEOMETRYCOLLECTION }
  let geom := { geom with DimensionModel := GAIA_XY_Z }
  some (ewkt_geomColl_common first geom)

/-- The C function `ewkt_geomColl_xym`. The argument is the chain of
geometries linked through `Next`. The only `return NULL` guards the
allocation of the result, so the result is always a geometry. -/
def ewkt_geomColl_xym (first : List (gaiaGeomColl R)) : Option (gaiaGeomColl R) :=
  let geom : gaiaGeomColl R := gaiaAllocGeomColl
  let geom := { geom with DeclaredType := GAIA_GEOMETRYCOLLECTION }
  let geom := { geom with DimensionModel := GAIA_XY_M }
  some (ewkt_geomColl_common first geom)

/-- The C function `ewkt_geomColl_xyzm`. The argument is the chain of
geometries linked through `Next`. The only `return NULL` guards the
allocation of the result, so the result is always a geometry. -/
def ewkt_geomColl_xyzm (first : List (gaiaGeomColl R)) : Option (gaiaGeomColl R) :=
  let geom : gaiaGeomColl R := gaiaAllocGeomColl
  let geom := { geom with DeclaredType := GAIA_GEOMETRYCOLLECTION }
  let geom := { geom with DimensionModel := GAIA_XY_Z_M }
  some (ewkt_geomColl_common first geom)

/-- The `i`-th coordinate tuple of a buffer whose dimension model is `dim`,
read with the `gaiaGetPoint…` macro of that model. -/
def coordTuple (dim : Int) (coords : List R) (i : Nat) : List R :=
  if dim = GAIA_XY_Z then
    let (x, y, z) := gaiaGetPointXYZ coords i
    [x, y, z]
  else if dim = GAIA_XY_M then
    let (x, y, m) := gaiaGetPointXYM coords i
    [x, y, m]
  else if dim = GAIA_XY_Z_M then
    let (x, y, z, m) := gaiaGetPointXYZM coords i
    [x, y, z, m]
  else
    let (x, y) := gaiaGetPoint coords i
    [x, y]

/-- The four dimension models: `GAIA_XY`, `GAIA_XY_Z`, `GAIA_XY_M`,
`GAIA_XY_Z_M`. -/
def isDimensionModel (dim : Int) : Prop :=
  dim = GAIA_XY ∨ dim = GAIA_XY_Z ∨ dim = GAIA_XY_M ∨ dim = GAIA_XY_Z_M

instance (dim : Int) : Decidable (isDimensionModel dim) := by
  unfold isDimensionModel; infer_instance

/-- Specification: the shape kind named by a geometry class constant. The
seven kinds (Point, LineString, Polygon, MultiPoint, MultiLineString,
MultiPolygon, GeometryCollection) are the classes 1 to 7 of `gaiageo.h`, and
the class of a kind with Z, with M, and with Z and M is the number of the
kind plus 1000, 2000 and 3000: the kind of `GAIA_POINTZ`, `GAIA_POINTM` and
`GAIA_POINTZM` is `GAIA_POINT`. -/
def gaiaDeclaredKind (DeclaredType : Int) : Int :=
  DeclaredType % 1000

/-! ## Comparing a copy with its source

The definitions of this part follow the sentences of the specification, not
the code: they say what it means for a built primitive to have "the same
number of points, the same number of interior rings and the same
coordinates as its source". -/

/-- Specification: the first `n` vertices of the two buffers are the same
coordinate tuples in dimension model `dim`. -/
def sameVertices (dim : Int) (n : Nat) (a b : List R) : Prop :=
  ∀ i, i < n → coordTuple dim a i = coordTuple dim b i

/-- Specification: the linestring `new` has dimension model `dim`, as many
points as `src`, and the coordinates of `src`. -/
def linestringCopies (dim : Int) (new src : gaiaLinestring R) : Prop :=
  new.DimensionModel = dim ∧ new.Points = src.Points ∧
    sameVertices dim src.Points new.Coords src.Coords

/-- Specification: the ring `new` has dimension model `dim`, as many points
as `src`, and the coordinates of `src`. -/
def ringCopies (dim : Int) (new src : gaiaRing R) : Prop :=
  new.DimensionModel = dim ∧ new.Points = src.Points ∧
    sameVertices dim src.Points new.Coords src.Coords

/-- Specification: the polygon `new` has dimension model `dim`, its exterior
ring copies the exterior ring of `src`, and it has as many interior rings as
`src`, each a copy of the interior ring of `src` at the same position. -/
def polygonCopies (dim : Int) (new src : gaiaPolygon R) : Prop :=
  new.DimensionModel = dim ∧ ringCopies dim new.Exterior src.Exterior ∧
    new.NumInteriors = src.NumInteriors ∧
    List.Forall₂ (ringCopies dim) new.Interiors src.Interiors

/-- Specification: every ring of the polygon is in dimension model `dim`. -/
def polygonOfModel (dim : Int) (pg : gaiaPolygon R) : Prop :=
  pg.Exterior.DimensionModel = dim ∧ ∀ r ∈ pg.Interiors, r.DimensionModel = dim

/-! ## The SRID prefix scan `findEwktSrid`

A C string is the list of its characters up to the terminating NUL. -/

/-- The C library function `tolower` in the "C" locale, as used by
`strncasecmp`: only `A`…`Z` are mapped. -/
def tolower (c : Char) : Char :=
  if 65 ≤ c.toNat ∧ c.toNat ≤ 90 then Char.ofNat (c.toNat + 32) else c

/-- The C library function `strncasecmp` compared with 0: `true` when the
first `n` characters of the two strings are equal up to case (the comparison
stops at the end of a string). -/
def strncasecmp_eq : List Char → List Char → Nat → Bool
  | _, _, 0 => true
  | [], [], _ + 1 => true
  | [], _ :: _, _ + 1 => false
  | _ :: _, [], _ + 1 => false
  | a :: s1, b :: s2, n + 1 => tolower a = tolower b && strncasecmp_eq s1 s2 n

/-- The C library function `isspace` in the "C" locale: space, `\t`, `\n`,
`\v`, `\f`, `\r`. -/
def isspace (c : Char) : Bool :=
  c.toNat = 32 ∨ (9 ≤ c.toNat ∧ c.toNat ≤ 13)

/-- The first step of `atoi`: leading white space is skipped. -/
def atoi.skip : List Char → List Char
  | [] => []
  | c :: rest => if isspace c then atoi.skip rest else c :: rest

/-- The digit loop of `atoi`: the decimal value of the longest prefix of
digits, accumulated on `acc`. -/
def atoi.value : List Char → Int → Int
  | [], acc => acc
  | c :: rest, acc =>
    if 48 ≤ c.toNat ∧ c.toNat ≤ 57 then atoi.value rest (acc * 10 + (c.toNat - 48 : Nat))
    else acc

/-- The C library function `atoi`: optional white space, an optional sign,
then decimal digits. When the value is not representable as an `int` the C
standard leaves the behaviour undefined: `none`. -/
def atoi (nptr : List Char) : Option Int :=
  let s := atoi.skip nptr
  let v : Int :=
    match s with
    | [] => 0
    | c :: rest =>
      if c = '-' then - atoi.value rest 0
      else if c = '+' then atoi.value rest 0
      else atoi.value (c :: rest) 0
  if -2147483648 ≤ v ∧ v ≤ 2147483647 then some v else none

/-- The first loop of `findEwktSrid`: searching the first semi-colon (srid
delimiter). `i` is `in - buffer`; `none` is `end = -1`. -/
def findEwktSrid.semicolon : List Char → Nat → Option Nat
  | [], _ => none
  | c :: rest, i => if c = ';' then some i else findEwktSrid.semicolon rest (i + 1)

/-- The second loop of `findEwktSrid`, `for (i = 0; i < end; i++)`:
normalizing whitespaces. The result is what the loop writes through `out`:
the first `n` characters of the buffer without the spaces, tabs and
newlines. -/
def findEwktSrid.normalize : Nat → List Char → List Char
  | 0, _ => []
  | _ + 1, [] => []
  | n + 1, c :: rest =>
    if c.toNat = 32 ∨ c.toNat = 9 ∨ c.toNat = 10 then findEwktSrid.normalize n rest
    else c :: findEwktSrid.normalize n rest

/-- The third loop of `findEwktSrid`, `for (i = 5; i < strlen (dummy); i++)`:
`true` when the loop runs to its end, `false` on its `return -1`. The list is
`dummy` from index `i` on. -/
def findEwktSrid.digits : Nat → List Char → Bool
  | _, [] => true
  | i, c :: rest =>
    if i = 5 ∧ (c = '-' ∨ c = '+') then findEwktSrid.digits (i + 1) rest
    else if 48 ≤ c.toNat ∧ c.toNat ≤ 57 then findEwktSrid.digits (i + 1) rest
    else false

/-- The C function `findEwktSrid`: attempting to identify the EWKT SRID. The
result is the pair of the returned value and of `*base_offset`.

The scratch buffer is `char dummy[1024]`: the normalizing loop stores one
character per non-blank character found before the semi-colon and then the
terminating NUL, without any bound check. With 1024 or more such characters
the function writes past the end of `dummy`; its behaviour is then undefined,
which is `none` here (as is an `atoi` overflow). -/
def findEwktSrid (buffer : List Char) : Option (Int × Nat) :=
  match findEwktSrid.semicolon buffer 0 with
  | none => some (-1, 0)
  | some end_ =>
    let dummy := findEwktSrid.normalize end_ buffer
    if 1024 ≤ dummy.length then none
    else if strncasecmp_eq dummy ['S', 'R', 'I', 'D', '='] 5 = false then some (-1, 0)
    else if findEwktSrid.digits 5 (dummy.drop 5) = false then some (-1, 0)
    else
      match atoi (dummy.drop 5) with
      | none => none
      | some srid => some (srid, end_ + 1)

/-! ## The entry point `gaiaParseEWKT`

The tokenizer (`lex.Ewkt.c`, generated by Flex) and the parser (`Ewkt.c`,
generated by Lemon) are not among the sources; they are parameters of the
embedding. -/

/-- The three results of one call `Parse (pParser, yv, &value, &result)` of
the Lemon parser: its new state, the new value of `result`, and whether the
call raised a syntax error, which sets the flag `ewkt_parse_error` to 1. -/
abbrev EwktParse (P R : Type) : Type :=
  P → Int → Option R → Option (gaiaGeomColl R) → P × Option (gaiaGeomColl R) × Bool

/-- The loop `while ((yv = yylex ()) != 0)` of `gaiaParseEWKT`. The list is
the stream of the successive results of `yylex`, each with the value of
`EwktLval.dval` after the call; the three other arguments are `pParser`,
`result` and the flag `ewkt_parse_error`. -/
def gaiaParseEWKT.loop {P : Type} (Parse : EwktParse P R) :
    List (Int × R) → P → Option (gaiaGeomColl R) → Int → P × Option (gaiaGeomColl R) × Int
  | [], pParser, result, ewkt_parse_error => (pParser, result, ewkt_parse_error)
  | (yv, dval) :: rest, pParser, result, ewkt_parse_error =>
    if yv = 0 then (pParser, result, ewkt_parse_error)
    else if yv = -1 then (pParser, result, 1)
    else
      let (pParser, result, failed) := Parse pParser yv (some dval) result
      gaiaParseEWKT.loop Parse rest pParser result (if failed then 1 else ewkt_parse_error)

/-- The parsing part of `gaiaParseEWKT`, from `ewkt_parse_error = 0` to the
final `Parse (pParser, EWKT_NEWLINE, 0, &result)`: the pair of `result` and
of the flag `ewkt_parse_error` it leaves. -/
def gaiaParseEWKT.drive {P : Type} (ParseAlloc : P) (Parse : EwktParse P R)
    (EWKT_NEWLINE : Int) (tokens : List (Int × R)) : Option (gaiaGeomColl R) × Int :=
  let (pParser, result, ewkt_parse_error) := gaiaParseEWKT.loop Parse tokens ParseAlloc none 0
  let (_, result, failed) := Parse pParser EWKT_NEWLINE none result
  (result, if failed then 1 else ewkt_parse_error)

/-- The C function `gaiaParseEWKT`. `yylex` maps the text handed to
`Ewkt_scan_string` to the stream of tokens; `gaiaMbrGeometry` is the envelope
computation. The outer `Option` is `none` where `findEwktSrid` is undefined;
the inner one is the returned pointer (`none` is `NULL`). -/
def gaiaParseEWKT {P : Type} (ParseAlloc : P) (Parse : EwktParse P R) (EWKT_NEWLINE : Int)
    (yylex : List Char → List (Int × R))
    (gaiaMbrGeometry : gaiaGeomColl R → gaiaGeomColl R)
    (dirty_buffer : List Char) : Option (Option (gaiaGeomColl R)) :=
  match findEwktSrid dirty_buffer with
  | none => none
  | some (srid, base_offset) =>
    let (result, ewkt_parse_error) :=
      gaiaParseEWKT.drive ParseAlloc Parse EWKT_NEWLINE (yylex (dirty_buffer.drop base_offset))
    if ewkt_parse_error ≠ 0 then some none
    else
      match result with
      | none => some none
      | some result =>
        if ewktCheckValidity result = 0 then some none
        else some (some { gaiaMbrGeometry result with Srid := srid })

/-- The tokenizer reports an unrecognized token: some call of `yylex` made by
the loop of `gaiaParseEWKT` returns -1. -/
def yylexReportsError : List (Int × R) → Bool
  | [] => false
  | (yv, _) :: rest =>
    if yv = 0 then false else if yv = -1 then true else yylexReportsError rest

/-! ## The prefix scan as the specification words it

The definitions of this part follow the sentences of the specification, not
the code; `findEwktSrid` is compared with them below. -/

/-- Specification: the characters deleted by the normalization (space, tab,
newline) are blank; every other character is kept. -/
def sridKept (c : Char) : Bool :=
  !(c.toNat = 32 || c.toNat = 9 || c.toNat = 10)

/-- Specification: the text before the first `;`, after deleting every space,
tab and newline. -/
def sridText (buffer : List Char) : List Char :=
  (buffer.takeWhile (fun c => c != ';')).filter sridKept

/-- Specification: a decimal digit. -/
def sridDigit (c : Char) : Bool :=
  decide (48 ≤ c.toNat ∧ c.toNat ≤ 57)

/-- Specification: a digit string with at most one leading `+` or `-`,
without that sign. -/
def sridUnsigned : List Char → List Char
  | [] => []
  | c :: t => if c = '-' ∨ c = '+' then t else c :: t

/-- Specification: the integer denoted by a string of decimal digits (0 for
the empty string). -/
def sridDecimal (l : List Char) : Int :=
  l.foldl (fun acc c => acc * 10 + ((c.toNat - 48 : Nat) : Int)) 0

/-- Specification: the integer denoted by a signed digit string. -/
def sridSigned : List Char → Int
  | [] => 0
  | c :: t =>
    if c = '-' then - sridDecimal t
    else if c = '+' then sridDecimal t
    else sridDecimal (c :: t)

/-- Specification: the text consists of `SRID=` (compared
case-insensitively) followed by at most one leading `+` or `-` and then only
decimal digits. -/
def sridMatches (text : List Char) : Bool :=
  (text.take 5).map tolower == ['s', 'r', 'i', 'd', '='] &&
    (sridUnsigned (text.drop 5)).all sridDigit

/-- Specification of the prefix scan: the returned value and `base_offset`.
Unless the buffer has a `;` and the text before it matches, the value is -1
and the offset 0; when it matches, the offset is the index of the first `;`
plus 1 and the value is the integer denoted by the signed digit string. -/
def findEwktSrid_spec (buffer : List Char) : Int × Nat :=
  if ';' ∈ buffer ∧ sridMatches (sridText buffer) = true then
    (sridSigned ((sridText buffer).drop 5), (buffer.takeWhile (fun c => c != ';')).length + 1)
  else (-1, 0)

/-! ## Sample inputs -/

/-- A 3D linestring of two vertices, (0,0,5) and (1,1,7). -/
def sampleLinestringZ : gaiaLinestring Int :=
  { Points := 2, Coords := [0, 0, 5, 1, 1, 7], DimensionModel := GAIA_XY_Z }

/-- A closed 2D + measure ring of four vertices. -/
def sampleRingM : gaiaRing Int :=
  { Points := 4, Coords := [0, 0, 1, 4, 0, 2, 4, 4, 3, 0, 0, 1], DimensionModel := GAIA_XY_M }

/-- A stand-in for the generated parser: every call leaves the 2D point
geometry (1,2) in `result` and raises no syntax error. -/
def sampleParse : EwktParse Unit Int :=
  fun _ _ _ _ => ((), some (gaiaEwktGeometryFromPoint (ewkt_point_xy 1 2)), false)

/-- A stand-in for the generated tokenizer: two tokens, whatever the text. -/
def sampleYylex : List Char → List (Int × Int) :=
  fun _ => [(7, 1), (7, 2)]

/-- A linestring of two vertices in the given model. -/
def sampleLinestringOf (dim : Int) (stride : Nat) : gaiaLinestring Int :=
  ⟨2, (List.range (2 * stride)).map (fun k => (k : Int)), dim⟩

/-- A polygon of the given model with one hole; both rings have four vertices. -/
def samplePolygonOf (dim : Int) (stride : Nat) : gaiaPolygon Int :=
  ⟨⟨4, List.replicate (4 * stride) 1, dim⟩, [⟨4, List.replicate (4 * stride) 2, dim⟩], 0, dim⟩

/-- A stand-in for the generated parser reading `LINESTRING(0 0)`: every
call leaves in `result` the geometry built from the one-point list and raises
no syntax error. -/
def sampleParseLinestring : EwktParse Unit Int :=
  fun _ _ _ _ =>
    ((), ewkt_buildGeomFromLinestring (ewkt_linestring_xy [ewkt_point_xy 0 0]), false)

end Ewkt

/-! ## The GML parser: nodes of `gg_gml.c`

The tokenizer and the Lemon grammar turn a GML text into a flat list of
nodes, linked by `Next`: one node for every opening, self-closed and closing
tag. A node pointer is the list of the nodes from that node on (`NULL` is the
empty list). Tags and attribute keys are strings; attribute values and
coordinate tokens are lists of characters, as for `findEwktSrid`. -/

/-- The constant `GML_PARSER_OPEN_NODE`. -/
def GML_PARSER_OPEN_NODE : Int := 1
/-- The constant `GML_PARSER_SELF_CLOSED_NODE`. -/
def GML_PARSER_SELF_CLOSED_NODE : Int := 2
/-- The constant `GML_PARSER_CLOSED_NODE`. -/
def GML_PARSER_CLOSED_NODE : Int := 3

/-- The constant `GAIA_GML_UNKNOWN`. -/
def GAIA_GML_UNKNOWN : Int := 0
/-- The constant `GAIA_GML_POINT`. -/
def GAIA_GML_POINT : Int := 1
/-- The constant `GAIA_GML_LINESTRING`. -/
def GAIA_GML_LINESTRING : Int := 2
/-- The constant `GAIA_GML_CURVE`. -/
def GAIA_GML_CURVE : Int := 3
/-- The constant `GAIA_GML_POLYGON`. -/
def GAIA_GML_POLYGON : Int := 4
/-- The constant `GAIA_GML_MULTIPOINT`. -/
def GAIA_GML_MULTIPOINT : Int := 5
/-- The constant `GAIA_GML_MULTILINESTRING`. -/
def GAIA_GML_MULTILINESTRING : Int := 6
/-- The constant `GAIA_GML_MULTICURVE`. -/
def GAIA_GML_MULTICURVE : Int := 7
/-- The constant `GAIA_GML_MULTIPOLYGON`. -/
def GAIA_GML_MULTIPOLYGON : Int := 8
/-- The constant `GAIA_GML_MULTISURFACE`. -/
def GAIA_GML_MULTISURFACE : Int := 9
/-- The constant `GAIA_GML_MULTIGEOMETRY`. -/
def GAIA_GML_MULTIGEOMETRY : Int := 10

/-- The C struct `gmlAttr`; the `Next` link is the enclosing list. -/
structure gmlAttr where
  Key : String
  Value : List Char
deriving DecidableEq, Repr

/-- The C struct `gmlNode`; the `Next` link is the enclosing list, the list
`Coordinates` holds the `Value` of every `gmlCoord`. The field `Type_` is the
C field `Type` (1 opening, 2 self-closed, 3 closing). -/
structure gmlNode where
  Tag : String
  Type_ : Int
  Error : Int
  Attributes : List gmlAttr
  Coordinates : List (List Char)
deriving DecidableEq, Repr

/-- The C struct `gmlDynamicRing`; the dynamic line `ring` is the list of its
points, the `next` link is the enclosing list. -/
structure gmlDynamicRing (R : Type) where
  ring : List (gaiaPoint R)
  interior : Int
  has_z : Int
deriving DecidableEq, Repr

/-- The C function `gml_createNode`: an opening node. -/
def gml_createNode (tag : String) (attributes : List gmlAttr) (coords : List (List Char)) :
    gmlNode :=
  { Tag := tag, Type_ := GML_PARSER_OPEN_NODE, Error := 0, Attributes := attributes,
    Coordinates := coords }

/-- The C function `gml_createSelfClosedNode`. -/
def gml_createSelfClosedNode (tag : String) (attributes : List gmlAttr) : gmlNode :=
  { Tag := tag, Type_ := GML_PARSER_SELF_CLOSED_NODE, Error := 0, Attributes := attributes,
    Coordinates := [] }

/-- The C function `gml_closingNode`: a closing node. -/
def gml_closingNode (tag : String) : gmlNode :=
  { Tag := tag, Type_ := GML_PARSER_CLOSED_NODE, Error := 0, Attributes := [],
    Coordinates := [] }

/-- The loop `for (; i >= 0; i--)` of `guessGmlSrid`, started with
`i = k - 1`: the text that follows the last `:` found. -/
def guessGmlSrid.lastColon (value : List Char) : Nat → Option (List Char)
  | 0 => none
  | k + 1 =>
    if value.getD k ' ' = ':' then some (value.drop (k + 1))
    else guessGmlSrid.lastColon value k

/-- The loop `while (attr)` of `guessGmlSrid`; `none` is an `atoi` whose
behaviour is undefined. -/
def guessGmlSrid.loop : List gmlAttr → Option Int
  | [] => some (-1)
  | attr :: next =>
    if attr.Key = "srsName" then
      let len := attr.Value.length
      if len > 5 ∧ attr.Value.take 5 = "EPSG:".toList then atoi (attr.Value.drop 5)
      else if len > 21 ∧ attr.Value.take 21 = "urn:ogc:def:crs:EPSG:".toList then
        match guessGmlSrid.lastColon attr.Value attr.Value.length with
        | some rest => atoi rest
        | none => guessGmlSrid.loop next
      else guessGmlSrid.loop next
    else guessGmlSrid.loop next

/-- The C function `guessGmlSrid`: attempting to guess the SRID. -/
def guessGmlSrid (node : gmlNode) : Option Int :=
  guessGmlSrid.loop node.Attributes

/-- The loop `while (attr)` of `gml_get_srsDimension`; `none` is an `atoi`
whose behaviour is undefined. -/
def gml_get_srsDimension.loop : List gmlAttr → Option Int
  | [] => some 0
  | attr :: next =>
    if attr.Key = "srsDimension" then
      match atoi attr.Value with
      | none => none
      | some v => if v = 3 then some 1 else some 0
    else gml_get_srsDimension.loop next

/-- The C function `gml_get_srsDimension`: attempting to establish if there
is a Z coordinate. -/
def gml_get_srsDimension (node : gmlNode) : Option Int :=
  gml_get_srsDimension.loop node.Attributes

/-- The C function `guessGmlGeometryType`: attempting to guess the Geometry
Type for a GML node. -/
def guessGmlGeometryType (node : gmlNode) : Int :=
  let type : Int := GAIA_GML_UNKNOWN
  let type := if node.Tag = "gml:Point" ∨ node.Tag = "Point" then GAIA_GML_POINT else type
  let type :=
    if node.Tag = "gml:LineString" ∨ node.Tag = "LineString" then GAIA_GML_LINESTRING
    else type
  let type := if node.Tag = "gml:Curve" ∨ node.Tag = "Curve" then GAIA_GML_CURVE else type
  let type :=
    if node.Tag = "gml:Polygon" ∨ node.Tag = "Polygon" then GAIA_GML_POLYGON else type
  let type :=
    if node.Tag = "gml:MultiPoint" ∨ node.Tag = "MultiPoint" then GAIA_GML_MULTIPOINT
    else type
  let type :=
    if node.Tag = "gml:MultiLineString" ∨ node.Tag = "MultiLineString" then
      GAIA_GML_MULTILINESTRING
    else type
  let type :=
    if node.Tag = "gml:MultiCurve" ∨ node.Tag = "MultiCurve" then GAIA_GML_MULTICURVE
    else type
  let type :=
    if node.Tag = "gml:MultiPolygon" ∨ node.Tag = "MultiPolygon" then GAIA_GML_MULTIPOLYGON
    else type
  let type :=
    if node.Tag = "gml:MultiSurface" ∨ node.Tag = "MultiSurface" then GAIA_GML_MULTISURFACE
    else type
  let type :=
    if node.Tag = "gml:MultiGeometry" ∨ node.Tag = "MultiGeometry" then
      GAIA_GML_MULTIGEOMETRY
    else type
  type

/-- The loop `while (*p != '\0')` of `gml_check_coord`; the flag is the
variable `decimal`. -/
def gml_check_coord.loop : List Char → Bool → Bool
  | [], _ => true
  | c :: p, decimal =>
    if c = '.' then
      if !decimal then gml_check_coord.loop p true else false
    else if 48 ≤ c.toNat ∧ c.toNat ≤ 57 then gml_check_coord.loop p decimal
    else false

/-- The C function `gml_check_coord`: checking a GML coordinate. -/
def gml_check_coord (value : List Char) : Bool :=
  match value with
  | [] => gml_check_coord.loop [] false
  | c :: p =>
    if c = '+' ∨ c = '-' then gml_check_coord.loop p false
    else gml_check_coord.loop (c :: p) false

section Gml

variable {R : Type} [Zero R] [DecidableEq R]

/-! ## Coordinates of the GML parser

The C library function `atof` is a parameter of the embedding. The local
variables `x`, `y`, `z` of the C functions are not initialised; here they
start as 0, and the code never reads one before assigning it. A result that
is `none` is a run whose behaviour C leaves undefined, or that does not
terminate; `some none` is a `return 0`. -/

/-- The `switch (*count)` of `gml_extract_coords`: the field kept in `buf`
is stored into `x`, `y` or `z`, or only counted. -/
def gml_extract_coords.store (atof : List Char → R) (buf : List Char) (x y z : R)
    (count : Nat) : R × R × R × Nat :=
  if count = 0 then (atof buf, y, z, count + 1)
  else if count = 1 then (x, atof buf, z, count + 1)
  else if count = 2 then (x, y, atof buf, count + 1)
  else (x, y, z, count + 1)

/-- The loop `while (*in != '\0')` of `gml_extract_coords`, followed by the
part "parsing the last item". The second list is what has been written to
`char buf[1024]` since the last comma; a field of 1024 characters or more
is written past the end of `buf` (`none`). -/
def gml_extract_coords.loop (atof : List Char → R) :
    List Char → List Char → R → R → R → Nat → Option (Option (R × R × R × Nat))
  | [], buf, x, y, z, count =>
    if buf ≠ [] then
      if !gml_check_coord buf then some none
      else some (some (gml_extract_coords.store atof buf x y z count))
    else some (some (x, y, z, count))
  | c :: in_, buf, x, y, z, count =>
    if c = ',' then
      if buf ≠ [] then
        if !gml_check_coord buf then some none
        else
          let (x, y, z, count) := gml_extract_coords.store atof buf x y z count
          gml_extract_coords.loop atof in_ [] x y z count
      else gml_extract_coords.loop atof in_ [] x y z count
    else if buf.length + 1 ≥ 1024 then none
    else gml_extract_coords.loop atof in_ (buf ++ [c]) x y z count

/-- The C function `gml_extract_coords`: extracting GML v2.x coords from a
comma-separated string. -/
def gml_extract_coords (atof : List Char → R) (value : List Char) (x y z : R) (count : Nat) :
    Option (Option (R × R × R × Nat)) :=
  gml_extract_coords.loop atof value [] x y z count

/-- The loop `while (c)` of `gml_parse_point_v2`. -/
def gml_parse_point_v2.loop (atof : List Char → R) :
    List (List Char) → R → R → R → Nat → Option (Option (R × R × R × Nat))
  | [], x, y, z, count => some (some (x, y, z, count))
  | c :: next, x, y, z, count =>
    match gml_extract_coords atof c x y z count with
    | none => none
    | some none => some none
    | some (some (x, y, z, count)) => gml_parse_point_v2.loop atof next x y z count

/-- The C function `gml_parse_point_v2`: parsing GML v2.x `<gml:coordinates>`
of a Point. The result is `x`, `y`, `z` and `has_z`. -/
def gml_parse_point_v2 (atof : List Char → R) (coord : List (List Char)) :
    Option (Option (R × R × R × Int)) :=
  match gml_parse_point_v2.loop atof coord 0 0 0 0 with
  | none => none
  | some none => some none
  | some (some (x, y, z, count)) =>
    if count = 2 then some (some (x, y, z, 0))
    else if count = 3 then some (some (x, y, z, 1))
    else some none

/-- The loop `while (c)` of `gml_parse_point_v3`; `none` is `return 0`. -/
def gml_parse_point_v3.loop (atof : List Char → R) :
    List (List Char) → R → R → R → Nat → Option (R × R × R × Nat)
  | [], x, y, z, count => some (x, y, z, count)
  | c :: next, x, y, z, count =>
    if !gml_check_coord c then none
    else if count = 0 then gml_parse_point_v3.loop atof next (atof c) y z (count + 1)
    else if count = 1 then gml_parse_point_v3.loop atof next x (atof c) z (count + 1)
    else if count = 2 then gml_parse_point_v3.loop atof next x y (atof c) (count + 1)
    else gml_parse_point_v3.loop atof next x y z (count + 1)

/-- The C function `gml_parse_point_v3`: parsing `<gml:pos>` of a Point;
`none` is `return 0`. The result is `x`, `y`, `z` and `has_z`. -/
def gml_parse_point_v3 (atof : List Char → R) (coord : List (List Char)) :
    Option (R × R × R × Int) :=
  match gml_parse_point_v3.loop atof coord 0 0 0 0 with
  | none => none
  | some (x, y, z, count) =>
    if count = 2 then some (x, y, z, 0)
    else if count = 3 then some (x, y, z, 1)
    else none

/-- The part of `gml_parse_point` after the label `ok`: the point geometry
is built and linked after the last geometry of the chain. -/
def gml_parse_point.ok (geom : List (gaiaGeomColl R)) (srid : Int) (x y z : R)
    (has_z : Int) : List (gaiaGeomColl R) :=
  if has_z ≠ 0 then
    let pt : gaiaGeomColl R := gaiaAllocGeomCollXYZ
    let pt := { pt with Srid := srid }
    let pt := gaiaAddPointToGeomCollXYZ pt x y z
    geom ++ [pt]
  else
    let pt : gaiaGeomColl R := gaiaAllocGeomColl
    let pt := { pt with Srid := srid }
    let pt := gaiaAddPointToGeomColl pt x y
    geom ++ [pt]

/-- The C function `gml_parse_point`: parsing a `<gml:Point>`. The chain
`geom` is the list of the geometries linked by `Next`, headed by the main
geometry. The result is the chain and `*next`. A `NULL` node is
dereferenced by the first `strcmp` (`none`). -/
def gml_parse_point (atof : List Char → R) (geom : List (gaiaGeomColl R))
    (node : List gmlNode) (srid : Int) :
    Option (Option (List (gaiaGeomColl R) × List gmlNode)) :=
  match node with
  | [] => none
  | n0 :: node =>
    if n0.Tag = "gml:coordinates" ∨ n0.Tag = "coordinates" then
      match gml_parse_point_v2 atof n0.Coordinates with
      | none => none
      | some none => some none
      | some (some (x, y, z, has_z)) =>
        match node with
        | [] => some none
        | n1 :: node =>
          if n1.Tag = "gml:coordinates" ∨ n1.Tag = "coordinates" then
            match node with
            | [] => some none
            | n2 :: node =>
              if n2.Tag = "gml:Point" ∨ n2.Tag = "Point" then
                some (some (gml_parse_point.ok geom srid x y z has_z, node))
              else some none
          else some none
    else if n0.Tag = "gml:pos" ∨ n0.Tag = "pos" then
      match gml_parse_point_v3 atof n0.Coordinates with
      | none => some none
      | some (x, y, z, has_z) =>
        match node with
        | [] => some none
        | n1 :: node =>
          if n1.Tag = "gml:pos" ∨ n1.Tag = "pos" then
            match node with
            | [] => some none
            | n2 :: node =>
              if n2.Tag = "gml:Point" ∨ n2.Tag = "Point" then
                some (some (gml_parse_point.ok geom srid x y z has_z, node))
              else some none
          else some none
    else some none

/-- The C function `gml_extract_multi_coord`. Its loop is the loop of
`gml_extract_coords` with the additional assignment `last = *in`, so that
`last` is the last character of `value`; for an empty `value` the variable
`last` is read without having been assigned (`none`). The result is `x`,
`y`, `z`, `*count` and `*follow`. -/
def gml_extract_multi_coord (atof : List Char → R) (value : List Char) (x y z : R)
    (count : Nat) : Option (Option (R × R × R × Nat × Bool)) :=
  match gml_extract_coords.loop atof value [] x y z count with
  | none => none
  | some none => some none
  | some (some (x, y, z, count)) =>
    match value.getLast? with
    | none => none
    | some last => some (some (x, y, z, count, decide (last = ',')))

/-- The C function `gml_extract_multi_coords`. The last argument and the
last component of the result are the caller's variable `next`, which the
function assigns only when it leaves the loop through `break` (`none`: not
assigned yet). -/
def gml_extract_multi_coords (atof : List Char → R) :
    List (List Char) → R → R → R → Nat → Option (List (List Char)) →
      Option (Option (R × R × R × Nat × Option (List (List Char))))
  | [], x, y, z, count, next => some (some (x, y, z, count, next))
  | c :: c_next, x, y, z, count, next =>
    match gml_extract_multi_coord atof c x y z count with
    | none => none
    | some none => some none
    | some (some (x, y, z, count, follow)) =>
      let follow :=
        match c_next with
        | [] => follow
        | v :: _ => if !follow then (if v.head? = some ',' then true else follow) else follow
      if follow then gml_extract_multi_coords atof c_next x y z count next
      else some (some (x, y, z, count, some c_next))

/-- Modelled from the spec: `gaiaAppendPointToDynamicLine` of
`gg_geometries.c`, which is not among the sources: a new 2D point becomes the
last point of the dynamic line. -/
def gaiaAppendPointToDynamicLine (dyn : List (gaiaPoint R)) (x y : R) : List (gaiaPoint R) :=
  dyn ++ [gaiaAllocPoint x y]

/-- Modelled from the spec: `gaiaAppendPointZToDynamicLine` of
`gg_geometries.c`, which is not among the sources: a new 3D point becomes the
last point of the dynamic line. -/
def gaiaAppendPointZToDynamicLine (dyn : List (gaiaPoint R)) (x y z : R) :
    List (gaiaPoint R) :=
  dyn ++ [gaiaAllocPointXYZ x y z]

/-- The C function `gml_add_point_to_line`: appending a point. -/
def gml_add_point_to_line (dyn : List (gaiaPoint R)) (x y : R) : List (gaiaPoint R) :=
  gaiaAppendPointToDynamicLine dyn x y

/-- The C function `gml_add_point_to_lineZ`: appending a point. -/
def gml_add_point_to_lineZ (dyn : List (gaiaPoint R)) (x y z : R) : List (gaiaPoint R) :=
  gaiaAppendPointZToDynamicLine dyn x y z

/-- The loop `while (c)` of `gml_parse_coordinates`. The arguments after the
list are `dyn`, `*has_z`, `count`, `x`, `y`, `z` and `next`. When
`gml_extract_multi_coords` returns without assigning `next`, the statement
`c = next` reads a variable that was never assigned (`none`) or restores the
`c` of this iteration, and the loop runs for ever: the first argument bounds
the number of iterations, and `none` is returned when it is used up. Every
terminating run makes at most as many iterations as the list has tokens. -/
def gml_parse_coordinates.loop (atof : List Char → R) :
    Nat → List (List Char) → List (gaiaPoint R) → Int → Nat → R → R → R →
      Option (List (List Char)) → Option (Option (List (gaiaPoint R) × Int))
  | _, [], dyn, has_z, _, _, _, _, _ => some (some (dyn, has_z))
  | 0, _ :: _, _, _, _, _, _, _, _ => none
  | fuel + 1, c :: c_next, dyn, has_z, count, x, y, z, next =>
    match gml_extract_multi_coords atof (c :: c_next) x y z count next with
    | none => none
    | some none => some none
    | some (some (x, y, z, count, next)) =>
      if count = 2 then
        match next with
        | none => none
        | some c =>
          gml_parse_coordinates.loop atof fuel c (gml_add_point_to_line dyn x y) 0 0 x y z next
      else if count = 3 then
        match next with
        | none => none
        | some c =>
          gml_parse_coordinates.loop atof fuel c (gml_add_point_to_lineZ dyn x y z) has_z 0
            x y z next
      else some none

/-- The C function `gml_parse_coordinates`: parsing GML v2.x
`<gml:coordinates>` of a Linestring or Ring. The result is `dyn` and
`*has_z`. -/
def gml_parse_coordinates (atof : List Char → R) (coord : List (List Char))
    (dyn : List (gaiaPoint R)) (has_z : Int) :
    Option (Option (List (gaiaPoint R) × Int)) :=
  gml_parse_coordinates.loop atof coord.length coord dyn has_z 0 0 0 0 none

/-- The loop `while (c)` of `gml_parse_posList` with the final test
`count != 0`; `none` is `return 0`. -/
def gml_parse_posList.loop (atof : List Char → R) (has_z : Int) :
    List (List Char) → List (gaiaPoint R) → Nat → R → R → R → Option (List (gaiaPoint R))
  | [], dyn, count, _, _, _ => if count ≠ 0 then none else some dyn
  | c :: next, dyn, count, x, y, z =>
    if !gml_check_coord c then none
    else if has_z = 0 then
      if count = 0 then gml_parse_posList.loop atof has_z next dyn (count + 1) (atof c) y z
      else if count = 1 then
        gml_parse_posList.loop atof has_z next (gml_add_point_to_line dyn x (atof c)) 0
          x (atof c) z
      else gml_parse_posList.loop atof has_z next dyn count x y z
    else
      if count = 0 then gml_parse_posList.loop atof has_z next dyn (count + 1) (atof c) y z
      else if count = 1 then
        gml_parse_posList.loop atof has_z next dyn (count + 1) x (atof c) z
      else if count = 2 then
        gml_parse_posList.loop atof has_z next (gml_add_point_to_lineZ dyn x y (atof c)) 0
          x y (atof c)
      else gml_parse_posList.loop atof has_z next dyn count x y z

/-- The C function `gml_parse_posList`: parsing GML v3.x `<gml:posList>` of a
Linestring or Ring; `none` is `return 0`. -/
def gml_parse_posList (atof : List Char → R) (coord : List (List Char))
    (dyn : List (gaiaPoint R)) (has_z : Int) : Option (List (gaiaPoint R)) :=
  gml_parse_posList.loop atof has_z coord dyn 0 0 0 0

/-- The C function `gml_count_dyn_points`: count how many vertices are into
some linestring/ring. -/
def gml_count_dyn_points (dyn : List (gaiaPoint R)) : Nat :=
  dyn.length

/-- The loop `while (pt)` that stores the points of a dynamic line into a 3D
coordinate buffer with `gaiaSetPointXYZ`; `iv` is the running index. The loop
occurs in `gml_parse_linestring`, `gml_parse_curve` and `gml_parse_polygon`. -/
def gml_parse_linestring.fillXYZ : List (gaiaPoint R) → Nat → List R → List R
  | [], _, coords => coords
  | pt :: next, iv, coords =>
    gml_parse_linestring.fillXYZ next (iv + 1) (gaiaSetPointXYZ coords iv pt.X pt.Y pt.Z)

/-- The loop `while (pt)` that stores the points of a dynamic line into a 2D
coordinate buffer with `gaiaSetPoint`; `iv` is the running index. The loop
occurs in `gml_parse_linestring`, `gml_parse_curve` and `gml_parse_polygon`. -/
def gml_parse_linestring.fill : List (gaiaPoint R) → Nat → List R → List R
  | [], _, coords => coords
  | pt :: next, iv, coords =>
    gml_parse_linestring.fill next (iv + 1) (gaiaSetPoint coords iv pt.X pt.Y)

/-- The part of `gml_parse_linestring` after the label `ok` (the same text
ends `gml_parse_curve`): the linestring geometry is built from the dynamic
line and linked after the last geometry of the chain; `none` is
`goto error`. -/
def gml_parse_linestring.ok (geom : List (gaiaGeomColl R)) (srid : Int)
    (dyn : List (gaiaPoint R)) (has_z : Int) : Option (List (gaiaGeomColl R)) :=
  let points := gml_count_dyn_points dyn
  if points < 2 then none
  else if has_z ≠ 0 then
    let ln : gaiaGeomColl R := gaiaAllocGeomCollXYZ
    let ln := { ln with Srid := srid }
    let new_ln := gaiaAddLinestringToGeomColl.alloc ln points
    let new_ln := { new_ln with Coords := gml_parse_linestring.fillXYZ dyn 0 new_ln.Coords }
    let ln := gaiaAddLinestringToGeomColl.link ln new_ln
    some (geom ++ [ln])
  else
    let ln : gaiaGeomColl R := gaiaAllocGeomColl
    let ln := { ln with Srid := srid }
    let new_ln := gaiaAddLinestringToGeomColl.alloc ln points
    let new_ln := { new_ln with Coords := gml_parse_linestring.fill dyn 0 new_ln.Coords }
    let ln := gaiaAddLinestringToGeomColl.link ln new_ln
    some (geom ++ [ln])

/-- The C function `gml_parse_linestring`: parsing a `<gml:LineString>`. The
result is the chain and `*next`. A `NULL` node is dereferenced by the first
`strcmp` (`none`). -/
def gml_parse_linestring (atof : List Char → R) (geom : List (gaiaGeomColl R))
    (node : List gmlNode) (srid : Int) :
    Option (Option (List (gaiaGeomColl R) × List gmlNode)) :=
  match node with
  | [] => none
  | n0 :: node =>
    if n0.Tag = "gml:coordinates" ∨ n0.Tag = "coordinates" then
      match gml_parse_coordinates atof n0.Coordinates [] 1 with
      | none => none
      | some none => some none
      | some (some (dyn, has_z)) =>
        match node with
        | [] => some none
        | n1 :: node =>
          if n1.Tag = "gml:coordinates" ∨ n1.Tag = "coordinates" then
            match node with
            | [] => some none
            | n2 :: node =>
              if n2.Tag = "gml:LineString" ∨ n2.Tag = "LineString" then
                match gml_parse_linestring.ok geom srid dyn has_z with
                | none => some none
                | some geom => some (some (geom, node))
              else some none
          else some none
    else if n0.Tag = "gml:posList" ∨ n0.Tag = "posList" then
      match gml_get_srsDimension n0 with
      | none => none
      | some has_z =>
        match gml_parse_posList atof n0.Coordinates [] has_z with
        | none => some none
        | some dyn =>
          match node with
          | [] => some none
          | n1 :: node =>
            if n1.Tag = "gml:posList" ∨ n1.Tag = "posList" then
              match node with
              | [] => some none
              | n2 :: node =>
                if n2.Tag = "gml:LineString" ∨ n2.Tag = "LineString" then
                  match gml_parse_linestring.ok geom srid dyn has_z with
                  | none => some none
                  | some geom => some (some (geom, node))
                else some none
            else some none
    else some none

/-- The C function `gml_parse_curve`: parsing a `<gml:Curve>`. The result is
the chain and `*next`. A `NULL` node is dereferenced by the first `strcmp`
(`none`). -/
def gml_parse_curve (atof : List Char → R) (geom : List (gaiaGeomColl R))
    (node : List gmlNode) (srid : Int) :
    Option (Option (List (gaiaGeomColl R) × List gmlNode)) :=
  match node with
  | [] => none
  | n0 :: node =>
    if n0.Tag = "gml:segments" ∨ n0.Tag = "segments" then
      match node with
      | [] => some none
      | n1 :: node =>
        if n1.Tag = "gml:LineStringSegment" ∨ n1.Tag = "LineStringSegment" then
          match node with
          | [] => some none
          | n2 :: node =>
            if n2.Tag = "gml:posList" ∨ n2.Tag = "posList" then
              match gml_get_srsDimension n2 with
              | none => none
              | some has_z =>
                match gml_parse_posList atof n2.Coordinates [] has_z with
                | none => some none
                | some dyn =>
                  match node with
                  | [] => some none
                  | n3 :: node =>
                    if n3.Tag = "gml:posList" ∨ n3.Tag = "posList" then
                      match node with
                      | [] => some none
                      | n4 :: node =>
                        if n4.Tag = "gml:LineStringSegment" ∨ n4.Tag = "LineStringSegment" then
                          match node with
                          | [] => some none
                          | n5 :: node =>
                            if n5.Tag = "gml:segments" ∨ n5.Tag = "segments" then
                              match node with
                              | [] => some none
                              | n6 :: node =>
                                if n6.Tag = "gml:Curve" ∨ n6.Tag = "Curve" then
                                  match gml_parse_linestring.ok geom srid dyn has_z with
                                  | none => some none
                                  | some geom => some (some (geom, node))
                                else some none
                            else some none
                        else some none
                    else some none
            else some none
        else some none
    else some none

/-- The C function `gml_parse_ring`: parsing a generic GML ring. The result
is the dynamic line, `*interior`, `*has_z` and `*next`; `some none` is
`return 0`. The node is the non-`NULL` node `n` of the loop of
`gml_parse_polygon`. -/
def gml_parse_ring (atof : List Char → R) (n0 : gmlNode) (node : List gmlNode) :
    Option (Option (List (gaiaPoint R) × Int × Int × List gmlNode)) :=
  if n0.Tag = "gml:outerBoundaryIs" ∨ n0.Tag = "outerBoundaryIs" then
    match node with
    | [] => some none
    | n1 :: node =>
      if n1.Tag = "gml:LinearRing" ∨ n1.Tag = "LinearRing" then
        match node with
        | [] => some none
        | n2 :: node =>
          if n2.Tag = "gml:coordinates" ∨ n2.Tag = "coordinates" then
            match gml_parse_coordinates atof n2.Coordinates [] 1 with
            | none => none
            | some none => some none
            | some (some (dyn, has_z)) =>
              match node with
              | [] => some none
              | n3 :: node =>
                if n3.Tag = "gml:coordinates" ∨ n3.Tag = "coordinates" then
                  match node with
                  | [] => some none
                  | n4 :: node =>
                    if n4.Tag = "gml:LinearRing" ∨ n4.Tag = "LinearRing" then
                      match node with
                      | [] => some none
                      | n5 :: node =>
                        if n5.Tag = "gml:outerBoundaryIs" ∨ n5.Tag = "outerBoundaryIs" then
                          some (some (dyn, 0, has_z, node))
                        else some none
                    else some none
                else some none
          else if n2.Tag = "gml:posList" ∨ n2.Tag = "posList" then
            match gml_get_srsDimension n2 with
            | none => none
            | some has_z =>
              match gml_parse_posList atof n2.Coordinates [] has_z with
              | none => some none
              | some dyn =>
                match node with
                | [] => some none
                | n3 :: node =>
                  if n3.Tag = "gml:posList" ∨ n3.Tag = "posList" then
                    match node with
                    | [] => some none
                    | n4 :: node =>
                      if n4.Tag = "gml:LinearRing" ∨ n4.Tag = "LinearRing" then
                        match node with
                        | [] => some none
                        | n5 :: node =>
                          if n5.Tag = "gml:outerBoundaryIs" ∨ n5.Tag = "outerBoundaryIs" then
                            some (some (dyn, 0, has_z, node))
                          else some none
                      else some none
                  else some none
          else some none
      else some none
  else if n0.Tag = "gml:innerBoundaryIs" ∨ n0.Tag = "innerBoundaryIs" then
    match node with
    | [] => some none
    | n1 :: node =>
      if n1.Tag = "gml:LinearRing" ∨ n1.Tag = "LinearRing" then
        match node with
        | [] => some none
        | n2 :: node =>
          if n2.Tag = "gml:coordinates" ∨ n2.Tag = "coordinates" then
            match gml_parse_coordinates atof n2.Coordinates [] 1 with
            | none => none
            | some none => some none
            | some (some (dyn, has_z)) =>
              match node with
              | [] => some none
              | n3 :: node =>
                if n3.Tag = "gml:coordinates" ∨ n3.Tag = "coordinates" then
                  match node with
                  | [] => some none
                  | n4 :: node =>
                    if n4.Tag = "gml:LinearRing" ∨ n4.Tag = "LinearRing" then
                      match node with
                      | [] => some none
                      | n5 :: node =>
                        if n5.Tag = "gml:innerBoundaryIs" ∨ n5.Tag = "innerBoundaryIs" then
                          some (some (dyn, 1, has_z, node))
                        else some none
                    else some none
                else some none
          else if n2.Tag = "gml:posList" ∨ n2.Tag = "posList" then
            match gml_get_srsDimension n2 with
            | none => none
            | some has_z =>
              match gml_parse_posList atof n2.Coordinates [] has_z with
              | none => some none
              | some dyn =>
                match node with
                | [] => some none
                | n3 :: node =>
                  if n3.Tag = "gml:posList" ∨ n3.Tag = "posList" then
                    match node with
                    | [] => some none
                    | n4 :: node =>
                      if n4.Tag = "gml:LinearRing" ∨ n4.Tag = "LinearRing" then
                        match node with
                        | [] => some none
                        | n5 :: node =>
                          if n5.Tag = "gml:innerBoundaryIs" ∨ n5.Tag = "innerBoundaryIs" then
                            some (some (dyn, 1, has_z, node))
                          else some none
                      else some none
                  else some none
          else some none
      else some none
  else if n0.Tag = "gml:exterior" ∨ n0.Tag = "exterior" then
    match node with
    | [] => some none
    | n1 :: node =>
      if n1.Tag = "gml:LinearRing" ∨ n1.Tag = "LinearRing" then
        match node with
        | [] => some none
        | n2 :: node =>
          if n2.Tag = "gml:posList" ∨ n2.Tag = "posList" then
            match gml_get_srsDimension n2 with
            | none => none
            | some has_z =>
              match gml_parse_posList atof n2.Coordinates [] has_z with
              | none => some none
              | some dyn =>
                match node with
                | [] => some none
                | n3 :: node =>
                  if n3.Tag = "gml:posList" ∨ n3.Tag = "posList" then
                    match node with
                    | [] => some none
                    | n4 :: node =>
                      if n4.Tag = "gml:LinearRing" ∨ n4.Tag = "LinearRing" then
                        match node with
                        | [] => some none
                        | n5 :: node =>
                          if n5.Tag = "gml:exterior" ∨ n5.Tag = "exterior" then
                            some (some (dyn, 0, has_z, node))
                          else some none
                      else some none
                  else some none
          else some none
      else some none
  else if n0.Tag = "gml:interior" ∨ n0.Tag = "interior" then
    match node with
    | [] => some none
    | n1 :: node =>
      if n1.Tag = "gml:LinearRing" ∨ n1.Tag = "LinearRing" then
        match node with
        | [] => some none
        | n2 :: node =>
          if n2.Tag = "gml:posList" ∨ n2.Tag = "posList" then
            match gml_get_srsDimension n2 with
            | none => none
            | some has_z =>
              match gml_parse_posList atof n2.Coordinates [] has_z with
              | none => some none
              | some dyn =>
                match node with
                | [] => some none
                | n3 :: node =>
                  if n3.Tag = "gml:posList" ∨ n3.Tag = "posList" then
                    match node with
                    | [] => some none
                    | n4 :: node =>
                      if n4.Tag = "gml:LinearRing" ∨ n4.Tag = "LinearRing" then
                        match node with
                        | [] => some none
                        | n5 :: node =>
                          if n5.Tag = "gml:interior" ∨ n5.Tag = "interior" then
                            some (some (dyn, 1, has_z, node))
                          else some none
                      else some none
                  else some none
          else some none
      else some none
  else some none

/-- The C function `gml_add_polygon_ring`: inserting a further ring into the
collection (dynamic polygon). -/
def gml_add_polygon_ring (dyn_pg : List (gmlDynamicRing R)) (dyn : List (gaiaPoint R))
    (interior has_z : Int) : List (gmlDynamicRing R) :=
  dyn_pg ++ [{ ring := dyn, interior := interior, has_z := has_z }]

/-- The test "checking if the ring is closed" of `gml_parse_polygon`:
`dyn->First` and `dyn->Last` are compared with `==` on `X` and `Y`, and on
`Z` when `has_z` is set. (The ring has 4 points or more when the test is
made, so both pointers are valid.) -/
def gml_parse_polygon.closed (dyn : List (gaiaPoint R)) (has_z : Int) : Bool :=
  match dyn.head?, dyn.getLast? with
  | some first, some last =>
    if has_z ≠ 0 then
      decide (first.X = last.X ∧ first.Y = last.Y ∧ first.Z = last.Z)
    else decide (first.X = last.X ∧ first.Y = last.Y)
  | _, _ => false

/-- The loop `while (n)` of `gml_parse_polygon` ("looping on rings"). The
arguments after the node are the dynamic polygon and the caller's variable
`*next_n`, which is assigned only when the loop meets the tag `Polygon`
(`none`: not assigned yet). Every ring takes at least one node, so the loop
makes at most as many iterations as there are nodes; the first argument
bounds them. -/
def gml_parse_polygon.rings (atof : List Char → R) :
    Nat → List gmlNode → List (gmlDynamicRing R) → Option (List gmlNode) →
      Option (Option (List (gmlDynamicRing R) × Option (List gmlNode)))
  | _, [], dyn_pg, next_n => some (some (dyn_pg, next_n))
  | 0, _ :: _, _, _ => none
  | fuel + 1, n :: n_next, dyn_pg, next_n =>
    if n.Tag = "gml:Polygon" ∨ n.Tag = "Polygon" then some (some (dyn_pg, some n_next))
    else
      match gml_parse_ring atof n n_next with
      | none => none
      | some none => some none
      | some (some (dyn, interior, has_z, next)) =>
        if gml_count_dyn_points dyn < 4 then some none
        else if gml_parse_polygon.closed dyn has_z then
          gml_parse_polygon.rings atof fuel next
            (gml_add_polygon_ring dyn_pg dyn interior has_z) next_n
        else some none

/-- The loop "verifying the rings collection" of `gml_parse_polygon`. The
arguments and the result are `inners`, `outers`, `has_z`, `points` and
`exterior_ring`. -/
def gml_parse_polygon.verify :
    List (gmlDynamicRing R) → Nat → Nat → Int → Nat → List (gaiaPoint R) →
      Nat × Nat × Int × Nat × List (gaiaPoint R)
  | [], inners, outers, has_z, points, exterior_ring =>
    (inners, outers, has_z, points, exterior_ring)
  | dyn_rng :: next, inners, outers, has_z, points, exterior_ring =>
    let has_z := if dyn_rng.has_z = 0 then 0 else has_z
    if dyn_rng.interior ≠ 0 then
      gml_parse_polygon.verify next (inners + 1) outers has_z points exterior_ring
    else
      gml_parse_polygon.verify next inners (outers + 1) has_z
        (gml_count_dyn_points dyn_rng.ring) dyn_rng.ring

/-- The loop "initializing any INTERIOR RING" of the 3D branch of
`gml_parse_polygon`; `ib` is the index of the next interior ring. -/
def gml_parse_polygon.interiorsXYZ :
    List (gmlDynamicRing R) → Nat → gaiaPolygon R → gaiaPolygon R
  | [], _, new_pg => new_pg
  | dyn_rng :: next, ib, new_pg =>
    if dyn_rng.interior = 0 then gml_parse_polygon.interiorsXYZ next ib new_pg
    else
      let points := gml_count_dyn_points dyn_rng.ring
      let ring := gaiaAddInteriorRing.ring new_pg points
      let ring := { ring with Coords := gml_parse_linestring.fillXYZ dyn_rng.ring 0 ring.Coords }
      gml_parse_polygon.interiorsXYZ next (ib + 1)
        { new_pg with Interiors := new_pg.Interiors.set ib ring }

/-- The loop "initializing any INTERIOR RING" of the 2D branch of
`gml_parse_polygon`; `ib` is the index of the next interior ring. -/
def gml_parse_polygon.interiors :
    List (gmlDynamicRing R) → Nat → gaiaPolygon R → gaiaPolygon R
  | [], _, new_pg => new_pg
  | dyn_rng :: next, ib, new_pg =>
    if dyn_rng.interior = 0 then gml_parse_polygon.interiors next ib new_pg
    else
      let points := gml_count_dyn_points dyn_rng.ring
      let ring := gaiaAddInteriorRing.ring new_pg points
      let ring := { ring with Coords := gml_parse_linestring.fill dyn_rng.ring 0 ring.Coords }
      gml_parse_polygon.interiors next (ib + 1)
        { new_pg with Interiors := new_pg.Interiors.set ib ring }

/-- The part of `gml_parse_polygon` that follows the loop on rings, from
"ok, GML nodes match as expected" on: the rings are counted, the polygon
geometry is built and linked after the last geometry of the chain; `none` is
`goto error`. -/
def gml_parse_polygon.build (geom : List (gaiaGeomColl R)) (srid : Int)
    (dyn_pg : List (gmlDynamicRing R)) : Option (List (gaiaGeomColl R)) :=
  let (inners, outers, has_z, points, exterior_ring) :=
    gml_parse_polygon.verify dyn_pg 0 0 1 0 []
  if outers ≠ 1 then none
  else if has_z ≠ 0 then
    let pg : gaiaGeomColl R := gaiaAllocGeomCollXYZ
    let pg := { pg with Srid := srid }
    let new_pg := gaiaAddPolygonToGeomColl.alloc pg points inners
    let ring := new_pg.Exterior
    let ring := { ring with Coords := gml_parse_linestring.fillXYZ exterior_ring 0 ring.Coords }
    let new_pg := { new_pg with Exterior := ring }
    let new_pg := gml_parse_polygon.interiorsXYZ dyn_pg 0 new_pg
    let pg := gaiaAddPolygonToGeomColl.link pg new_pg
    some (geom ++ [pg])
  else
    let pg : gaiaGeomColl R := gaiaAllocGeomColl
    let pg := { pg with Srid := srid }
    let new_pg := gaiaAddPolygonToGeomColl.alloc pg points inners
    let ring := new_pg.Exterior
    let ring := { ring with Coords := gml_parse_linestring.fill exterior_ring 0 ring.Coords }
    let new_pg := { new_pg with Exterior := ring }
    let new_pg := gml_parse_polygon.interiors dyn_pg 0 new_pg
    let pg := gaiaAddPolygonToGeomColl.link pg new_pg
    some (geom ++ [pg])

/-- The C function `gml_parse_polygon`: parsing a `<gml:Polygon>`. The last
argument is the caller's variable `*next_n` before the call (`none`: never
assigned); the result is the chain and `*next_n` after the call. -/
def gml_parse_polygon (atof : List Char → R) (geom : List (gaiaGeomColl R))
    (node : List gmlNode) (srid : Int) (next_n : Option (List gmlNode)) :
    Option (Option (List (gaiaGeomColl R) × Option (List gmlNode))) :=
  match gml_parse_polygon.rings atof node.length node [] next_n with
  | none => none
  | some none => some none
  | some (some (dyn_pg, next_n)) =>
    match gml_parse_polygon.build geom srid dyn_pg with
    | none => some none
    | some geom => some (some (geom, next_n))

/-- The loop `while (n)` of `gml_parse_multi_point` ("looping on Point Members").
Every iteration takes at least one node; the first argument bounds the
number of iterations. -/
def gml_parse_multi_point.loop (atof : List Char → R) :
    Nat → List (gaiaGeomColl R) → List gmlNode → Option (Option (List (gaiaGeomColl R)))
  | _, geom, [] => some (some geom)
  | 0, _, _ :: _ => none
  | fuel + 1, geom, n0 :: n =>
    match n with
    | [] =>
      if n0.Tag = "gml:MultiPoint" ∨ n0.Tag = "MultiPoint" then some (some geom)
      else some none
    | n1 :: n =>
      if n0.Tag = "gml:pointMember" ∨ n0.Tag = "pointMember" then
        if n1.Tag = "gml:Point" ∨ n1.Tag = "Point" then
          match guessGmlSrid n1 with
          | none => none
          | some srid =>
            match n with
            | [] => some none
            | _ :: _ =>
              match gml_parse_point atof geom n srid with
              | none => none
              | some none => some none
              | some (some (geom, next)) =>
                match next with
                | [] => some none
                | n2 :: n =>
                  if n2.Tag = "gml:pointMember" ∨ n2.Tag = "pointMember" then
                    gml_parse_multi_point.loop atof fuel geom n
                  else some none
        else some none
      else some none

/-- The C function `gml_parse_multi_point`: parsing a `<gml:MultiPoint>`; `some none`
is `return 0`, a chain is `return 1`. -/
def gml_parse_multi_point (atof : List Char → R) (geom : List (gaiaGeomColl R))
    (node : List gmlNode) : Option (Option (List (gaiaGeomColl R))) :=
  gml_parse_multi_point.loop atof node.length geom node

/-- The loop `while (n)` of `gml_parse_multi_linestring` ("looping on LineString Members").
Every iteration takes at least one node; the first argument bounds the
number of iterations. -/
def gml_parse_multi_linestring.loop (atof : List Char → R) :
    Nat → List (gaiaGeomColl R) → List gmlNode → Option (Option (List (gaiaGeomColl R)))
  | _, geom, [] => some (some geom)
  | 0, _, _ :: _ => none
  | fuel + 1, geom, n0 :: n =>
    match n with
    | [] =>
      if n0.Tag = "gml:MultiLineString" ∨ n0.Tag = "MultiLineString" then some (some geom)
      else some none
    | n1 :: n =>
      if n0.Tag = "gml:lineStringMember" ∨ n0.Tag = "lineStringMember" then
        if n1.Tag = "gml:LineString" ∨ n1.Tag = "LineString" then
          match guessGmlSrid n1 with
          | none => none
          | some srid =>
            match n with
            | [] => some none
            | _ :: _ =>
              match gml_parse_linestring atof geom n srid with
              | none => none
              | some none => some none
              | some (some (geom, next)) =>
                match next with
                | [] => some none
                | n2 :: n =>
                  if n2.Tag = "gml:lineStringMember" ∨ n2.Tag = "lineStringMember" then
                    gml_parse_multi_linestring.loop atof fuel geom n
                  else some none
        else some none
      else some none

/-- The C function `gml_parse_multi_linestring`: parsing a `<gml:MultiLineString>`; `some none`
is `return 0`, a chain is `return 1`. -/
def gml_parse_multi_linestring (atof : List Char → R) (geom : List (gaiaGeomColl R))
    (node : List gmlNode) : Option (Option (List (gaiaGeomColl R))) :=
  gml_parse_multi_linestring.loop atof node.length geom node

/-- The loop `while (n)` of `gml_parse_multi_curve` ("looping on Curve Members").
Every iteration takes at least one node; the first argument bounds the
number of iterations. -/
def gml_parse_multi_curve.loop (atof : List Char → R) :
    Nat → List (gaiaGeomColl R) → List gmlNode → Option (Option (List (gaiaGeomColl R)))
  | _, geom, [] => some (some geom)
  | 0, _, _ :: _ => none
  | fuel + 1, geom, n0 :: n =>
    match n with
    | [] =>
      if n0.Tag = "gml:MultiCurve" ∨ n0.Tag = "MultiCurve" then some (some geom)
      else some none
    | n1 :: n =>
      if n0.Tag = "gml:curveMember" ∨ n0.Tag = "curveMember" then
        if n1.Tag = "gml:Curve" ∨ n1.Tag = "Curve" then
          match guessGmlSrid n1 with
          | none => none
          | some srid =>
            match n with
            | [] => some none
            | _ :: _ =>
              match gml_parse_curve atof geom n srid with
              | none => none
              | some none => some none
              | some (some (geom, next)) =>
                match next with
                | [] => some none
                | n2 :: n =>
                  if n2.Tag = "gml:curveMember" ∨ n2.Tag = "curveMember" then
                    gml_parse_multi_curve.loop atof fuel geom n
                  else some none
        else some none
      else some none

/-- The C function `gml_parse_multi_curve`: parsing a `<gml:MultiCurve>`; `some none`
is `return 0`, a chain is `return 1`. -/
def gml_parse_multi_curve (atof : List Char → R) (geom : List (gaiaGeomColl R))
    (node : List gmlNode) : Option (Option (List (gaiaGeomColl R))) :=
  gml_parse_multi_curve.loop atof node.length geom node

/-- The loop `while (n)` of `gml_parse_multi_polygon` ("looping on Polygon Members").
The last argument is the local variable `next` (`none`: never assigned):
`gml_parse_polygon` may return 1 without assigning it, and `n = next` then
reads a variable never assigned (`none`) or the value left by the previous
iteration, from which the loop parses the same member again and again. The
first argument bounds the number of iterations: a run that terminates makes
at most as many iterations as there are nodes. -/
def gml_parse_multi_polygon.loop (atof : List Char → R) :
    Nat → List (gaiaGeomColl R) → List gmlNode → Option (List gmlNode) →
      Option (Option (List (gaiaGeomColl R)))
  | _, geom, [], _ => some (some geom)
  | 0, _, _ :: _, _ => none
  | fuel + 1, geom, n0 :: n, next =>
    match n with
    | [] =>
      if n0.Tag = "gml:MultiPolygon" ∨ n0.Tag = "MultiPolygon" then some (some geom)
      else some none
    | n1 :: n =>
      if n0.Tag = "gml:polygonMember" ∨ n0.Tag = "polygonMember" then
        if n1.Tag = "gml:Polygon" ∨ n1.Tag = "Polygon" then
          match guessGmlSrid n1 with
          | none => none
          | some srid =>
            match n with
            | [] => some none
            | _ :: _ =>
              match gml_parse_polygon atof geom n srid next with
              | none => none
              | some none => some none
              | some (some (geom, next)) =>
                match next with
                | none => none
                | some [] => some none
                | some (n2 :: n) =>
                  if n2.Tag = "gml:polygonMember" ∨ n2.Tag = "polygonMember" then
                    gml_parse_multi_polygon.loop atof fuel geom n next
                  else some none
        else some none
      else some none

/-- The C function `gml_parse_multi_polygon`: parsing a `<gml:MultiPolygon>`; `some none`
is `return 0`, a chain is `return 1`. -/
def gml_parse_multi_polygon (atof : List Char → R) (geom : List (gaiaGeomColl R))
    (node : List gmlNode) : Option (Option (List (gaiaGeomColl R))) :=
  gml_parse_multi_polygon.loop atof node.length geom node none

/-- The loop `while (n)` of `gml_parse_multi_surface` ("looping on Surface Members").
The last argument is the local variable `next` (`none`: never assigned):
`gml_parse_polygon` may return 1 without assigning it, and `n = next` then
reads a variable never assigned (`none`) or the value left by the previous
iteration, from which the loop parses the same member again and again. The
first argument bounds the number of iterations: a run that terminates makes
at most as many iterations as there are nodes. -/
def gml_parse_multi_surface.loop (atof : List Char → R) :
    Nat → List (gaiaGeomColl R) → List gmlNode → Option (List gmlNode) →
      Option (Option (List (gaiaGeomColl R)))
  | _, geom, [], _ => some (some geom)
  | 0, _, _ :: _, _ => none
  | fuel + 1, geom, n0 :: n, next =>
    match n with
    | [] =>
      if n0.Tag = "gml:MultiSurface" ∨ n0.Tag = "MultiSurface" then some (some geom)
      else some none
    | n1 :: n =>
      if n0.Tag = "gml:surfaceMember" ∨ n0.Tag = "surfaceMember" then
        if n1.Tag = "gml:Polygon" ∨ n1.Tag = "Polygon" then
          match guessGmlSrid n1 with
          | none => none
          | some srid =>
            match n with
            | [] => some none
            | _ :: _ =>
              match gml_parse_polygon atof geom n srid next with
              | none => none
              | some none => some none
              | some (some (geom, next)) =>
                match next with
                | none => none
                | some [] => some none
                | some (n2 :: n) =>
                  if n2.Tag = "gml:surfaceMember" ∨ n2.Tag = "surfaceMember" then
                    gml_parse_multi_surface.loop atof fuel geom n next
                  else some none
        else some none
      else some none

/-- The C function `gml_parse_multi_surface`: parsing a `<gml:MultiSurface>`; `some none`
is `return 0`, a chain is `return 1`. -/
def gml_parse_multi_surface (atof : List Char → R) (geom : List (gaiaGeomColl R))
    (node : List gmlNode) : Option (Option (List (gaiaGeomColl R))) :=
  gml_parse_multi_surface.loop atof node.length geom node none

/-- The `if … else if …` of `gml_parse_multi_geometry` on the tag of the
member geometry `n1`, up to the assignment `n = next`; `n` is `n1->Next`. The
result is the chain and the local variable `next`. -/
def gml_parse_multi_geometry.member (atof : List Char → R) (geom : List (gaiaGeomColl R))
    (n1 : gmlNode) (n : List gmlNode) (next : Option (List gmlNode)) :
    Option (Option (List (gaiaGeomColl R) × Option (List gmlNode))) :=
  if n1.Tag = "gml:Point" ∨ n1.Tag = "Point" then
    match guessGmlSrid n1 with
    | none => none
    | some srid =>
      match n with
      | [] => some none
      | _ :: _ =>
        match gml_parse_point atof geom n srid with
        | none => none
        | some none => some none
        | some (some (geom, next)) => some (some (geom, some next))
  else if n1.Tag = "gml:LineString" ∨ n1.Tag = "LineString" then
    match guessGmlSrid n1 with
    | none => none
    | some srid =>
      match n with
      | [] => some none
      | _ :: _ =>
        match gml_parse_linestring atof geom n srid with
        | none => none
        | some none => some none
        | some (some (geom, next)) => some (some (geom, some next))
  else if n1.Tag = "gml:Curve" ∨ n1.Tag = "Curve" then
    match guessGmlSrid n1 with
    | none => none
    | some srid =>
      match n with
      | [] => some none
      | _ :: _ =>
        match gml_parse_curve atof geom n srid with
        | none => none
        | some none => some none
        | some (some (geom, next)) => some (some (geom, some next))
  else if n1.Tag = "gml:Polygon" ∨ n1.Tag = "Polygon" then
    match guessGmlSrid n1 with
    | none => none
    | some srid =>
      match n with
      | [] => some none
      | _ :: _ => gml_parse_polygon atof geom n srid next
  else some none

/-- The loop `while (n)` of `gml_parse_multi_geometry` ("looping on Geometry
Members"). The last argument is the local variable `next` (`none`: never
assigned), which `gml_parse_polygon` may leave as it was. The first argument
bounds the number of iterations: a run that terminates makes at most as many
iterations as there are nodes. -/
def gml_parse_multi_geometry.loop (atof : List Char → R) :
    Nat → List (gaiaGeomColl R) → List gmlNode → Option (List gmlNode) →
      Option (Option (List (gaiaGeomColl R)))
  | _, geom, [], _ => some (some geom)
  | 0, _, _ :: _, _ => none
  | fuel + 1, geom, n0 :: n, next =>
    match n with
    | [] =>
      if n0.Tag = "gml:MultiGeometry" ∨ n0.Tag = "MultiGeometry" then some (some geom)
      else some none
    | n1 :: n =>
      if n0.Tag = "gml:geometryMember" ∨ n0.Tag = "geometryMember" then
        match gml_parse_multi_geometry.member atof geom n1 n next with
        | none => none
        | some none => some none
        | some (some (geom, next)) =>
          match next with
          | none => none
          | some [] => some none
          | some (n2 :: n) =>
            if n2.Tag = "gml:geometryMember" ∨ n2.Tag = "geometryMember" then
              gml_parse_multi_geometry.loop atof fuel geom n next
            else some none
      else some none

/-- The C function `gml_parse_multi_geometry`: parsing a
`<gml:MultiGeometry>`; `some none` is `return 0`, a chain is `return 1`. -/
def gml_parse_multi_geometry (atof : List Char → R) (geom : List (gaiaGeomColl R))
    (node : List gmlNode) : Option (Option (List (gaiaGeomColl R))) :=
  gml_parse_multi_geometry.loop atof node.length geom node none

/-! ## Validation of the chain and the geometry builder

The database handle `sqlite3 *` is an `Option S`; the query made by
`gml_proj_params` and the reprojection `gaiaTransform` (`gg_transform.c`) are
parameters of the embedding. PROJ.4 is taken to be available (`OMIT_PROJ` is
not defined). -/

/-- The first loop `while (g)` of `gml_validate_geometry`. The first argument
tells whether `g == chain`; the other arguments and the result are `xy`,
`xyz`, `pts`, `lns`, `pgs`, `save_pt`, `save_ln` and `save_pg`. Each inner
loop adds the length of a list to its counter and leaves the last cell of
the list, if any, in its `save_` variable. -/
def gml_validate_geometry.count :
    Bool → List (gaiaGeomColl R) → Nat → Nat → Nat → Nat → Nat →
      Option (gaiaPoint R) → Option (gaiaLinestring R) → Option (gaiaPolygon R) →
      Nat × Nat × Nat × Nat × Nat ×
        Option (gaiaPoint R) × Option (gaiaLinestring R) × Option (gaiaPolygon R)
  | _, [], xy, xyz, pts, lns, pgs, save_pt, save_ln, save_pg =>
    (xy, xyz, pts, lns, pgs, save_pt, save_ln, save_pg)
  | is_chain, g :: next, xy, xyz, pts, lns, pgs, save_pt, save_ln, save_pg =>
    let xy := if !is_chain ∧ g.DimensionModel = GAIA_XY then xy + 1 else xy
    let xyz := if !is_chain ∧ g.DimensionModel = GAIA_XY_Z then xyz + 1 else xyz
    let pts := pts + g.FirstPoint.length
    let save_pt := match g.FirstPoint.getLast? with
      | some pt => some pt
      | none => save_pt
    let lns := lns + g.FirstLinestring.length
    let save_ln := match g.FirstLinestring.getLast? with
      | some ln => some ln
      | none => save_ln
    let pgs := pgs + g.FirstPolygon.length
    let save_pg := match g.FirstPolygon.getLast? with
      | some pg => some pg
      | none => save_pg
    gml_validate_geometry.count false next xy xyz pts lns pgs save_pt save_ln save_pg

/-- The block "we'll try to apply a reprojection" of the merging loops of
`gml_validate_geometry`: the geometry `g2` whose primitives are copied. -/
def gml_validate_geometry.reproject {S : Type} (sqlite_handle : Option S)
    (gml_proj_params : S → Int → List Char)
    (gaiaTransform : gaiaGeomColl R → List Char → List Char → Option (gaiaGeomColl R))
    (geom g : gaiaGeomColl R) : gaiaGeomColl R :=
  match sqlite_handle with
  | none => g
  | some sqlite =>
    if g.Srid ≠ geom.Srid ∧ g.Srid ≠ -1 then
      let proj_from := gml_proj_params sqlite g.Srid
      let proj_to := gml_proj_params sqlite geom.Srid
      if proj_to = [] ∨ proj_from = [] then g
      else
        match gaiaTransform g proj_from proj_to with
        | none => g
        | some g2 => g2
    else g

/-- The loop `while (pt)` of the 2D merging loops of
`gml_validate_geometry`. -/
def gml_validate_geometry.points : List (gaiaPoint R) → gaiaGeomColl R → gaiaGeomColl R
  | [], geom => geom
  | pt :: next, geom =>
    gml_validate_geometry.points next (gaiaAddPointToGeomColl geom pt.X pt.Y)

/-- The loop `while (pt)` of the 3D merging loops of
`gml_validate_geometry`. -/
def gml_validate_geometry.pointsXYZ : List (gaiaPoint R) → gaiaGeomColl R → gaiaGeomColl R
  | [], geom => geom
  | pt :: next, geom =>
    gml_validate_geometry.pointsXYZ next (gaiaAddPointToGeomCollXYZ geom pt.X pt.Y pt.Z)

/-- The loop `while (ln)` of the merging loops of `gml_validate_geometry`. -/
def gml_validate_geometry.linestrings :
    List (gaiaLinestring R) → gaiaGeomColl R → gaiaGeomColl R
  | [], geom => geom
  | ln :: next, geom =>
    let save_ln := gaiaAddLinestringToGeomColl.alloc geom ln.Points
    let save_ln := gaiaCopyLinestringCoords save_ln ln
    gml_validate_geometry.linestrings next (gaiaAddLinestringToGeomColl.link geom save_ln)

/-- The loop `for (ib = 0; ib < pg->NumInteriors; ib++)` of
`gml_validate_geometry`: `n` iterations are left, `ib` is the loop counter,
`pg` the source polygon. -/
def gml_validate_geometry.interiors (pg : gaiaPolygon R) :
    Nat → Nat → gaiaPolygon R → gaiaPolygon R
  | 0, _, save_pg => save_pg
  | n + 1, ib, save_pg =>
    match pg.Interiors[ib]? with
    | none => save_pg
    | some i_ring =>
      let o_ring := gaiaAddInteriorRing.ring save_pg i_ring.Points
      let o_ring := gaiaCopyRingCoords o_ring i_ring
      gml_validate_geometry.interiors pg n (ib + 1)
        { save_pg with Interiors := save_pg.Interiors.set ib o_ring }

/-- The copy of one polygon into `geom` made by `gml_validate_geometry`, in
the POLYGON branch and in the body of the loops `while (pg)`. -/
def gml_validate_geometry.polygon (pg : gaiaPolygon R) (geom : gaiaGeomColl R) :
    gaiaGeomColl R :=
  let i_ring := pg.Exterior
  let save_pg := gaiaAddPolygonToGeomColl.alloc geom i_ring.Points pg.NumInteriors
  let o_ring := save_pg.Exterior
  let save_pg := { save_pg with Exterior := gaiaCopyRingCoords o_ring i_ring }
  let save_pg := gml_validate_geometry.interiors pg pg.NumInteriors 0 save_pg
  gaiaAddPolygonToGeomColl.link geom save_pg

/-- The loop `while (pg)` of the merging loops of `gml_validate_geometry`. -/
def gml_validate_geometry.polygons :
    List (gaiaPolygon R) → gaiaGeomColl R → gaiaGeomColl R
  | [], geom => geom
  | pg :: next, geom =>
    gml_validate_geometry.polygons next (gml_validate_geometry.polygon pg geom)

/-- The merging loops `while (g)` of `gml_validate_geometry`. The ten loops of
the C function have the same text up to the inner loops they contain: the
flags `pts`, `lns`, `pgs` tell which of the loops on points, linestrings and
polygons the loop has, and `xyz` whether the loop on points is the 3D one. -/
def gml_validate_geometry.merge {S : Type} (sqlite_handle : Option S)
    (gml_proj_params : S → Int → List Char)
    (gaiaTransform : gaiaGeomColl R → List Char → List Char → Option (gaiaGeomColl R))
    (pts lns pgs xyz : Bool) : List (gaiaGeomColl R) → gaiaGeomColl R → gaiaGeomColl R
  | [], geom => geom
  | g :: next, geom =>
    let geom := if geom.Srid = -1 then { geom with Srid := g.Srid } else geom
    let g2 := gml_validate_geometry.reproject sqlite_handle gml_proj_params gaiaTransform geom g
    let geom :=
      if pts then
        if xyz then gml_validate_geometry.pointsXYZ g2.FirstPoint geom
        else gml_validate_geometry.points g2.FirstPoint geom
      else geom
    let geom := if lns then gml_validate_geometry.linestrings g2.FirstLinestring geom else geom
    let geom := if pgs then gml_validate_geometry.polygons g2.FirstPolygon geom else geom
    gml_validate_geometry.merge sqlite_handle gml_proj_params gaiaTransform pts lns pgs xyz
      next geom

/-- The allocation that opens every branch of `gml_validate_geometry`: a 2D
geometry when `xy > 0`, a 3D one otherwise, with the SRID of the head of the
chain and the given declared type. -/
def gml_validate_geometry.alloc (xy : Nat) (srid declared : Int) : gaiaGeomColl R :=
  if xy > 0 then
    let geom : gaiaGeomColl R := gaiaAllocGeomColl
    { geom with Srid := srid, DeclaredType := declared }
  else
    let geom : gaiaGeomColl R := gaiaAllocGeomCollXYZ
    { geom with Srid := srid, DeclaredType := declared }

/-- The C function `gml_validate_geometry`; `none` is `return NULL`. -/
def gml_validate_geometry {S : Type} (sqlite_handle : Option S)
    (gml_proj_params : S → Int → List Char)
    (gaiaTransform : gaiaGeomColl R → List Char → List Char → Option (gaiaGeomColl R))
    (chain : List (gaiaGeomColl R)) : Option (gaiaGeomColl R) :=
  let (xy, _, pts, lns, pgs, save_pt, save_ln, save_pg) :=
    gml_validate_geometry.count true chain 0 0 0 0 0 none none none
  match chain with
  | [] => none
  | head :: _ =>
    if pts = 1 ∧ lns = 0 ∧ pgs = 0 then
      let declared :=
        if head.DeclaredType = GAIA_MULTIPOINT then GAIA_MULTIPOINT
        else if head.DeclaredType = GAIA_GEOMETRYCOLLECTION then GAIA_GEOMETRYCOLLECTION
        else GAIA_POINT
      let geom : gaiaGeomColl R := gml_validate_geometry.alloc xy head.Srid declared
      match save_pt with
      | none => none
      | some save_pt =>
        if xy > 0 then some (gaiaAddPointToGeomColl geom save_pt.X save_pt.Y)
        else some (gaiaAddPointToGeomCollXYZ geom save_pt.X save_pt.Y save_pt.Z)
    else if pts = 0 ∧ lns = 1 ∧ pgs = 0 then
      let declared :=
        if head.DeclaredType = GAIA_MULTILINESTRING then GAIA_MULTILINESTRING
        else if head.DeclaredType = GAIA_GEOMETRYCOLLECTION then GAIA_GEOMETRYCOLLECTION
        else GAIA_LINESTRING
      let geom : gaiaGeomColl R := gml_validate_geometry.alloc xy head.Srid declared
      match save_ln with
      | none => none
      | some save_ln =>
        let ln := gaiaAddLinestringToGeomColl.alloc geom save_ln.Points
        let ln := gaiaCopyLinestringCoords ln save_ln
        some (gaiaAddLinestringToGeomColl.link geom ln)
    else if pts = 0 ∧ lns = 0 ∧ pgs = 1 then
      let declared :=
        if head.DeclaredType = GAIA_MULTIPOLYGON then GAIA_MULTIPOLYGON
        else if head.DeclaredType = GAIA_GEOMETRYCOLLECTION then GAIA_GEOMETRYCOLLECTION
        else GAIA_POLYGON
      let geom : gaiaGeomColl R := gml_validate_geometry.alloc xy head.Srid declared
      match save_pg with
      | none => none
      | some save_pg => some (gml_validate_geometry.polygon save_pg geom)
    else if pts ≥ 1 ∧ lns = 0 ∧ pgs = 0 then
      let declared :=
        if head.DeclaredType = GAIA_GEOMETRYCOLLECTION then GAIA_GEOMETRYCOLLECTION
        else GAIA_MULTIPOINT
      let geom : gaiaGeomColl R := gml_validate_geometry.alloc xy head.Srid declared
      some (gml_validate_geometry.merge sqlite_handle gml_proj_params gaiaTransform
        true false false (decide (¬ xy > 0)) chain geom)
    else if pts = 0 ∧ lns ≥ 1 ∧ pgs = 0 then
      let declared :=
        if head.DeclaredType = GAIA_GEOMETRYCOLLECTION then GAIA_GEOMETRYCOLLECTION
        else GAIA_MULTILINESTRING
      let geom : gaiaGeomColl R := gml_validate_geometry.alloc xy head.Srid declared
      some (gml_validate_geometry.merge sqlite_handle gml_proj_params gaiaTransform
        false true false (decide (¬ xy > 0)) chain geom)
    else if pts = 0 ∧ lns = 0 ∧ pgs ≥ 1 then
      let declared :=
        if head.DeclaredType = GAIA_GEOMETRYCOLLECTION then GAIA_GEOMETRYCOLLECTION
        else GAIA_MULTIPOLYGON
      let geom : gaiaGeomColl R := gml_validate_geometry.alloc xy head.Srid declared
      some (gml_validate_geometry.merge sqlite_handle gml_proj_params gaiaTransform
        false false true (decide (¬ xy > 0)) chain geom)
    else if pts + lns + pgs > 0 then
      let geom : gaiaGeomColl R :=
        gml_validate_geometry.alloc xy head.Srid GAIA_GEOMETRYCOLLECTION
      some (gml_validate_geometry.merge sqlite_handle gml_proj_params gaiaTransform
        true true true (decide (¬ xy > 0)) chain geom)
    else none

/-- The `switch (geom_type)` of `gml_build_geometry`: the chain left by the
parser of the declared GML type, headed by the main geometry `geom`;
`some none` is `goto error`. `tree_next` is `tree->Next`. In the case of a
Polygon the variable `next`, which has no initial value, is read after the
call. -/
def gml_build_geometry.parse (atof : List Char → R) (geom_type : Int)
    (geom : gaiaGeomColl R) (tree_next : List gmlNode) :
    Option (Option (List (gaiaGeomColl R))) :=
  if geom_type = GAIA_GML_POINT then
    let geom := { geom with DeclaredType := GAIA_POINT }
    match gml_parse_point atof [geom] tree_next geom.Srid with
    | none => none
    | some none => some none
    | some (some (chain, _)) => some (some chain)
  else if geom_type = GAIA_GML_LINESTRING then
    let geom := { geom with DeclaredType := GAIA_LINESTRING }
    match gml_parse_linestring atof [geom] tree_next geom.Srid with
    | none => none
    | some none => some none
    | some (some (chain, _)) => some (some chain)
  else if geom_type = GAIA_GML_CURVE then
    let geom := { geom with DeclaredType := GAIA_LINESTRING }
    match gml_parse_curve atof [geom] tree_next geom.Srid with
    | none => none
    | some none => some none
    | some (some (chain, _)) => some (some chain)
  else if geom_type = GAIA_GML_POLYGON then
    let geom := { geom with DeclaredType := GAIA_POLYGON }
    match gml_parse_polygon atof [geom] tree_next geom.Srid none with
    | none => none
    | some none => some none
    | some (some (chain, next)) =>
      match next with
      | none => none
      | some [] => some (some chain)
      | some (_ :: _) => some none
  else if geom_type = GAIA_GML_MULTIPOINT then
    let geom := { geom with DeclaredType := GAIA_MULTIPOINT }
    gml_parse_multi_point atof [geom] tree_next
  else if geom_type = GAIA_GML_MULTILINESTRING then
    let geom := { geom with DeclaredType := GAIA_MULTILINESTRING }
    gml_parse_multi_linestring atof [geom] tree_next
  else if geom_type = GAIA_GML_MULTICURVE then
    let geom := { geom with DeclaredType := GAIA_MULTILINESTRING }
    gml_parse_multi_curve atof [geom] tree_next
  else if geom_type = GAIA_GML_MULTIPOLYGON then
    let geom := { geom with DeclaredType := GAIA_MULTIPOLYGON }
    gml_parse_multi_polygon atof [geom] tree_next
  else if geom_type = GAIA_GML_MULTISURFACE then
    let geom := { geom with DeclaredType := GAIA_MULTIPOLYGON }
    gml_parse_multi_surface atof [geom] tree_next
  else if geom_type = GAIA_GML_MULTIGEOMETRY then
    let geom := { geom with DeclaredType := GAIA_GEOMETRYCOLLECTION }
    gml_parse_multi_geometry atof [geom] tree_next
  else some (some [geom])

/-- The C function `gml_build_geometry`: attempting to build a geometry from
GML nodes. The inner `none` is `return NULL`; the outer `none` is a run whose
behaviour is undefined or that does not terminate. -/
def gml_build_geometry {S : Type} (atof : List Char → R) (sqlite_handle : Option S)
    (gml_proj_params : S → Int → List Char)
    (gaiaTransform : gaiaGeomColl R → List Char → List Char → Option (gaiaGeomColl R))
    (tree : List gmlNode) : Option (Option (gaiaGeomColl R)) :=
  match tree with
  | [] => some none
  | t :: tree_next =>
    let geom_type := guessGmlGeometryType t
    if geom_type = GAIA_GML_UNKNOWN then some none
    else
      match guessGmlSrid t with
      | none => none
      | some srid =>
        let geom : gaiaGeomColl R := gaiaAllocGeomColl
        let geom := { geom with Srid := srid }
        match gml_build_geometry.parse atof geom_type geom tree_next with
        | none => none
        | some none => some none
        | some (some chain) =>
          match gml_validate_geometry sqlite_handle gml_proj_params gaiaTransform chain with
          | none => some none
          | some result => some (some result)

/-! ## The entry point `gaiaParseGml`

The tokenizer (`lex.Gml.c`, generated by Flex) and the parser (`Gml.c`,
generated by Lemon) are not among the sources; they are parameters of the
embedding. -/

/-- The three results of one call `Parse (pParser, yv, &value, &result)` of
the Lemon parser: its new state, the new value of `result` (the list of
nodes; the empty list is `NULL`), and whether the call raised a syntax error,
which sets the flag `gml_parse_error` to 1. -/
abbrev GmlParse (P : Type) : Type :=
  P → Int → Option (List Char) → List gmlNode → P × List gmlNode × Bool

/-- The loop `while ((yv = yylex ()) != 0)` of `gaiaParseGml`. The list is the
stream of the successive results of `yylex`, each with the value of
`GmlLval.pval` after the call; the three other arguments are `pParser`,
`result` and the flag `gml_parse_error`. -/
def gaiaParseGml.loop {P : Type} (Parse : GmlParse P) :
    List (Int × Option (List Char)) → P → List gmlNode → Int → P × List gmlNode × Int
  | [], pParser, result, gml_parse_error => (pParser, result, gml_parse_error)
  | (yv, pval) :: rest, pParser, result, gml_parse_error =>
    if yv = 0 then (pParser, result, gml_parse_error)
    else if yv = -1 then (pParser, result, 1)
    else
      let (pParser, result, failed) := Parse pParser yv pval result
      gaiaParseGml.loop Parse rest pParser result (if failed then 1 else gml_parse_error)

/-- The parsing part of `gaiaParseGml`, from `gml_parse_error = 0` to the
final `Parse (pParser, GML_NEWLINE, 0, &result)`: the pair of `result` and of
the flag `gml_parse_error` it leaves. -/
def gaiaParseGml.drive {P : Type} (ParseAlloc : P) (Parse : GmlParse P)
    (GML_NEWLINE : Int) (tokens : List (Int × Option (List Char))) : List gmlNode × Int :=
  let (pParser, result, gml_parse_error) := gaiaParseGml.loop Parse tokens ParseAlloc [] 0
  let (_, result, failed) := Parse pParser GML_NEWLINE none result
  (result, if failed then 1 else gml_parse_error)

/-- The C function `gaiaParseGml`. `yylex` maps the text handed to
`Gml_scan_string` to the stream of tokens. The inner `none` is `return NULL`;
the outer `none` is a run of `gml_build_geometry` whose behaviour is
undefined or that does not terminate. -/
def gaiaParseGml {P S : Type} (ParseAlloc : P) (Parse : GmlParse P) (GML_NEWLINE : Int)
    (yylex : List Char → List (Int × Option (List Char))) (atof : List Char → R)
    (gml_proj_params : S → Int → List Char)
    (gaiaTransform : gaiaGeomColl R → List Char → List Char → Option (gaiaGeomColl R))
    (dirty_buffer : List Char) (sqlite_handle : Option S) :
    Option (Option (gaiaGeomColl R)) :=
  let (result, gml_parse_error) :=
    gaiaParseGml.drive ParseAlloc Parse GML_NEWLINE (yylex dirty_buffer)
  if gml_parse_error ≠ 0 then some none
  else gml_build_geometry atof sqlite_handle gml_proj_params gaiaTransform result

/-! ## Attributes of the nodes: `gml_attribute` -/

/-- The block `a->Value` of the de-quoting branch of `gml_attribute` after
`memcpy (a->Value, v_tok->value + 1, len - 1)`: the block has the `len - 1`
bytes of `malloc (len - 1)`, filled with the `len - 1` characters that follow
the first character of the token. -/
def gml_attribute.block (value : List Char) : List Char :=
  (value.drop 1).take (value.length - 1)

/-- The statement `*(a->Value + len - 1) = '\0'` of `gml_attribute`, and the
C string that the block then holds: the characters before index `i`. An index
at or past the end of the block is a write outside the block (`none`). -/
def gml_attribute.terminate (block : List Char) (i : Nat) : Option (List Char) :=
  if i < block.length then some (block.take i) else none

/-- The C function `gml_attribute`: creating an attribute from the key token
and the value token. An empty value has `'\0'` as its first character, so the
test of the two quotes fails on it. -/
def gml_attribute (key : String) (value : List Char) : Option gmlAttr :=
  let len := value.length
  if value.head? = some '"' ∧ value.getLast? = some '"' then
    match gml_attribute.terminate (gml_attribute.block value) (len - 1) with
    | none => none
    | some v => some { Key := key, Value := v }
  else some { Key := key, Value := value }

end Gml

/-! ## Comparing the GML result with the nodes

The definitions of this part follow the sentences of the specification, not
the code. -/

/-- Specification: the name of a tag without its `gml:` prefix. -/
def gmlLocalName (tag : String) : List Char :=
  match tag.toList with
  | 'g' :: 'm' :: 'l' :: ':' :: name => name
  | name => name

/-- Specification: a sequence of complete elements. An element is an opening
tag, a sequence of complete elements, and a closing tag that carries the name
of the opening tag up to the prefix `gml:`. -/
inductive gmlNested : List gmlNode → Prop
  | nil : gmlNested []
  | element (o c : gmlNode) (inner rest : List gmlNode) :
      gmlLocalName c.Tag = gmlLocalName o.Tag → gmlNested inner → gmlNested rest →
      gmlNested (o :: (inner ++ c :: rest))

/-- Specification: the nodes of one top-level element whose elements are all
closed by a tag of their name (up to the prefix): either the top-level
element is complete, or the sequence ends before its closing tag and the
elements inside it are complete. -/
def gmlMatched (l : List gmlNode) : Prop :=
  gmlNested l ∨ ∃ o rest, l = o :: rest ∧ gmlNested rest

/-- Specification: the number of nodes of the sequence that
`gml_build_geometry` reads: the top-level element of a Point or a LineString
is its opening tag, one coordinates element and its closing tag (four nodes),
the one of a Curve has eight nodes, and the nodes that follow are not read;
for the other kinds every node is read. -/
def gmlNodesRead (tree : List gmlNode) : Nat :=
  match tree with
  | [] => 0
  | t :: _ =>
    if guessGmlGeometryType t = GAIA_GML_POINT ∨
        guessGmlGeometryType t = GAIA_GML_LINESTRING then 4
    else if guessGmlGeometryType t = GAIA_GML_CURVE then 8
    else tree.length

/-- Specification: the sequence in which the node at index `i` carries the
name `tag` instead of its own. -/
def gmlRename (tag : String) : Nat → List gmlNode → List gmlNode
  | _, [] => []
  | 0, n :: rest => { n with Tag := tag } :: rest
  | i + 1, n :: rest => n :: gmlRename tag i rest

section GmlSpec

variable {R : Type} [Zero R]

/-- Specification: the coordinates of a point of a dynamic line in a 2D or
3D geometry. -/
def pointTuple (dim : Int) (p : gaiaPoint R) : List R :=
  if dim = GAIA_XY_Z then [p.X, p.Y, p.Z] else [p.X, p.Y]

/-- Specification: the ring has dimension model `dim`, as many vertices as
the list has points, and its vertices are the points of the list, in
order. -/
def ringOfPoints (dim : Int) (ring : gaiaRing R) (pts : List (gaiaPoint R)) : Prop :=
  ring.DimensionModel = dim ∧ ring.Points = pts.length ∧
    ∀ i p, pts[i]? = some p → coordTuple dim ring.Coords i = pointTuple dim p

/-- Specification: the 2D points built from a list of tokens taken two at a
time, in order. -/
def posListPoints2 (atof : List Char → R) : List (List Char) → List (gaiaPoint R)
  | a :: b :: rest => gaiaAllocPoint (atof a) (atof b) :: posListPoints2 atof rest
  | _ => []

/-- Specification: the 3D points built from a list of tokens taken three at a
time, in order. -/
def posListPoints3 (atof : List Char → R) : List (List Char) → List (gaiaPoint R)
  | a :: b :: c :: rest =>
    gaiaAllocPointXYZ (atof a) (atof b) (atof c) :: posListPoints3 atof rest
  | _ => []

/-- Specification: the fields of a token split on its commas; `cur` is the
field that is being read. -/
def splitCommasFrom (cur : List Char) : List Char → List (List Char)
  | [] => [cur]
  | c :: cs =>
    if c = ',' then cur :: splitCommasFrom [] cs else splitCommasFrom (cur ++ [c]) cs

/-- Specification: the fields of a token split on its commas. -/
def splitCommas (token : List Char) : List (List Char) :=
  splitCommasFrom [] token

/-- Specification: the non-empty fields of all the tokens of a coordinate
list, in order. -/
def pointFields (coord : List (List Char)) : List (List Char) :=
  (coord.flatMap splitCommas).filter (fun f => decide (f ≠ []))

/-- Specification: the fields are taken in order; an empty field is skipped,
a field that fails `gml_check_coord` stops the scan with a failure, and any
other field is stored or counted according to its position. -/
def storeFields (atof : List Char → R) :
    List (List Char) → R × R × R × Nat → Option (R × R × R × Nat)
  | [], s => some s
  | f :: fs, (x, y, z, count) =>
    if f = [] then storeFields atof fs (x, y, z, count)
    else if gml_check_coord f then
      storeFields atof fs (gml_extract_coords.store atof f x y z count)
    else none

/-- Specification: the points held by the members of a chain, in chain
order. -/
def chainPoints (chain : List (gaiaGeomColl R)) : List (gaiaPoint R) :=
  chain.flatMap (fun g => g.FirstPoint)

/-- Specification: the linestrings held by the members of a chain, in chain
order. -/
def chainLinestrings (chain : List (gaiaGeomColl R)) : List (gaiaLinestring R) :=
  chain.flatMap (fun g => g.FirstLinestring)

/-- Specification: the polygons held by the members of a chain, in chain
order. -/
def chainPolygons (chain : List (gaiaGeomColl R)) : List (gaiaPolygon R) :=
  chain.flatMap (fun g => g.FirstPolygon)

/-- Specification: the declared kind of the validated geometry, from the
declared kind `H` of the head of the chain and the numbers of points,
linestrings and polygons of the chain (not all zero). -/
def gmlDeclaredKind (H : Int) (pts lns pgs : Nat) : Int :=
  if H = GAIA_GEOMETRYCOLLECTION ∨ (pts ≠ 0 ∧ lns ≠ 0) ∨ (pts ≠ 0 ∧ pgs ≠ 0) ∨
      (lns ≠ 0 ∧ pgs ≠ 0) then GAIA_GEOMETRYCOLLECTION
  else if pts ≠ 0 then
    if pts = 1 ∧ H ≠ GAIA_MULTIPOINT then GAIA_POINT else GAIA_MULTIPOINT
  else if lns ≠ 0 then
    if lns = 1 ∧ H ≠ GAIA_MULTILINESTRING then GAIA_LINESTRING else GAIA_MULTILINESTRING
  else
    if pgs = 1 ∧ H ≠ GAIA_MULTIPOLYGON then GAIA_POLYGON else GAIA_MULTIPOLYGON

/-- Specification: vertex `i` of a coordinate buffer of dimension model
`dim`, as x, y and z; a model without Z gives z = 0. -/
def vertexXYZ (dim : Int) (coords : List R) (i : Nat) : R × R × R :=
  if dim = GAIA_XY_Z then gaiaGetPointXYZ coords i
  else if dim = GAIA_XY_M then
    ((gaiaGetPointXYM coords i).1, (gaiaGetPointXYM coords i).2.1, 0)
  else if dim = GAIA_XY_Z_M then
    ((gaiaGetPointXYZM coords i).1, (gaiaGetPointXYZM coords i).2.1,
      (gaiaGetPointXYZM coords i).2.2.1)
  else ((gaiaGetPoint coords i).1, (gaiaGetPoint coords i).2, 0)

/-- Specification: the coordinates of a vertex that a geometry of dimension
model `dim` carries: x and y, and z when the geometry is 3D. -/
def carriedTuple (dim : Int) (v : R × R × R) : List R :=
  if dim = GAIA_XY_Z then [v.1, v.2.1, v.2.2] else [v.1, v.2.1]

/-- Specification: the point `new` has the coordinates of the point `src` in
the dimensions that a geometry of dimension model `dim` carries. -/
def pointCarries (dim : Int) (new src : gaiaPoint R) : Prop :=
  carriedTuple dim (new.X, new.Y, new.Z) = carriedTuple dim (src.X, src.Y, src.Z)

/-- Specification: the linestring `new` of a geometry of dimension model
`dim` has as many points as `src` and, in the dimensions the geometry
carries, the coordinates of `src`. -/
def linestringCarries (dim : Int) (new src : gaiaLinestring R) : Prop :=
  new.Points = src.Points ∧
    ∀ i, i < src.Points →
      coordTuple dim new.Coords i = carriedTuple dim (vertexXYZ src.DimensionModel src.Coords i)

/-- Specification: the ring `new` of a geometry of dimension model `dim` has
as many points as `src` and, in the dimensions the geometry carries, the
coordinates of `src`. -/
def ringCarries (dim : Int) (new src : gaiaRing R) : Prop :=
  new.Points = src.Points ∧
    ∀ i, i < src.Points →
      coordTuple dim new.Coords i = carriedTuple dim (vertexXYZ src.DimensionModel src.Coords i)

/-- Specification: the polygon `new` of a geometry of dimension model `dim`
has the exterior ring of `src` and as many interior rings as `src`, each with
the points of the interior ring of `src` at the same position. -/
def polygonCarries (dim : Int) (new src : gaiaPolygon R) : Prop :=
  ringCarries dim new.Exterior src.Exterior ∧ new.NumInteriors = src.NumInteriors ∧
    List.Forall₂ (ringCarries dim) new.Interiors src.Interiors

/-- Specification: the SRID that the merging loops of `gml_validate_geometry`
reproject to: the first SRID of the chain that is not -1. -/
def gmlTargetSrid (chain : List (gaiaGeomColl R)) : Int :=
  ((chain.map (fun g => g.Srid)).find? (fun s => decide (s ≠ -1))).getD (-1)

/-- Specification: the ring has at least 4 points and its first point is its
last point (a ring without Z counts with z = 0). -/
def gmlRingClosed (r : gaiaRing R) : Prop :=
  r.Points ≥ 4 ∧
    vertexXYZ r.DimensionModel r.Coords 0 = vertexXYZ r.DimensionModel r.Coords (r.Points - 1)

/-- Specification: every linestring of the geometry has at least 2 points and
every ring of its polygons is closed, with at least 4 points. -/
def gmlMemberOk (m : gaiaGeomColl R) : Prop :=
  (∀ ln ∈ m.FirstLinestring, ln.Points ≥ 2) ∧
  (∀ pg ∈ m.FirstPolygon, ∀ r ∈ pg.Exterior :: pg.Interiors, gmlRingClosed r)

/-- Specification: the chain `chain` is the chain `geom` followed by further
members, all of them well formed. -/
def gmlChainExtends (geom chain : List (gaiaGeomColl R)) : Prop :=
  ∃ ext, chain = geom ++ ext ∧ ∀ m ∈ ext, gmlMemberOk m

/-- Specification: the text of a coordinate after at most one leading sign. -/
def coordBody : List Char → List Char
  | [] => []
  | c :: p => if c = '+' ∨ c = '-' then p else c :: p

/-- Specification: a decimal digit. -/
def isDecimalDigit (c : Char) : Prop :=
  c ∈ ['0', '1', '2', '3', '4', '5', '6', '7', '8', '9']

instance (c : Char) : Decidable (isDecimalDigit c) := by
  unfold isDecimalDigit; infer_instance

/-- Specification: an `srsName` value longer than 5 characters that starts
with `EPSG:`. -/
def srsNameIsEpsg (v : List Char) : Prop :=
  v.length > 5 ∧ v.take 5 = ['E', 'P', 'S', 'G', ':']

instance (v : List Char) : Decidable (srsNameIsEpsg v) := by
  unfold srsNameIsEpsg; infer_instance

/-- Specification: an `srsName` value longer than 21 characters that starts
with `urn:ogc:def:crs:EPSG:`. -/
def srsNameIsUrn (v : List Char) : Prop :=
  v.length > 21 ∧ v.take 21 = "urn:ogc:def:crs:EPSG:".toList

instance (v : List Char) : Decidable (srsNameIsUrn v) := by
  unfold srsNameIsUrn; infer_instance

/-- Specification: the text that follows the last `:` of a value. -/
def afterLastColon (v : List Char) : List Char :=
  (v.reverse.takeWhile (fun c => decide (c ≠ ':'))).reverse

/-- Specification: the first attribute of the list whose key is `srsName` and
whose value has one of the two forms. -/
def srsNameAttr (attrs : List gmlAttr) : Option gmlAttr :=
  attrs.find? (fun a =>
    decide (a.Key = "srsName" ∧ (srsNameIsEpsg a.Value ∨ srsNameIsUrn a.Value)))

/-- Specification: a token that is one complete comma-separated tuple: it is
not empty and neither starts nor ends with a comma. -/
def completeTuple (c : List Char) : Prop :=
  c ≠ [] ∧ c.head? ≠ some ',' ∧ c.getLast? ≠ some ','

instance (c : List Char) : Decidable (completeTuple c) := by
  unfold completeTuple; infer_instance

/-- Specification: a tuple that `gml_parse_coordinates` accepts: it has 2 or
3 non-empty fields, and each of them passes `gml_check_coord`. -/
def tupleOk (c : List Char) : Prop :=
  (∀ f ∈ pointFields [c], gml_check_coord f = true) ∧
  ((pointFields [c]).length = 2 ∨ (pointFields [c]).length = 3)

instance (c : List Char) : Decidable (tupleOk c) := by
  unfold tupleOk; infer_instance

/-- Specification: the point of a tuple: a 2D point for 2 fields, a 3D point
otherwise. -/
def tuplePoint (atof : List Char → R) (c : List Char) : gaiaPoint R :=
  if (pointFields [c]).length = 2 then
    gaiaAllocPoint (atof ((pointFields [c]).getD 0 [])) (atof ((pointFields [c]).getD 1 []))
  else
    gaiaAllocPointXYZ (atof ((pointFields [c]).getD 0 [])) (atof ((pointFields [c]).getD 1 []))
      (atof ((pointFields [c]).getD 2 []))

end GmlSpec

/-! ## Sample inputs of the GML parser -/

/-- A stand-in for `atof` on the texts of integers. -/
def sampleAtof : List Char → Int :=
  fun s => (atoi s).getD 0

/-- The geometry builder without database: no reprojection is possible. -/
def sampleGmlBuild (tree : List gmlNode) : Option (Option (gaiaGeomColl Int)) :=
  gml_build_geometry sampleAtof (none : Option Unit) (fun _ _ => []) (fun _ _ _ => none) tree

/-- The nodes of `<gml:Point><gml:coordinates>1,2</coordinates></Point>`:
both closing tags lack the prefix of their opening tags. -/
def samplePointTree : List gmlNode :=
  [gml_createNode "gml:Point" [] [], gml_createNode "gml:coordinates" [] ["1,2".toList],
   gml_closingNode "coordinates", gml_closingNode "Point"]

/-- The nodes of a GML 2 ring element: the tag `outer` (or `inner`) around a
`gml:LinearRing` around `gml:coordinates` with the given tuples. -/
def sampleRingNodes (tag : String) (tuples : List String) : List gmlNode :=
  [gml_createNode tag [] [], gml_createNode "gml:LinearRing" [] [],
   gml_createNode "gml:coordinates" [] (tuples.map (fun t => t.toList)),
   gml_closingNode "gml:coordinates", gml_closingNode "gml:LinearRing",
   gml_closingNode tag]

/-- The nodes of a `gml:Polygon` in EPSG:4326 with one exterior ring and one
hole. -/
def samplePolygonTree : List gmlNode :=
  [gml_createNode "gml:Polygon" [⟨"srsName", "EPSG:4326".toList⟩] []] ++
  sampleRingNodes "gml:outerBoundaryIs" ["0,0", "4,0", "4,4", "0,0"] ++
  sampleRingNodes "gml:innerBoundaryIs" ["1,1", "2,1", "2,2", "1,1"] ++
  [gml_closingNode "gml:Polygon"]

/-- The exterior ring of the sample polygon, as `gml_parse_ring` leaves it. -/
def sampleOuterRing : gmlDynamicRing Int :=
  { ring := [⟨0, 0, 0, 0, GAIA_XY⟩, ⟨4, 0, 0, 0, GAIA_XY⟩, ⟨4, 4, 0, 0, GAIA_XY⟩,
      ⟨0, 0, 0, 0, GAIA_XY⟩],
    interior := 0, has_z := 0 }

/-- The hole of the sample polygon, as `gml_parse_ring` leaves it. -/
def sampleInnerRing : gmlDynamicRing Int :=
  { ring := [⟨1, 1, 0, 0, GAIA_XY⟩, ⟨2, 1, 0, 0, GAIA_XY⟩, ⟨2, 2, 0, 0, GAIA_XY⟩,
      ⟨1, 1, 0, 0, GAIA_XY⟩],
    interior := 1, has_z := 0 }

/-- The nodes of a `gml:geometryMember` holding a `gml:Point` with the given
coordinates token. -/
def samplePointMember (token : String) : List gmlNode :=
  [gml_createNode "gml:geometryMember" [] [], gml_createNode "gml:Point" [] [],
   gml_createNode "gml:coordinates" [] [token.toList], gml_closingNode "gml:coordinates",
   gml_closingNode "gml:Point", gml_closingNode "gml:geometryMember"]

/-- The nodes of a `gml:MultiGeometry` with a 2D and a 3D Point member. -/
def sampleMixedPointsTree : List gmlNode :=
  [gml_createNode "gml:MultiGeometry" [] []] ++ samplePointMember "1,2" ++
  samplePointMember "3,4,5" ++ [gml_closingNode "gml:MultiGeometry"]

/-- The chain that `gml_parse_multi_geometry` builds for the sample above:
the main geometry, a 2D member and a 3D member. -/
def sampleMixedPointsChain : List (gaiaGeomColl Int) :=
  [⟨-1, [], [], [], GAIA_XY, GAIA_GEOMETRYCOLLECTION, none⟩,
   ⟨-1, [gaiaAllocPoint 1 2], [], [], GAIA_XY, GAIA_UNKNOWN, none⟩,
   ⟨-1, [gaiaAllocPointXYZ 3 4 5], [], [], GAIA_XY_Z, GAIA_UNKNOWN, none⟩]

/-- The nodes of an element `tag` around the nodes `inner`: the opening tag,
the inner nodes, the closing tag. -/
def sampleElement (tag : String) (inner : List gmlNode) : List gmlNode :=
  [gml_createNode tag [] []] ++ inner ++ [gml_closingNode tag]

/-- The nodes of `<gml:Point><gml:coordinates>1,2</gml:coordinates></gml:Point>`. -/
def samplePointNodes : List gmlNode :=
  sampleElement "gml:Point"
    [gml_createNode "gml:coordinates" [] ["1,2".toList], gml_closingNode "gml:coordinates"]

/-- The nodes of a `gml:LineString` with the points (1,2) and (3,4). -/
def sampleLinestringNodes : List gmlNode :=
  sampleElement "gml:LineString"
    [gml_createNode "gml:coordinates" [] ["1,2".toList, "3,4".toList],
     gml_closingNode "gml:coordinates"]

/-- The nodes of a `gml:Curve` with the points (1,2) and (3,4). -/
def sampleCurveNodes : List gmlNode :=
  sampleElement "gml:Curve" (sampleElement "gml:segments"
    (sampleElement "gml:LineStringSegment"
      [gml_createNode "gml:posList" [] ["1".toList, "2".toList, "3".toList, "4".toList],
       gml_closingNode "gml:posList"]))

/-- The nodes of a `gml:Polygon` with one exterior ring. -/
def samplePolygonNodes : List gmlNode :=
  sampleElement "gml:Polygon"
    (sampleRingNodes "gml:outerBoundaryIs" ["0,0", "4,0", "4,4", "0,0"])

/-- The main geometry that `gml_build_geometry` hands to the parsers. -/
def sampleShell (declared : Int) : gaiaGeomColl Int :=
  ⟨-1, [], [], [], GAIA_XY, declared, none⟩

/-- A stand-in for the Lemon parser of `Gml.c`: every call leaves the nodes
of the sample Point in `result`. -/
def sampleGmlParse : GmlParse Unit :=
  fun p _ _ _ => (p, samplePointTree, false)

/-- A stand-in for the tokenizer of `lex.Gml.c`: one token, then the end of
the text. -/
def sampleGmlYylex : List Char → List (Int × Option (List Char)) :=
  fun _ => [(1, none), (0, none)]

/-- The nodes of a `gml:MultiGeometry` wrapping one Point member and one
LineString member. -/
def sampleCollectionTree : List gmlNode :=
  sampleElement "gml:MultiGeometry"
    (sampleElement "gml:geometryMember" samplePointNodes ++
     sampleElement "gml:geometryMember" sampleLinestringNodes)

/-- The nodes after the opening tag of the sample Point. -/
def samplePointRest : List gmlNode :=
  [gml_createNode "gml:coordinates" [] ["1,2".toList], gml_closingNode "gml:coordinates",
   gml_closingNode "gml:Point"]

/-- The nodes after the opening tag of the sample Polygon with one exterior
ring. -/
def samplePolygonRest : List gmlNode :=
  sampleRingNodes "gml:outerBoundaryIs" ["0,0", "4,0", "4,4", "0,0"] ++
  [gml_closingNode "gml:Polygon"]

/-- Nodes that follow the closing tag of a top-level element. -/
def sampleTrailing : List gmlNode :=
  [gml_createSelfClosedNode "gml:Point" [], gml_closingNode "gml:Polygon"]

/-! ## The SQL functions of the network module (`gaia_network.c`)

The SQLite library, the decoder of geometry blobs and the network engine
are not among the sources: they are parameters of the embedding. The
savepoints and the last error message kept in the accessor are effects that
no result of the functions embedded here depends on. -/

/-- Constant of `sqlite3.h`: the type code of an integer value. -/
def SQLITE_INTEGER : Int := 1
/-- Constant of `sqlite3.h`: the type code of a floating point value. -/
def SQLITE_FLOAT : Int := 2
/-- Constant of `sqlite3.h`: the type code of a text value. -/
def SQLITE_TEXT : Int := 3
/-- Constant of `sqlite3.h`: the type code of a BLOB value. -/
def SQLITE_BLOB : Int := 4
/-- Constant of `sqlite3.h`: the type code of a NULL value. -/
def SQLITE_NULL : Int := 5

/-- The functions of the SQLite library that read an SQL argument of the
type `V` (the C type `sqlite3_value`); `R` is the C type `double`. -/
structure sqlite3_api (V R : Type) where
  sqlite3_value_type : V → Int
  sqlite3_value_text : V → String
  sqlite3_value_int : V → Int
  sqlite3_value_int64 : V → Int
  sqlite3_value_double : V → R
  sqlite3_value_blob : V → List Nat

/-- What an SQL function leaves in its `sqlite3_context`, named after the
function of the SQLite library that stores it. -/
inductive sqlite3_result where
  | sqlite3_result_error (msg : String)
  | sqlite3_result_int64 (value : Int)
  | sqlite3_result_int (value : Int)
  | sqlite3_result_text (text : String)
deriving DecidableEq, Repr

/-- The fields of the C struct `gaia_network` that the functions embedded
here read. -/
structure gaia_network where
  spatial : Int
  srid : Int
  has_z : Int
deriving DecidableEq, Repr

/-- The collaborators of the SQL functions. `gaiaGetNetwork` returns the
accessor of a network name (`none` is `NULL`); `gaiaFromSpatiaLiteBlobWkbEx`
decodes a blob in the modes of the connection; a pointer to a
point or to a linestring is an `Option` (`none` is `NULL`); every function of
the network engine returns its result together with the message that
`lwn_GetErrorMsg` gives after the call; `lwn_GetErrorMsg` is the message of a network that no
call has changed; `format_f` is the conversion `%f` of `sqlite3_mprintf`. -/
structure network_api (R : Type) where
  gaiaGetNetwork : String → Option gaia_network
  gaiaFromSpatiaLiteBlobWkbEx : List Nat → Option (gaiaGeomColl R)
  gaiaAddIsoNetNode : gaia_network → Option (gaiaPoint R) → Int × String
  gaiaMoveIsoNetNode : gaia_network → Int → Option (gaiaPoint R) → Int × String
  gaiaAddLink : gaia_network → Int → Int → Option (gaiaLinestring R) → Int × String
  gaiaGetNetNodeByPoint : gaia_network → Option (gaiaPoint R) → R → Int × String
  gaiaGetLinkByPoint : gaia_network → Option (gaiaPoint R) → R → Int × String
  do_simplify_network : gaia_network → R → Int
  lwn_GetErrorMsg : gaia_network → String
  format_f : R → String

section Network
variable {V R : Type} [IntCast R]

/-- The C function `check_matching_srid_dims`: checking for matching SRID and
DIMs. -/
def check_matching_srid_dims (net : gaia_network) (srid dims : Int) : Int :=
  if net.srid ≠ srid then 0
  else if net.has_z ≠ 0 then
    if dims = GAIA_XY_Z ∨ dims = GAIA_XY_Z_M then 1 else 0
  else
    if dims = GAIA_XY_Z ∨ dims = GAIA_XY_Z_M then 0 else 1

/-- The tests made on a decoded Point geometry, which set the flag
`invalid`: the geometry has a linestring, a polygon, or not exactly one
point (`FirstPoint != LastPoint || FirstPoint == NULL`). -/
def fnctaux_point_invalid (point : gaiaGeomColl R) : Bool :=
  let invalid := false
  let invalid := if !point.FirstLinestring.isEmpty then true else invalid
  let invalid := if !point.FirstPolygon.isEmpty then true else invalid
  let invalid := if point.FirstPoint.length ≠ 1 then true else invalid
  invalid

/-- The tests made on a decoded Linestring geometry, which set the flag
`invalid`: the geometry has a point, a polygon, or not exactly one linestring
(`FirstLinestring != LastLinestring || FirstLinestring == NULL`). -/
def fnctaux_line_invalid (line : gaiaGeomColl R) : Bool :=
  let invalid := false
  let invalid := if !line.FirstPoint.isEmpty then true else invalid
  let invalid := if !line.FirstPolygon.isEmpty then true else invalid
  let invalid := if line.FirstLinestring.length ≠ 1 then true else invalid
  invalid

/-- The label `null_arg` of the SQL functions. -/
def fnctaux_null_arg : sqlite3_result :=
  .sqlite3_result_error "SQL/MM Spatial exception - null argument."

/-- The label `invalid_arg` of the SQL functions. -/
def fnctaux_invalid_arg : sqlite3_result :=
  .sqlite3_result_error "SQL/MM Spatial exception - invalid argument."

/-- The label `no_net` of the SQL functions. -/
def fnctaux_no_net : sqlite3_result :=
  .sqlite3_result_error "SQL/MM Spatial exception - invalid network name."

/-- The label `invalid_geom` of the SQL functions. -/
def fnctaux_invalid_geom : sqlite3_result :=
  .sqlite3_result_error
    "SQL/MM Spatial exception - invalid geometry (mismatching SRID or dimensions)."

/-- The label `spatial_err` of the SQL functions. -/
def fnctaux_spatial_err : sqlite3_result :=
  .sqlite3_result_error "SQL/MM Spatial exception - Spatial Network can't accept null geometry."

/-- The label `logical_err` of the SQL functions that take a geometry to
store. -/
def fnctaux_logical_err : sqlite3_result :=
  .sqlite3_result_error
    "SQL/MM Spatial exception - Logical Network can't accept not null geometry."

/-- The C function `fnctaux_AddIsoNetNode`, the SQL function
`ST_AddIsoNetNode ( text network-name, Geometry point )`. -/
def fnctaux_AddIsoNetNode (sql : sqlite3_api V R) (api : network_api R) (argv0 argv1 : V) :
    sqlite3_result :=
  if sql.sqlite3_value_type argv0 = SQLITE_NULL then fnctaux_null_arg
  else if sql.sqlite3_value_type argv0 = SQLITE_TEXT then
    let network_name := sql.sqlite3_value_text argv0
    match api.gaiaGetNetwork network_name with
    | none => fnctaux_no_net
    | some net =>
      let finish (pt : Option (gaiaPoint R)) : sqlite3_result :=
        let (ret, msg) := api.gaiaAddIsoNetNode net pt
        if ret ≤ 0 then .sqlite3_result_error msg else .sqlite3_result_int64 ret
      if sql.sqlite3_value_type argv1 = SQLITE_NULL then
        if net.spatial ≠ 0 then fnctaux_spatial_err else finish none
      else if sql.sqlite3_value_type argv1 = SQLITE_BLOB then
        if net.spatial = 0 then fnctaux_logical_err
        else
          match api.gaiaFromSpatiaLiteBlobWkbEx (sql.sqlite3_value_blob argv1) with
          | none => fnctaux_invalid_arg
          | some point =>
            if fnctaux_point_invalid point then fnctaux_invalid_arg
            else if check_matching_srid_dims net point.Srid point.DimensionModel = 0 then
              fnctaux_invalid_geom
            else finish point.FirstPoint.head?
      else fnctaux_invalid_arg
  else fnctaux_invalid_arg

/-- The C function `fnctaux_MoveIsoNetNode`, the SQL function
`ST_MoveIsoNetNode ( text network-name, int node_id, Geometry point )`. -/
def fnctaux_MoveIsoNetNode (sql : sqlite3_api V R) (api : network_api R)
    (argv0 argv1 argv2 : V) : sqlite3_result :=
  if sql.sqlite3_value_type argv0 = SQLITE_NULL then fnctaux_null_arg
  else if sql.sqlite3_value_type argv0 = SQLITE_TEXT then
    let net_name := sql.sqlite3_value_text argv0
    if sql.sqlite3_value_type argv1 = SQLITE_NULL then fnctaux_null_arg
    else if sql.sqlite3_value_type argv1 = SQLITE_INTEGER then
      let node_id := sql.sqlite3_value_int64 argv1
      match api.gaiaGetNetwork net_name with
      | none => fnctaux_no_net
      | some net =>
        let finish (pt : Option (gaiaPoint R)) : sqlite3_result :=
          let xid := toString node_id
          let newpos :=
            match pt with
            | none => "Isolated Node " ++ xid ++ " moved to NULL location"
            | some p =>
              "Isolated Node " ++ xid ++ " moved to location " ++ api.format_f p.X ++ "," ++
                api.format_f p.Y
          let (ret, msg) := api.gaiaMoveIsoNetNode net node_id pt
          if ret = 0 then .sqlite3_result_error msg else .sqlite3_result_text newpos
        if sql.sqlite3_value_type argv2 = SQLITE_NULL then
          if net.spatial ≠ 0 then fnctaux_spatial_err else finish none
        else if sql.sqlite3_value_type argv2 = SQLITE_BLOB then
          if net.spatial = 0 then fnctaux_logical_err
          else
            match api.gaiaFromSpatiaLiteBlobWkbEx (sql.sqlite3_value_blob argv2) with
            | none => fnctaux_invalid_arg
            | some point =>
              if fnctaux_point_invalid point then fnctaux_invalid_arg
              else if check_matching_srid_dims net point.Srid point.DimensionModel = 0 then
                fnctaux_invalid_geom
              else finish point.FirstPoint.head?
        else fnctaux_invalid_arg
    else fnctaux_invalid_arg
  else fnctaux_invalid_arg

/-- The C function `fnctaux_AddLink`, the SQL function
`ST_AddLink ( text network-name, int start_node_id, int end_node_id, Geometry linestring )`. -/
def fnctaux_AddLink (sql : sqlite3_api V R) (api : network_api R)
    (argv0 argv1 argv2 argv3 : V) : sqlite3_result :=
  if sql.sqlite3_value_type argv0 = SQLITE_NULL then fnctaux_null_arg
  else if sql.sqlite3_value_type argv0 = SQLITE_TEXT then
    let network_name := sql.sqlite3_value_text argv0
    if sql.sqlite3_value_type argv1 = SQLITE_NULL then fnctaux_null_arg
    else if sql.sqlite3_value_type argv1 = SQLITE_INTEGER then
      let start_node_id := sql.sqlite3_value_int64 argv1
      if sql.sqlite3_value_type argv2 = SQLITE_NULL then fnctaux_null_arg
      else if sql.sqlite3_value_type argv2 = SQLITE_INTEGER then
        let end_node_id := sql.sqlite3_value_int64 argv2
        match api.gaiaGetNetwork network_name with
        | none => fnctaux_no_net
        | some net =>
          let finish (ln : Option (gaiaLinestring R)) : sqlite3_result :=
            let (ret, msg) := api.gaiaAddLink net start_node_id end_node_id ln
            if ret ≤ 0 then .sqlite3_result_error msg else .sqlite3_result_int64 ret
          if sql.sqlite3_value_type argv3 = SQLITE_NULL then
            if net.spatial ≠ 0 then fnctaux_spatial_err else finish none
          else if sql.sqlite3_value_type argv3 = SQLITE_BLOB then
            if net.spatial = 0 then fnctaux_logical_err
            else
              match api.gaiaFromSpatiaLiteBlobWkbEx (sql.sqlite3_value_blob argv3) with
              | none => fnctaux_invalid_arg
              | some line =>
                if fnctaux_line_invalid line then fnctaux_invalid_arg
                else if check_matching_srid_dims net line.Srid line.DimensionModel = 0 then
                  fnctaux_invalid_geom
                else finish line.FirstLinestring.head?
          else fnctaux_invalid_arg
      else fnctaux_invalid_arg
    else fnctaux_invalid_arg
  else fnctaux_invalid_arg

/-- The part of `fnctaux_GetNetNodeByPoint` and of `fnctaux_GetLinkByPoint`
that follows the reading of the three arguments, the same in both functions
up to the function of the engine that is called and to the message of the
label `logical_err`: `p_blob` is the blob of the second argument,
`tolerance` the value read from the third one. -/
def fnctaux_by_point (api : network_api R)
    (engine : gaia_network → Option (gaiaPoint R) → R → Int × String) (logical_err : String)
    (network_name : String) (p_blob : List Nat) (tolerance : R) : sqlite3_result :=
  match api.gaiaFromSpatiaLiteBlobWkbEx p_blob with
  | none => fnctaux_invalid_arg
  | some point =>
    if fnctaux_point_invalid point then fnctaux_invalid_arg
    else
      match api.gaiaGetNetwork network_name with
      | none => fnctaux_no_net
      | some net =>
        if net.spatial = 0 then .sqlite3_result_error logical_err
        else
          let pt := point.FirstPoint.head?
          let (ret, msg) := engine net pt tolerance
          if ret < 0 then .sqlite3_result_error msg else .sqlite3_result_int64 ret

/-- The C function `fnctaux_GetNetNodeByPoint`, the SQL function
`GetNetNodeByPoint ( text network-name, Geometry point, double tolerance )`.
The `int` read from an integer or floating point tolerance is converted to
`double` by the assignment. -/
def fnctaux_GetNetNodeByPoint (sql : sqlite3_api V R) (api : network_api R)
    (argv0 argv1 argv2 : V) : sqlite3_result :=
  if sql.sqlite3_value_type argv0 = SQLITE_NULL then fnctaux_null_arg
  else if sql.sqlite3_value_type argv0 = SQLITE_TEXT then
    let network_name := sql.sqlite3_value_text argv0
    if sql.sqlite3_value_type argv1 = SQLITE_NULL then fnctaux_null_arg
    else if sql.sqlite3_value_type argv1 = SQLITE_BLOB then
      let p_blob := sql.sqlite3_value_blob argv1
      if sql.sqlite3_value_type argv2 = SQLITE_NULL then fnctaux_null_arg
      else if sql.sqlite3_value_type argv2 = SQLITE_INTEGER then
        let t := sql.sqlite3_value_int argv2
        let tolerance : R := (t : R)
        fnctaux_by_point api api.gaiaGetNetNodeByPoint
          "GetNetNodekByPoint() cannot be applied to Logical Network." network_name p_blob
          tolerance
      else if sql.sqlite3_value_type argv2 = SQLITE_FLOAT then
        let tolerance : R := ((sql.sqlite3_value_int argv2 : Int) : R)
        fnctaux_by_point api api.gaiaGetNetNodeByPoint
          "GetNetNodekByPoint() cannot be applied to Logical Network." network_name p_blob
          tolerance
      else fnctaux_invalid_arg
    else fnctaux_invalid_arg
  else fnctaux_invalid_arg

/-- The C function `fnctaux_GetLinkByPoint`, the SQL function
`GetLinkByPoint ( text network-name, Geometry point, double tolerance )`. -/
def fnctaux_GetLinkByPoint (sql : sqlite3_api V R) (api : network_api R)
    (argv0 argv1 argv2 : V) : sqlite3_result :=
  if sql.sqlite3_value_type argv0 = SQLITE_NULL then fnctaux_null_arg
  else if sql.sqlite3_value_type argv0 = SQLITE_TEXT then
    let network_name := sql.sqlite3_value_text argv0
    if sql.sqlite3_value_type argv1 = SQLITE_NULL then fnctaux_null_arg
    else if sql.sqlite3_value_type argv1 = SQLITE_BLOB then
      let p_blob := sql.sqlite3_value_blob argv1
      if sql.sqlite3_value_type argv2 = SQLITE_NULL then fnctaux_null_arg
      else if sql.sqlite3_value_type argv2 = SQLITE_INTEGER then
        let t := sql.sqlite3_value_int argv2
        let tolerance : R := (t : R)
        fnctaux_by_point api api.gaiaGetLinkByPoint
          "GetLinkByPoint() cannot be applied to Logical Network." network_name p_blob
          tolerance
      else if sql.sqlite3_value_type argv2 = SQLITE_FLOAT then
        let tolerance : R := ((sql.sqlite3_value_int argv2 : Int) : R)
        fnctaux_by_point api api.gaiaGetLinkByPoint
          "GetLinkByPoint() cannot be applied to Logical Network." network_name p_blob
          tolerance
      else fnctaux_invalid_arg
    else fnctaux_invalid_arg
  else fnctaux_invalid_arg

/-- The part of `fnctaux_TopoNet_Simplify` that follows the reading of the
two arguments. -/
def fnctaux_TopoNet_Simplify.run (api : network_api R) (network_name : String)
    (tolerance : R) : sqlite3_result :=
  match api.gaiaGetNetwork network_name with
  | none => fnctaux_no_net
  | some net =>
    if net.spatial = 0 then
      .sqlite3_result_error "TopoNet_Simplify() cannot be applied to Logical Network."
    else
      let ret := api.do_simplify_network net tolerance
      if ret = 0 then .sqlite3_result_error (api.lwn_GetErrorMsg net)
      else .sqlite3_result_int 1

/-- The C function `fnctaux_TopoNet_Simplify`, the SQL function
`TopoNet_Simplify ( text network-name, double tolerance )`. -/
def fnctaux_TopoNet_Simplify (sql : sqlite3_api V R) (api : network_api R) (argv0 argv1 : V) :
    sqlite3_result :=
  if sql.sqlite3_value_type argv0 = SQLITE_NULL then fnctaux_null_arg
  else if sql.sqlite3_value_type argv0 = SQLITE_TEXT then
    let network_name := sql.sqlite3_value_text argv0
    if sql.sqlite3_value_type argv1 = SQLITE_NULL then fnctaux_null_arg
    else if sql.sqlite3_value_type argv1 = SQLITE_INTEGER then
      let tol := sql.sqlite3_value_int argv1
      let tolerance : R := (tol : R)
      fnctaux_TopoNet_Simplify.run api network_name tolerance
    else if sql.sqlite3_value_type argv1 = SQLITE_FLOAT then
      let tolerance : R := sql.sqlite3_value_double argv1
      fnctaux_TopoNet_Simplify.run api network_name tolerance
    else fnctaux_invalid_arg
  else fnctaux_invalid_arg

end Network

/-- A stand-in for the C type `double` in the samples: a number of
thousandths. -/
structure sampleDouble where
  thousandths : Int
deriving DecidableEq, Repr

instance : Zero sampleDouble := ⟨⟨0⟩⟩

instance : IntCast sampleDouble := ⟨fun i => ⟨i * 1000⟩⟩

/-- A sample SQL value: NULL, an integer, a floating point number, a text or
a blob. -/
inductive sampleValue where
  | null
  | integer (i : Int)
  | float (d : sampleDouble)
  | text (z : String)
  | blob (b : List Nat)

/-- A stand-in for the SQLite library on the sample values:
`sqlite3_value_int` of a floating point value is its integer part. -/
def sampleSqlite : sqlite3_api sampleValue sampleDouble where
  sqlite3_value_type := fun v =>
    match v with
    | .null => SQLITE_NULL
    | .integer _ => SQLITE_INTEGER
    | .float _ => SQLITE_FLOAT
    | .text _ => SQLITE_TEXT
    | .blob _ => SQLITE_BLOB
  sqlite3_value_text := fun v =>
    match v with
    | .text z => z
    | _ => ""
  sqlite3_value_int := fun v =>
    match v with
    | .integer i => i
    | .float d => d.thousandths.tdiv 1000
    | _ => 0
  sqlite3_value_int64 := fun v =>
    match v with
    | .integer i => i
    | .float d => d.thousandths.tdiv 1000
    | _ => 0
  sqlite3_value_double := fun v =>
    match v with
    | .integer i => ⟨i * 1000⟩
    | .float d => d
    | _ => ⟨0⟩
  sqlite3_value_blob := fun v =>
    match v with
    | .blob b => b
    | _ => []

/-- A stand-in for the collaborators: one spatial 2D network `roads` in
EPSG:4326; five blobs that decode to a geometry; an engine that finds the
node 7 and the link 9 when the tolerance is 0.4 or more, and simplifies with
success when the tolerance is 0.5. -/
def sampleNetwork : network_api sampleDouble where
  gaiaGetNetwork := fun name => if name = "roads" then some ⟨1, 4326, 0⟩ else none
  gaiaFromSpatiaLiteBlobWkbEx := fun b =>
    match b with
    | [1] => some ⟨4326, [gaiaAllocPoint ⟨10000⟩ ⟨20000⟩], [], [], GAIA_XY, GAIA_POINT, none⟩
    | [2] => some ⟨3003, [gaiaAllocPoint ⟨10000⟩ ⟨20000⟩], [], [], GAIA_XY, GAIA_POINT, none⟩
    | [3] =>
      some ⟨4326, [gaiaAllocPointXYZ ⟨10000⟩ ⟨20000⟩ ⟨5000⟩], [], [], GAIA_XY_Z, GAIA_POINT, none⟩
    | [4] =>
      some ⟨4326, [], [⟨2, [⟨0⟩, ⟨0⟩, ⟨1000⟩, ⟨1000⟩], GAIA_XY⟩], [], GAIA_XY, GAIA_LINESTRING, none⟩
    | [5] =>
      some ⟨3003, [], [⟨2, [⟨0⟩, ⟨0⟩, ⟨1000⟩, ⟨1000⟩], GAIA_XY⟩], [], GAIA_XY, GAIA_LINESTRING, none⟩
    | _ => none
  gaiaAddIsoNetNode := fun _ _ => (1, "")
  gaiaMoveIsoNetNode := fun _ _ _ => (1, "")
  gaiaAddLink := fun _ _ _ _ => (1, "")
  gaiaGetNetNodeByPoint := fun _ _ tolerance =>
    (if 400 ≤ tolerance.thousandths then 7 else 0, "")
  gaiaGetLinkByPoint := fun _ _ tolerance =>
    (if 400 ≤ tolerance.thousandths then 9 else 0, "")
  do_simplify_network := fun _ tolerance => if tolerance.thousandths = 500 then 1 else 0
  lwn_GetErrorMsg := fun _ => ""
  format_f := fun _ => ""

/-! ## Properties -/

section EwktProofs

variable {R : Type}

theorem ewktCheckValidity_points_eq (pts : List (gaiaPoint R)) (e : Int) :
    ewktCheckValidity.points pts e = e + pts.length := by
  induction pts generalizing e with
  | nil => simp [ewktCheckValidity.points]
  | cons p ps ih => simp [ewktCheckValidity.points, ih]; ring

theorem ewktCheckValidity_linestrings_none (lns : List (gaiaLinestring R)) (e : Int) :
    ewktCheckValidity.linestrings lns e = none ↔ ∃ ln ∈ lns, ln.Points < 2 := by
  induction lns generalizing e with
  | nil => simp [ewktCheckValidity.linestrings]
  | cons l ls ih =>
    by_cases h : l.Points < 2
    · simp [ewktCheckValidity.linestrings, h]
    · simp only [ewktCheckValidity.linestrings, h, if_false, ih, List.mem_cons,
        exists_eq_or_imp, false_or]

theorem ewktCheckValidity_linestrings_some (lns : List (gaiaLinestring R)) (e e2 : Int)
    (h : ewktCheckValidity.linestrings lns e = some e2) : e2 = e + lns.length := by
  induction lns generalizing e with
  | nil => simp [ewktCheckValidity.linestrings] at h; simp [h]
  | cons l ls ih =>
    by_cases hl : l.Points < 2
    · simp [ewktCheckValidity.linestrings, hl] at h
    · simp only [ewktCheckValidity.linestrings, hl, if_false] at h
      rw [ih _ h]; simp; ring

theorem ewktCheckValidity_interiors_false (rs : List (gaiaRing R)) :
    ewktCheckValidity.interiors rs = false ↔ ∃ r ∈ rs, r.Points < 4 := by
  induction rs with
  | nil => simp [ewktCheckValidity.interiors]
  | cons r rs ih =>
    by_cases h : r.Points < 4
    · simp [ewktCheckValidity.interiors, h]
    · simp only [ewktCheckValidity.interiors, h, if_false, ih, List.mem_cons,
        exists_eq_or_imp, false_or]

theorem ewktCheckValidity_polygons_none (pgs : List (gaiaPolygon R)) (e : Int) :
    ewktCheckValidity.polygons pgs e = none ↔
      ∃ pg ∈ pgs, pg.Exterior.Points < 4 ∨ ∃ r ∈ pg.Interiors, r.Points < 4 := by
  induction pgs generalizing e with
  | nil => simp [ewktCheckValidity.polygons]
  | cons p ps ih =>
    by_cases h : p.Exterior.Points < 4
    · simp [ewktCheckValidity.polygons, h]
    · by_cases hi : ewktCheckValidity.interiors p.Interiors = false
      · have := (ewktCheckValidity_interiors_false p.Interiors).1 hi
        simp only [ewktCheckValidity.polygons, h, hi, if_false, if_true, List.mem_cons,
          exists_eq_or_imp, true_iff]
        exact Or.inl (Or.inr this)
      · have hn : ¬ ∃ r ∈ p.Interiors, r.Points < 4 :=
          fun hx => hi ((ewktCheckValidity_interiors_false p.Interiors).2 hx)
        have hi2 : ewktCheckValidity.interiors p.Interiors = true := by
          cases hb : ewktCheckValidity.interiors p.Interiors
          · exact absurd hb hi
          · rfl
        simp [ewktCheckValidity.polygons, h, hi2, ih, hn]

theorem ewktCheckValidity_polygons_some (pgs : List (gaiaPolygon R)) (e e2 : Int)
    (h : ewktCheckValidity.polygons pgs e = some e2) : e2 = e + pgs.length := by
  induction pgs generalizing e with
  | nil => simp [ewktCheckValidity.polygons] at h; simp [h]
  | cons p ps ih =>
    by_cases hp : p.Exterior.Points < 4
    · simp [ewktCheckValidity.polygons, hp] at h
    · by_cases hi : ewktCheckValidity.interiors p.Interiors = false
      · simp [ewktCheckValidity.polygons, hp, hi] at h
      · simp only [ewktCheckValidity.polygons, hp, hi, if_false] at h
        rw [ih _ h]; simp; ring

/-- The three ways in which `ewktCheckValidity` rejects a geometry. -/
def ewktDegenerate (g : gaiaGeomColl R) : Prop :=
  (∃ ln ∈ g.FirstLinestring, ln.Points < 2) ∨
  (∃ pg ∈ g.FirstPolygon, pg.Exterior.Points < 4 ∨ ∃ r ∈ pg.Interiors, r.Points < 4) ∨
  (g.FirstPoint = [] ∧ g.FirstLinestring = [] ∧ g.FirstPolygon = [])

theorem ewktCheckValidity_cases (g : gaiaGeomColl R) :
    (ewktDegenerate g ∧ ewktCheckValidity g = 0) ∨
    (¬ ewktDegenerate g ∧ ewktCheckValidity g = 1) := by
  unfold ewktDegenerate ewktCheckValidity
  simp only [ewktCheckValidity_points_eq, zero_add]
  cases hl : ewktCheckValidity.linestrings g.FirstLinestring (g.FirstPoint.length : Int) with
  | none =>
    left
    exact ⟨Or.inl ((ewktCheckValidity_linestrings_none _ _).1 hl), rfl⟩
  | some e1 =>
    have hnl : ¬ ∃ ln ∈ g.FirstLinestring, ln.Points < 2 := by
      intro hx
      rw [(ewktCheckValidity_linestrings_none _ _).2 hx] at hl
      cases hl
    have he1 := ewktCheckValidity_linestrings_some _ _ _ hl
    cases hp : ewktCheckValidity.polygons g.FirstPolygon e1 with
    | none =>
      left
      exact ⟨Or.inr (Or.inl ((ewktCheckValidity_polygons_none _ _).1 hp)), by simp [hp]⟩
    | some e2 =>
      have hnp : ¬ ∃ pg ∈ g.FirstPolygon,
          pg.Exterior.Points < 4 ∨ ∃ r ∈ pg.Interiors, r.Points < 4 := by
        intro hx
        rw [(ewktCheckValidity_polygons_none _ _).2 hx] at hp
        cases hp
      have he2 := ewktCheckValidity_polygons_some _ _ _ hp
      have hsum : e2 = (g.FirstPoint.length : Int) + g.FirstLinestring.length
          + g.FirstPolygon.length := by rw [he2, he1]
      by_cases hz : e2 = 0
      · left
        refine ⟨Or.inr (Or.inr ?_), by simp [hp, hz]⟩
        rw [hz] at hsum
        have h1 : g.FirstPoint.length = 0 := by omega
        have h2 : g.FirstLinestring.length = 0 := by omega
        have h3 : g.FirstPolygon.length = 0 := by omega
        exact ⟨List.length_eq_zero.1 h1, List.length_eq_zero.1 h2, List.length_eq_zero.1 h3⟩
      · right
        refine ⟨?_, by simp [hp, hz]⟩
        rintro (h | h | ⟨h1, h2, h3⟩)
        · exact hnl h
        · exact hnp h
        · apply hz
          rw [hsum, h1, h2, h3]; simp

theorem ewktCheckValidity_eq_one_iff (g : gaiaGeomColl R) :
    ewktCheckValidity g = 1 ↔ ¬ ewktDegenerate g := by
  rcases ewktCheckValidity_cases g with ⟨hd, h0⟩ | ⟨hd, h1⟩
  · refine ⟨fun h => ?_, fun hn => absurd hd hn⟩
    rw [h0] at h
    exact absurd h (by decide)
  · exact ⟨fun _ => hd, fun _ => h1⟩

/-- C2: for every geometry `g`, `ewktCheckValidity g` returns 0 exactly when
some linestring of `g` has fewer than 2 points, or some polygon of `g` has an
exterior or interior ring with fewer than 4 points, or `g` holds no point, no
linestring and no polygon; in every other case (and only then) it returns 1. -/
theorem ewktCheckValidity_spec (g : gaiaGeomColl R) :
    (ewktCheckValidity g = 0 ↔
      ((∃ ln ∈ g.FirstLinestring, ln.Points < 2) ∨
       (∃ pg ∈ g.FirstPolygon,
          pg.Exterior.Points < 4 ∨ ∃ r ∈ pg.Interiors, r.Points < 4) ∨
       (g.FirstPoint = [] ∧ g.FirstLinestring = [] ∧ g.FirstPolygon = []))) ∧
    (ewktCheckValidity g = 1 ↔
      ¬ ((∃ ln ∈ g.FirstLinestring, ln.Points < 2) ∨
         (∃ pg ∈ g.FirstPolygon,
            pg.Exterior.Points < 4 ∨ ∃ r ∈ pg.Interiors, r.Points < 4) ∨
         (g.FirstPoint = [] ∧ g.FirstLinestring = [] ∧ g.FirstPolygon = []))) := by
  rcases ewktCheckValidity_cases g with ⟨hd, h0⟩ | ⟨hd, h1⟩
  · refine ⟨⟨fun _ => hd, fun _ => h0⟩, ⟨fun h => ?_, fun hn => absurd hd hn⟩⟩
    rw [h0] at h
    exact absurd h (by decide)
  · refine ⟨⟨fun h => ?_, fun h => absurd h hd⟩, ⟨fun _ => hd, fun _ => h1⟩⟩
    rw [h1] at h
    exact absurd h (by decide)

/-! ### `ewktCheckValidity` as a step on the memory -/

end EwktProofs

/-! ### Cells of a coordinate buffer -/

section Cells

variable {R : Type} [Zero R]

theorem getD_set_cell (l : List R) (k j : Nat) (a : R) :
    (l.set k a).getD j 0 = if k = j ∧ j < l.length then a else l.getD j 0 := by
  simp only [List.getD_eq_getElem?_getD, List.getElem?_set]
  by_cases h : k = j
  · subst h
    by_cases h2 : k < l.length
    · simp [h2]
    · have : l[k]? = none := by simp; omega
      simp [h2, this]
  · simp [h]

theorem gaiaSetPoint_getD (c : List R) (v j : Nat) (x y : R) :
    (gaiaSetPoint c v x y).getD j 0 =
      if j = v * 2 + 1 ∧ j < c.length then y
      else if j = v * 2 ∧ j < c.length then x else c.getD j 0 := by
  simp only [gaiaSetPoint, getD_set_cell, List.length_set]
  split_ifs <;> first | rfl | (exfalso; omega)

theorem gaiaSetPointXYZ_getD (c : List R) (v j : Nat) (x y z : R) :
    (gaiaSetPointXYZ c v x y z).getD j 0 =
      if j = v * 3 + 2 ∧ j < c.length then z
      else if j = v * 3 + 1 ∧ j < c.length then y
      else if j = v * 3 ∧ j < c.length then x else c.getD j 0 := by
  simp only [gaiaSetPointXYZ, getD_set_cell, List.length_set]
  split_ifs <;> first | rfl | (exfalso; omega)

theorem gaiaSetPointXYM_getD (c : List R) (v j : Nat) (x y m : R) :
    (gaiaSetPointXYM c v x y m).getD j 0 =
      if j = v * 3 + 2 ∧ j < c.length then m
      else if j = v * 3 + 1 ∧ j < c.length then y
      else if j = v * 3 ∧ j < c.length then x else c.getD j 0 := by
  simp only [gaiaSetPointXYM, getD_set_cell, List.length_set]
  split_ifs <;> first | rfl | (exfalso; omega)

theorem gaiaSetPointXYZM_getD (c : List R) (v j : Nat) (x y z m : R) :
    (gaiaSetPointXYZM c v x y z m).getD j 0 =
      if j = v * 4 + 3 ∧ j < c.length then m
      else if j = v * 4 + 2 ∧ j < c.length then z
      else if j = v * 4 + 1 ∧ j < c.length then y
      else if j = v * 4 ∧ j < c.length then x else c.getD j 0 := by
  simp only [gaiaSetPointXYZM, getD_set_cell, List.length_set]
  split_ifs <;> first | rfl | (exfalso; omega)

theorem gaiaEwktGeometryFromLinestring_loop_spec (src : List R) (n iv : Nat) (dst : List R) :
    (gaiaEwktGeometryFromLinestring.loop src n iv dst).length = dst.length ∧
    ∀ j, (gaiaEwktGeometryFromLinestring.loop src n iv dst).getD j 0 =
      if iv * 2 ≤ j ∧ j < (iv + n) * 2 ∧ j < dst.length then src.getD j 0
      else dst.getD j 0 := by
  induction n generalizing iv dst with
  | zero =>
    refine ⟨rfl, fun j => ?_⟩
    simp only [gaiaEwktGeometryFromLinestring.loop]
    split_ifs <;> first | rfl | (exfalso; omega)
  | succ n ih =>
    simp only [gaiaEwktGeometryFromLinestring.loop, gaiaGetPoint]
    obtain ⟨hl, hc⟩ := ih (iv + 1)
      (gaiaSetPoint dst iv (src.getD (iv * 2) 0) (src.getD (iv * 2 + 1) 0))
    refine ⟨by rw [hl]; simp [gaiaSetPoint], fun j => ?_⟩
    rw [hc, gaiaSetPoint_getD]
    simp only [gaiaSetPoint, List.length_set]
    split_ifs <;> first | rfl | (exfalso; omega) | (congr 1; omega)

theorem gaiaEwktGeometryFromLinestringZ_loop_spec (src : List R) (n iv : Nat) (dst : List R) :
    (gaiaEwktGeometryFromLinestringZ.loop src n iv dst).length = dst.length ∧
    ∀ j, (gaiaEwktGeometryFromLinestringZ.loop src n iv dst).getD j 0 =
      if iv * 3 ≤ j ∧ j < (iv + n) * 3 ∧ j < dst.length then src.getD j 0
      else dst.getD j 0 := by
  induction n generalizing iv dst with
  | zero =>
    refine ⟨rfl, fun j => ?_⟩
    simp only [gaiaEwktGeometryFromLinestringZ.loop]
    split_ifs <;> first | rfl | (exfalso; omega)
  | succ n ih =>
    simp only [gaiaEwktGeometryFromLinestringZ.loop, gaiaGetPointXYZ]
    obtain ⟨hl, hc⟩ := ih (iv + 1) (gaiaSetPointXYZ dst iv (src.getD (iv * 3) 0)
      (src.getD (iv * 3 + 1) 0) (src.getD (iv * 3 + 2) 0))
    refine ⟨by rw [hl]; simp [gaiaSetPointXYZ], fun j => ?_⟩
    rw [hc, gaiaSetPointXYZ_getD]
    simp only [gaiaSetPointXYZ, List.length_set]
    split_ifs <;> first | rfl | (exfalso; omega) | (congr 1; omega)

theorem gaiaEwktGeometryFromLinestringM_loop_spec (src : List R) (n iv : Nat) (dst : List R) :
    (gaiaEwktGeometryFromLinestringM.loop src n iv dst).length = dst.length ∧
    ∀ j, (gaiaEwktGeometryFromLinestringM.loop src n iv dst).getD j 0 =
      if iv * 3 ≤ j ∧ j < (iv + n) * 3 ∧ j < dst.length then src.getD j 0
      else dst.getD j 0 := by
  induction n generalizing iv dst with
  | zero =>
    refine ⟨rfl, fun j => ?_⟩
    simp only [gaiaEwktGeometryFromLinestringM.loop]
    split_ifs <;> first | rfl | (exfalso; omega)
  | succ n ih =>
    simp only [gaiaEwktGeometryFromLinestringM.loop, gaiaGetPointXYM]
    obtain ⟨hl, hc⟩ := ih (iv + 1) (gaiaSetPointXYM dst iv (src.getD (iv * 3) 0)
      (src.getD (iv * 3 + 1) 0) (src.getD (iv * 3 + 2) 0))
    refine ⟨by rw [hl]; simp [gaiaSetPointXYM], fun j => ?_⟩
    rw [hc, gaiaSetPointXYM_getD]
    simp only [gaiaSetPointXYM, List.length_set]
    split_ifs <;> first | rfl | (exfalso; omega) | (congr 1; omega)

theorem gaiaEwktGeometryFromLinestringZM_loop_spec (src : List R) (n iv : Nat) (dst : List R) :
    (gaiaEwktGeometryFromLinestringZM.loop src n iv dst).length = dst.length ∧
    ∀ j, (gaiaEwktGeometryFromLinestringZM.loop src n iv dst).getD j 0 =
      if iv * 4 ≤ j ∧ j < (iv + n) * 4 ∧ j < dst.length then src.getD j 0
      else dst.getD j 0 := by
  induction n generalizing iv dst with
  | zero =>
    refine ⟨rfl, fun j => ?_⟩
    simp only [gaiaEwktGeometryFromLinestringZM.loop]
    split_ifs <;> first | rfl | (exfalso; omega)
  | succ n ih =>
    simp only [gaiaEwktGeometryFromLinestringZM.loop, gaiaGetPointXYZM]
    obtain ⟨hl, hc⟩ := ih (iv + 1) (gaiaSetPointXYZM dst iv (src.getD (iv * 4) 0)
      (src.getD (iv * 4 + 1) 0) (src.getD (iv * 4 + 2) 0) (src.getD (iv * 4 + 3) 0))
    refine ⟨by rw [hl]; simp [gaiaSetPointXYZM], fun j => ?_⟩
    rw [hc, gaiaSetPointXYZM_getD]
    simp only [gaiaSetPointXYZM, List.length_set]
    split_ifs <;> first | rfl | (exfalso; omega) | (congr 1; omega)

end Cells

/-! ### Linestring and point builders -/

section Builders

variable {R : Type} [Zero R]

/-- C5: for every dimension model D and every intermediate linestring `l` of
model D with N points (any N, in particular N ≥ 2),
`ewkt_buildGeomFromLinestring l` returns a geometry holding exactly one
linestring (and nothing else), with exactly N points, whose `i`-th
coordinate tuple equals the `i`-th coordinate tuple of `l` for every
`i < N`. -/
theorem ewkt_buildGeomFromLinestring_roundtrip (l : gaiaLinestring R)
    (hD : isDimensionModel l.DimensionModel) :
    ∃ g l2, ewkt_buildGeomFromLinestring l = some g ∧
      g.FirstLinestring = [l2] ∧ g.FirstPoint = [] ∧ g.FirstPolygon = [] ∧
      l2.Points = l.Points ∧ l2.DimensionModel = l.DimensionModel ∧
      ∀ i, i < l.Points →
        coordTuple l.DimensionModel l2.Coords i = coordTuple l.DimensionModel l.Coords i := by
  rcases hD with h | h | h | h
  · have hg : gaiaEwktGeometryFromLinestring l =
        { Srid := 0, FirstPoint := [], FirstPolygon := [],
          FirstLinestring := [
            { Points := l.Points, DimensionModel := l.DimensionModel,
              Coords := gaiaEwktGeometryFromLinestring.loop l.Coords l.Points 0
                (List.replicate (l.Points * 2) 0) }],
          DimensionModel := l.DimensionModel, DeclaredType := GAIA_LINESTRING } := by
      simp [gaiaEwktGeometryFromLinestring, gaiaAddLinestringToGeomColl.alloc,
        gaiaAddLinestringToGeomColl.link, gaiaAllocGeomColl, gaiaAllocLinestring, h,
        GAIA_XY, GAIA_XY_Z, GAIA_XY_M, GAIA_XY_Z_M]
    have hb : ewkt_buildGeomFromLinestring l = some (gaiaEwktGeometryFromLinestring l) := by
      simp [ewkt_buildGeomFromLinestring, h, GAIA_XY, GAIA_XY_Z, GAIA_XY_M, GAIA_XY_Z_M]
    rw [hb, hg]
    refine ⟨_, _, rfl, rfl, rfl, rfl, rfl, rfl, ?_⟩
    · intro i hi
      have hc := (gaiaEwktGeometryFromLinestring_loop_spec l.Coords l.Points 0
        (List.replicate (l.Points * 2) (0 : R))).2
      simp only [h, coordTuple, GAIA_XY, GAIA_XY_Z, GAIA_XY_M, GAIA_XY_Z_M, gaiaGetPoint, hc,
        List.length_replicate]
      have a1 : 0 * 2 ≤ i * 2 ∧ i * 2 < (0 + l.Points) * 2 ∧
          i * 2 < l.Points * 2 := by omega
      have a2 : 0 * 2 ≤ i * 2 + 1 ∧ i * 2 + 1 < (0 + l.Points) * 2 ∧
          i * 2 + 1 < l.Points * 2 := by omega
      simp [a1, a2]
  · have hg : gaiaEwktGeometryFromLinestringZ l =
        { Srid := 0, FirstPoint := [], FirstPolygon := [],
          FirstLinestring := [
            { Points := l.Points, DimensionModel := l.DimensionModel,
              Coords := gaiaEwktGeometryFromLinestringZ.loop l.Coords l.Points 0
                (List.replicate (l.Points * 3) 0) }],
          DimensionModel := l.DimensionModel, DeclaredType := GAIA_LINESTRING } := by
      simp [gaiaEwktGeometryFromLinestringZ, gaiaAddLinestringToGeomColl.alloc,
        gaiaAddLinestringToGeomColl.link, gaiaAllocGeomCollXYZ, gaiaAllocLinestringXYZ, h,
        GAIA_XY, GAIA_XY_Z, GAIA_XY_M, GAIA_XY_Z_M]
    have hb : ewkt_buildGeomFromLinestring l = some (gaiaEwktGeometryFromLinestringZ l) := by
      simp [ewkt_buildGeomFromLinestring, h, GAIA_XY, GAIA_XY_Z, GAIA_XY_M, GAIA_XY_Z_M]
    rw [hb, hg]
    refine ⟨_, _, rfl, rfl, rfl, rfl, rfl, rfl, ?_⟩
    · intro i hi
      have hc := (gaiaEwktGeometryFromLinestringZ_loop_spec l.Coords l.Points 0
        (List.replicate (l.Points * 3) (0 : R))).2
      simp only [h, coordTuple, GAIA_XY, GAIA_XY_Z, GAIA_XY_M, GAIA_XY_Z_M, gaiaGetPointXYZ, hc,
        List.length_replicate]
      have a1 : 0 * 3 ≤ i * 3 ∧ i * 3 < (0 + l.Points) * 3 ∧
          i * 3 < l.Points * 3 := by omega
      have a2 : 0 * 3 ≤ i * 3 + 1 ∧ i * 3 + 1 < (0 + l.Points) * 3 ∧
          i * 3 + 1 < l.Points * 3 := by omega
      have a3 : 0 * 3 ≤ i * 3 + 2 ∧ i * 3 + 2 < (0 + l.Points) * 3 ∧
          i * 3 + 2 < l.Points * 3 := by omega
      simp [a1, a2, a3]
  · have hg : gaiaEwktGeometryFromLinestringM l =
        { Srid := 0, FirstPoint := [], FirstPolygon := [],
          FirstLinestring := [
            { Points := l.Points, DimensionModel := l.DimensionModel,
              Coords := gaiaEwktGeometryFromLinestringM.loop l.Coords l.Points 0
                (List.replicate (l.Points * 3) 0) }],
          DimensionModel := l.DimensionModel, DeclaredType := GAIA_LINESTRING } := by
      simp [gaiaEwktGeometryFromLinestringM, gaiaAddLinestringToGeomColl.alloc,
        gaiaAddLinestringToGeomColl.link, gaiaAllocGeomCollXYM, gaiaAllocLinestringXYM, h,
        GAIA_XY, GAIA_XY_Z, GAIA_XY_M, GAIA_XY_Z_M]
    have hb : ewkt_buildGeomFromLinestring l = some (gaiaEwktGeometryFromLinestringM l) := by
      simp [ewkt_buildGeomFromLinestring, h, GAIA_XY, GAIA_XY_Z, GAIA_XY_M, GAIA_XY_Z_M]
    rw [hb, hg]
    refine ⟨_, _, rfl, rfl, rfl, rfl, rfl, rfl, ?_⟩
    · intro i hi
      have hc := (gaiaEwktGeometryFromLinestringM_loop_spec l.Coords l.Points 0
        (List.replicate (l.Points * 3) (0 : R))).2
      simp only [h, coordTuple, GAIA_XY, GAIA_XY_Z, GAIA_XY_M, GAIA_XY_Z_M, gaiaGetPointXYM, hc,
        List.length_replicate]
      have a1 : 0 * 3 ≤ i * 3 ∧ i * 3 < (0 + l.Points) * 3 ∧
          i * 3 < l.Points * 3 := by omega
      have a2 : 0 * 3 ≤ i * 3 + 1 ∧ i * 3 + 1 < (0 + l.Points) * 3 ∧
          i * 3 + 1 < l.Points * 3 := by omega
      have a3 : 0 * 3 ≤ i * 3 + 2 ∧ i * 3 + 2 < (0 + l.Points) * 3 ∧
          i * 3 + 2 < l.Points * 3 := by omega
      simp [a1, a2, a3]
  · have hg : gaiaEwktGeometryFromLinestringZM l =
        { Srid := 0, FirstPoint := [], FirstPolygon := [],
          FirstLinestring := [
            { Points := l.Points, DimensionModel := l.DimensionModel,
              Coords := gaiaEwktGeometryFromLinestringZM.loop l.Coords l.Points 0
                (List.replicate (l.Points * 4) 0) }],
          DimensionModel := l.DimensionModel, DeclaredType := GAIA_LINESTRING } := by
      simp [gaiaEwktGeometryFromLinestringZM, gaiaAddLinestringToGeomColl.alloc,
        gaiaAddLinestringToGeomColl.link, gaiaAllocGeomCollXYZM, gaiaAllocLinestringXYZM, h,
        GAIA_XY, GAIA_XY_Z, GAIA_XY_M, GAIA_XY_Z_M]
    have hb : ewkt_buildGeomFromLinestring l = some (gaiaEwktGeometryFromLinestringZM l) := by
      simp [ewkt_buildGeomFromLinestring, h, GAIA_XY, GAIA_XY_Z, GAIA_XY_M, GAIA_XY_Z_M]
    rw [hb, hg]
    refine ⟨_, _, rfl, rfl, rfl, rfl, rfl, rfl, ?_⟩
    · intro i hi
      have hc := (gaiaEwktGeometryFromLinestringZM_loop_spec l.Coords l.Points 0
        (List.replicate (l.Points * 4) (0 : R))).2
      simp only [h, coordTuple, GAIA_XY, GAIA_XY_Z, GAIA_XY_M, GAIA_XY_Z_M, gaiaGetPointXYZM, hc,
        List.length_replicate]
      have a1 : 0 * 4 ≤ i * 4 ∧ i * 4 < (0 + l.Points) * 4 ∧
          i * 4 < l.Points * 4 := by omega
      have a2 : 0 * 4 ≤ i * 4 + 1 ∧ i * 4 + 1 < (0 + l.Points) * 4 ∧
          i * 4 + 1 < l.Points * 4 := by omega
      have a3 : 0 * 4 ≤ i * 4 + 2 ∧ i * 4 + 2 < (0 + l.Points) * 4 ∧
          i * 4 + 2 < l.Points * 4 := by omega
      have a4 : 0 * 4 ≤ i * 4 + 3 ∧ i * 4 + 3 < (0 + l.Points) * 4 ∧
          i * 4 + 3 < l.Points * 4 := by omega
      simp [a1, a2, a3, a4]

/-- Witness of C5: a 3D linestring of two vertices, (0,0,5) and (1,1,7). -/
theorem ewkt_buildGeomFromLinestring_roundtrip_witness :
    isDimensionModel
        ({ Points := 2, Coords := [0, 0, 5, 1, 1, 7], DimensionModel := GAIA_XY_Z } :
          gaiaLinestring Int).DimensionModel ∧
      ∃ g l2, ewkt_buildGeomFromLinestring
          ({ Points := 2, Coords := [0, 0, 5, 1, 1, 7], DimensionModel := GAIA_XY_Z } :
            gaiaLinestring Int) = some g ∧
        g.FirstLinestring = [l2] ∧ g.FirstPoint = [] ∧ g.FirstPolygon = [] ∧
        l2.Points = 2 ∧ l2.DimensionModel = GAIA_XY_Z ∧
        ∀ i, i < 2 →
          coordTuple GAIA_XY_Z l2.Coords i = coordTuple GAIA_XY_Z [0, 0, 5, 1, 1, 7] i :=
  ⟨by decide, ewkt_buildGeomFromLinestring_roundtrip _ (by decide)⟩

/-- The class constant that `ewkt_buildGeomFromPoint` stores for the 3D point
(1,2,3): the geometry holds that point and is 3D, and its declared type is
the Point class with Z, `GAIA_POINTZ`, not the number `GAIA_POINT` of the
kind. -/
theorem ewkt_buildGeomFromPoint_xyz_not_GAIA_POINT :
    ∃ g, ewkt_buildGeomFromPoint (ewkt_point_xyz (1 : Int) 2 3) = some g ∧
      g.FirstPoint = [{ X := 1, Y := 2, Z := 3, M := 0, DimensionModel := GAIA_XY_Z }] ∧
      g.DimensionModel = GAIA_XY_Z ∧
      g.DeclaredType = GAIA_POINTZ ∧ g.DeclaredType ≠ GAIA_POINT :=
  ⟨_, rfl, rfl, rfl, rfl, by decide⟩

/-- C6: for every point `p` of any of the four dimension models,
`ewkt_buildGeomFromPoint p` returns a geometry that holds exactly one point
(and nothing else) with the coordinates of `p` that its model carries (the
others are 0), whose dimension model equals that of `p`, and whose declared
kind is Point: the declared type is the Point class of the model,
`GAIA_POINT` for a 2D point and `GAIA_POINTZ`, `GAIA_POINTM`, `GAIA_POINTZM`
otherwise; in particular the 2D point (10,20) yields a geometry of declared
kind Point (declared type `GAIA_POINT`), model `GAIA_XY`, holding the single
point (10,20). -/
theorem ewkt_buildGeomFromPoint_spec (p : gaiaPoint R)
    (hD : isDimensionModel p.DimensionModel) :
    (∃ g q, ewkt_buildGeomFromPoint p = some g ∧
      g.FirstPoint = [q] ∧ g.FirstLinestring = [] ∧ g.FirstPolygon = [] ∧
      q.X = p.X ∧ q.Y = p.Y ∧
      q.Z = (if p.DimensionModel = GAIA_XY_Z ∨ p.DimensionModel = GAIA_XY_Z_M
              then p.Z else 0) ∧
      q.M = (if p.DimensionModel = GAIA_XY_M ∨ p.DimensionModel = GAIA_XY_Z_M
              then p.M else 0) ∧
      q.DimensionModel = p.DimensionModel ∧
      g.DimensionModel = p.DimensionModel ∧
      g.DeclaredType =
        (if p.DimensionModel = GAIA_XY then GAIA_POINT
         else if p.DimensionModel = GAIA_XY_Z then GAIA_POINTZ
         else if p.DimensionModel = GAIA_XY_M then GAIA_POINTM
         else GAIA_POINTZM) ∧
      gaiaDeclaredKind g.DeclaredType = GAIA_POINT) ∧
    (ewkt_buildGeomFromPoint (ewkt_point_xy (10 : Int) 20)).map
        (fun g => (gaiaDeclaredKind g.DeclaredType, g.DeclaredType, g.DimensionModel,
          g.FirstPoint, g.FirstLinestring, g.FirstPolygon)) =
      some (GAIA_POINT, GAIA_POINT, GAIA_XY,
        [{ X := 10, Y := 20, Z := 0, M := 0, DimensionModel := GAIA_XY }], [], []) := by
  refine ⟨?_, rfl⟩
  rcases hD with h | h | h | h
  · refine ⟨gaiaEwktGeometryFromPoint p, gaiaAllocPoint p.X p.Y, ?_, rfl, rfl, rfl, rfl, rfl,
      ?_, ?_, ?_, ?_, ?_, rfl⟩ <;>
    simp [ewkt_buildGeomFromPoint, gaiaEwktGeometryFromPoint, gaiaAddPointToGeomColl,
      gaiaAllocGeomColl, gaiaAllocPoint, h, GAIA_XY, GAIA_XY_Z, GAIA_XY_M, GAIA_XY_Z_M]
  · refine ⟨gaiaEwktGeometryFromPointZ p, gaiaAllocPointXYZ p.X p.Y p.Z, ?_, rfl, rfl, rfl,
      rfl, rfl, ?_, ?_, ?_, ?_, ?_, rfl⟩ <;>
    simp [ewkt_buildGeomFromPoint, gaiaEwktGeometryFromPointZ, gaiaAddPointToGeomCollXYZ,
      gaiaAllocGeomCollXYZ, gaiaAllocPointXYZ, h, GAIA_XY, GAIA_XY_Z, GAIA_XY_M, GAIA_XY_Z_M]
  · refine ⟨gaiaEwktGeometryFromPointM p, gaiaAllocPointXYM p.X p.Y p.M, ?_, rfl, rfl, rfl,
      rfl, rfl, ?_, ?_, ?_, ?_, ?_, rfl⟩ <;>
    simp [ewkt_buildGeomFromPoint, gaiaEwktGeometryFromPointM, gaiaAddPointToGeomCollXYM,
      gaiaAllocGeomCollXYM, gaiaAllocPointXYM, h, GAIA_XY, GAIA_XY_Z, GAIA_XY_M, GAIA_XY_Z_M]
  · refine ⟨gaiaEwktGeometryFromPointZM p, gaiaAllocPointXYZM p.X p.Y p.Z p.M, ?_, rfl, rfl,
      rfl, rfl, rfl, ?_, ?_, ?_, ?_, ?_, rfl⟩ <;>
    simp [ewkt_buildGeomFromPoint, gaiaEwktGeometryFromPointZM, gaiaAddPointToGeomCollXYZM,
      gaiaAllocGeomCollXYZM, gaiaAllocPointXYZM, h, GAIA_XY, GAIA_XY_Z, GAIA_XY_M,
      GAIA_XY_Z_M]

/-- Witness of C6: the 3D + measure point (1,2,3,4). -/
theorem ewkt_buildGeomFromPoint_spec_witness :
    isDimensionModel (ewkt_point_xyzm (1 : Int) 2 3 4).DimensionModel ∧
    ∃ g q, ewkt_buildGeomFromPoint (ewkt_point_xyzm (1 : Int) 2 3 4) = some g ∧
      g.FirstPoint = [q] ∧ q.X = 1 ∧ q.Y = 2 ∧ q.Z = 3 ∧ q.M = 4 ∧
      q.DimensionModel = GAIA_XY_Z_M ∧ g.DimensionModel = GAIA_XY_Z_M ∧
      g.DeclaredType = GAIA_POINTZM ∧ gaiaDeclaredKind g.DeclaredType = GAIA_POINT := by
  refine ⟨by decide, ?_⟩
  obtain ⟨g, q, h1, h2, -, -, h3, h4, h5, h6, h7, h8, h9, h10⟩ :=
    (ewkt_buildGeomFromPoint_spec (ewkt_point_xyzm (1 : Int) 2 3 4) (by decide)).1
  exact ⟨g, q, h1, h2, h3, h4, h5, h6, h7, h8, h9, h10⟩

end Builders

/-! ### Declared type and dimension model of the built geometries -/

section KindModel

variable {R : Type} [Zero R]

theorem ewkt_multipoint_xy_loop_type_model (xs : List (gaiaPoint R)) (g : gaiaGeomColl R) :
    (ewkt_multipoint_xy.loop xs g).DeclaredType = g.DeclaredType ∧
    (ewkt_multipoint_xy.loop xs g).DimensionModel = g.DimensionModel := by
  induction xs generalizing g with
  | nil => exact ⟨rfl, rfl⟩
  | cons x xs ih =>
    simp only [ewkt_multipoint_xy.loop]
    obtain ⟨h1, h2⟩ := ih _
    rw [h1, h2]
    simp [gaiaAddPointToGeomColl]

theorem ewkt_multipoint_xyz_loop_type_model (xs : List (gaiaPoint R)) (g : gaiaGeomColl R) :
    (ewkt_multipoint_xyz.loop xs g).DeclaredType = g.DeclaredType ∧
    (ewkt_multipoint_xyz.loop xs g).DimensionModel = g.DimensionModel := by
  induction xs generalizing g with
  | nil => exact ⟨rfl, rfl⟩
  | cons x xs ih =>
    simp only [ewkt_multipoint_xyz.loop]
    obtain ⟨h1, h2⟩ := ih _
    rw [h1, h2]
    simp [gaiaAddPointToGeomCollXYZ]

theorem ewkt_multipoint_xym_loop_type_model (xs : List (gaiaPoint R)) (g : gaiaGeomColl R) :
    (ewkt_multipoint_xym.loop xs g).DeclaredType = g.DeclaredType ∧
    (ewkt_multipoint_xym.loop xs g).DimensionModel = g.DimensionModel := by
  induction xs generalizing g with
  | nil => exact ⟨rfl, rfl⟩
  | cons x xs ih =>
    simp only [ewkt_multipoint_xym.loop]
    obtain ⟨h1, h2⟩ := ih _
    rw [h1, h2]
    simp [gaiaAddPointToGeomCollXYM]

theorem ewkt_multipoint_xyzm_loop_type_model (xs : List (gaiaPoint R)) (g : gaiaGeomColl R) :
    (ewkt_multipoint_xyzm.loop xs g).DeclaredType = g.DeclaredType ∧
    (ewkt_multipoint_xyzm.loop xs g).DimensionModel = g.DimensionModel := by
  induction xs generalizing g with
  | nil => exact ⟨rfl, rfl⟩
  | cons x xs ih =>
    simp only [ewkt_multipoint_xyzm.loop]
    obtain ⟨h1, h2⟩ := ih _
    rw [h1, h2]
    simp [gaiaAddPointToGeomCollXYZM]

theorem ewkt_multilinestring_loop_type_model (xs : List (gaiaLinestring R)) (g : gaiaGeomColl R) :
    (ewkt_multilinestring.loop xs g).DeclaredType = g.DeclaredType ∧
    (ewkt_multilinestring.loop xs g).DimensionModel = g.DimensionModel := by
  induction xs generalizing g with
  | nil => exact ⟨rfl, rfl⟩
  | cons x xs ih =>
    simp only [ewkt_multilinestring.loop]
    obtain ⟨h1, h2⟩ := ih _
    rw [h1, h2]
    simp [gaiaAddLinestringToGeomColl.link]

theorem ewkt_multipolygon_loop_type_model (xs : List (gaiaPolygon R)) (g : gaiaGeomColl R) :
    (ewkt_multipolygon.loop xs g).DeclaredType = g.DeclaredType ∧
    (ewkt_multipolygon.loop xs g).DimensionModel = g.DimensionModel := by
  induction xs generalizing g with
  | nil => exact ⟨rfl, rfl⟩
  | cons x xs ih =>
    simp only [ewkt_multipolygon.loop]
    obtain ⟨h1, h2⟩ := ih _
    rw [h1, h2]
    simp [gaiaAddPolygonToGeomColl.link]

theorem ewkt_geomColl_common_points_type_model (xs : List (gaiaPoint R)) (g : gaiaGeomColl R) :
    (ewkt_geomColl_common.points xs g).DeclaredType = g.DeclaredType ∧
    (ewkt_geomColl_common.points xs g).DimensionModel = g.DimensionModel := by
  induction xs generalizing g with
  | nil => exact ⟨rfl, rfl⟩
  | cons x xs ih =>
    simp only [ewkt_geomColl_common.points]
    obtain ⟨h1, h2⟩ := ih _
    rw [h1, h2]
    simp [id]

theorem ewkt_geomColl_common_linestrings_type_model (xs : List (gaiaLinestring R)) (g : gaiaGeomColl R) :
    (ewkt_geomColl_common.linestrings xs g).DeclaredType = g.DeclaredType ∧
    (ewkt_geomColl_common.linestrings xs g).DimensionModel = g.DimensionModel := by
  induction xs generalizing g with
  | nil => exact ⟨rfl, rfl⟩
  | cons x xs ih =>
    simp only [ewkt_geomColl_common.linestrings]
    obtain ⟨h1, h2⟩ := ih _
    rw [h1, h2]
    simp [id]

theorem ewkt_geomColl_common_polygons_type_model (xs : List (gaiaPolygon R)) (g : gaiaGeomColl R) :
    (ewkt_geomColl_common.polygons xs g).DeclaredType = g.DeclaredType ∧
    (ewkt_geomColl_common.polygons xs g).DimensionModel = g.DimensionModel := by
  induction xs generalizing g with
  | nil => exact ⟨rfl, rfl⟩
  | cons x xs ih =>
    simp only [ewkt_geomColl_common.polygons]
    obtain ⟨h1, h2⟩ := ih _
    rw [h1, h2]
    simp [id]

theorem ewkt_geomColl_common_type_model (xs : List (gaiaGeomColl R)) (g : gaiaGeomColl R) :
    (ewkt_geomColl_common xs g).DeclaredType = g.DeclaredType ∧
    (ewkt_geomColl_common xs g).DimensionModel = g.DimensionModel := by
  induction xs generalizing g with
  | nil => exact ⟨rfl, rfl⟩
  | cons x xs ih =>
    simp only [ewkt_geomColl_common]
    obtain ⟨h1, h2⟩ := ih
      (ewkt_geomColl_common.polygons x.FirstPolygon
        (ewkt_geomColl_common.linestrings x.FirstLinestring
          (ewkt_geomColl_common.points x.FirstPoint g)))
    rw [h1, h2]
    simp [ewkt_geomColl_common_polygons_type_model,
      ewkt_geomColl_common_linestrings_type_model, ewkt_geomColl_common_points_type_model]

theorem ewkt_polygon_any_type_loop_model (rs : List (gaiaRing R)) (pg : gaiaPolygon R) :
    (ewkt_polygon_any_type.loop rs pg).DimensionModel = pg.DimensionModel ∧
    (ewkt_polygon_any_type.loop rs pg).Exterior = pg.Exterior ∧
    (ewkt_polygon_any_type.loop rs pg).Interiors = pg.Interiors ++ rs := by
  induction rs generalizing pg with
  | nil => simp [ewkt_polygon_any_type.loop]
  | cons r rs ih =>
    simp only [ewkt_polygon_any_type.loop]
    obtain ⟨h1, h2, h3⟩ := ih (gaiaAddRingToPolyg pg r)
    rw [h1, h2, h3]
    simp [gaiaAddRingToPolyg]

theorem ewkt_buildGeomFromPolygon_some (pg : gaiaPolygon R) (pgs : List (gaiaPolygon R))
    (h : isDimensionModel pg.DimensionModel) :
    ∃ g, ewkt_buildGeomFromPolygon (pg :: pgs) = some g ∧
      g.DeclaredType = GAIA_POLYGON ∧ g.DimensionModel = pg.DimensionModel ∧
      g.FirstPolygon = pg :: pgs ∧ g.FirstPoint = [] ∧ g.FirstLinestring = [] := by
  rcases h with h | h | h | h <;>
  simp [ewkt_buildGeomFromPolygon, h, gaiaAllocGeomColl, gaiaAllocGeomCollXYZ,
    gaiaAllocGeomCollXYM, gaiaAllocGeomCollXYZM, GAIA_XY, GAIA_XY_Z, GAIA_XY_M, GAIA_XY_Z_M]

end KindModel

section KindModelClaims

variable {R : Type} [Zero R]

theorem ewkt_buildGeomFromLinestring_type_model (line : gaiaLinestring R)
    (h : isDimensionModel line.DimensionModel) :
    ∃ g, ewkt_buildGeomFromLinestring line = some g ∧
      g.DeclaredType = GAIA_LINESTRING ∧ g.DimensionModel = line.DimensionModel := by
  rcases h with h | h | h | h <;>
  simp [ewkt_buildGeomFromLinestring, h, gaiaEwktGeometryFromLinestring,
    gaiaEwktGeometryFromLinestringZ, gaiaEwktGeometryFromLinestringM,
    gaiaEwktGeometryFromLinestringZM, gaiaAddLinestringToGeomColl.link,
    gaiaAllocGeomColl, gaiaAllocGeomCollXYZ, gaiaAllocGeomCollXYM, gaiaAllocGeomCollXYZM,
    GAIA_XY, GAIA_XY_Z, GAIA_XY_M, GAIA_XY_Z_M]

theorem ewkt_polygon_any_type_geom (ring : gaiaRing R) (rings : List (gaiaRing R))
    (h : isDimensionModel ring.DimensionModel) :
    ∃ pg g, ewkt_polygon_any_type (ring :: rings) = some pg ∧
      ewkt_buildGeomFromPolygon [pg] = some g ∧
      g.DeclaredType = GAIA_POLYGON ∧ g.DimensionModel = ring.DimensionModel := by
  have hm := (ewkt_polygon_any_type_loop_model rings (gaiaCreatePolygon ring)).1
  have hd : isDimensionModel
      (ewkt_polygon_any_type.loop rings (gaiaCreatePolygon ring)).DimensionModel := by
    rw [hm]; exact h
  obtain ⟨g, hg, ht, hdm, -⟩ := ewkt_buildGeomFromPolygon_some _ [] hd
  exact ⟨_, g, rfl, hg, ht, by rw [hdm, hm]; rfl⟩

/-- C7: for every shape kind K among LineString, Polygon, MultiPoint,
MultiLineString, MultiPolygon and GeometryCollection and every dimension
model D among XY, XYZ, XYM, XYZM, the builder for (K, D) applied to a
non-empty input of model D returns a geometry whose declared type is the
constant of K and whose `DimensionModel` is D. (For LineString and Polygon
the builder takes D from its input; the Multi-* and collection builders
exist once per D.) -/
theorem ewkt_builders_declared_type_and_model
    (line : gaiaLinestring R) (hline : isDimensionModel line.DimensionModel)
    (ring : gaiaRing R) (rings : List (gaiaRing R))
    (hring : isDimensionModel ring.DimensionModel)
    (pt : gaiaPoint R) (pts : List (gaiaPoint R))
    (ln : gaiaLinestring R) (lns : List (gaiaLinestring R))
    (poly : gaiaPolygon R) (polys : List (gaiaPolygon R))
    (geom : gaiaGeomColl R) (geoms : List (gaiaGeomColl R)) :
    (∃ g, ewkt_buildGeomFromLinestring line = some g ∧
      g.DeclaredType = GAIA_LINESTRING ∧ g.DimensionModel = line.DimensionModel) ∧
    (∃ pg g, ewkt_polygon_xy (ring :: rings) = some pg ∧
      ewkt_buildGeomFromPolygon [pg] = some g ∧
      g.DeclaredType = GAIA_POLYGON ∧ g.DimensionModel = ring.DimensionModel) ∧
    (∃ pg g, ewkt_polygon_xyz (ring :: rings) = some pg ∧
      ewkt_buildGeomFromPolygon [pg] = some g ∧
      g.DeclaredType = GAIA_POLYGON ∧ g.DimensionModel = ring.DimensionModel) ∧
    (∃ pg g, ewkt_polygon_xym (ring :: rings) = some pg ∧
      ewkt_buildGeomFromPolygon [pg] = some g ∧
      g.DeclaredType = GAIA_POLYGON ∧ g.DimensionModel = ring.DimensionModel) ∧
    (∃ pg g, ewkt_polygon_xyzm (ring :: rings) = some pg ∧
      ewkt_buildGeomFromPolygon [pg] = some g ∧
      g.DeclaredType = GAIA_POLYGON ∧ g.DimensionModel = ring.DimensionModel) ∧
    (∃ g, ewkt_multipoint_xy (pt :: pts) = some g ∧
      g.DeclaredType = GAIA_MULTIPOINT ∧ g.DimensionModel = GAIA_XY) ∧
    (∃ g, ewkt_multipoint_xyz (pt :: pts) = some g ∧
      g.DeclaredType = GAIA_MULTIPOINT ∧ g.DimensionModel = GAIA_XY_Z) ∧
    (∃ g, ewkt_multipoint_xym (pt :: pts) = some g ∧
      g.DeclaredType = GAIA_MULTIPOINT ∧ g.DimensionModel = GAIA_XY_M) ∧
    (∃ g, ewkt_multipoint_xyzm (pt :: pts) = some g ∧
      g.DeclaredType = GAIA_MULTIPOINT ∧ g.DimensionModel = GAIA_XY_Z_M) ∧
    (∃ g, ewkt_multilinestring_xy (ln :: lns) = some g ∧
      g.DeclaredType = GAIA_MULTILINESTRING ∧ g.DimensionModel = GAIA_XY) ∧
    (∃ g, ewkt_multilinestring_xyz (ln :: lns) = some g ∧
      g.DeclaredType = GAIA_MULTILINESTRING ∧ g.DimensionModel = GAIA_XY_Z) ∧
    (∃ g, ewkt_multilinestring_xym (ln :: lns) = some g ∧
      g.DeclaredType = GAIA_MULTILINESTRING ∧ g.DimensionModel = GAIA_XY_M) ∧
    (∃ g, ewkt_multilinestring_xyzm (ln :: lns) = some g ∧
      g.DeclaredType = GAIA_MULTILINESTRING ∧ g.DimensionModel = GAIA_XY_Z_M) ∧
    (∃ g, ewkt_multipolygon_xy (poly :: polys) = some g ∧
      g.DeclaredType = GAIA_MULTIPOLYGON ∧ g.DimensionModel = GAIA_XY) ∧
    (∃ g, ewkt_multipolygon_xyz (poly :: polys) = some g ∧
      g.DeclaredType = GAIA_MULTIPOLYGON ∧ g.DimensionModel = GAIA_XY_Z) ∧
    (∃ g, ewkt_multipolygon_xym (poly :: polys) = some g ∧
      g.DeclaredType = GAIA_MULTIPOLYGON ∧ g.DimensionModel = GAIA_XY_M) ∧
    (∃ g, ewkt_multipolygon_xyzm (poly :: polys) = some g ∧
      g.DeclaredType = GAIA_MULTIPOLYGON ∧ g.DimensionModel = GAIA_XY_Z_M) ∧
    (∃ g, ewkt_geomColl_xy (geom :: geoms) = some g ∧
      g.DeclaredType = GAIA_GEOMETRYCOLLECTION ∧ g.DimensionModel = GAIA_XY) ∧
    (∃ g, ewkt_geomColl_xyz (geom :: geoms) = some g ∧
      g.DeclaredType = GAIA_GEOMETRYCOLLECTION ∧ g.DimensionModel = GAIA_XY_Z) ∧
    (∃ g, ewkt_geomColl_xym (geom :: geoms) = some g ∧
      g.DeclaredType = GAIA_GEOMETRYCOLLECTION ∧ g.DimensionModel = GAIA_XY_M) ∧
    (∃ g, ewkt_geomColl_xyzm (geom :: geoms) = some g ∧
      g.DeclaredType = GAIA_GEOMETRYCOLLECTION ∧ g.DimensionModel = GAIA_XY_Z_M) := by
  refine ⟨ewkt_buildGeomFromLinestring_type_model line hline,
    ewkt_polygon_any_type_geom ring rings hring,
    ewkt_polygon_any_type_geom ring rings hring,
    ewkt_polygon_any_type_geom ring rings hring,
    ewkt_polygon_any_type_geom ring rings hring,
    ⟨_, rfl, ?_⟩, ⟨_, rfl, ?_⟩, ⟨_, rfl, ?_⟩, ⟨_, rfl, ?_⟩,
    ⟨_, rfl, ?_⟩, ⟨_, rfl, ?_⟩, ⟨_, rfl, ?_⟩, ⟨_, rfl, ?_⟩,
    ⟨_, rfl, ?_⟩, ⟨_, rfl, ?_⟩, ⟨_, rfl, ?_⟩, ⟨_, rfl, ?_⟩,
    ⟨_, rfl, ?_⟩, ⟨_, rfl, ?_⟩, ⟨_, rfl, ?_⟩, ⟨_, rfl, ?_⟩⟩
  all_goals
    first
    | exact ewkt_multipoint_xy_loop_type_model _ _
    | exact ewkt_multipoint_xyz_loop_type_model _ _
    | exact ewkt_multipoint_xym_loop_type_model _ _
    | exact ewkt_multipoint_xyzm_loop_type_model _ _
    | exact ewkt_multilinestring_loop_type_model _ _
    | exact ewkt_multipolygon_loop_type_model _ _
    | exact ewkt_geomColl_common_type_model _ _

/-- Witness of C7: a 3D linestring, a 2D + measure ring and one-element
lists. -/
theorem ewkt_builders_declared_type_and_model_witness :
    isDimensionModel sampleLinestringZ.DimensionModel ∧
    isDimensionModel sampleRingM.DimensionModel ∧
    (∃ g, ewkt_buildGeomFromLinestring sampleLinestringZ = some g ∧
      g.DeclaredType = GAIA_LINESTRING ∧ g.DimensionModel = sampleLinestringZ.DimensionModel) ∧
    (∃ pg g, ewkt_polygon_xy (sampleRingM :: [sampleRingM]) = some pg ∧
      ewkt_buildGeomFromPolygon [pg] = some g ∧
      g.DeclaredType = GAIA_POLYGON ∧ g.DimensionModel = sampleRingM.DimensionModel) ∧
    (∃ pg g, ewkt_polygon_xyz (sampleRingM :: [sampleRingM]) = some pg ∧
      ewkt_buildGeomFromPolygon [pg] = some g ∧
      g.DeclaredType = GAIA_POLYGON ∧ g.DimensionModel = sampleRingM.DimensionModel) ∧
    (∃ pg g, ewkt_polygon_xym (sampleRingM :: [sampleRingM]) = some pg ∧
      ewkt_buildGeomFromPolygon [pg] = some g ∧
      g.DeclaredType = GAIA_POLYGON ∧ g.DimensionModel = sampleRingM.DimensionModel) ∧
    (∃ pg g, ewkt_polygon_xyzm (sampleRingM :: [sampleRingM]) = some pg ∧
      ewkt_buildGeomFromPolygon [pg] = some g ∧
      g.DeclaredType = GAIA_POLYGON ∧ g.DimensionModel = sampleRingM.DimensionModel) ∧
    (∃ g, ewkt_multipoint_xy (ewkt_point_xy (1 : Int) 2 :: []) = some g ∧
      g.DeclaredType = GAIA_MULTIPOINT ∧ g.DimensionModel = GAIA_XY) ∧
    (∃ g, ewkt_multipoint_xyz (ewkt_point_xy (1 : Int) 2 :: []) = some g ∧
      g.DeclaredType = GAIA_MULTIPOINT ∧ g.DimensionModel = GAIA_XY_Z) ∧
    (∃ g, ewkt_multipoint_xym (ewkt_point_xy (1 : Int) 2 :: []) = some g ∧
      g.DeclaredType = GAIA_MULTIPOINT ∧ g.DimensionModel = GAIA_XY_M) ∧
    (∃ g, ewkt_multipoint_xyzm (ewkt_point_xy (1 : Int) 2 :: []) = some g ∧
      g.DeclaredType = GAIA_MULTIPOINT ∧ g.DimensionModel = GAIA_XY_Z_M) ∧
    (∃ g, ewkt_multilinestring_xy (sampleLinestringZ :: []) = some g ∧
      g.DeclaredType = GAIA_MULTILINESTRING ∧ g.DimensionModel = GAIA_XY) ∧
    (∃ g, ewkt_multilinestring_xyz (sampleLinestringZ :: []) = some g ∧
      g.DeclaredType = GAIA_MULTILINESTRING ∧ g.DimensionModel = GAIA_XY_Z) ∧
    (∃ g, ewkt_multilinestring_xym (sampleLinestringZ :: []) = some g ∧
      g.DeclaredType = GAIA_MULTILINESTRING ∧ g.DimensionModel = GAIA_XY_M) ∧
    (∃ g, ewkt_multilinestring_xyzm (sampleLinestringZ :: []) = some g ∧
      g.DeclaredType = GAIA_MULTILINESTRING ∧ g.DimensionModel = GAIA_XY_Z_M) ∧
    (∃ g, ewkt_multipolygon_xy (gaiaCreatePolygon sampleRingM :: []) = some g ∧
      g.DeclaredType = GAIA_MULTIPOLYGON ∧ g.DimensionModel = GAIA_XY) ∧
    (∃ g, ewkt_multipolygon_xyz (gaiaCreatePolygon sampleRingM :: []) = some g ∧
      g.DeclaredType = GAIA_MULTIPOLYGON ∧ g.DimensionModel = GAIA_XY_Z) ∧
    (∃ g, ewkt_multipolygon_xym (gaiaCreatePolygon sampleRingM :: []) = some g ∧
      g.DeclaredType = GAIA_MULTIPOLYGON ∧ g.DimensionModel = GAIA_XY_M) ∧
    (∃ g, ewkt_multipolygon_xyzm (gaiaCreatePolygon sampleRingM :: []) = some g ∧
      g.DeclaredType = GAIA_MULTIPOLYGON ∧ g.DimensionModel = GAIA_XY_Z_M) ∧
    (∃ g, ewkt_geomColl_xy (gaiaEwktGeometryFromLinestringZ sampleLinestringZ :: [])
        = some g ∧
      g.DeclaredType = GAIA_GEOMETRYCOLLECTION ∧ g.DimensionModel = GAIA_XY) ∧
    (∃ g, ewkt_geomColl_xyz (gaiaEwktGeometryFromLinestringZ sampleLinestringZ :: [])
        = some g ∧
      g.DeclaredType = GAIA_GEOMETRYCOLLECTION ∧ g.DimensionModel = GAIA_XY_Z) ∧
    (∃ g, ewkt_geomColl_xym (gaiaEwktGeometryFromLinestringZ sampleLinestringZ :: [])
        = some g ∧
      g.DeclaredType = GAIA_GEOMETRYCOLLECTION ∧ g.DimensionModel = GAIA_XY_M) ∧
    (∃ g, ewkt_geomColl_xyzm (gaiaEwktGeometryFromLinestringZ sampleLinestringZ :: [])
        = some g ∧
      g.DeclaredType = GAIA_GEOMETRYCOLLECTION ∧ g.DimensionModel = GAIA_XY_Z_M) :=
  ⟨by decide, by decide,
    ewkt_builders_declared_type_and_model sampleLinestringZ (by decide)
      sampleRingM [sampleRingM] (by decide) (ewkt_point_xy (1 : Int) 2) [] sampleLinestringZ []
      (gaiaCreatePolygon sampleRingM) []
      (gaiaEwktGeometryFromLinestringZ sampleLinestringZ) []⟩

end KindModelClaims

/-! ### Ring builders -/

section Rings

variable {R : Type} [Zero R]

theorem ewkt_count_points_loop_eq (first : List (gaiaPoint R)) (n : Nat) :
    ewkt_count_points.loop first n = n + first.length := by
  induction first generalizing n with
  | nil => simp [ewkt_count_points.loop]
  | cons p ps ih => simp [ewkt_count_points.loop, ih]; omega

theorem ewkt_count_points_eq (first : List (gaiaPoint R)) :
    ewkt_count_points first = first.length := by
  simp [ewkt_count_points, ewkt_count_points_loop_eq]

/-- C8: for every point list with fewer than 4 points (in particular exactly
3 points, and the empty list), each of `ewkt_ring_xy`, `ewkt_ring_xyz`,
`ewkt_ring_xym` and `ewkt_ring_xyzm` returns no ring. -/
theorem ewkt_ring_rejects_fewer_than_4 (first : List (gaiaPoint R))
    (h : first.length < 4) :
    ewkt_ring_xy first = none ∧ ewkt_ring_xyz first = none ∧
    ewkt_ring_xym first = none ∧ ewkt_ring_xyzm first = none := by
  cases first with
  | nil => exact ⟨rfl, rfl, rfl, rfl⟩
  | cons p ps =>
    have hc : ewkt_count_points (p :: ps) < 4 := by rw [ewkt_count_points_eq]; exact h
    simp [ewkt_ring_xy, ewkt_ring_xyz, ewkt_ring_xym, ewkt_ring_xyzm, hc]

/-- Witness of C8: the three points (0,0), (1,0), (1,1). -/
theorem ewkt_ring_rejects_fewer_than_4_witness :
    [ewkt_point_xy (0 : Int) 0, ewkt_point_xy 1 0, ewkt_point_xy 1 1].length < 4 ∧
    (ewkt_ring_xy [ewkt_point_xy (0 : Int) 0, ewkt_point_xy 1 0, ewkt_point_xy 1 1] = none ∧
     ewkt_ring_xyz [ewkt_point_xy (0 : Int) 0, ewkt_point_xy 1 0, ewkt_point_xy 1 1] = none ∧
     ewkt_ring_xym [ewkt_point_xy (0 : Int) 0, ewkt_point_xy 1 0, ewkt_point_xy 1 1] = none ∧
     ewkt_ring_xyzm [ewkt_point_xy (0 : Int) 0, ewkt_point_xy 1 0, ewkt_point_xy 1 1] = none) :=
  ⟨by decide, ewkt_ring_rejects_fewer_than_4 _ (by decide)⟩

/-- Counterexample to C9 as stated: the four points (0,0), (4,0), (4,4),
(0,4), whose first point differs from the last one, are not rejected:
`ewkt_ring_xy` returns the ring of these four points, the polygon builders
turn it into a geometry, and `ewktCheckValidity` accepts that geometry. -/
theorem ewkt_ring_xy_accepts_unclosed :
    ewkt_point_xy (0 : Int) 0 ≠ ewkt_point_xy 0 4 ∧
    ewkt_ring_xy [ewkt_point_xy (0 : Int) 0, ewkt_point_xy 4 0, ewkt_point_xy 4 4,
        ewkt_point_xy 0 4] =
      some { Points := 4, Coords := [0, 0, 4, 0, 4, 4, 0, 4], DimensionModel := GAIA_XY } ∧
    ∃ pg g,
      ewkt_polygon_xy [({ Points := 4, Coords := [0, 0, 4, 0, 4, 4, 0, 4],
                          DimensionModel := GAIA_XY } : gaiaRing Int)] = some pg ∧
      ewkt_buildGeomFromPolygon [pg] = some g ∧
      pg.Exterior.Coords = [0, 0, 4, 0, 4, 4, 0, 4] ∧
      ewktCheckValidity g = 1 :=
  ⟨by decide, by decide, _, _, rfl, rfl, by decide, by decide⟩

/-- C9 (amended): the coordinate-language ring builders perform no closure
check. For every list of exactly 4 points, whether or not its first point
equals its last point, `ewkt_ring_xy`, `ewkt_ring_xyz`, `ewkt_ring_xym` and
`ewkt_ring_xyzm` each return a ring of 4 points holding the coordinates of
the list in order; the polygon built from the 2D ring by `ewkt_polygon_xy`
and `ewkt_buildGeomFromPolygon` keeps these coordinates as its exterior ring
and is accepted by `ewktCheckValidity`. -/
theorem ewkt_ring_four_points_no_closure_check (p0 p1 p2 p3 : gaiaPoint R) :
    ewkt_ring_xy [p0, p1, p2, p3] =
      some { Points := 4, DimensionModel := GAIA_XY,
             Coords := [p0.X, p0.Y, p1.X, p1.Y, p2.X, p2.Y, p3.X, p3.Y] } ∧
    ewkt_ring_xyz [p0, p1, p2, p3] =
      some { Points := 4, DimensionModel := GAIA_XY_Z,
             Coords := [p0.X, p0.Y, p0.Z, p1.X, p1.Y, p1.Z, p2.X, p2.Y, p2.Z,
                        p3.X, p3.Y, p3.Z] } ∧
    ewkt_ring_xym [p0, p1, p2, p3] =
      some { Points := 4, DimensionModel := GAIA_XY_M,
             Coords := [p0.X, p0.Y, p0.M, p1.X, p1.Y, p1.M, p2.X, p2.Y, p2.M,
                        p3.X, p3.Y, p3.M] } ∧
    ewkt_ring_xyzm [p0, p1, p2, p3] =
      some { Points := 4, DimensionModel := GAIA_XY_Z_M,
             Coords := [p0.X, p0.Y, p0.Z, p0.M, p1.X, p1.Y, p1.Z, p1.M,
                        p2.X, p2.Y, p2.Z, p2.M, p3.X, p3.Y, p3.Z, p3.M] } ∧
    ∃ r pg g, ewkt_ring_xy [p0, p1, p2, p3] = some r ∧
      ewkt_polygon_xy [r] = some pg ∧ ewkt_buildGeomFromPolygon [pg] = some g ∧
      g.FirstPolygon = [pg] ∧ pg.Interiors = [] ∧ pg.Exterior.Points = 4 ∧
      pg.Exterior.Coords = [p0.X, p0.Y, p1.X, p1.Y, p2.X, p2.Y, p3.X, p3.Y] ∧
      ewktCheckValidity g = 1 := by
  have h1 : ewkt_ring_xy [p0, p1, p2, p3] =
      some { Points := 4, DimensionModel := GAIA_XY,
             Coords := [p0.X, p0.Y, p1.X, p1.Y, p2.X, p2.Y, p3.X, p3.Y] } := by
    simp [ewkt_ring_xy, ewkt_count_points, ewkt_count_points.loop, ewkt_ring_xy.loop,
      gaiaAllocRing, gaiaSetPoint, List.replicate]
  have hc : (gaiaCreatePolygon
      (⟨4, [p0.X, p0.Y, p1.X, p1.Y, p2.X, p2.Y, p3.X, p3.Y], GAIA_XY⟩ : gaiaRing R)).Exterior =
      ⟨4, [p0.X, p0.Y, p1.X, p1.Y, p2.X, p2.Y, p3.X, p3.Y], GAIA_XY⟩ := by
    simp [gaiaCreatePolygon, gaiaCopyRingCoords, gaiaAllocRingByModel, gaiaAllocRing,
      gaiaCopyCoords.loop, gaiaCopyCoords.step, gaiaGetPoint, gaiaSetPoint, List.replicate,
      GAIA_XY, GAIA_XY_Z, GAIA_XY_M, GAIA_XY_Z_M]
  obtain ⟨g, hg, -, -, hfp, hpt, hln⟩ := ewkt_buildGeomFromPolygon_some
    (gaiaCreatePolygon
      (⟨4, [p0.X, p0.Y, p1.X, p1.Y, p2.X, p2.Y, p3.X, p3.Y], GAIA_XY⟩ : gaiaRing R)) []
    (Or.inl rfl)
  refine ⟨h1, ?_, ?_, ?_, _, _, g, h1, rfl, hg, hfp, rfl, ?_, ?_, ?_⟩
  · simp [ewkt_ring_xyz, ewkt_count_points, ewkt_count_points.loop, ewkt_ring_xyz.loop,
      gaiaAllocRingXYZ, gaiaSetPointXYZ, List.replicate]
  · simp [ewkt_ring_xym, ewkt_count_points, ewkt_count_points.loop, ewkt_ring_xym.loop,
      gaiaAllocRingXYM, gaiaSetPointXYM, List.replicate]
  · simp [ewkt_ring_xyzm, ewkt_count_points, ewkt_count_points.loop, ewkt_ring_xyzm.loop,
      gaiaAllocRingXYZM, gaiaSetPointXYZM, List.replicate]
  · simp [ewkt_polygon_any_type.loop, hc]
  · simp [ewkt_polygon_any_type.loop, hc]
  · rw [ewktCheckValidity_eq_one_iff, ewktDegenerate]
    have hi : (gaiaCreatePolygon
        (⟨4, [p0.X, p0.Y, p1.X, p1.Y, p2.X, p2.Y, p3.X, p3.Y], GAIA_XY⟩ : gaiaRing R)).Interiors
        = [] := rfl
    simp [hfp, hln, hc, hi]

theorem ewkt_ring_xy_loop_spec (pts : List (gaiaPoint R)) (index : Nat) (c : List R) :
    (ewkt_ring_xy.loop pts.length index pts c).length = c.length ∧
    ∀ j, (ewkt_ring_xy.loop pts.length index pts c).getD j 0 =
      if index * 2 ≤ j ∧ j < (index + pts.length) * 2 ∧ j < c.length then
        (match pts[j / 2 - index]? with
         | some p => if j % 2 = 0 then p.X else p.Y
         | none => 0)
      else c.getD j 0 := by
  induction pts generalizing index c with
  | nil =>
    refine ⟨rfl, fun j => ?_⟩
    simp only [ewkt_ring_xy.loop, List.length_nil]
    split_ifs <;> first | rfl | (exfalso; omega)
  | cons p ps ih =>
    simp only [ewkt_ring_xy.loop, List.length_cons]
    obtain ⟨hl, hc⟩ := ih (index + 1) (gaiaSetPoint c index p.X p.Y)
    refine ⟨by rw [hl]; simp [gaiaSetPoint], fun j => ?_⟩
    rw [hc, gaiaSetPoint_getD]
    simp only [gaiaSetPoint, List.length_set]
    by_cases h1 : j = index * 2 + 1 ∧ j < c.length
    · have e1 : j / 2 - index = 0 := by omega
      have e2 : ¬ j % 2 = 0 := by omega
      have a1 : ¬ ((index + 1) * 2 ≤ j ∧ j < (index + 1 + ps.length) * 2 ∧ j < c.length) := by
        omega
      have a2 : index * 2 ≤ j ∧ j < (index + (ps.length + 1)) * 2 ∧ j < c.length := by omega
      rw [if_neg a1, if_pos h1, if_pos a2, e1]
      simp [e2]
    · by_cases h2 : j = index * 2 ∧ j < c.length
      · have e1 : j / 2 - index = 0 := by omega
        have e2 : j % 2 = 0 := by omega
        have a1 : ¬ ((index + 1) * 2 ≤ j ∧ j < (index + 1 + ps.length) * 2 ∧ j < c.length) := by
          omega
        have a2 : index * 2 ≤ j ∧ j < (index + (ps.length + 1)) * 2 ∧ j < c.length := by omega
        rw [if_neg a1, if_neg h1, if_pos h2, if_pos a2, e1]
        simp [e2]
      · by_cases h3 : (index + 1) * 2 ≤ j ∧ j < (index + 1 + ps.length) * 2 ∧ j < c.length
        · have a2 : index * 2 ≤ j ∧ j < (index + (ps.length + 1)) * 2 ∧ j < c.length := by omega
          have e1 : j / 2 - index = (j / 2 - (index + 1)) + 1 := by omega
          rw [if_pos h3, if_pos a2, e1, List.getElem?_cons_succ]
        · have a2 : ¬ (index * 2 ≤ j ∧ j < (index + (ps.length + 1)) * 2 ∧ j < c.length) := by
            omega
          rw [if_neg h3, if_neg h1, if_neg h2, if_neg a2]

theorem ewkt_ring_xy_some (first : List (gaiaPoint R)) (hn : 4 ≤ first.length) :
    ewkt_ring_xy first =
      some { Points := first.length, DimensionModel := GAIA_XY,
             Coords := ewkt_ring_xy.loop first.length 0 first
               (List.replicate (first.length * 2) 0) } := by
  cases first with
  | nil => simp at hn
  | cons p ps =>
    have hc : ¬ (p :: ps).length < 4 := by omega
    simp only [ewkt_ring_xy, ewkt_count_points_eq, hc, if_false, gaiaAllocRing]

theorem ewkt_ring_xy_tuple (first : List (gaiaPoint R)) (i : Nat) (p : gaiaPoint R)
    (h : first[i]? = some p) :
    gaiaGetPoint (ewkt_ring_xy.loop first.length 0 first
      (List.replicate (first.length * 2) 0)) i = (p.X, p.Y) := by
  have hi : i < first.length := by
    rcases Nat.lt_or_ge i first.length with hlt | hge
    · exact hlt
    · rw [List.getElem?_eq_none hge] at h; cases h
  have hc := (ewkt_ring_xy_loop_spec first 0 (List.replicate (first.length * 2) (0 : R))).2
  simp only [gaiaGetPoint, hc, List.length_replicate]
  have a1 : 0 * 2 ≤ i * 2 ∧ i * 2 < (0 + first.length) * 2 ∧ i * 2 < first.length * 2 := by
    omega
  have a2 : 0 * 2 ≤ i * 2 + 1 ∧ i * 2 + 1 < (0 + first.length) * 2 ∧
      i * 2 + 1 < first.length * 2 := by omega
  have e1 : i * 2 / 2 - 0 = i := by omega
  have e2 : (i * 2 + 1) / 2 - 0 = i := by omega
  have e3 : i * 2 % 2 = 0 := by omega
  have e4 : ¬ (i * 2 + 1) % 2 = 0 := by omega
  rw [if_pos a1, if_pos a2, e1, e2, h]
  simp [e3, e4]

theorem gaiaCopyCoords_loop_xy (src : List R) (n iv : Nat) (dst : List R) :
    gaiaCopyCoords.loop GAIA_XY src GAIA_XY n iv dst =
      gaiaEwktGeometryFromLinestring.loop src n iv dst := by
  induction n generalizing iv dst with
  | zero => rfl
  | succ n ih =>
    simp only [gaiaCopyCoords.loop, gaiaEwktGeometryFromLinestring.loop, ih]
    simp [gaiaCopyCoords.step, GAIA_XY, GAIA_XY_Z, GAIA_XY_M, GAIA_XY_Z_M]

theorem gaiaCreatePolygon_xy_tuple (ring : gaiaRing R) (h : ring.DimensionModel = GAIA_XY)
    (i : Nat) (hi : i < ring.Points) :
    gaiaGetPoint (gaiaCreatePolygon ring).Exterior.Coords i = gaiaGetPoint ring.Coords i := by
  have hc := (gaiaEwktGeometryFromLinestring_loop_spec ring.Coords ring.Points 0
    (List.replicate (ring.Points * 2) (0 : R))).2
  simp only [gaiaCreatePolygon, gaiaCopyRingCoords, gaiaAllocRingByModel, gaiaAllocRing, h,
    GAIA_XY, GAIA_XY_Z, GAIA_XY_M, GAIA_XY_Z_M]
  simp only [show (1 : Int) ≠ 0 from by decide, show (0 : Int) ≠ 1 from by decide,
    show (0 : Int) ≠ 2 from by decide, show (0 : Int) ≠ 3 from by decide,
    if_false, ne_eq, not_true_eq_false, if_true]
  have := gaiaCopyCoords_loop_xy ring.Coords ring.Points 0
    (List.replicate (ring.Points * 2) (0 : R))
  simp only [GAIA_XY] at this
  simp only [this, gaiaGetPoint, hc, List.length_replicate]
  have a1 : 0 * 2 ≤ i * 2 ∧ i * 2 < (0 + ring.Points) * 2 ∧ i * 2 < ring.Points * 2 := by
    omega
  have a2 : 0 * 2 ≤ i * 2 + 1 ∧ i * 2 + 1 < (0 + ring.Points) * 2 ∧
      i * 2 + 1 < ring.Points * 2 := by omega
  simp [a1, a2]

theorem gaiaCreatePolygon_points (ring : gaiaRing R) :
    (gaiaCreatePolygon ring).Exterior.Points = ring.Points := by
  simp only [gaiaCreatePolygon, gaiaCopyRingCoords, gaiaAllocRingByModel]
  split_ifs <;> simp [gaiaAllocRing, gaiaAllocRingXYZ, gaiaAllocRingXYM, gaiaAllocRingXYZM]

/-- C10: for every list of n ≥ 4 points (closed or not, so in particular for
every list whose first and last points are equal), `ewkt_ring_xy` returns a
ring of exactly n points with the same coordinates in the same order, and
the geometry obtained from that single ring through `ewkt_polygon_xy` and
`ewkt_buildGeomFromPolygon` has declared type `GAIA_POLYGON`, holds exactly
one polygon (and nothing else) whose exterior ring has n points with the
same coordinates and which has 0 interior rings, and is accepted by
`ewktCheckValidity`. -/
theorem ewkt_ring_xy_polygon_geometry (first : List (gaiaPoint R))
    (hn : 4 ≤ first.length) :
    ∃ r pg g, ewkt_ring_xy first = some r ∧ r.Points = first.length ∧
      (∀ i p, first[i]? = some p → gaiaGetPoint r.Coords i = (p.X, p.Y)) ∧
      ewkt_polygon_xy [r] = some pg ∧ ewkt_buildGeomFromPolygon [pg] = some g ∧
      g.DeclaredType = GAIA_POLYGON ∧
      g.FirstPolygon = [pg] ∧ g.FirstPoint = [] ∧ g.FirstLinestring = [] ∧
      pg.Exterior.Points = first.length ∧
      (∀ i p, first[i]? = some p → gaiaGetPoint pg.Exterior.Coords i = (p.X, p.Y)) ∧
      pg.NumInteriors = 0 ∧ ewktCheckValidity g = 1 := by
  obtain ⟨r, hr⟩ : ∃ r : gaiaRing R, r =
      ⟨first.length, ewkt_ring_xy.loop first.length 0 first
        (List.replicate (first.length * 2) 0), GAIA_XY⟩ := ⟨_, rfl⟩
  have hring : ewkt_ring_xy first = some r := by rw [hr]; exact ewkt_ring_xy_some first hn
  have hrp : r.Points = first.length := by rw [hr]
  have hrd : r.DimensionModel = GAIA_XY := by rw [hr]
  have hrt : ∀ i p, first[i]? = some p → gaiaGetPoint r.Coords i = (p.X, p.Y) := by
    intro i p h
    rw [hr]
    exact ewkt_ring_xy_tuple first i p h
  have hpd : isDimensionModel (gaiaCreatePolygon r).DimensionModel := Or.inl hrd
  obtain ⟨g, hg, ht, -, hfp, hpt, hln⟩ := ewkt_buildGeomFromPolygon_some
    (gaiaCreatePolygon r) [] hpd
  have hep : (gaiaCreatePolygon r).Exterior.Points = first.length := by
    rw [gaiaCreatePolygon_points, hrp]
  refine ⟨r, gaiaCreatePolygon r, g, hring, hrp, hrt, rfl, hg, ht, hfp, hpt, hln, hep, ?_,
    rfl, ?_⟩
  · intro i p h
    have hi : i < r.Points := by
      rw [hrp]
      rcases Nat.lt_or_ge i first.length with hlt | hge
      · exact hlt
      · rw [List.getElem?_eq_none hge] at h; cases h
    rw [gaiaCreatePolygon_xy_tuple r hrd i hi]
    exact hrt i p h
  · rw [ewktCheckValidity_eq_one_iff, ewktDegenerate]
    have hi : (gaiaCreatePolygon r).Interiors = [] := rfl
    simp only [hfp, hln, List.not_mem_nil, false_and, exists_false, List.mem_singleton,
      exists_eq_left, hi, hep, false_or, or_false, not_and, not_lt]
    rintro (h | ⟨-, -, h⟩)
    · omega
    · cases h

/-- Witness of C10: the five points of `POLYGON((0 0,4 0,4 4,0 4,0 0))`. -/
theorem ewkt_ring_xy_polygon_geometry_witness :
    4 ≤ [ewkt_point_xy (0 : Int) 0, ewkt_point_xy 4 0, ewkt_point_xy 4 4,
          ewkt_point_xy 0 4, ewkt_point_xy 0 0].length ∧
    ∃ r pg g,
      ewkt_ring_xy [ewkt_point_xy (0 : Int) 0, ewkt_point_xy 4 0, ewkt_point_xy 4 4,
          ewkt_point_xy 0 4, ewkt_point_xy 0 0] = some r ∧
      r.Points = 5 ∧
      (∀ i p, [ewkt_point_xy (0 : Int) 0, ewkt_point_xy 4 0, ewkt_point_xy 4 4,
          ewkt_point_xy 0 4, ewkt_point_xy 0 0][i]? = some p →
        gaiaGetPoint r.Coords i = (p.X, p.Y)) ∧
      ewkt_polygon_xy [r] = some pg ∧ ewkt_buildGeomFromPolygon [pg] = some g ∧
      g.DeclaredType = GAIA_POLYGON ∧
      g.FirstPolygon = [pg] ∧ g.FirstPoint = [] ∧ g.FirstLinestring = [] ∧
      pg.Exterior.Points = 5 ∧
      (∀ i p, [ewkt_point_xy (0 : Int) 0, ewkt_point_xy 4 0, ewkt_point_xy 4 4,
          ewkt_point_xy 0 4, ewkt_point_xy 0 0][i]? = some p →
        gaiaGetPoint pg.Exterior.Coords i = (p.X, p.Y)) ∧
      pg.NumInteriors = 0 ∧ ewktCheckValidity g = 1 :=
  ⟨by decide, ewkt_ring_xy_polygon_geometry _ (by decide)⟩

end Rings

/-! ### The entry point -/

section EntryPoint

variable {R : Type} {P : Type}

theorem gaiaParseEWKT_loop_flag_of_lexer_error (Parse : EwktParse P R)
    (tokens : List (Int × R)) (pParser : P) (result : Option (gaiaGeomColl R)) (e : Int)
    (h : yylexReportsError tokens = true) :
    (gaiaParseEWKT.loop Parse tokens pParser result e).2.2 = 1 := by
  induction tokens generalizing pParser result e with
  | nil => simp [yylexReportsError] at h
  | cons t rest ih =>
    obtain ⟨yv, dval⟩ := t
    by_cases h0 : yv = 0
    · simp [yylexReportsError, h0] at h
    · by_cases h1 : yv = -1
      · simp [gaiaParseEWKT.loop, h1]
      · simp only [yylexReportsError, h0, h1, if_false] at h
        simp only [gaiaParseEWKT.loop, h0, h1, if_false]
        exact ih _ _ _ h

theorem gaiaParseEWKT_drive_flag_of_lexer_error (ParseAlloc : P) (Parse : EwktParse P R)
    (EWKT_NEWLINE : Int) (tokens : List (Int × R))
    (h : yylexReportsError tokens = true) :
    (gaiaParseEWKT.drive ParseAlloc Parse EWKT_NEWLINE tokens).2 ≠ 0 := by
  have hl := gaiaParseEWKT_loop_flag_of_lexer_error Parse tokens ParseAlloc none 0 h
  simp only [gaiaParseEWKT.drive]
  rw [hl]
  split_ifs <;> decide

/-- C1: wherever the prefix scan is defined, `gaiaParseEWKT` returns no
geometry (`NULL`) whenever the tokenizer reports an unrecognized token
(`yylex` returns -1), or the parse-error flag is set when parsing ends, or
the parser leaves a null result, or `ewktCheckValidity` rejects the result;
when none of these holds it returns the parser's geometry after
`gaiaMbrGeometry` has been applied to it and its `Srid` has been set to the
value found by the prefix scan. -/
theorem gaiaParseEWKT_result (ParseAlloc : P) (Parse : EwktParse P R) (EWKT_NEWLINE : Int)
    (yylex : List Char → List (Int × R))
    (gaiaMbrGeometry : gaiaGeomColl R → gaiaGeomColl R)
    (dirty_buffer : List Char) (srid : Int) (base_offset : Nat)
    (hscan : findEwktSrid dirty_buffer = some (srid, base_offset)) :
    ((yylexReportsError (yylex (dirty_buffer.drop base_offset)) = true ∨
      (gaiaParseEWKT.drive ParseAlloc Parse EWKT_NEWLINE
        (yylex (dirty_buffer.drop base_offset))).2 ≠ 0 ∨
      (gaiaParseEWKT.drive ParseAlloc Parse EWKT_NEWLINE
        (yylex (dirty_buffer.drop base_offset))).1 = none ∨
      (∃ g, (gaiaParseEWKT.drive ParseAlloc Parse EWKT_NEWLINE
          (yylex (dirty_buffer.drop base_offset))).1 = some g ∧ ewktCheckValidity g = 0)) ∧
     gaiaParseEWKT ParseAlloc Parse EWKT_NEWLINE yylex gaiaMbrGeometry dirty_buffer
       = some none) ∨
    (¬ (yylexReportsError (yylex (dirty_buffer.drop base_offset)) = true ∨
      (gaiaParseEWKT.drive ParseAlloc Parse EWKT_NEWLINE
        (yylex (dirty_buffer.drop base_offset))).2 ≠ 0 ∨
      (gaiaParseEWKT.drive ParseAlloc Parse EWKT_NEWLINE
        (yylex (dirty_buffer.drop base_offset))).1 = none ∨
      (∃ g, (gaiaParseEWKT.drive ParseAlloc Parse EWKT_NEWLINE
          (yylex (dirty_buffer.drop base_offset))).1 = some g ∧ ewktCheckValidity g = 0)) ∧
     ∃ g, (gaiaParseEWKT.drive ParseAlloc Parse EWKT_NEWLINE
          (yylex (dirty_buffer.drop base_offset))).1 = some g ∧
       gaiaParseEWKT ParseAlloc Parse EWKT_NEWLINE yylex gaiaMbrGeometry dirty_buffer
         = some (some { gaiaMbrGeometry g with Srid := srid })) := by
  have hlex := gaiaParseEWKT_drive_flag_of_lexer_error ParseAlloc Parse EWKT_NEWLINE
    (yylex (dirty_buffer.drop base_offset))
  simp only [gaiaParseEWKT, hscan]
  generalize gaiaParseEWKT.drive ParseAlloc Parse EWKT_NEWLINE
    (yylex (dirty_buffer.drop base_offset)) = fin at hlex ⊢
  obtain ⟨result, flag⟩ := fin
  simp only at hlex ⊢
  by_cases hf : flag = 0
  · have hnl : ¬ yylexReportsError (yylex (dirty_buffer.drop base_offset)) = true :=
      fun hx => hlex hx hf
    cases result with
    | none => left; simp [hf]
    | some g =>
      by_cases hv : ewktCheckValidity g = 0
      · left; simp [hf, hv]
      · right
        refine ⟨?_, g, rfl, by simp [hf, hv]⟩
        rintro (h | h | h | ⟨g2, h, hv2⟩)
        · exact hnl h
        · exact h hf
        · cases h
        · cases h; exact hv hv2
  · left
    exact ⟨Or.inr (Or.inl hf), by simp [hf]⟩

/-- Witness of C1: the text `SRID=4326;POINT(1 2)` with a stand-in tokenizer
and parser. -/
theorem gaiaParseEWKT_result_witness :
    findEwktSrid "SRID=4326;POINT(1 2)".toList = some (4326, 10) ∧
    (((yylexReportsError (sampleYylex ("SRID=4326;POINT(1 2)".toList.drop 10)) = true ∨
      (gaiaParseEWKT.drive () sampleParse 0
        (sampleYylex ("SRID=4326;POINT(1 2)".toList.drop 10))).2 ≠ 0 ∨
      (gaiaParseEWKT.drive () sampleParse 0
        (sampleYylex ("SRID=4326;POINT(1 2)".toList.drop 10))).1 = none ∨
      (∃ g, (gaiaParseEWKT.drive () sampleParse 0
          (sampleYylex ("SRID=4326;POINT(1 2)".toList.drop 10))).1 = some g ∧
        ewktCheckValidity g = 0)) ∧
     gaiaParseEWKT () sampleParse 0 sampleYylex id "SRID=4326;POINT(1 2)".toList
       = some none) ∨
    (¬ (yylexReportsError (sampleYylex ("SRID=4326;POINT(1 2)".toList.drop 10)) = true ∨
      (gaiaParseEWKT.drive () sampleParse 0
        (sampleYylex ("SRID=4326;POINT(1 2)".toList.drop 10))).2 ≠ 0 ∨
      (gaiaParseEWKT.drive () sampleParse 0
        (sampleYylex ("SRID=4326;POINT(1 2)".toList.drop 10))).1 = none ∨
      (∃ g, (gaiaParseEWKT.drive () sampleParse 0
          (sampleYylex ("SRID=4326;POINT(1 2)".toList.drop 10))).1 = some g ∧
        ewktCheckValidity g = 0)) ∧
     ∃ g, (gaiaParseEWKT.drive () sampleParse 0
          (sampleYylex ("SRID=4326;POINT(1 2)".toList.drop 10))).1 = some g ∧
       gaiaParseEWKT () sampleParse 0 sampleYylex id "SRID=4326;POINT(1 2)".toList
         = some (some { id g with Srid := 4326 }))) :=
  ⟨by decide,
    gaiaParseEWKT_result () sampleParse 0 sampleYylex id "SRID=4326;POINT(1 2)".toList
      4326 10 (by decide)⟩

/-- C4: `findEwktSrid` applied to `SRID=4326;POINT(1 2)` returns 4326 and
sets `base_offset` to 10; applied to `POINT(1 2)` it returns -1 and sets
`base_offset` to 0; and every geometry returned by `gaiaParseEWKT` has its
`Srid` equal to the value `findEwktSrid` returned for that input, so the
first input yields SRID 4326 and the second SRID -1, whatever the tokenizer
and the parser do. -/
theorem gaiaParseEWKT_srid (ParseAlloc : P) (Parse : EwktParse P R) (EWKT_NEWLINE : Int)
    (yylex : List Char → List (Int × R))
    (gaiaMbrGeometry : gaiaGeomColl R → gaiaGeomColl R)
    (dirty_buffer : List Char) (geom : gaiaGeomColl R)
    (hret : gaiaParseEWKT ParseAlloc Parse EWKT_NEWLINE yylex gaiaMbrGeometry dirty_buffer
      = some (some geom)) :
    findEwktSrid "SRID=4326;POINT(1 2)".toList = some (4326, 10) ∧
    findEwktSrid "POINT(1 2)".toList = some (-1, 0) ∧
    (∃ base_offset, findEwktSrid dirty_buffer = some (geom.Srid, base_offset)) ∧
    (dirty_buffer = "SRID=4326;POINT(1 2)".toList → geom.Srid = 4326) ∧
    (dirty_buffer = "POINT(1 2)".toList → geom.Srid = -1) := by
  have e1 : findEwktSrid "SRID=4326;POINT(1 2)".toList = some (4326, 10) := by decide
  have e2 : findEwktSrid "POINT(1 2)".toList = some (-1, 0) := by decide
  have key : ∃ base_offset, findEwktSrid dirty_buffer = some (geom.Srid, base_offset) := by
    cases hs : findEwktSrid dirty_buffer with
    | none => simp [gaiaParseEWKT, hs] at hret
    | some so =>
      obtain ⟨srid, off⟩ := so
      simp only [gaiaParseEWKT, hs] at hret
      generalize gaiaParseEWKT.drive ParseAlloc Parse EWKT_NEWLINE
        (yylex (dirty_buffer.drop off)) = fin at hret
      obtain ⟨result, flag⟩ := fin
      simp only at hret
      by_cases hf : flag = 0
      · cases result with
        | none => simp [hf] at hret
        | some g =>
          by_cases hv : ewktCheckValidity g = 0
          · simp [hf, hv] at hret
          · simp only [hf, hv, ne_eq, not_true_eq_false, if_false, Option.some.injEq] at hret
            exact ⟨off, by rw [← hret]⟩
      · simp [hf] at hret
  refine ⟨e1, e2, key, fun hb => ?_, fun hb => ?_⟩
  · obtain ⟨off, hk⟩ := key
    rw [hb, e1] at hk
    simp only [Option.some.injEq, Prod.mk.injEq] at hk
    exact hk.1.symm
  · obtain ⟨off, hk⟩ := key
    rw [hb, e2] at hk
    simp only [Option.some.injEq, Prod.mk.injEq] at hk
    exact hk.1.symm

/-- Witness of C4: the text `SRID=4326;POINT(1 2)` with a stand-in tokenizer
and parser; the geometry returned carries SRID 4326. -/
theorem gaiaParseEWKT_srid_witness :
    gaiaParseEWKT () sampleParse 0 sampleYylex id "SRID=4326;POINT(1 2)".toList
      = some (some { gaiaEwktGeometryFromPoint (ewkt_point_xy (1 : Int) 2) with Srid := 4326 }) ∧
    (findEwktSrid "SRID=4326;POINT(1 2)".toList = some (4326, 10) ∧
     findEwktSrid "POINT(1 2)".toList = some (-1, 0) ∧
     (∃ base_offset, findEwktSrid "SRID=4326;POINT(1 2)".toList =
        some (({ gaiaEwktGeometryFromPoint (ewkt_point_xy (1 : Int) 2) with
                 Srid := 4326 } : gaiaGeomColl Int).Srid, base_offset)) ∧
     ("SRID=4326;POINT(1 2)".toList = "SRID=4326;POINT(1 2)".toList →
        ({ gaiaEwktGeometryFromPoint (ewkt_point_xy (1 : Int) 2) with
           Srid := 4326 } : gaiaGeomColl Int).Srid = 4326) ∧
     ("SRID=4326;POINT(1 2)".toList = "POINT(1 2)".toList →
        ({ gaiaEwktGeometryFromPoint (ewkt_point_xy (1 : Int) 2) with
           Srid := 4326 } : gaiaGeomColl Int).Srid = -1)) :=
  ⟨by decide,
    gaiaParseEWKT_srid () sampleParse 0 sampleYylex id "SRID=4326;POINT(1 2)".toList _
      (by decide)⟩

end EntryPoint

/-! ### The SRID prefix scan -/

section SridScan

set_option maxRecDepth 100000

/-- C3 (failing input): 1024 letters `A` followed by a semi-colon. The text
before the semi-colon is not of the form `SRID=…`, yet `findEwktSrid` does
not return -1 with `base_offset = 0`: the normalizing loop fills the 1024
bytes of `dummy` and the terminating NUL is stored past its end, so the
call has no defined result. With one letter less the scan fails closed. -/
theorem findEwktSrid_overruns_dummy :
    findEwktSrid (List.replicate 1024 'A' ++ [';']) = none ∧
    findEwktSrid (List.replicate 1023 'A' ++ [';']) = some (-1, 0) := by
  constructor <;> decide

theorem findEwktSrid_semicolon_eq (buffer : List Char) (i : Nat) :
    findEwktSrid.semicolon buffer i =
      if ';' ∈ buffer then some (i + (buffer.takeWhile (fun c => c != ';')).length)
      else none := by
  induction buffer generalizing i with
  | nil => simp [findEwktSrid.semicolon]
  | cons c rest ih =>
    by_cases h : c = ';'
    · subst h; simp [findEwktSrid.semicolon]
    · have h2 : ¬ ';' = c := fun hx => h hx.symm
      simp only [findEwktSrid.semicolon, h, if_false, ih, List.mem_cons, h2, false_or]
      have hb : (c != ';') = true := by simp [h]
      split_ifs
      · simp only [List.takeWhile_cons, hb, if_true, List.length_cons]
        congr 1; omega
      · rfl

theorem findEwktSrid_normalize_eq (n : Nat) (buffer : List Char) :
    findEwktSrid.normalize n buffer = (buffer.take n).filter sridKept := by
  induction n generalizing buffer with
  | zero => simp [findEwktSrid.normalize]
  | succ n ih =>
    cases buffer with
    | nil => simp [findEwktSrid.normalize]
    | cons c rest =>
      by_cases h : c.toNat = 32 ∨ c.toNat = 9 ∨ c.toNat = 10
      · have hk : sridKept c = false := by
          simp only [sridKept]; rcases h with h | h | h <;> simp [h]
        simp [findEwktSrid.normalize, h, ih, List.filter, hk]
      · have hk : sridKept c = true := by
          simp only [sridKept]; simp only [not_or] at h; simp [h.1, h.2.1, h.2.2]
        simp [findEwktSrid.normalize, h, ih, List.filter, hk]

theorem take_takeWhile_length (buffer : List Char) (q : Char → Bool) :
    buffer.take (buffer.takeWhile q).length = buffer.takeWhile q := by
  induction buffer with
  | nil => rfl
  | cons c rest ih =>
    by_cases h : q c = true
    · simp [List.takeWhile, h, ih]
    · simp [List.takeWhile, h]

theorem strncasecmp_eq_srid (dummy : List Char) :
    strncasecmp_eq dummy ['S', 'R', 'I', 'D', '='] 5 =
      ((dummy.take 5).map tolower == ['s', 'r', 'i', 'd', '=']) := by
  have t1 : tolower 'S' = 's' := by decide
  have t2 : tolower 'R' = 'r' := by decide
  have t3 : tolower 'I' = 'i' := by decide
  have t4 : tolower 'D' = 'd' := by decide
  have t5 : tolower '=' = '=' := by decide
  rcases dummy with _ | ⟨a, _ | ⟨b, _ | ⟨c, _ | ⟨d, _ | ⟨e, rest⟩⟩⟩⟩⟩ <;>
    simp [strncasecmp_eq, t1, t2, t3, t4, t5, and_assoc]
  rfl

theorem findEwktSrid_digits_all (i : Nat) (hi : 5 < i) (l : List Char) :
    findEwktSrid.digits i l = l.all sridDigit := by
  induction l generalizing i with
  | nil => simp [findEwktSrid.digits]
  | cons c rest ih =>
    have h5 : ¬ i = 5 := by omega
    by_cases hd : 48 ≤ c.toNat ∧ c.toNat ≤ 57
    · simp [findEwktSrid.digits, h5, hd, ih (i + 1) (by omega), sridDigit]
    · simp [findEwktSrid.digits, h5, hd, sridDigit]

theorem findEwktSrid_digits_five (l : List Char) :
    findEwktSrid.digits 5 l = (sridUnsigned l).all sridDigit := by
  cases l with
  | nil => simp [findEwktSrid.digits, sridUnsigned]
  | cons c rest =>
    by_cases hs : c = '-' ∨ c = '+'
    · simp [findEwktSrid.digits, hs, sridUnsigned, findEwktSrid_digits_all 6 (by omega)]
    · by_cases hd : 48 ≤ c.toNat ∧ c.toNat ≤ 57
      · simp [findEwktSrid.digits, hs, hd, sridUnsigned, sridDigit,
          findEwktSrid_digits_all 6 (by omega)]
      · simp [findEwktSrid.digits, hs, hd, sridUnsigned, sridDigit]

theorem atoi_value_all (l : List Char) (acc : Int) (h : l.all sridDigit = true) :
    atoi.value l acc = l.foldl (fun a c => a * 10 + ((c.toNat - 48 : Nat) : Int)) acc := by
  induction l generalizing acc with
  | nil => rfl
  | cons c rest ih =>
    simp only [List.all_cons, Bool.and_eq_true] at h
    have hd : 48 ≤ c.toNat ∧ c.toNat ≤ 57 := by simpa [sridDigit] using h.1
    simp only [atoi.value, hd, and_self, if_true, List.foldl_cons]
    exact ih _ h.2

theorem atoi_signed (l : List Char) (h : (sridUnsigned l).all sridDigit = true) :
    atoi l =
      if -2147483648 ≤ sridSigned l ∧ sridSigned l ≤ 2147483647 then some (sridSigned l)
      else none := by
  cases l with
  | nil => simp [atoi, atoi.skip, sridSigned]
  | cons c rest =>
    have m1 : '-'.toNat = 45 := by decide
    have m2 : '+'.toNat = 43 := by decide
    by_cases h1 : c = '-'
    · subst h1
      have hr : rest.all sridDigit = true := by simpa [sridUnsigned] using h
      have hsp : isspace '-' = false := by decide
      simp [atoi, atoi.skip, hsp, sridSigned, sridDecimal, atoi_value_all rest 0 hr]
    · by_cases h2 : c = '+'
      · subst h2
        have hr : rest.all sridDigit = true := by simpa [sridUnsigned] using h
        have hsp : isspace '+' = false := by decide
        have hne : ¬ '+' = '-' := by decide
        simp [atoi, atoi.skip, hsp, hne, sridSigned, sridDecimal, atoi_value_all rest 0 hr]
      · have hr : (c :: rest).all sridDigit = true := by simpa [sridUnsigned, h1, h2] using h
        have hd : 48 ≤ c.toNat ∧ c.toNat ≤ 57 := by
          simp only [List.all_cons, Bool.and_eq_true] at hr
          simpa [sridDigit] using hr.1
        have hsp : isspace c = false := by
          simp only [isspace]
          have a1 : ¬ c.toNat = 32 := by omega
          have a2 : ¬ (9 ≤ c.toNat ∧ c.toNat ≤ 13) := by omega
          simp [a1, a2]
        have hskip : atoi.skip (c :: rest) = c :: rest := by simp [atoi.skip, hsp]
        have hv := atoi_value_all (c :: rest) 0 hr
        simp only [atoi, hskip, h1, h2, if_false, hv, sridSigned, sridDecimal]

/-- The prefix scan refines its specification: for every buffer whose
normalized text before the first `;` is shorter than the 1024 bytes of
`dummy`, and whose signed digit string (if the text matches) lies within the
`int` range, `findEwktSrid` returns the value and leaves the `base_offset`
that the specification gives. -/
theorem findEwktSrid_refines_spec (buffer : List Char)
    (hlen : (sridText buffer).length < 1024)
    (hrange : -2147483648 ≤ (findEwktSrid_spec buffer).1 ∧
      (findEwktSrid_spec buffer).1 ≤ 2147483647) :
    findEwktSrid buffer = some (findEwktSrid_spec buffer) := by
  unfold findEwktSrid
  rw [findEwktSrid_semicolon_eq]
  by_cases hs : ';' ∈ buffer
  · have hn : findEwktSrid.normalize (0 + (buffer.takeWhile (fun c => c != ';')).length) buffer
        = sridText buffer := by
      rw [findEwktSrid_normalize_eq, Nat.zero_add, take_takeWhile_length]
      rfl
    have hl : ¬ 1024 ≤ (sridText buffer).length := by omega
    simp only [hs, if_true, hn, hl, if_false, strncasecmp_eq_srid, findEwktSrid_digits_five]
    by_cases hm : sridMatches (sridText buffer) = true
    · have hm2 := hm
      simp only [sridMatches, Bool.and_eq_true] at hm2
      have hsp : findEwktSrid_spec buffer =
          (sridSigned ((sridText buffer).drop 5),
            (buffer.takeWhile (fun c => c != ';')).length + 1) := by
        simp [findEwktSrid_spec, hs, hm]
      rw [hsp] at hrange ⊢
      simp only at hrange
      simp only [hm2.1, hm2.2, Bool.true_eq_false, if_false, atoi_signed _ hm2.2, hrange,
        and_self, if_true, Nat.zero_add]
    · have hsp : findEwktSrid_spec buffer = (-1, 0) := by
        simp [findEwktSrid_spec, hm]
      rw [hsp]
      simp only [sridMatches, Bool.and_eq_true, not_and, Bool.not_eq_true] at hm
      by_cases h5 : (((sridText buffer).take 5).map tolower == ['s', 'r', 'i', 'd', '=']) = true
      · rw [if_neg (by rw [h5]; decide), if_pos (hm h5)]
      · simp only [Bool.not_eq_true] at h5
        rw [if_pos h5]
  · simp [hs, findEwktSrid_spec]

/-- Witness of `findEwktSrid_refines_spec`: a prefix with blanks, mixed case
and a sign. -/
theorem findEwktSrid_refines_spec_witness :
    (sridText " s r\tid = +0012 ;POINT(1 2)".toList).length < 1024 ∧
    (-2147483648 ≤ (findEwktSrid_spec " s r\tid = +0012 ;POINT(1 2)".toList).1 ∧
      (findEwktSrid_spec " s r\tid = +0012 ;POINT(1 2)".toList).1 ≤ 2147483647) ∧
    findEwktSrid_spec " s r\tid = +0012 ;POINT(1 2)".toList = (12, 17) ∧
    findEwktSrid " s r\tid = +0012 ;POINT(1 2)".toList =
      some (findEwktSrid_spec " s r\tid = +0012 ;POINT(1 2)".toList) :=
  ⟨by decide, by decide, by decide,
    findEwktSrid_refines_spec _ (by decide) (by decide)⟩

end SridScan

/-! ### Polygons, multi-geometries and collections -/

section EwktCollections

variable {R : Type} [Zero R]

theorem gaiaEwktGeometryFromLinestring_loop_tuple (src : List R) (n i : Nat) (hi : i < n) :
    gaiaGetPoint (gaiaEwktGeometryFromLinestring.loop src n 0 (List.replicate (n * 2) 0)) i = gaiaGetPoint src i := by
  have hc := (gaiaEwktGeometryFromLinestring_loop_spec src n 0 (List.replicate (n * 2) (0 : R))).2
  simp only [gaiaGetPoint, hc, List.length_replicate]
  have a1 : 0 * 2 ≤ i * 2 ∧ i * 2 < (0 + n) * 2 ∧
      i * 2 < n * 2 := by omega
  have a2 : 0 * 2 ≤ i * 2 + 1 ∧ i * 2 + 1 < (0 + n) * 2 ∧
      i * 2 + 1 < n * 2 := by omega
  simp [a1, a2]

theorem gaiaEwktGeometryFromLinestringZ_loop_tuple (src : List R) (n i : Nat) (hi : i < n) :
    gaiaGetPointXYZ (gaiaEwktGeometryFromLinestringZ.loop src n 0 (List.replicate (n * 3) 0)) i = gaiaGetPointXYZ src i := by
  have hc := (gaiaEwktGeometryFromLinestringZ_loop_spec src n 0 (List.replicate (n * 3) (0 : R))).2
  simp only [gaiaGetPointXYZ, hc, List.length_replicate]
  have a1 : 0 * 3 ≤ i * 3 ∧ i * 3 < (0 + n) * 3 ∧
      i * 3 < n * 3 := by omega
  have a2 : 0 * 3 ≤ i * 3 + 1 ∧ i * 3 + 1 < (0 + n) * 3 ∧
      i * 3 + 1 < n * 3 := by omega
  have a3 : 0 * 3 ≤ i * 3 + 2 ∧ i * 3 + 2 < (0 + n) * 3 ∧
      i * 3 + 2 < n * 3 := by omega
  simp [a1, a2, a3]

theorem gaiaEwktGeometryFromLinestringM_loop_tuple (src : List R) (n i : Nat) (hi : i < n) :
    gaiaGetPointXYM (gaiaEwktGeometryFromLinestringM.loop src n 0 (List.replicate (n * 3) 0)) i = gaiaGetPointXYM src i := by
  have hc := (gaiaEwktGeometryFromLinestringM_loop_spec src n 0 (List.replicate (n * 3) (0 : R))).2
  simp only [gaiaGetPointXYM, hc, List.length_replicate]
  have a1 : 0 * 3 ≤ i * 3 ∧ i * 3 < (0 + n) * 3 ∧
      i * 3 < n * 3 := by omega
  have a2 : 0 * 3 ≤ i * 3 + 1 ∧ i * 3 + 1 < (0 + n) * 3 ∧
      i * 3 + 1 < n * 3 := by omega
  have a3 : 0 * 3 ≤ i * 3 + 2 ∧ i * 3 + 2 < (0 + n) * 3 ∧
      i * 3 + 2 < n * 3 := by omega
  simp [a1, a2, a3]

theorem gaiaEwktGeometryFromLinestringZM_loop_tuple (src : List R) (n i : Nat) (hi : i < n) :
    gaiaGetPointXYZM (gaiaEwktGeometryFromLinestringZM.loop src n 0 (List.replicate (n * 4) 0)) i = gaiaGetPointXYZM src i := by
  have hc := (gaiaEwktGeometryFromLinestringZM_loop_spec src n 0 (List.replicate (n * 4) (0 : R))).2
  simp only [gaiaGetPointXYZM, hc, List.length_replicate]
  have a1 : 0 * 4 ≤ i * 4 ∧ i * 4 < (0 + n) * 4 ∧
      i * 4 < n * 4 := by omega
  have a2 : 0 * 4 ≤ i * 4 + 1 ∧ i * 4 + 1 < (0 + n) * 4 ∧
      i * 4 + 1 < n * 4 := by omega
  have a3 : 0 * 4 ≤ i * 4 + 2 ∧ i * 4 + 2 < (0 + n) * 4 ∧
      i * 4 + 2 < n * 4 := by omega
  have a4 : 0 * 4 ≤ i * 4 + 3 ∧ i * 4 + 3 < (0 + n) * 4 ∧
      i * 4 + 3 < n * 4 := by omega
  simp [a1, a2, a3, a4]

theorem gaiaCopyCoords_loop_2d (d : Int) (h1 : d ≠ GAIA_XY_Z) (h2 : d ≠ GAIA_XY_M)
    (h3 : d ≠ GAIA_XY_Z_M) (src : List R) (n iv : Nat) (dst : List R) :
    gaiaCopyCoords.loop d src GAIA_XY n iv dst =
      gaiaEwktGeometryFromLinestring.loop src n iv dst := by
  have h1n : ¬ d = 1 := h1
  have h2n : ¬ d = 2 := h2
  have h3n : ¬ d = 3 := h3
  induction n generalizing iv dst with
  | zero => rfl
  | succ n ih =>
    simp only [gaiaCopyCoords.loop, gaiaEwktGeometryFromLinestring.loop, ih]
    simp [gaiaCopyCoords.step, h1n, h2n, h3n, GAIA_XY, GAIA_XY_Z, GAIA_XY_M, GAIA_XY_Z_M]

theorem gaiaCopyCoords_loop_xyz (src : List R) (n iv : Nat) (dst : List R) :
    gaiaCopyCoords.loop GAIA_XY_Z src GAIA_XY_Z n iv dst =
      gaiaEwktGeometryFromLinestringZ.loop src n iv dst := by
  induction n generalizing iv dst with
  | zero => rfl
  | succ n ih =>
    simp only [gaiaCopyCoords.loop, gaiaEwktGeometryFromLinestringZ.loop, ih]
    simp [gaiaCopyCoords.step, GAIA_XY, GAIA_XY_Z, GAIA_XY_M, GAIA_XY_Z_M]

theorem gaiaCopyCoords_loop_xym (src : List R) (n iv : Nat) (dst : List R) :
    gaiaCopyCoords.loop GAIA_XY_M src GAIA_XY_M n iv dst =
      gaiaEwktGeometryFromLinestringM.loop src n iv dst := by
  induction n generalizing iv dst with
  | zero => rfl
  | succ n ih =>
    simp only [gaiaCopyCoords.loop, gaiaEwktGeometryFromLinestringM.loop, ih]
    simp [gaiaCopyCoords.step, GAIA_XY, GAIA_XY_Z, GAIA_XY_M, GAIA_XY_Z_M]

theorem gaiaCopyCoords_loop_xyzm (src : List R) (n iv : Nat) (dst : List R) :
    gaiaCopyCoords.loop GAIA_XY_Z_M src GAIA_XY_Z_M n iv dst =
      gaiaEwktGeometryFromLinestringZM.loop src n iv dst := by
  induction n generalizing iv dst with
  | zero => rfl
  | succ n ih =>
    simp only [gaiaCopyCoords.loop, gaiaEwktGeometryFromLinestringZM.loop, ih]
    simp [gaiaCopyCoords.step, GAIA_XY, GAIA_XY_Z, GAIA_XY_M, GAIA_XY_Z_M]

theorem gaiaModel_ne : GAIA_XY_M ≠ GAIA_XY_Z ∧ GAIA_XY_Z_M ≠ GAIA_XY_Z ∧
    GAIA_XY_Z_M ≠ GAIA_XY_M ∧ GAIA_XY ≠ GAIA_XY_Z ∧ GAIA_XY ≠ GAIA_XY_M ∧
    GAIA_XY ≠ GAIA_XY_Z_M := by decide

/-- A fresh ring of the model of `src`, filled by `gaiaCopyRingCoords`, has the points of
`src`. -/
theorem gaiaCopyRingCoords_fresh (src : gaiaRing R) :
    (gaiaCopyRingCoords (gaiaAllocRingByModel src.DimensionModel src.Points) src).Points
      = src.Points ∧
    ∀ i, i < src.Points →
      coordTuple src.DimensionModel
        (gaiaCopyRingCoords (gaiaAllocRingByModel src.DimensionModel src.Points) src).Coords i
        = coordTuple src.DimensionModel src.Coords i := by
  obtain ⟨c1, c2, c3, c4, c5, c6⟩ := gaiaModel_ne
  by_cases h1 : src.DimensionModel = GAIA_XY_Z
  · have e : gaiaCopyRingCoords (gaiaAllocRingByModel src.DimensionModel src.Points) src =
        ⟨src.Points, gaiaEwktGeometryFromLinestringZ.loop src.Coords src.Points 0
          (List.replicate (src.Points * 3) 0), GAIA_XY_Z⟩ := by
      simp only [gaiaCopyRingCoords, gaiaAllocRingByModel, gaiaAllocRingXYZ, h1, if_true,
        ne_eq, not_true_eq_false, if_false, gaiaCopyCoords_loop_xyz]
    rw [e]
    refine ⟨rfl, fun i hi => ?_⟩
    simp only [coordTuple, h1, if_true]
    rw [gaiaEwktGeometryFromLinestringZ_loop_tuple _ _ _ hi]
  · by_cases h2 : src.DimensionModel = GAIA_XY_M
    · have e : gaiaCopyRingCoords (gaiaAllocRingByModel src.DimensionModel src.Points) src =
          ⟨src.Points, gaiaEwktGeometryFromLinestringM.loop src.Coords src.Points 0
            (List.replicate (src.Points * 3) 0), GAIA_XY_M⟩ := by
        simp only [gaiaCopyRingCoords, gaiaAllocRingByModel, gaiaAllocRingXYM, h2, c1, if_true,
          ne_eq, not_true_eq_false, if_false, gaiaCopyCoords_loop_xym]
      rw [e]
      refine ⟨rfl, fun i hi => ?_⟩
      simp only [coordTuple, h2, c1, if_true, if_false]
      rw [gaiaEwktGeometryFromLinestringM_loop_tuple _ _ _ hi]
    · by_cases h3 : src.DimensionModel = GAIA_XY_Z_M
      · have e : gaiaCopyRingCoords (gaiaAllocRingByModel src.DimensionModel src.Points) src =
            ⟨src.Points, gaiaEwktGeometryFromLinestringZM.loop src.Coords src.Points 0
              (List.replicate (src.Points * 4) 0), GAIA_XY_Z_M⟩ := by
          simp only [gaiaCopyRingCoords, gaiaAllocRingByModel, gaiaAllocRingXYZM, h3, c2, c3,
            if_true, ne_eq, not_true_eq_false, if_false, gaiaCopyCoords_loop_xyzm]
        rw [e]
        refine ⟨rfl, fun i hi => ?_⟩
        simp only [coordTuple, h3, c2, c3, if_true, if_false]
        rw [gaiaEwktGeometryFromLinestringZM_loop_tuple _ _ _ hi]
      · have e : gaiaCopyRingCoords (gaiaAllocRingByModel src.DimensionModel src.Points) src =
            ⟨src.Points, gaiaEwktGeometryFromLinestring.loop src.Coords src.Points 0
              (List.replicate (src.Points * 2) 0), GAIA_XY⟩ := by
          simp only [gaiaCopyRingCoords, gaiaAllocRingByModel, gaiaAllocRing, h1, h2, h3,
            c4, c5, c6, if_true, ne_eq, not_true_eq_false, if_false,
            gaiaCopyCoords_loop_2d _ h1 h2 h3]
        rw [e]
        refine ⟨rfl, fun i hi => ?_⟩
        simp only [coordTuple, h1, h2, h3, if_false]
        rw [gaiaEwktGeometryFromLinestring_loop_tuple _ _ _ hi]

/-- A fresh linestring of the model of `src`, filled by `gaiaCopyLinestringCoords`, has the points of
`src`. -/
theorem gaiaCopyLinestringCoords_fresh (a : gaiaGeomColl R) (src : gaiaLinestring R)
    (ha : a.DimensionModel = src.DimensionModel) :
    (gaiaCopyLinestringCoords (gaiaAddLinestringToGeomColl.alloc a src.Points) src).Points
      = src.Points ∧
    ∀ i, i < src.Points →
      coordTuple src.DimensionModel
        (gaiaCopyLinestringCoords (gaiaAddLinestringToGeomColl.alloc a src.Points) src).Coords i
        = coordTuple src.DimensionModel src.Coords i := by
  obtain ⟨c1, c2, c3, c4, c5, c6⟩ := gaiaModel_ne
  by_cases h1 : src.DimensionModel = GAIA_XY_Z
  · have e : gaiaCopyLinestringCoords (gaiaAddLinestringToGeomColl.alloc a src.Points) src =
        ⟨src.Points, gaiaEwktGeometryFromLinestringZ.loop src.Coords src.Points 0
          (List.replicate (src.Points * 3) 0), GAIA_XY_Z⟩ := by
      simp only [gaiaCopyLinestringCoords, gaiaAddLinestringToGeomColl.alloc, ha, gaiaAllocLinestringXYZ, h1, if_true,
        ne_eq, not_true_eq_false, if_false, gaiaCopyCoords_loop_xyz]
    rw [e]
    refine ⟨rfl, fun i hi => ?_⟩
    simp only [coordTuple, h1, if_true]
    rw [gaiaEwktGeometryFromLinestringZ_loop_tuple _ _ _ hi]
  · by_cases h2 : src.DimensionModel = GAIA_XY_M
    · have e : gaiaCopyLinestringCoords (gaiaAddLinestringToGeomColl.alloc a src.Points) src =
          ⟨src.Points, gaiaEwktGeometryFromLinestringM.loop src.Coords src.Points 0
            (List.replicate (src.Points * 3) 0), GAIA_XY_M⟩ := by
        simp only [gaiaCopyLinestringCoords, gaiaAddLinestringToGeomColl.alloc, ha, gaiaAllocLinestringXYM, h2, c1, if_true,
          ne_eq, not_true_eq_false, if_false, gaiaCopyCoords_loop_xym]
      rw [e]
      refine ⟨rfl, fun i hi => ?_⟩
      simp only [coordTuple, h2, c1, if_true, if_false]
      rw [gaiaEwktGeometryFromLinestringM_loop_tuple _ _ _ hi]
    · by_cases h3 : src.DimensionModel = GAIA_XY_Z_M
      · have e : gaiaCopyLinestringCoords (gaiaAddLinestringToGeomColl.alloc a src.Points) src =
            ⟨src.Points, gaiaEwktGeometryFromLinestringZM.loop src.Coords src.Points 0
              (List.replicate (src.Points * 4) 0), GAIA_XY_Z_M⟩ := by
          simp only [gaiaCopyLinestringCoords, gaiaAddLinestringToGeomColl.alloc, ha, gaiaAllocLinestringXYZM, h3, c2, c3,
            if_true, ne_eq, not_true_eq_false, if_false, gaiaCopyCoords_loop_xyzm]
        rw [e]
        refine ⟨rfl, fun i hi => ?_⟩
        simp only [coordTuple, h3, c2, c3, if_true, if_false]
        rw [gaiaEwktGeometryFromLinestringZM_loop_tuple _ _ _ hi]
      · have e : gaiaCopyLinestringCoords (gaiaAddLinestringToGeomColl.alloc a src.Points) src =
            ⟨src.Points, gaiaEwktGeometryFromLinestring.loop src.Coords src.Points 0
              (List.replicate (src.Points * 2) 0), GAIA_XY⟩ := by
          simp only [gaiaCopyLinestringCoords, gaiaAddLinestringToGeomColl.alloc, ha, gaiaAllocLinestring, h1, h2, h3,
            c4, c5, c6, if_true, ne_eq, not_true_eq_false, if_false,
            gaiaCopyCoords_loop_2d _ h1 h2 h3]
        rw [e]
        refine ⟨rfl, fun i hi => ?_⟩
        simp only [coordTuple, h1, h2, h3, if_false]
        rw [gaiaEwktGeometryFromLinestring_loop_tuple _ _ _ hi]


theorem ewkt_multipoint_xy_loop_points (pts : List (gaiaPoint R)) (g : gaiaGeomColl R) :
    (ewkt_multipoint_xy.loop pts g).FirstPoint =
      g.FirstPoint ++ pts.map (fun p => gaiaAllocPoint p.X p.Y) ∧
    (ewkt_multipoint_xy.loop pts g).FirstLinestring = g.FirstLinestring ∧
    (ewkt_multipoint_xy.loop pts g).FirstPolygon = g.FirstPolygon := by
  induction pts generalizing g with
  | nil => simp [ewkt_multipoint_xy.loop]
  | cons p ps ih =>
    simp only [ewkt_multipoint_xy.loop]
    obtain ⟨h1, h2, h3⟩ := ih (gaiaAddPointToGeomColl g p.X p.Y)
    rw [h1, h2, h3]
    simp [gaiaAddPointToGeomColl]

theorem ewkt_multipoint_xyz_loop_points (pts : List (gaiaPoint R)) (g : gaiaGeomColl R) :
    (ewkt_multipoint_xyz.loop pts g).FirstPoint =
      g.FirstPoint ++ pts.map (fun p => gaiaAllocPointXYZ p.X p.Y p.Z) ∧
    (ewkt_multipoint_xyz.loop pts g).FirstLinestring = g.FirstLinestring ∧
    (ewkt_multipoint_xyz.loop pts g).FirstPolygon = g.FirstPolygon := by
  induction pts generalizing g with
  | nil => simp [ewkt_multipoint_xyz.loop]
  | cons p ps ih =>
    simp only [ewkt_multipoint_xyz.loop]
    obtain ⟨h1, h2, h3⟩ := ih (gaiaAddPointToGeomCollXYZ g p.X p.Y p.Z)
    rw [h1, h2, h3]
    simp [gaiaAddPointToGeomCollXYZ]

theorem ewkt_multipoint_xym_loop_points (pts : List (gaiaPoint R)) (g : gaiaGeomColl R) :
    (ewkt_multipoint_xym.loop pts g).FirstPoint =
      g.FirstPoint ++ pts.map (fun p => gaiaAllocPointXYM p.X p.Y p.M) ∧
    (ewkt_multipoint_xym.loop pts g).FirstLinestring = g.FirstLinestring ∧
    (ewkt_multipoint_xym.loop pts g).FirstPolygon = g.FirstPolygon := by
  induction pts generalizing g with
  | nil => simp [ewkt_multipoint_xym.loop]
  | cons p ps ih =>
    simp only [ewkt_multipoint_xym.loop]
    obtain ⟨h1, h2, h3⟩ := ih (gaiaAddPointToGeomCollXYM g p.X p.Y p.M)
    rw [h1, h2, h3]
    simp [gaiaAddPointToGeomCollXYM]

theorem ewkt_multipoint_xyzm_loop_points (pts : List (gaiaPoint R)) (g : gaiaGeomColl R) :
    (ewkt_multipoint_xyzm.loop pts g).FirstPoint =
      g.FirstPoint ++ pts.map (fun p => gaiaAllocPointXYZM p.X p.Y p.Z p.M) ∧
    (ewkt_multipoint_xyzm.loop pts g).FirstLinestring = g.FirstLinestring ∧
    (ewkt_multipoint_xyzm.loop pts g).FirstPolygon = g.FirstPolygon := by
  induction pts generalizing g with
  | nil => simp [ewkt_multipoint_xyzm.loop]
  | cons p ps ih =>
    simp only [ewkt_multipoint_xyzm.loop]
    obtain ⟨h1, h2, h3⟩ := ih (gaiaAddPointToGeomCollXYZM g p.X p.Y p.Z p.M)
    rw [h1, h2, h3]
    simp [gaiaAddPointToGeomCollXYZM]

theorem gaiaAddLinestringToGeomColl_alloc_congr (a b : gaiaGeomColl R)
    (h : a.DimensionModel = b.DimensionModel) (vert : Nat) :
    gaiaAddLinestringToGeomColl.alloc a vert = gaiaAddLinestringToGeomColl.alloc b vert := by
  simp only [gaiaAddLinestringToGeomColl.alloc, h]

theorem ewkt_multilinestring_loop_lines (lns : List (gaiaLinestring R)) (a : gaiaGeomColl R) :
    (ewkt_multilinestring.loop lns a).FirstLinestring =
      a.FirstLinestring ++ lns.map (fun p =>
        gaiaCopyLinestringCoords (gaiaAddLinestringToGeomColl.alloc a p.Points) p) ∧
    (ewkt_multilinestring.loop lns a).FirstPoint = a.FirstPoint ∧
    (ewkt_multilinestring.loop lns a).FirstPolygon = a.FirstPolygon := by
  induction lns generalizing a with
  | nil => simp [ewkt_multilinestring.loop]
  | cons p ps ih =>
    simp only [ewkt_multilinestring.loop]
    obtain ⟨h1, h2, h3⟩ := ih (gaiaAddLinestringToGeomColl.link a
      (gaiaCopyLinestringCoords (gaiaAddLinestringToGeomColl.alloc a p.Points) p))
    rw [h1, h2, h3]
    have hc : ∀ vert, gaiaAddLinestringToGeomColl.alloc (gaiaAddLinestringToGeomColl.link a
        (gaiaCopyLinestringCoords (gaiaAddLinestringToGeomColl.alloc a p.Points) p)) vert =
        gaiaAddLinestringToGeomColl.alloc a vert :=
      fun vert => gaiaAddLinestringToGeomColl_alloc_congr _ _ rfl vert
    simp only [hc]
    simp [gaiaAddLinestringToGeomColl.link]

/-- C11: `ewkt_polygon_any_type` returns no polygon for the empty list of
rings; for a non-empty list `r0, r1, ..., rk` it returns a polygon whose
exterior ring has the points of `r0` (same count, same coordinate tuples) and
whose interior rings are `r1, ..., rk` themselves, in list order, so that
`NumInteriors = k`. -/
theorem ewkt_polygon_any_type_rings (r0 : gaiaRing R) (rs : List (gaiaRing R)) :
    ewkt_polygon_any_type ([] : List (gaiaRing R)) = none ∧
    ∃ pg, ewkt_polygon_any_type (r0 :: rs) = some pg ∧
      pg.Exterior.Points = r0.Points ∧
      (∀ i, i < r0.Points →
        coordTuple r0.DimensionModel pg.Exterior.Coords i =
          coordTuple r0.DimensionModel r0.Coords i) ∧
      pg.Interiors = rs ∧ pg.NumInteriors = rs.length := by
  refine ⟨rfl, _, rfl, ?_, ?_, ?_, ?_⟩
  · rw [(ewkt_polygon_any_type_loop_model _ _).2.1]
    exact (gaiaCopyRingCoords_fresh r0).1
  · rw [(ewkt_polygon_any_type_loop_model _ _).2.1]
    exact (gaiaCopyRingCoords_fresh r0).2
  · rw [(ewkt_polygon_any_type_loop_model _ _).2.2]; rfl
  · simp only [gaiaPolygon.NumInteriors]
    rw [(ewkt_polygon_any_type_loop_model _ _).2.2]; rfl

theorem ewkt_geomColl_common_points_lists (pts : List (gaiaPoint R)) (dst : gaiaGeomColl R) :
    (ewkt_geomColl_common.points pts dst).FirstPoint = dst.FirstPoint ++ pts ∧
    (ewkt_geomColl_common.points pts dst).FirstLinestring = dst.FirstLinestring ∧
    (ewkt_geomColl_common.points pts dst).FirstPolygon = dst.FirstPolygon := by
  induction pts generalizing dst with
  | nil => simp [ewkt_geomColl_common.points]
  | cons p ps ih =>
    simp only [ewkt_geomColl_common.points]
    obtain ⟨h1, h2, h3⟩ := ih { dst with FirstPoint := dst.FirstPoint ++ [p] }
    rw [h1, h2, h3]
    simp

theorem ewkt_geomColl_common_linestrings_lists (lns : List (gaiaLinestring R))
    (dst : gaiaGeomColl R) :
    (ewkt_geomColl_common.linestrings lns dst).FirstPoint = dst.FirstPoint ∧
    (ewkt_geomColl_common.linestrings lns dst).FirstLinestring = dst.FirstLinestring ++ lns ∧
    (ewkt_geomColl_common.linestrings lns dst).FirstPolygon = dst.FirstPolygon := by
  induction lns generalizing dst with
  | nil => simp [ewkt_geomColl_common.linestrings]
  | cons p ps ih =>
    simp only [ewkt_geomColl_common.linestrings]
    obtain ⟨h1, h2, h3⟩ := ih { dst with FirstLinestring := dst.FirstLinestring ++ [p] }
    rw [h1, h2, h3]
    simp

theorem ewkt_geomColl_common_polygons_lists (pgs : List (gaiaPolygon R))
    (dst : gaiaGeomColl R) :
    (ewkt_geomColl_common.polygons pgs dst).FirstPoint = dst.FirstPoint ∧
    (ewkt_geomColl_common.polygons pgs dst).FirstLinestring = dst.FirstLinestring ∧
    (ewkt_geomColl_common.polygons pgs dst).FirstPolygon = dst.FirstPolygon ++ pgs := by
  induction pgs generalizing dst with
  | nil => simp [ewkt_geomColl_common.polygons]
  | cons p ps ih =>
    simp only [ewkt_geomColl_common.polygons]
    obtain ⟨h1, h2, h3⟩ := ih { dst with FirstPolygon := dst.FirstPolygon ++ [p] }
    rw [h1, h2, h3]
    simp

theorem ewkt_geomColl_common_lists (org : List (gaiaGeomColl R)) (dst : gaiaGeomColl R) :
    (ewkt_geomColl_common org dst).FirstPoint =
      dst.FirstPoint ++ (org.map (fun g => g.FirstPoint)).flatten ∧
    (ewkt_geomColl_common org dst).FirstLinestring =
      dst.FirstLinestring ++ (org.map (fun g => g.FirstLinestring)).flatten ∧
    (ewkt_geomColl_common org dst).FirstPolygon =
      dst.FirstPolygon ++ (org.map (fun g => g.FirstPolygon)).flatten := by
  induction org generalizing dst with
  | nil => simp [ewkt_geomColl_common]
  | cons p ps ih =>
    simp only [ewkt_geomColl_common]
    obtain ⟨h1, h2, h3⟩ := ih
      (ewkt_geomColl_common.polygons p.FirstPolygon
        (ewkt_geomColl_common.linestrings p.FirstLinestring
          (ewkt_geomColl_common.points p.FirstPoint dst)))
    rw [h1, h2, h3]
    simp [ewkt_geomColl_common_polygons_lists, ewkt_geomColl_common_linestrings_lists,
      ewkt_geomColl_common_points_lists]

/-- C14: for every chain of source geometries, each of `ewkt_geomColl_xy`,
`ewkt_geomColl_xyz`, `ewkt_geomColl_xym` and `ewkt_geomColl_xyzm` returns a
geometry of declared type GEOMETRYCOLLECTION whose list of points is the
concatenation of the lists of points of the sources in chain order, and
likewise for its list of linestrings and its list of polygons. -/
theorem ewkt_geomColl_concatenates (chain : List (gaiaGeomColl R)) :
    (∃ g, ewkt_geomColl_xy chain = some g ∧
      g.DeclaredType = GAIA_GEOMETRYCOLLECTION ∧
      g.FirstPoint = (chain.map (fun s => s.FirstPoint)).flatten ∧
      g.FirstLinestring = (chain.map (fun s => s.FirstLinestring)).flatten ∧
      g.FirstPolygon = (chain.map (fun s => s.FirstPolygon)).flatten) ∧
    (∃ g, ewkt_geomColl_xyz chain = some g ∧
      g.DeclaredType = GAIA_GEOMETRYCOLLECTION ∧
      g.FirstPoint = (chain.map (fun s => s.FirstPoint)).flatten ∧
      g.FirstLinestring = (chain.map (fun s => s.FirstLinestring)).flatten ∧
      g.FirstPolygon = (chain.map (fun s => s.FirstPolygon)).flatten) ∧
    (∃ g, ewkt_geomColl_xym chain = some g ∧
      g.DeclaredType = GAIA_GEOMETRYCOLLECTION ∧
      g.FirstPoint = (chain.map (fun s => s.FirstPoint)).flatten ∧
      g.FirstLinestring = (chain.map (fun s => s.FirstLinestring)).flatten ∧
      g.FirstPolygon = (chain.map (fun s => s.FirstPolygon)).flatten) ∧
    (∃ g, ewkt_geomColl_xyzm chain = some g ∧
      g.DeclaredType = GAIA_GEOMETRYCOLLECTION ∧
      g.FirstPoint = (chain.map (fun s => s.FirstPoint)).flatten ∧
      g.FirstLinestring = (chain.map (fun s => s.FirstLinestring)).flatten ∧
      g.FirstPolygon = (chain.map (fun s => s.FirstPolygon)).flatten) := by
  refine ⟨⟨_, rfl, ?_⟩, ⟨_, rfl, ?_⟩, ⟨_, rfl, ?_⟩, ⟨_, rfl, ?_⟩⟩ <;>
  · refine ⟨?_, ?_, ?_, ?_⟩
    · rw [(ewkt_geomColl_common_type_model _ _).1]
    · rw [(ewkt_geomColl_common_lists _ _).1]; simp [gaiaAllocGeomColl]
    · rw [(ewkt_geomColl_common_lists _ _).2.1]; simp [gaiaAllocGeomColl]
    · rw [(ewkt_geomColl_common_lists _ _).2.2]; simp [gaiaAllocGeomColl]

theorem gaiaCopyRingCoords_model (dst src : gaiaRing R) :
    (gaiaCopyRingCoords dst src).DimensionModel = dst.DimensionModel := by
  unfold gaiaCopyRingCoords; split <;> rfl

theorem gaiaCopyLinestringCoords_model (dst src : gaiaLinestring R) :
    (gaiaCopyLinestringCoords dst src).DimensionModel = dst.DimensionModel := by
  unfold gaiaCopyLinestringCoords; split <;> rfl

theorem gaiaAllocRingByModel_model (d : Int) (h : isDimensionModel d) (n : Nat) :
    (gaiaAllocRingByModel d n : gaiaRing R).DimensionModel = d := by
  rcases h with h | h | h | h <;> subst h <;> rfl

theorem gaiaAddLinestringToGeomColl_alloc_model (a : gaiaGeomColl R)
    (h : isDimensionModel a.DimensionModel) (n : Nat) :
    (gaiaAddLinestringToGeomColl.alloc a n).DimensionModel = a.DimensionModel := by
  unfold gaiaAddLinestringToGeomColl.alloc
  rcases h with h | h | h | h <;> rw [h] <;> rfl

/-- The ring copy made for a source ring of model `d`. -/
theorem gaiaCopyRingCoords_ringCopies (d : Int) (h : isDimensionModel d) (src : gaiaRing R)
    (hs : src.DimensionModel = d) :
    ringCopies d (gaiaCopyRingCoords (gaiaAllocRingByModel d src.Points) src) src := by
  subst hs
  refine ⟨?_, (gaiaCopyRingCoords_fresh src).1, (gaiaCopyRingCoords_fresh src).2⟩
  rw [gaiaCopyRingCoords_model, gaiaAllocRingByModel_model _ h]

theorem gaiaCopyLinestringCoords_linestringCopies (a : gaiaGeomColl R)
    (h : isDimensionModel a.DimensionModel) (src : gaiaLinestring R)
    (hs : src.DimensionModel = a.DimensionModel) :
    linestringCopies a.DimensionModel
      (gaiaCopyLinestringCoords (gaiaAddLinestringToGeomColl.alloc a src.Points) src) src := by
  refine ⟨?_, (gaiaCopyLinestringCoords_fresh a src hs.symm).1, ?_⟩
  · rw [gaiaCopyLinestringCoords_model, gaiaAddLinestringToGeomColl_alloc_model _ h]
  · rw [← hs]; exact (gaiaCopyLinestringCoords_fresh a src hs.symm).2


theorem ewkt_multipolygon_interiors_spec (p : gaiaPolygon R) :
    ∀ (n i : Nat) (np : gaiaPolygon R),
      (ewkt_multipolygon.interiors p n i np).DimensionModel = np.DimensionModel ∧
      (ewkt_multipolygon.interiors p n i np).Exterior = np.Exterior ∧
      (ewkt_multipolygon.interiors p n i np).Interiors.length = np.Interiors.length ∧
      ∀ k, (ewkt_multipolygon.interiors p n i np).Interiors[k]? =
        if i ≤ k ∧ k < i + n ∧ k < np.Interiors.length ∧ k < p.Interiors.length then
          (p.Interiors[k]?).map (fun s =>
            gaiaCopyRingCoords (gaiaAllocRingByModel np.DimensionModel s.Points) s)
        else np.Interiors[k]? := by
  intro n
  induction n with
  | zero =>
    intro i np
    refine ⟨rfl, rfl, rfl, fun k => ?_⟩
    rw [if_neg (by omega)]; rfl
  | succ n ih =>
    intro i np
    cases hp : p.Interiors[i]? with
    | none =>
      have hl : p.Interiors.length ≤ i := List.getElem?_eq_none_iff.mp hp
      simp only [ewkt_multipolygon.interiors, hp]
      refine ⟨trivial, trivial, trivial, fun k => ?_⟩
      rw [if_neg (by omega)]
    | some s =>
      have hl : i < p.Interiors.length := by
        by_contra hc
        rw [List.getElem?_eq_none_iff.mpr (by omega)] at hp
        cases hp
      simp only [ewkt_multipolygon.interiors, hp]
      obtain ⟨h1, h2, h3, h4⟩ := ih (i + 1)
        ⟨np.Exterior, np.Interiors.set i
          (gaiaCopyRingCoords (gaiaAddInteriorRing.ring np s.Points) s),
          np.NextInterior, np.DimensionModel⟩
      refine ⟨h1, h2, ?_, fun k => ?_⟩
      · rw [h3]; simp
      · rw [h4]
        simp only [List.length_set, List.getElem?_set, gaiaAddInteriorRing.ring]
        by_cases hk : i = k
        · subst hk
          rw [if_neg (by omega)]
          by_cases hlen : i < np.Interiors.length
          · rw [if_pos rfl, if_pos hlen, if_pos (by omega), hp]; rfl
          · rw [if_pos rfl, if_neg hlen, if_neg (by omega)]
            exact (List.getElem?_eq_none_iff.mpr (by omega)).symm
        · rw [if_neg hk]
          by_cases hc : i + 1 ≤ k ∧ k < i + 1 + n ∧ k < np.Interiors.length ∧
              k < p.Interiors.length
          · rw [if_pos hc, if_pos (by omega)]
          · rw [if_neg hc, if_neg (by omega)]

theorem ewkt_multipolygon_interiors_map (p np : gaiaPolygon R)
    (hn : np.Interiors.length = p.Interiors.length) :
    (ewkt_multipolygon.interiors p np.NumInteriors 0 np).Interiors =
      p.Interiors.map (fun s =>
        gaiaCopyRingCoords (gaiaAllocRingByModel np.DimensionModel s.Points) s) := by
  apply List.ext_getElem?
  intro k
  rw [(ewkt_multipolygon_interiors_spec p _ 0 np).2.2.2 k]
  simp only [gaiaPolygon.NumInteriors, hn, List.getElem?_map]
  by_cases hk : k < p.Interiors.length
  · rw [if_pos (by omega)]
  · rw [if_neg (by omega), List.getElem?_eq_none_iff.mpr (by omega),
      List.getElem?_eq_none_iff.mpr (by omega)]
    rfl

theorem gaiaAddPolygonToGeomColl_alloc_eq (g : gaiaGeomColl R)
    (h : isDimensionModel g.DimensionModel) (vert interiors : Nat) :
    gaiaAddPolygonToGeomColl.alloc g vert interiors =
      ⟨gaiaAllocRingByModel g.DimensionModel vert,
        List.replicate interiors ⟨0, [], GAIA_XY⟩, 0, g.DimensionModel⟩ := by
  unfold gaiaAddPolygonToGeomColl.alloc
  rcases h with h | h | h | h <;> rw [h] <;> rfl

/-- One iteration of the loop of `ewkt_multipolygon_xy` builds a copy of the
source polygon. -/
theorem ewkt_multipolygon_body_copies (g : gaiaGeomColl R)
    (h : isDimensionModel g.DimensionModel) (p : gaiaPolygon R)
    (hp : polygonOfModel g.DimensionModel p) :
    polygonCopies g.DimensionModel
      (ewkt_multipolygon.interiors p
        (gaiaAddPolygonToGeomColl.alloc g p.Exterior.Points p.NumInteriors).NumInteriors 0
        { gaiaAddPolygonToGeomColl.alloc g p.Exterior.Points p.NumInteriors with
          Exterior := gaiaCopyRingCoords
            (gaiaAddPolygonToGeomColl.alloc g p.Exterior.Points p.NumInteriors).Exterior
            p.Exterior }) p := by
  rw [gaiaAddPolygonToGeomColl_alloc_eq g h]
  have hn : (⟨gaiaCopyRingCoords (gaiaAllocRingByModel g.DimensionModel p.Exterior.Points)
      p.Exterior, List.replicate p.NumInteriors ⟨0, [], GAIA_XY⟩, 0,
      g.DimensionModel⟩ : gaiaPolygon R).Interiors.length = p.Interiors.length := by
    simp [gaiaPolygon.NumInteriors]
  have hm := ewkt_multipolygon_interiors_map p _ hn
  have hs := ewkt_multipolygon_interiors_spec p p.NumInteriors 0
    ⟨gaiaCopyRingCoords (gaiaAllocRingByModel g.DimensionModel p.Exterior.Points)
      p.Exterior, List.replicate p.NumInteriors ⟨0, [], GAIA_XY⟩, 0, g.DimensionModel⟩
  have hni : (⟨gaiaCopyRingCoords (gaiaAllocRingByModel g.DimensionModel p.Exterior.Points)
      p.Exterior, List.replicate p.NumInteriors ⟨0, [], GAIA_XY⟩, 0,
      g.DimensionModel⟩ : gaiaPolygon R).NumInteriors = p.NumInteriors := by
    simp [gaiaPolygon.NumInteriors]
  rw [hni] at hm
  simp only [gaiaPolygon.NumInteriors, List.length_replicate]
  simp only [gaiaPolygon.NumInteriors] at hm hs
  refine ⟨hs.1, ?_, ?_, ?_⟩
  · rw [hs.2.1]
    exact gaiaCopyRingCoords_ringCopies _ h _ hp.1
  · simp only [gaiaPolygon.NumInteriors]; rw [hm, List.length_map]
  · rw [hm, List.forall₂_map_left_iff, List.forall₂_same]
    intro r hr
    exact gaiaCopyRingCoords_ringCopies _ h _ (hp.2 r hr)

theorem ewkt_multipolygon_loop_copies (pgs : List (gaiaPolygon R)) :
    ∀ (g : gaiaGeomColl R), isDimensionModel g.DimensionModel →
      (∀ p ∈ pgs, polygonOfModel g.DimensionModel p) →
      ∃ news, (ewkt_multipolygon.loop pgs g).FirstPolygon = g.FirstPolygon ++ news ∧
        List.Forall₂ (polygonCopies g.DimensionModel) news pgs ∧
        (ewkt_multipolygon.loop pgs g).FirstPoint = g.FirstPoint ∧
        (ewkt_multipolygon.loop pgs g).FirstLinestring = g.FirstLinestring := by
  induction pgs with
  | nil => intro g _ _; exact ⟨[], by simp [ewkt_multipolygon.loop], List.Forall₂.nil, rfl, rfl⟩
  | cons p ps ih =>
    intro g h hp
    obtain ⟨news, h1, h2, h3, h4⟩ := ih (gaiaAddPolygonToGeomColl.link g
      (ewkt_multipolygon.interiors p
        (gaiaAddPolygonToGeomColl.alloc g p.Exterior.Points p.NumInteriors).NumInteriors 0
        { gaiaAddPolygonToGeomColl.alloc g p.Exterior.Points p.NumInteriors with
          Exterior := gaiaCopyRingCoords
            (gaiaAddPolygonToGeomColl.alloc g p.Exterior.Points p.NumInteriors).Exterior
            p.Exterior })) h (fun q hq => hp q (List.mem_cons_of_mem _ hq))
    refine ⟨_ :: news, ?_, List.Forall₂.cons
      (ewkt_multipolygon_body_copies g h p (hp p (List.mem_cons_self _ _))) h2, ?_, ?_⟩
    · exact h1.trans (by simp [gaiaAddPolygonToGeomColl.link])
    · exact h3
    · exact h4

theorem ewkt_multilinestring_loop_copies (lns : List (gaiaLinestring R)) (a : gaiaGeomColl R)
    (h : isDimensionModel a.DimensionModel)
    (hl : ∀ l ∈ lns, l.DimensionModel = a.DimensionModel) :
    ∃ news, (ewkt_multilinestring.loop lns a).FirstLinestring = a.FirstLinestring ++ news ∧
      List.Forall₂ (linestringCopies a.DimensionModel) news lns := by
  refine ⟨_, (ewkt_multilinestring_loop_lines lns a).1, ?_⟩
  rw [List.forall₂_map_left_iff, List.forall₂_same]
  intro l hm
  exact gaiaCopyLinestringCoords_linestringCopies a h l (hl l hm)

/-- C12: for a non-empty list of points each of the four `ewkt_multipoint_*`
builders returns a geometry whose points are the points of the list, one for
one and in list order; each of the `ewkt_multilinestring_*` and
`ewkt_multipolygon_*` builders, given primitives of its dimension model,
returns a geometry with as many linestrings or polygons as the list has, in
list order, each with the number of points, the number of interior rings and
the coordinates of its source. -/
theorem ewkt_multi_builders_copy (p : gaiaPoint R) (ps : List (gaiaPoint R))
    (lxy lxyz lxym lxyzm : List (gaiaLinestring R))
    (pxy pxyz pxym pxyzm : List (gaiaPolygon R))
    (hlxy : ∀ l ∈ lxy, l.DimensionModel = GAIA_XY)
    (hlxyz : ∀ l ∈ lxyz, l.DimensionModel = GAIA_XY_Z)
    (hlxym : ∀ l ∈ lxym, l.DimensionModel = GAIA_XY_M)
    (hlxyzm : ∀ l ∈ lxyzm, l.DimensionModel = GAIA_XY_Z_M)
    (hpxy : ∀ q ∈ pxy, polygonOfModel GAIA_XY q)
    (hpxyz : ∀ q ∈ pxyz, polygonOfModel GAIA_XY_Z q)
    (hpxym : ∀ q ∈ pxym, polygonOfModel GAIA_XY_M q)
    (hpxyzm : ∀ q ∈ pxyzm, polygonOfModel GAIA_XY_Z_M q) :
    (∃ g, ewkt_multipoint_xy (p :: ps) = some g ∧
      g.FirstPoint = (p :: ps).map (fun q => gaiaAllocPoint q.X q.Y) ∧
      g.FirstLinestring = [] ∧ g.FirstPolygon = []) ∧
    (∃ g, ewkt_multipoint_xyz (p :: ps) = some g ∧
      g.FirstPoint = (p :: ps).map (fun q => gaiaAllocPointXYZ q.X q.Y q.Z) ∧
      g.FirstLinestring = [] ∧ g.FirstPolygon = []) ∧
    (∃ g, ewkt_multipoint_xym (p :: ps) = some g ∧
      g.FirstPoint = (p :: ps).map (fun q => gaiaAllocPointXYM q.X q.Y q.M) ∧
      g.FirstLinestring = [] ∧ g.FirstPolygon = []) ∧
    (∃ g, ewkt_multipoint_xyzm (p :: ps) = some g ∧
      g.FirstPoint = (p :: ps).map (fun q => gaiaAllocPointXYZM q.X q.Y q.Z q.M) ∧
      g.FirstLinestring = [] ∧ g.FirstPolygon = []) ∧
    (∃ g, ewkt_multilinestring_xy lxy = some g ∧ g.FirstPoint = [] ∧
      List.Forall₂ (linestringCopies GAIA_XY) g.FirstLinestring lxy ∧
      g.FirstPolygon = []) ∧
    (∃ g, ewkt_multilinestring_xyz lxyz = some g ∧ g.FirstPoint = [] ∧
      List.Forall₂ (linestringCopies GAIA_XY_Z) g.FirstLinestring lxyz ∧
      g.FirstPolygon = []) ∧
    (∃ g, ewkt_multilinestring_xym lxym = some g ∧ g.FirstPoint = [] ∧
      List.Forall₂ (linestringCopies GAIA_XY_M) g.FirstLinestring lxym ∧
      g.FirstPolygon = []) ∧
    (∃ g, ewkt_multilinestring_xyzm lxyzm = some g ∧ g.FirstPoint = [] ∧
      List.Forall₂ (linestringCopies GAIA_XY_Z_M) g.FirstLinestring lxyzm ∧
      g.FirstPolygon = []) ∧
    (∃ g, ewkt_multipolygon_xy pxy = some g ∧ g.FirstPoint = [] ∧
      g.FirstLinestring = [] ∧
      List.Forall₂ (polygonCopies GAIA_XY) g.FirstPolygon pxy) ∧
    (∃ g, ewkt_multipolygon_xyz pxyz = some g ∧ g.FirstPoint = [] ∧
      g.FirstLinestring = [] ∧
      List.Forall₂ (polygonCopies GAIA_XY_Z) g.FirstPolygon pxyz) ∧
    (∃ g, ewkt_multipolygon_xym pxym = some g ∧ g.FirstPoint = [] ∧
      g.FirstLinestring = [] ∧
      List.Forall₂ (polygonCopies GAIA_XY_M) g.FirstPolygon pxym) ∧
    (∃ g, ewkt_multipolygon_xyzm pxyzm = some g ∧ g.FirstPoint = [] ∧
      g.FirstLinestring = [] ∧
      List.Forall₂ (polygonCopies GAIA_XY_Z_M) g.FirstPolygon pxyzm) := by
  refine ⟨?_, ?_, ?_, ?_, ?_, ?_, ?_, ?_, ?_, ?_, ?_, ?_⟩
  · refine ⟨_, rfl, ?_, ?_, ?_⟩
    · rw [(ewkt_multipoint_xy_loop_points _ _).1]; rfl
    · rw [(ewkt_multipoint_xy_loop_points _ _).2.1]; rfl
    · rw [(ewkt_multipoint_xy_loop_points _ _).2.2]; rfl
  · refine ⟨_, rfl, ?_, ?_, ?_⟩
    · rw [(ewkt_multipoint_xyz_loop_points _ _).1]; rfl
    · rw [(ewkt_multipoint_xyz_loop_points _ _).2.1]; rfl
    · rw [(ewkt_multipoint_xyz_loop_points _ _).2.2]; rfl
  · refine ⟨_, rfl, ?_, ?_, ?_⟩
    · rw [(ewkt_multipoint_xym_loop_points _ _).1]; rfl
    · rw [(ewkt_multipoint_xym_loop_points _ _).2.1]; rfl
    · rw [(ewkt_multipoint_xym_loop_points _ _).2.2]; rfl
  · refine ⟨_, rfl, ?_, ?_, ?_⟩
    · rw [(ewkt_multipoint_xyzm_loop_points _ _).1]; rfl
    · rw [(ewkt_multipoint_xyzm_loop_points _ _).2.1]; rfl
    · rw [(ewkt_multipoint_xyzm_loop_points _ _).2.2]; rfl
  · obtain ⟨news, h1, h2⟩ := ewkt_multilinestring_loop_copies lxy
      (⟨0, [], [], [], GAIA_XY, GAIA_MULTILINESTRING, none⟩ : gaiaGeomColl R) (Or.inl rfl) hlxy
    refine ⟨_, rfl, ?_, ?_, ?_⟩
    · exact (ewkt_multilinestring_loop_lines _ _).2.1
    · exact (List.nil_append news ▸ h1) ▸ h2
    · exact (ewkt_multilinestring_loop_lines _ _).2.2
  · obtain ⟨news, h1, h2⟩ := ewkt_multilinestring_loop_copies lxyz
      (⟨0, [], [], [], GAIA_XY_Z, GAIA_MULTILINESTRING, none⟩ : gaiaGeomColl R) (Or.inr (Or.inl rfl)) hlxyz
    refine ⟨_, rfl, ?_, ?_, ?_⟩
    · exact (ewkt_multilinestring_loop_lines _ _).2.1
    · exact (List.nil_append news ▸ h1) ▸ h2
    · exact (ewkt_multilinestring_loop_lines _ _).2.2
  · obtain ⟨news, h1, h2⟩ := ewkt_multilinestring_loop_copies lxym
      (⟨0, [], [], [], GAIA_XY_M, GAIA_MULTILINESTRING, none⟩ : gaiaGeomColl R) (Or.inr (Or.inr (Or.inl rfl))) hlxym
    refine ⟨_, rfl, ?_, ?_, ?_⟩
    · exact (ewkt_multilinestring_loop_lines _ _).2.1
    · exact (List.nil_append news ▸ h1) ▸ h2
    · exact (ewkt_multilinestring_loop_lines _ _).2.2
  · obtain ⟨news, h1, h2⟩ := ewkt_multilinestring_loop_copies lxyzm
      (⟨0, [], [], [], GAIA_XY_Z_M, GAIA_MULTILINESTRING, none⟩ : gaiaGeomColl R) (Or.inr (Or.inr (Or.inr rfl))) hlxyzm
    refine ⟨_, rfl, ?_, ?_, ?_⟩
    · exact (ewkt_multilinestring_loop_lines _ _).2.1
    · exact (List.nil_append news ▸ h1) ▸ h2
    · exact (ewkt_multilinestring_loop_lines _ _).2.2
  · obtain ⟨news, h1, h2, h3, h4⟩ := ewkt_multipolygon_loop_copies pxy
      (⟨0, [], [], [], GAIA_XY, GAIA_MULTIPOLYGON, none⟩ : gaiaGeomColl R) (Or.inl rfl) hpxy
    refine ⟨_, rfl, h3, h4, ?_⟩
    exact (List.nil_append news ▸ h1) ▸ h2
  · obtain ⟨news, h1, h2, h3, h4⟩ := ewkt_multipolygon_loop_copies pxyz
      (⟨0, [], [], [], GAIA_XY_Z, GAIA_MULTIPOLYGON, none⟩ : gaiaGeomColl R) (Or.inr (Or.inl rfl)) hpxyz
    refine ⟨_, rfl, h3, h4, ?_⟩
    exact (List.nil_append news ▸ h1) ▸ h2
  · obtain ⟨news, h1, h2, h3, h4⟩ := ewkt_multipolygon_loop_copies pxym
      (⟨0, [], [], [], GAIA_XY_M, GAIA_MULTIPOLYGON, none⟩ : gaiaGeomColl R) (Or.inr (Or.inr (Or.inl rfl))) hpxym
    refine ⟨_, rfl, h3, h4, ?_⟩
    exact (List.nil_append news ▸ h1) ▸ h2
  · obtain ⟨news, h1, h2, h3, h4⟩ := ewkt_multipolygon_loop_copies pxyzm
      (⟨0, [], [], [], GAIA_XY_Z_M, GAIA_MULTIPOLYGON, none⟩ : gaiaGeomColl R) (Or.inr (Or.inr (Or.inr rfl))) hpxyzm
    refine ⟨_, rfl, h3, h4, ?_⟩
    exact (List.nil_append news ▸ h1) ▸ h2

/-- Witness for C12: two points, and one two-vertex linestring and one polygon
with a hole in each of the four dimension models. -/
theorem ewkt_multi_builders_copy_witness :
    (∀ l ∈ [sampleLinestringOf GAIA_XY 2], l.DimensionModel = GAIA_XY) ∧
    (∀ l ∈ [sampleLinestringOf GAIA_XY_Z 3], l.DimensionModel = GAIA_XY_Z) ∧
    (∀ l ∈ [sampleLinestringOf GAIA_XY_M 3], l.DimensionModel = GAIA_XY_M) ∧
    (∀ l ∈ [sampleLinestringOf GAIA_XY_Z_M 4], l.DimensionModel = GAIA_XY_Z_M) ∧
    (∀ q ∈ [samplePolygonOf GAIA_XY 2], polygonOfModel GAIA_XY q) ∧
    (∀ q ∈ [samplePolygonOf GAIA_XY_Z 3], polygonOfModel GAIA_XY_Z q) ∧
    (∀ q ∈ [samplePolygonOf GAIA_XY_M 3], polygonOfModel GAIA_XY_M q) ∧
    (∀ q ∈ [samplePolygonOf GAIA_XY_Z_M 4], polygonOfModel GAIA_XY_Z_M q) ∧
    (∃ g, ewkt_multipoint_xy ((⟨1, 2, 3, 4, GAIA_XY⟩ : gaiaPoint Int) :: [⟨5, 6, 7, 8, GAIA_XY⟩]) = some g ∧
      g.FirstPoint = ((⟨1, 2, 3, 4, GAIA_XY⟩ : gaiaPoint Int) :: [⟨5, 6, 7, 8, GAIA_XY⟩]).map (fun q => gaiaAllocPoint q.X q.Y) ∧
      g.FirstLinestring = [] ∧ g.FirstPolygon = []) ∧
    (∃ g, ewkt_multipoint_xyz ((⟨1, 2, 3, 4, GAIA_XY⟩ : gaiaPoint Int) :: [⟨5, 6, 7, 8, GAIA_XY⟩]) = some g ∧
      g.FirstPoint = ((⟨1, 2, 3, 4, GAIA_XY⟩ : gaiaPoint Int) :: [⟨5, 6, 7, 8, GAIA_XY⟩]).map (fun q => gaiaAllocPointXYZ q.X q.Y q.Z) ∧
      g.FirstLinestring = [] ∧ g.FirstPolygon = []) ∧
    (∃ g, ewkt_multipoint_xym ((⟨1, 2, 3, 4, GAIA_XY⟩ : gaiaPoint Int) :: [⟨5, 6, 7, 8, GAIA_XY⟩]) = some g ∧
      g.FirstPoint = ((⟨1, 2, 3, 4, GAIA_XY⟩ : gaiaPoint Int) :: [⟨5, 6, 7, 8, GAIA_XY⟩]).map (fun q => gaiaAllocPointXYM q.X q.Y q.M) ∧
      g.FirstLinestring = [] ∧ g.FirstPolygon = []) ∧
    (∃ g, ewkt_multipoint_xyzm ((⟨1, 2, 3, 4, GAIA_XY⟩ : gaiaPoint Int) :: [⟨5, 6, 7, 8, GAIA_XY⟩]) = some g ∧
      g.FirstPoint = ((⟨1, 2, 3, 4, GAIA_XY⟩ : gaiaPoint Int) :: [⟨5, 6, 7, 8, GAIA_XY⟩]).map (fun q => gaiaAllocPointXYZM q.X q.Y q.Z q.M) ∧
      g.FirstLinestring = [] ∧ g.FirstPolygon = []) ∧
    (∃ g, ewkt_multilinestring_xy [sampleLinestringOf GAIA_XY 2] = some g ∧ g.FirstPoint = [] ∧
      List.Forall₂ (linestringCopies GAIA_XY) g.FirstLinestring [sampleLinestringOf GAIA_XY 2] ∧
      g.FirstPolygon = []) ∧
    (∃ g, ewkt_multilinestring_xyz [sampleLinestringOf GAIA_XY_Z 3] = some g ∧ g.FirstPoint = [] ∧
      List.Forall₂ (linestringCopies GAIA_XY_Z) g.FirstLinestring [sampleLinestringOf GAIA_XY_Z 3] ∧
      g.FirstPolygon = []) ∧
    (∃ g, ewkt_multilinestring_xym [sampleLinestringOf GAIA_XY_M 3] = some g ∧ g.FirstPoint = [] ∧
      List.Forall₂ (linestringCopies GAIA_XY_M) g.FirstLinestring [sampleLinestringOf GAIA_XY_M 3] ∧
      g.FirstPolygon = []) ∧
    (∃ g, ewkt_multilinestring_xyzm [sampleLinestringOf GAIA_XY_Z_M 4] = some g ∧ g.FirstPoint = [] ∧
      List.Forall₂ (linestringCopies GAIA_XY_Z_M) g.FirstLinestring [sampleLinestringOf GAIA_XY_Z_M 4] ∧
      g.FirstPolygon = []) ∧
    (∃ g, ewkt_multipolygon_xy [samplePolygonOf GAIA_XY 2] = some g ∧ g.FirstPoint = [] ∧
      g.FirstLinestring = [] ∧
      List.Forall₂ (polygonCopies GAIA_XY) g.FirstPolygon [samplePolygonOf GAIA_XY 2]) ∧
    (∃ g, ewkt_multipolygon_xyz [samplePolygonOf GAIA_XY_Z 3] = some g ∧ g.FirstPoint = [] ∧
      g.FirstLinestring = [] ∧
      List.Forall₂ (polygonCopies GAIA_XY_Z) g.FirstPolygon [samplePolygonOf GAIA_XY_Z 3]) ∧
    (∃ g, ewkt_multipolygon_xym [samplePolygonOf GAIA_XY_M 3] = some g ∧ g.FirstPoint = [] ∧
      g.FirstLinestring = [] ∧
      List.Forall₂ (polygonCopies GAIA_XY_M) g.FirstPolygon [samplePolygonOf GAIA_XY_M 3]) ∧
    (∃ g, ewkt_multipolygon_xyzm [samplePolygonOf GAIA_XY_Z_M 4] = some g ∧ g.FirstPoint = [] ∧
      g.FirstLinestring = [] ∧
      List.Forall₂ (polygonCopies GAIA_XY_Z_M) g.FirstPolygon [samplePolygonOf GAIA_XY_Z_M 4]) :=
  ⟨by decide, by decide, by decide, by decide,
    by simp [polygonOfModel, samplePolygonOf],
    by simp [polygonOfModel, samplePolygonOf],
    by simp [polygonOfModel, samplePolygonOf],
    by simp [polygonOfModel, samplePolygonOf],
    ewkt_multi_builders_copy _ _ _ _ _ _ _ _ _ _
      (by decide) (by decide) (by decide) (by decide)
      (by simp [polygonOfModel, samplePolygonOf]) (by simp [polygonOfModel, samplePolygonOf])
      (by simp [polygonOfModel, samplePolygonOf]) (by simp [polygonOfModel, samplePolygonOf])⟩

/-- C13 (counterexample): given the empty list, `ewkt_multilinestring_xy`,
`ewkt_multipolygon_xy` and `ewkt_geomColl_xy` do not return NULL: each returns
a geometry, which holds no primitive. -/
theorem ewkt_multi_builders_empty_list_not_null :
    ewkt_multilinestring_xy ([] : List (gaiaLinestring Int)) =
      some ⟨0, [], [], [], GAIA_XY, GAIA_MULTILINESTRING, none⟩ ∧
    ewkt_multipolygon_xy ([] : List (gaiaPolygon Int)) =
      some ⟨0, [], [], [], GAIA_XY, GAIA_MULTIPOLYGON, none⟩ ∧
    ewkt_geomColl_xy ([] : List (gaiaGeomColl Int)) =
      some ⟨0, [], [], [], GAIA_XY, GAIA_GEOMETRYCOLLECTION, none⟩ ∧
    ewkt_multilinestring_xy ([] : List (gaiaLinestring Int)) ≠ none ∧
    ewkt_multipolygon_xy ([] : List (gaiaPolygon Int)) ≠ none ∧
    ewkt_geomColl_xy ([] : List (gaiaGeomColl Int)) ≠ none := by
  refine ⟨?_, ?_, ?_, ?_, ?_, ?_⟩
  all_goals decide

/-- C13 (amended): on the empty list the ring, polygon and multipoint builders
return NULL, but the multilinestring, multipolygon and collection builders do
not: each of these twelve returns a geometry of its declared type without any
primitive, which `ewktCheckValidity` rejects. -/
theorem ewkt_builders_on_empty_list :
    (ewkt_ring_xy ([] : List (gaiaPoint R)) = none ∧
     ewkt_ring_xyz ([] : List (gaiaPoint R)) = none ∧
     ewkt_ring_xym ([] : List (gaiaPoint R)) = none ∧
     ewkt_ring_xyzm ([] : List (gaiaPoint R)) = none) ∧
    (ewkt_polygon_xy ([] : List (gaiaRing R)) = none ∧
     ewkt_polygon_xyz ([] : List (gaiaRing R)) = none ∧
     ewkt_polygon_xym ([] : List (gaiaRing R)) = none ∧
     ewkt_polygon_xyzm ([] : List (gaiaRing R)) = none) ∧
    (ewkt_multipoint_xy ([] : List (gaiaPoint R)) = none ∧
     ewkt_multipoint_xyz ([] : List (gaiaPoint R)) = none ∧
     ewkt_multipoint_xym ([] : List (gaiaPoint R)) = none ∧
     ewkt_multipoint_xyzm ([] : List (gaiaPoint R)) = none) ∧
    (∀ f ∈ [ewkt_multilinestring_xy, ewkt_multilinestring_xyz,
        ewkt_multilinestring_xym, ewkt_multilinestring_xyzm],
      ∃ g : gaiaGeomColl R, f [] = some g ∧ g.DeclaredType = GAIA_MULTILINESTRING ∧
        g.FirstPoint = [] ∧ g.FirstLinestring = [] ∧ g.FirstPolygon = [] ∧
        ewktCheckValidity g = 0) ∧
    (∀ f ∈ [ewkt_multipolygon_xy, ewkt_multipolygon_xyz,
        ewkt_multipolygon_xym, ewkt_multipolygon_xyzm],
      ∃ g : gaiaGeomColl R, f [] = some g ∧ g.DeclaredType = GAIA_MULTIPOLYGON ∧
        g.FirstPoint = [] ∧ g.FirstLinestring = [] ∧ g.FirstPolygon = [] ∧
        ewktCheckValidity g = 0) ∧
    (∀ f ∈ [ewkt_geomColl_xy, ewkt_geomColl_xyz, ewkt_geomColl_xym, ewkt_geomColl_xyzm],
      ∃ g : gaiaGeomColl R, f [] = some g ∧ g.DeclaredType = GAIA_GEOMETRYCOLLECTION ∧
        g.FirstPoint = [] ∧ g.FirstLinestring = [] ∧ g.FirstPolygon = [] ∧
        ewktCheckValidity g = 0) := by
  refine ⟨⟨rfl, rfl, rfl, rfl⟩, ⟨rfl, rfl, rfl, rfl⟩, ⟨rfl, rfl, rfl, rfl⟩, ?_, ?_, ?_⟩
  · intro f hf
    simp only [List.mem_cons, List.mem_singleton, List.not_mem_nil, or_false] at hf
    rcases hf with h | h | h | h <;> subst h <;> exact ⟨_, rfl, rfl, rfl, rfl, rfl, rfl⟩
  · intro f hf
    simp only [List.mem_cons, List.mem_singleton, List.not_mem_nil, or_false] at hf
    rcases hf with h | h | h | h <;> subst h <;> exact ⟨_, rfl, rfl, rfl, rfl, rfl, rfl⟩
  · intro f hf
    simp only [List.mem_cons, List.mem_singleton, List.not_mem_nil, or_false] at hf
    rcases hf with h | h | h | h <;> subst h <;> exact ⟨_, rfl, rfl, rfl, rfl, rfl, rfl⟩

/-- C15: the geometry built from a one-point list by `ewkt_linestring_xy` and
`ewkt_buildGeomFromLinestring` is rejected by `ewktCheckValidity`, and
`gaiaParseEWKT` returns NULL whenever the parser leaves that geometry in
`result`; the geometry built from the two-point list has declared type
LINESTRING, the two points in order, and is accepted by `ewktCheckValidity`. -/
theorem ewkt_linestring_one_point_rejected {P : Type} (x0 y0 x1 y1 : R)
    (ParseAlloc : P) (Parse : EwktParse P R) (EWKT_NEWLINE : Int)
    (yylex : List Char → List (Int × R))
    (gaiaMbrGeometry : gaiaGeomColl R → gaiaGeomColl R)
    (dirty_buffer : List Char) (srid : Int) (base_offset : Nat)
    (hs : findEwktSrid dirty_buffer = some (srid, base_offset))
    (hr : (gaiaParseEWKT.drive ParseAlloc Parse EWKT_NEWLINE
        (yylex (dirty_buffer.drop base_offset))).1 =
      ewkt_buildGeomFromLinestring (ewkt_linestring_xy [ewkt_point_xy x0 y0])) :
    (∃ g, ewkt_buildGeomFromLinestring (ewkt_linestring_xy [ewkt_point_xy x0 y0]) = some g ∧
      ewktCheckValidity g = 0) ∧
    gaiaParseEWKT ParseAlloc Parse EWKT_NEWLINE yylex gaiaMbrGeometry dirty_buffer =
      some none ∧
    (∃ g, ewkt_buildGeomFromLinestring
        (ewkt_linestring_xy [ewkt_point_xy x0 y0, ewkt_point_xy x1 y1]) = some g ∧
      g.DeclaredType = GAIA_LINESTRING ∧
      g.FirstLinestring = [⟨2, [x0, y0, x1, y1], GAIA_XY⟩] ∧
      g.FirstPoint = [] ∧ g.FirstPolygon = [] ∧
      ewktCheckValidity g = 1) := by
  refine ⟨⟨_, rfl, rfl⟩, ?_, ⟨_, rfl, rfl, rfl, rfl, rfl, rfl⟩⟩
  simp only [gaiaParseEWKT, hs]
  generalize hd : gaiaParseEWKT.drive ParseAlloc Parse EWKT_NEWLINE
    (yylex (dirty_buffer.drop base_offset)) = d at hr
  obtain ⟨result, flag⟩ := d
  have hb : ewkt_buildGeomFromLinestring (ewkt_linestring_xy [ewkt_point_xy x0 y0]) =
      some (gaiaEwktGeometryFromLinestring (ewkt_linestring_xy [ewkt_point_xy x0 y0])) := rfl
  have hv : ewktCheckValidity (gaiaEwktGeometryFromLinestring
      (ewkt_linestring_xy [ewkt_point_xy x0 y0])) = 0 := rfl
  rw [hb] at hr
  simp only at hr
  subst hr
  by_cases hf : flag = 0
  · simp [hf, hv]
  · simp [hf]

/-- Witness for C15: the text `LINESTRING(0 0)` with a parser that leaves the
one-point geometry in `result`. -/
theorem ewkt_linestring_one_point_rejected_witness :
    findEwktSrid "LINESTRING(0 0)".toList = some (-1, 0) ∧
    (∃ g, ewkt_buildGeomFromLinestring (ewkt_linestring_xy [ewkt_point_xy (0 : Int) 0]) =
        some g ∧ ewktCheckValidity g = 0) ∧
    gaiaParseEWKT () sampleParseLinestring 0 sampleYylex id "LINESTRING(0 0)".toList =
      some none ∧
    (∃ g, ewkt_buildGeomFromLinestring
        (ewkt_linestring_xy [ewkt_point_xy (0 : Int) 0, ewkt_point_xy 1 1]) = some g ∧
      g.DeclaredType = GAIA_LINESTRING ∧
      g.FirstLinestring = [⟨2, [0, 0, 1, 1], GAIA_XY⟩] ∧
      g.FirstPoint = [] ∧ g.FirstPolygon = [] ∧
      ewktCheckValidity g = 1) :=
  ⟨by decide, ewkt_linestring_one_point_rejected 0 0 1 1 () sampleParseLinestring 0
    sampleYylex id "LINESTRING(0 0)".toList (-1) 0 (by decide) rfl⟩

end EwktCollections

/-! ### The GML parser -/

section GmlProofs

variable {R : Type} [Zero R] [DecidableEq R]

/-- The ten tests of `guessGmlGeometryType` as one cascade: a later test
overrides an earlier one. -/
theorem guessGmlGeometryType_cascade (node : gmlNode) :
    guessGmlGeometryType node =
      if node.Tag = "gml:MultiGeometry" ∨ node.Tag = "MultiGeometry" then GAIA_GML_MULTIGEOMETRY
      else if node.Tag = "gml:MultiSurface" ∨ node.Tag = "MultiSurface" then
        GAIA_GML_MULTISURFACE
      else if node.Tag = "gml:MultiPolygon" ∨ node.Tag = "MultiPolygon" then
        GAIA_GML_MULTIPOLYGON
      else if node.Tag = "gml:MultiCurve" ∨ node.Tag = "MultiCurve" then GAIA_GML_MULTICURVE
      else if node.Tag = "gml:MultiLineString" ∨ node.Tag = "MultiLineString" then
        GAIA_GML_MULTILINESTRING
      else if node.Tag = "gml:MultiPoint" ∨ node.Tag = "MultiPoint" then GAIA_GML_MULTIPOINT
      else if node.Tag = "gml:Polygon" ∨ node.Tag = "Polygon" then GAIA_GML_POLYGON
      else if node.Tag = "gml:Curve" ∨ node.Tag = "Curve" then GAIA_GML_CURVE
      else if node.Tag = "gml:LineString" ∨ node.Tag = "LineString" then GAIA_GML_LINESTRING
      else if node.Tag = "gml:Point" ∨ node.Tag = "Point" then GAIA_GML_POINT
      else GAIA_GML_UNKNOWN := by
  rfl

/-- The tags that `guessGmlGeometryType` recognizes. -/
theorem guessGmlGeometryType_ne_unknown_iff (node : gmlNode) :
    guessGmlGeometryType node ≠ GAIA_GML_UNKNOWN ↔
      node.Tag ∈ ["Point", "LineString", "Curve", "Polygon", "MultiPoint", "MultiLineString",
        "MultiCurve", "MultiPolygon", "MultiSurface", "MultiGeometry", "gml:Point",
        "gml:LineString", "gml:Curve", "gml:Polygon", "gml:MultiPoint", "gml:MultiLineString",
        "gml:MultiCurve", "gml:MultiPolygon", "gml:MultiSurface", "gml:MultiGeometry"] := by
  simp only [List.mem_cons, List.mem_singleton, List.not_mem_nil, or_false]
  constructor
  · intro h
    by_contra hn
    simp only [not_or] at hn
    obtain ⟨a1, a2, a3, a4, a5, a6, a7, a8, a9, a10, b1, b2, b3, b4, b5, b6, b7, b8, b9, b10⟩ := hn
    apply h
    rw [guessGmlGeometryType_cascade]
    simp only [a1, a2, a3, a4, a5, a6, a7, a8, a9, a10, b1, b2, b3, b4, b5, b6, b7, b8, b9, b10,
      or_self, if_false]
  · intro h
    rw [guessGmlGeometryType_cascade]
    rcases h with h | h | h | h | h | h | h | h | h | h | h | h | h | h | h | h | h | h | h | h
    all_goals (simp only [h]; decide)

/-- C18: `guessGmlGeometryType` returns a recognized kind exactly when the tag
of the node is, character for character, one of the ten names Point,
LineString, Curve, Polygon, MultiPoint, MultiLineString, MultiCurve,
MultiPolygon, MultiSurface, MultiGeometry or one of them prefixed with
`gml:`, and then it returns the kind of that name; for every other tag
(`gml:point` and `ogc:Point` for instance) it returns UNKNOWN, and
`gml_build_geometry` then returns NULL. -/
theorem guessGmlGeometryType_recognizes {S : Type} (atof : List Char → R)
    (sqlite_handle : Option S) (gml_proj_params : S → Int → List Char)
    (gaiaTransform : gaiaGeomColl R → List Char → List Char → Option (gaiaGeomColl R))
    (node : gmlNode) (rest : List gmlNode) :
    (guessGmlGeometryType node ≠ GAIA_GML_UNKNOWN ↔
      node.Tag ∈ ["Point", "LineString", "Curve", "Polygon", "MultiPoint", "MultiLineString",
        "MultiCurve", "MultiPolygon", "MultiSurface", "MultiGeometry", "gml:Point",
        "gml:LineString", "gml:Curve", "gml:Polygon", "gml:MultiPoint", "gml:MultiLineString",
        "gml:MultiCurve", "gml:MultiPolygon", "gml:MultiSurface", "gml:MultiGeometry"]) ∧
    (∀ p ∈ [("Point", GAIA_GML_POINT), ("LineString", GAIA_GML_LINESTRING),
        ("Curve", GAIA_GML_CURVE), ("Polygon", GAIA_GML_POLYGON),
        ("MultiPoint", GAIA_GML_MULTIPOINT), ("MultiLineString", GAIA_GML_MULTILINESTRING),
        ("MultiCurve", GAIA_GML_MULTICURVE), ("MultiPolygon", GAIA_GML_MULTIPOLYGON),
        ("MultiSurface", GAIA_GML_MULTISURFACE), ("MultiGeometry", GAIA_GML_MULTIGEOMETRY)],
      ∀ (ty err : Int) (attrs : List gmlAttr) (coords : List (List Char)),
        guessGmlGeometryType ⟨p.1, ty, err, attrs, coords⟩ = p.2 ∧
        guessGmlGeometryType ⟨"gml:" ++ p.1, ty, err, attrs, coords⟩ = p.2) ∧
    (∀ (ty err : Int) (attrs : List gmlAttr) (coords : List (List Char)),
      guessGmlGeometryType ⟨"gml:point", ty, err, attrs, coords⟩ = GAIA_GML_UNKNOWN ∧
      guessGmlGeometryType ⟨"ogc:Point", ty, err, attrs, coords⟩ = GAIA_GML_UNKNOWN) ∧
    (guessGmlGeometryType node ≠ GAIA_GML_UNKNOWN ∨
      gml_build_geometry atof sqlite_handle gml_proj_params gaiaTransform (node :: rest) =
        some none) := by
  refine ⟨guessGmlGeometryType_ne_unknown_iff node, ?_, fun _ _ _ _ => ⟨rfl, rfl⟩, ?_⟩
  · intro p hp ty err attrs coords
    simp only [List.mem_cons, List.mem_singleton, List.not_mem_nil, or_false] at hp
    rcases hp with h | h | h | h | h | h | h | h | h | h <;> subst h <;> exact ⟨rfl, rfl⟩
  · by_cases h : guessGmlGeometryType node = GAIA_GML_UNKNOWN
    · right
      simp only [gml_build_geometry, h, if_true]
    · left; exact h

/-- A successful `gml_parse_point` has read three nodes: the coordinates (or
pos) node, a node of the same name up to the prefix, and a Point node. -/
theorem gml_parse_point_some (atof : List Char → R) (geom : List (gaiaGeomColl R))
    (node : List gmlNode) (srid : Int) (chain : List (gaiaGeomColl R)) (next : List gmlNode)
    (h : gml_parse_point atof geom node srid = some (some (chain, next))) :
    ∃ n0 n1 n2, node = n0 :: n1 :: n2 :: next ∧
      (((n0.Tag = "gml:coordinates" ∨ n0.Tag = "coordinates") ∧
        (n1.Tag = "gml:coordinates" ∨ n1.Tag = "coordinates")) ∨
       ((n0.Tag = "gml:pos" ∨ n0.Tag = "pos") ∧ (n1.Tag = "gml:pos" ∨ n1.Tag = "pos"))) ∧
      (n2.Tag = "gml:Point" ∨ n2.Tag = "Point") := by
  unfold gml_parse_point at h
  repeat' split at h
  all_goals first
    | (simp at h; done)
    | (simp only [Option.some.injEq, Prod.mk.injEq] at h
       obtain ⟨-, rfl⟩ := h
       exact ⟨_, _, _, rfl, by tauto, by assumption⟩)

set_option maxHeartbeats 4000000

/-- A successful `gml_parse_ring` has read six nodes, the ring element, its
LinearRing, the coordinates (or posList) node, and three nodes that repeat
these names, up to the prefix, in reverse order; `interior` tells the kind of
the ring element. -/
theorem gml_parse_ring_some (atof : List Char → R) (n0 : gmlNode) (node : List gmlNode)
    (dyn : List (gaiaPoint R)) (interior has_z : Int) (next : List gmlNode)
    (h : gml_parse_ring atof n0 node = some (some (dyn, interior, has_z, next))) :
    ∃ n1 n2 n3 n4 n5, node = n1 :: n2 :: n3 :: n4 :: n5 :: next ∧
      (n1.Tag = "gml:LinearRing" ∨ n1.Tag = "LinearRing") ∧
      (n4.Tag = "gml:LinearRing" ∨ n4.Tag = "LinearRing") ∧
      (((n2.Tag = "gml:coordinates" ∨ n2.Tag = "coordinates") ∧
        (n3.Tag = "gml:coordinates" ∨ n3.Tag = "coordinates")) ∨
       ((n2.Tag = "gml:posList" ∨ n2.Tag = "posList") ∧
        (n3.Tag = "gml:posList" ∨ n3.Tag = "posList"))) ∧
      (((n0.Tag = "gml:outerBoundaryIs" ∨ n0.Tag = "outerBoundaryIs") ∧
        (n5.Tag = "gml:outerBoundaryIs" ∨ n5.Tag = "outerBoundaryIs") ∧ interior = 0) ∨
       ((n0.Tag = "gml:innerBoundaryIs" ∨ n0.Tag = "innerBoundaryIs") ∧
        (n5.Tag = "gml:innerBoundaryIs" ∨ n5.Tag = "innerBoundaryIs") ∧ interior = 1) ∨
       ((n0.Tag = "gml:exterior" ∨ n0.Tag = "exterior") ∧
        (n5.Tag = "gml:exterior" ∨ n5.Tag = "exterior") ∧ interior = 0) ∨
       ((n0.Tag = "gml:interior" ∨ n0.Tag = "interior") ∧
        (n5.Tag = "gml:interior" ∨ n5.Tag = "interior") ∧ interior = 1)) := by
  unfold gml_parse_ring at h
  repeat' split at h
  all_goals first
    | (simp at h; done)
    | (simp only [Option.some.injEq, Prod.mk.injEq] at h
       obtain ⟨-, rfl, -, rfl⟩ := h
       refine ⟨_, _, _, _, _, rfl, by assumption, by assumption, ?_, ?_⟩
       · first
           | (left; exact ⟨by assumption, by assumption⟩)
           | (right; exact ⟨by assumption, by assumption⟩)
       · first
           | (left; exact ⟨by assumption, by assumption, rfl⟩)
           | (right; left; exact ⟨by assumption, by assumption, rfl⟩)
           | (right; right; left; exact ⟨by assumption, by assumption, rfl⟩)
           | (right; right; right; exact ⟨by assumption, by assumption, rfl⟩))

/-- The two Point tags give the kind POINT. -/
theorem guessGmlGeometryType_point (t : gmlNode) (ht : t.Tag = "gml:Point" ∨ t.Tag = "Point") :
    guessGmlGeometryType t = GAIA_GML_POINT := by
  rw [guessGmlGeometryType_cascade]
  rcases ht with h | h <;> simp only [h] <;> decide

/-- A successful `gml_build_geometry` on a top-level Point has parsed the
nodes after the first one with `gml_parse_point`. -/
theorem gml_build_geometry_point_some {S : Type} (atof : List Char → R)
    (sqlite_handle : Option S) (gml_proj_params : S → Int → List Char)
    (gaiaTransform : gaiaGeomColl R → List Char → List Char → Option (gaiaGeomColl R))
    (t : gmlNode) (rest : List gmlNode) (g : gaiaGeomColl R)
    (ht : t.Tag = "gml:Point" ∨ t.Tag = "Point")
    (hb : gml_build_geometry atof sqlite_handle gml_proj_params gaiaTransform (t :: rest) =
      some (some g)) :
    ∃ geom srid chain next, gml_parse_point atof geom rest srid = some (some (chain, next)) := by
  have hg := guessGmlGeometryType_point t ht
  have hne : ¬ GAIA_GML_POINT = GAIA_GML_UNKNOWN := by decide
  simp only [gml_build_geometry, hg, hne, if_false] at hb
  cases hs : guessGmlSrid t with
  | none => rw [hs] at hb; simp at hb
  | some srid =>
    rw [hs] at hb
    simp only [gml_build_geometry.parse, if_true] at hb
    cases hp : gml_parse_point atof
        [{ ({ (gaiaAllocGeomColl : gaiaGeomColl R) with Srid := srid } : gaiaGeomColl R) with
            DeclaredType := GAIA_POINT }] rest srid with
    | none => rw [hp] at hb; simp at hb
    | some r =>
      cases r with
      | none => rw [hp] at hb; simp at hb
      | some cn => exact ⟨_, _, cn.1, cn.2, hp⟩

/-- The closure test of `gml_parse_polygon` in terms of the first and the
last point of the ring. -/
theorem gml_parse_polygon_closed_iff (dyn : List (gaiaPoint R)) (has_z : Int)
    (hd : dyn ≠ []) :
    gml_parse_polygon.closed dyn has_z = true ↔
      (dyn.head?.map (fun p => p.X) = dyn.getLast?.map (fun p => p.X) ∧
       dyn.head?.map (fun p => p.Y) = dyn.getLast?.map (fun p => p.Y) ∧
       (has_z = 0 ∨ dyn.head?.map (fun p => p.Z) = dyn.getLast?.map (fun p => p.Z))) := by
  obtain ⟨a, ha⟩ : ∃ a, dyn.head? = some a := by
    cases dyn with
    | nil => exact absurd rfl hd
    | cons a l => exact ⟨a, rfl⟩
  obtain ⟨b, hb⟩ : ∃ b, dyn.getLast? = some b := by
    cases h : dyn.getLast? with
    | none => exact absurd (List.getLast?_eq_none_iff.mp h) hd
    | some b => exact ⟨b, rfl⟩
  simp only [gml_parse_polygon.closed, ha, hb, Option.map_some', Option.some.injEq]
  by_cases hz : has_z = 0
  · simp [hz]
  · simp [hz]

theorem gml_parse_linestring_fill_eq (pts : List (gaiaPoint R)) (iv : Nat) (c : List R) :
    gml_parse_linestring.fill pts iv c = ewkt_ring_xy.loop pts.length iv pts c := by
  induction pts generalizing iv c with
  | nil => rfl
  | cons p ps ih => simp only [gml_parse_linestring.fill, ewkt_ring_xy.loop, List.length_cons, ih]

theorem gml_parse_linestring_fill_tuple (pts : List (gaiaPoint R)) (i : Nat) (p : gaiaPoint R)
    (h : pts[i]? = some p) :
    gaiaGetPoint (gml_parse_linestring.fill pts 0 (List.replicate (pts.length * 2) 0)) i =
      (p.X, p.Y) := by
  rw [gml_parse_linestring_fill_eq]
  exact ewkt_ring_xy_tuple pts i p h

theorem gml_parse_linestring_fillXYZ_spec (pts : List (gaiaPoint R)) (index : Nat)
    (c : List R) :
    (gml_parse_linestring.fillXYZ pts index c).length = c.length ∧
    ∀ j, (gml_parse_linestring.fillXYZ pts index c).getD j 0 =
      if index * 3 ≤ j ∧ j < (index + pts.length) * 3 ∧ j < c.length then
        (match pts[j / 3 - index]? with
         | some p => if j % 3 = 0 then p.X else if j % 3 = 1 then p.Y else p.Z
         | none => 0)
      else c.getD j 0 := by
  induction pts generalizing index c with
  | nil =>
    refine ⟨rfl, fun j => ?_⟩
    simp only [gml_parse_linestring.fillXYZ, List.length_nil]
    split_ifs <;> first | rfl | (exfalso; omega)
  | cons p ps ih =>
    simp only [gml_parse_linestring.fillXYZ, List.length_cons]
    obtain ⟨hl, hc⟩ := ih (index + 1) (gaiaSetPointXYZ c index p.X p.Y p.Z)
    refine ⟨by rw [hl]; simp [gaiaSetPointXYZ], fun j => ?_⟩
    rw [hc, gaiaSetPointXYZ_getD]
    simp only [gaiaSetPointXYZ, List.length_set]
    by_cases h3 : (index + 1) * 3 ≤ j ∧ j < (index + 1 + ps.length) * 3 ∧ j < c.length
    · have a2 : index * 3 ≤ j ∧ j < (index + (ps.length + 1)) * 3 ∧ j < c.length := by omega
      have e1 : j / 3 - index = (j / 3 - (index + 1)) + 1 := by omega
      rw [if_pos h3, if_pos a2, e1, List.getElem?_cons_succ]
    · rw [if_neg h3]
      by_cases h0 : index * 3 ≤ j ∧ j < (index + 1) * 3 ∧ j < c.length
      · have a2 : index * 3 ≤ j ∧ j < (index + (ps.length + 1)) * 3 ∧ j < c.length := by omega
        have e1 : j / 3 - index = 0 := by omega
        rw [if_pos a2, e1]
        simp only [List.getElem?_cons_zero]
        have hj : j = index * 3 ∨ j = index * 3 + 1 ∨ j = index * 3 + 2 := by omega
        rcases hj with hj | hj | hj
        · have m : j % 3 = 0 := by omega
          rw [if_neg (by omega), if_neg (by omega), if_pos ⟨hj, h0.2.2⟩, if_pos m]
        · have m : j % 3 = 1 := by omega
          rw [if_neg (by omega), if_pos ⟨hj, h0.2.2⟩, if_neg (by omega), if_pos m]
        · have m : j % 3 = 2 := by omega
          rw [if_pos ⟨hj, h0.2.2⟩, if_neg (by omega), if_neg (by omega)]
      · have a2 : ¬ (index * 3 ≤ j ∧ j < (index + (ps.length + 1)) * 3 ∧ j < c.length) := by
          omega
        rw [if_neg a2, if_neg (by omega), if_neg (by omega), if_neg (by omega)]

theorem gml_parse_linestring_fillXYZ_tuple (pts : List (gaiaPoint R)) (i : Nat)
    (p : gaiaPoint R) (h : pts[i]? = some p) :
    gaiaGetPointXYZ (gml_parse_linestring.fillXYZ pts 0 (List.replicate (pts.length * 3) 0)) i =
      (p.X, p.Y, p.Z) := by
  have hi : i < pts.length := by
    rcases Nat.lt_or_ge i pts.length with hlt | hge
    · exact hlt
    · rw [List.getElem?_eq_none hge] at h; cases h
  have hc := (gml_parse_linestring_fillXYZ_spec pts 0 (List.replicate (pts.length * 3) (0 : R))).2
  simp only [gaiaGetPointXYZ, hc, List.length_replicate]
  have a1 : 0 * 3 ≤ i * 3 ∧ i * 3 < (0 + pts.length) * 3 ∧ i * 3 < pts.length * 3 := by omega
  have a2 : 0 * 3 ≤ i * 3 + 1 ∧ i * 3 + 1 < (0 + pts.length) * 3 ∧
      i * 3 + 1 < pts.length * 3 := by omega
  have a3 : 0 * 3 ≤ i * 3 + 2 ∧ i * 3 + 2 < (0 + pts.length) * 3 ∧
      i * 3 + 2 < pts.length * 3 := by omega
  have e1 : i * 3 / 3 - 0 = i := by omega
  have e2 : (i * 3 + 1) / 3 - 0 = i := by omega
  have e3 : (i * 3 + 2) / 3 - 0 = i := by omega
  have m1 : i * 3 % 3 = 0 := by omega
  have m2 : (i * 3 + 1) % 3 = 1 := by omega
  have m3 : (i * 3 + 2) % 3 = 2 := by omega
  rw [if_pos a1, if_pos a2, if_pos a3, e1, e2, e3, h]
  simp [m1, m2, m3]

/-- The counts made by the loop "verifying the rings collection". -/
theorem gml_parse_polygon_verify_spec (dyn_pg : List (gmlDynamicRing R)) :
    ∀ (inners outers : Nat) (has_z : Int) (points : Nat) (ext : List (gaiaPoint R)),
      (gml_parse_polygon.verify dyn_pg inners outers has_z points ext).1 =
        inners + (dyn_pg.filter (fun r : gmlDynamicRing R => decide (r.interior ≠ 0))).length ∧
      (gml_parse_polygon.verify dyn_pg inners outers has_z points ext).2.1 =
        outers + (dyn_pg.filter (fun r : gmlDynamicRing R => decide (r.interior = 0))).length ∧
      (gml_parse_polygon.verify dyn_pg inners outers has_z points ext).2.2.1 =
        (if ∀ r ∈ dyn_pg, r.has_z ≠ 0 then has_z else 0) ∧
      (∀ e, dyn_pg.filter (fun r : gmlDynamicRing R => decide (r.interior = 0)) = [e] →
        (gml_parse_polygon.verify dyn_pg inners outers has_z points ext).2.2.2 =
          (e.ring.length, e.ring)) ∧
      (dyn_pg.filter (fun r : gmlDynamicRing R => decide (r.interior = 0)) = [] →
        (gml_parse_polygon.verify dyn_pg inners outers has_z points ext).2.2.2 =
          (points, ext)) := by
  induction dyn_pg with
  | nil =>
    intro inners outers has_z points ext
    simp [gml_parse_polygon.verify]
  | cons d ds ih =>
    intro inners outers has_z points ext
    by_cases hi : d.interior = 0
    · have hi2 : ¬ d.interior ≠ 0 := by simp [hi]
      simp only [gml_parse_polygon.verify, hi2, if_false]
      obtain ⟨h1, h2, h3, h4, h5⟩ := ih inners (outers + 1)
        (if d.has_z = 0 then 0 else has_z) (gml_count_dyn_points d.ring) d.ring
      refine ⟨?_, ?_, ?_, ?_, ?_⟩
      · rw [h1]; simp [hi]
      · rw [h2]; simp [hi]; omega
      · rw [h3]
        by_cases hz : d.has_z = 0
        · simp [hz]
        · simp [hz]
      · intro e he
        simp only [List.filter_cons, hi, decide_True, if_true, List.cons.injEq] at he
        rw [h5 he.2, ← he.1]; rfl
      · intro he
        simp [List.filter_cons, hi] at he
    · simp only [gml_parse_polygon.verify, hi, ne_eq, not_false_eq_true, if_true]
      obtain ⟨h1, h2, h3, h4, h5⟩ := ih (inners + 1) outers
        (if d.has_z = 0 then 0 else has_z) points ext
      refine ⟨?_, ?_, ?_, ?_, ?_⟩
      · rw [h1]; simp [hi]; omega
      · rw [h2]; simp [hi]
      · rw [h3]
        by_cases hz : d.has_z = 0
        · simp [hz]
        · simp [hz]
      · intro e he
        simp only [List.filter_cons, hi, decide_False, Bool.false_eq_true, if_false] at he
        exact h4 e he
      · intro he
        simp only [List.filter_cons, hi, decide_False, Bool.false_eq_true, if_false] at he
        exact h5 he

/-- The interior rings installed by the 3D loop of `gml_parse_polygon`. -/
theorem gml_parse_polygon_interiorsXYZ_spec (dyn_pg : List (gmlDynamicRing R)) :
    ∀ (ib : Nat) (new_pg : gaiaPolygon R),
      (gml_parse_polygon.interiorsXYZ dyn_pg ib new_pg).DimensionModel =
        new_pg.DimensionModel ∧
      (gml_parse_polygon.interiorsXYZ dyn_pg ib new_pg).Exterior = new_pg.Exterior ∧
      (gml_parse_polygon.interiorsXYZ dyn_pg ib new_pg).Interiors.length =
        new_pg.Interiors.length ∧
      ∀ k, (gml_parse_polygon.interiorsXYZ dyn_pg ib new_pg).Interiors[k]? =
        if ib ≤ k ∧ k < ib + (dyn_pg.filter (fun r : gmlDynamicRing R => decide (r.interior ≠ 0))).length ∧
            k < new_pg.Interiors.length then
          ((dyn_pg.filter (fun r : gmlDynamicRing R => decide (r.interior ≠ 0)))[k - ib]?).map (fun d =>
            ({ (gaiaAllocRingByModel new_pg.DimensionModel d.ring.length : gaiaRing R) with
              Coords := gml_parse_linestring.fillXYZ d.ring 0
                (gaiaAllocRingByModel new_pg.DimensionModel d.ring.length :
                  gaiaRing R).Coords } : gaiaRing R))
        else new_pg.Interiors[k]? := by
  induction dyn_pg with
  | nil =>
    intro ib new_pg
    refine ⟨rfl, rfl, rfl, fun k => ?_⟩
    simp only [gml_parse_polygon.interiorsXYZ, List.filter_nil, List.length_nil]
    rw [if_neg (by omega)]
  | cons d ds ih =>
    intro ib new_pg
    by_cases hi : d.interior = 0
    · simp only [gml_parse_polygon.interiorsXYZ, hi, if_true]
      obtain ⟨h1, h2, h3, h4⟩ := ih ib new_pg
      refine ⟨h1, h2, h3, fun k => ?_⟩
      rw [h4]
      simp [List.filter_cons, hi]
    · simp only [gml_parse_polygon.interiorsXYZ, hi, if_false]
      obtain ⟨h1, h2, h3, h4⟩ := ih (ib + 1)
        ⟨new_pg.Exterior, new_pg.Interiors.set ib
          { gaiaAddInteriorRing.ring new_pg (gml_count_dyn_points d.ring) with
            Coords := gml_parse_linestring.fillXYZ d.ring 0
              (gaiaAddInteriorRing.ring new_pg (gml_count_dyn_points d.ring)).Coords },
          new_pg.NextInterior, new_pg.DimensionModel⟩
      refine ⟨h1, h2, ?_, fun k => ?_⟩
      · rw [h3]; simp
      · rw [h4]
        have hf : (d :: ds).filter (fun r : gmlDynamicRing R => decide (r.interior ≠ 0)) =
            d :: ds.filter (fun r : gmlDynamicRing R => decide (r.interior ≠ 0)) := by
          simp [List.filter_cons, hi]
        rw [hf]
        simp only [List.length_set, List.getElem?_set, List.length_cons,
          gaiaAddInteriorRing.ring, gml_count_dyn_points]
        by_cases hk : ib = k
        · subst hk
          rw [if_neg (by omega)]
          by_cases hlen : ib < new_pg.Interiors.length
          · rw [if_pos rfl, if_pos hlen, if_pos (by omega), Nat.sub_self]
            simp only [List.getElem?_cons_zero, Option.map_some']
          · rw [if_pos rfl, if_neg hlen, if_neg (by omega)]
            exact (List.getElem?_eq_none_iff.mpr (by omega)).symm
        · rw [if_neg hk]
          by_cases hc : ib + 1 ≤ k ∧
              k < ib + 1 + (ds.filter (fun r : gmlDynamicRing R => decide (r.interior ≠ 0))).length ∧
              k < new_pg.Interiors.length
          · have e1 : k - ib = (k - (ib + 1)) + 1 := by omega
            rw [if_pos hc, if_pos (by omega), e1, List.getElem?_cons_succ]
          · rw [if_neg hc, if_neg (by omega)]

/-- The interior rings installed by the 2D loop of `gml_parse_polygon`. -/
theorem gml_parse_polygon_interiors_spec (dyn_pg : List (gmlDynamicRing R)) :
    ∀ (ib : Nat) (new_pg : gaiaPolygon R),
      (gml_parse_polygon.interiors dyn_pg ib new_pg).DimensionModel =
        new_pg.DimensionModel ∧
      (gml_parse_polygon.interiors dyn_pg ib new_pg).Exterior = new_pg.Exterior ∧
      (gml_parse_polygon.interiors dyn_pg ib new_pg).Interiors.length =
        new_pg.Interiors.length ∧
      ∀ k, (gml_parse_polygon.interiors dyn_pg ib new_pg).Interiors[k]? =
        if ib ≤ k ∧ k < ib + (dyn_pg.filter (fun r : gmlDynamicRing R => decide (r.interior ≠ 0))).length ∧
            k < new_pg.Interiors.length then
          ((dyn_pg.filter (fun r : gmlDynamicRing R => decide (r.interior ≠ 0)))[k - ib]?).map (fun d =>
            ({ (gaiaAllocRingByModel new_pg.DimensionModel d.ring.length : gaiaRing R) with
              Coords := gml_parse_linestring.fill d.ring 0
                (gaiaAllocRingByModel new_pg.DimensionModel d.ring.length :
                  gaiaRing R).Coords } : gaiaRing R))
        else new_pg.Interiors[k]? := by
  induction dyn_pg with
  | nil =>
    intro ib new_pg
    refine ⟨rfl, rfl, rfl, fun k => ?_⟩
    simp only [gml_parse_polygon.interiors, List.filter_nil, List.length_nil]
    rw [if_neg (by omega)]
  | cons d ds ih =>
    intro ib new_pg
    by_cases hi : d.interior = 0
    · simp only [gml_parse_polygon.interiors, hi, if_true]
      obtain ⟨h1, h2, h3, h4⟩ := ih ib new_pg
      refine ⟨h1, h2, h3, fun k => ?_⟩
      rw [h4]
      simp [List.filter_cons, hi]
    · simp only [gml_parse_polygon.interiors, hi, if_false]
      obtain ⟨h1, h2, h3, h4⟩ := ih (ib + 1)
        ⟨new_pg.Exterior, new_pg.Interiors.set ib
          { gaiaAddInteriorRing.ring new_pg (gml_count_dyn_points d.ring) with
            Coords := gml_parse_linestring.fill d.ring 0
              (gaiaAddInteriorRing.ring new_pg (gml_count_dyn_points d.ring)).Coords },
          new_pg.NextInterior, new_pg.DimensionModel⟩
      refine ⟨h1, h2, ?_, fun k => ?_⟩
      · rw [h3]; simp
      · rw [h4]
        have hf : (d :: ds).filter (fun r : gmlDynamicRing R => decide (r.interior ≠ 0)) =
            d :: ds.filter (fun r : gmlDynamicRing R => decide (r.interior ≠ 0)) := by
          simp [List.filter_cons, hi]
        rw [hf]
        simp only [List.length_set, List.getElem?_set, List.length_cons,
          gaiaAddInteriorRing.ring, gml_count_dyn_points]
        by_cases hk : ib = k
        · subst hk
          rw [if_neg (by omega)]
          by_cases hlen : ib < new_pg.Interiors.length
          · rw [if_pos rfl, if_pos hlen, if_pos (by omega), Nat.sub_self]
            simp only [List.getElem?_cons_zero, Option.map_some']
          · rw [if_pos rfl, if_neg hlen, if_neg (by omega)]
            exact (List.getElem?_eq_none_iff.mpr (by omega)).symm
        · rw [if_neg hk]
          by_cases hc : ib + 1 ≤ k ∧
              k < ib + 1 + (ds.filter (fun r : gmlDynamicRing R => decide (r.interior ≠ 0))).length ∧
              k < new_pg.Interiors.length
          · have e1 : k - ib = (k - (ib + 1)) + 1 := by omega
            rw [if_pos hc, if_pos (by omega), e1, List.getElem?_cons_succ]
          · rw [if_neg hc, if_neg (by omega)]


theorem ringOfPoints_fillXYZ (pts : List (gaiaPoint R)) :
    ringOfPoints GAIA_XY_Z
      ({ (gaiaAllocRingByModel GAIA_XY_Z pts.length : gaiaRing R) with
        Coords := gml_parse_linestring.fillXYZ pts 0
          (gaiaAllocRingByModel GAIA_XY_Z pts.length : gaiaRing R).Coords } : gaiaRing R)
      pts := by
  refine ⟨rfl, rfl, fun i p h => ?_⟩
  have e : (gaiaAllocRingByModel GAIA_XY_Z pts.length : gaiaRing R).Coords =
      List.replicate (pts.length * 3) 0 := rfl
  have ht := gml_parse_linestring_fillXYZ_tuple pts i p h
  simp only [e, coordTuple, pointTuple, if_true, ht]

theorem ringOfPoints_fill (pts : List (gaiaPoint R)) :
    ringOfPoints GAIA_XY
      ({ (gaiaAllocRingByModel GAIA_XY pts.length : gaiaRing R) with
        Coords := gml_parse_linestring.fill pts 0
          (gaiaAllocRingByModel GAIA_XY pts.length : gaiaRing R).Coords } : gaiaRing R)
      pts := by
  refine ⟨rfl, rfl, fun i p h => ?_⟩
  have e : (gaiaAllocRingByModel GAIA_XY pts.length : gaiaRing R).Coords =
      List.replicate (pts.length * 2) 0 := rfl
  have ht := gml_parse_linestring_fill_tuple pts i p h
  have c1 : ¬ GAIA_XY = GAIA_XY_Z := by decide
  have c2 : ¬ GAIA_XY = GAIA_XY_M := by decide
  have c3 : ¬ GAIA_XY = GAIA_XY_Z_M := by decide
  simp only [e, coordTuple, pointTuple, c1, c2, c3, if_false, ht]

/-- The interior rings of the polygon built by the 3D branch. -/
theorem gml_parse_polygon_interiorsXYZ_rings (dyn_pg : List (gmlDynamicRing R))
    (ext : gaiaRing R) :
    List.Forall₂ (fun r d => ringOfPoints GAIA_XY_Z r d.ring)
      (gml_parse_polygon.interiorsXYZ dyn_pg 0
        ⟨ext, List.replicate
          (dyn_pg.filter (fun r : gmlDynamicRing R => decide (r.interior ≠ 0))).length
          ⟨0, [], GAIA_XY⟩, 0, GAIA_XY_Z⟩).Interiors
      (dyn_pg.filter (fun r : gmlDynamicRing R => decide (r.interior ≠ 0))) := by
  obtain ⟨-, -, hl, hk⟩ := gml_parse_polygon_interiorsXYZ_spec dyn_pg 0
    (⟨ext, List.replicate
      (dyn_pg.filter (fun r : gmlDynamicRing R => decide (r.interior ≠ 0))).length
      ⟨0, [], GAIA_XY⟩, 0, GAIA_XY_Z⟩ : gaiaPolygon R)
  have he : (gml_parse_polygon.interiorsXYZ dyn_pg 0
      ⟨ext, List.replicate
        (dyn_pg.filter (fun r : gmlDynamicRing R => decide (r.interior ≠ 0))).length
        ⟨0, [], GAIA_XY⟩, 0, GAIA_XY_Z⟩).Interiors =
      (dyn_pg.filter (fun r : gmlDynamicRing R => decide (r.interior ≠ 0))).map (fun d =>
        ({ (gaiaAllocRingByModel GAIA_XY_Z d.ring.length : gaiaRing R) with
          Coords := gml_parse_linestring.fillXYZ d.ring 0
            (gaiaAllocRingByModel GAIA_XY_Z d.ring.length : gaiaRing R).Coords } :
          gaiaRing R)) := by
    apply List.ext_getElem?
    intro k
    rw [hk k]
    simp only [List.length_replicate, List.getElem?_map, Nat.sub_zero, Nat.zero_add]
    by_cases hlt : k < (dyn_pg.filter (fun r : gmlDynamicRing R => decide (r.interior ≠ 0))).length
    · rw [if_pos ⟨Nat.zero_le _, hlt, hlt⟩]
    · rw [if_neg (by omega),
        List.getElem?_eq_none_iff.mpr (by rw [List.length_replicate]; omega),
        List.getElem?_eq_none_iff.mpr (by omega)]
      rfl
  rw [he, List.forall₂_map_left_iff, List.forall₂_same]
  intro d _
  exact ringOfPoints_fillXYZ d.ring

/-- The interior rings of the polygon built by the 2D branch. -/
theorem gml_parse_polygon_interiors_rings (dyn_pg : List (gmlDynamicRing R))
    (ext : gaiaRing R) :
    List.Forall₂ (fun r d => ringOfPoints GAIA_XY r d.ring)
      (gml_parse_polygon.interiors dyn_pg 0
        ⟨ext, List.replicate
          (dyn_pg.filter (fun r : gmlDynamicRing R => decide (r.interior ≠ 0))).length
          ⟨0, [], GAIA_XY⟩, 0, GAIA_XY⟩).Interiors
      (dyn_pg.filter (fun r : gmlDynamicRing R => decide (r.interior ≠ 0))) := by
  obtain ⟨-, -, hl, hk⟩ := gml_parse_polygon_interiors_spec dyn_pg 0
    (⟨ext, List.replicate
      (dyn_pg.filter (fun r : gmlDynamicRing R => decide (r.interior ≠ 0))).length
      ⟨0, [], GAIA_XY⟩, 0, GAIA_XY⟩ : gaiaPolygon R)
  have he : (gml_parse_polygon.interiors dyn_pg 0
      ⟨ext, List.replicate
        (dyn_pg.filter (fun r : gmlDynamicRing R => decide (r.interior ≠ 0))).length
        ⟨0, [], GAIA_XY⟩, 0, GAIA_XY⟩).Interiors =
      (dyn_pg.filter (fun r : gmlDynamicRing R => decide (r.interior ≠ 0))).map (fun d =>
        ({ (gaiaAllocRingByModel GAIA_XY d.ring.length : gaiaRing R) with
          Coords := gml_parse_linestring.fill d.ring 0
            (gaiaAllocRingByModel GAIA_XY d.ring.length : gaiaRing R).Coords } :
          gaiaRing R)) := by
    apply List.ext_getElem?
    intro k
    rw [hk k]
    simp only [List.length_replicate, List.getElem?_map, Nat.sub_zero, Nat.zero_add]
    by_cases hlt : k < (dyn_pg.filter (fun r : gmlDynamicRing R => decide (r.interior ≠ 0))).length
    · rw [if_pos ⟨Nat.zero_le _, hlt, hlt⟩]
    · rw [if_neg (by omega),
        List.getElem?_eq_none_iff.mpr (by rw [List.length_replicate]; omega),
        List.getElem?_eq_none_iff.mpr (by omega)]
      rfl
  rw [he, List.forall₂_map_left_iff, List.forall₂_same]
  intro d _
  exact ringOfPoints_fill d.ring

theorem gml_parse_polygon_build_none (geom : List (gaiaGeomColl R)) (srid : Int)
    (dyn_pg : List (gmlDynamicRing R))
    (h : (dyn_pg.filter (fun r : gmlDynamicRing R => decide (r.interior = 0))).length ≠ 1) :
    gml_parse_polygon.build geom srid dyn_pg = none := by
  have h2 := (gml_parse_polygon_verify_spec dyn_pg 0 0 1 0 []).2.1
  rw [Nat.zero_add] at h2
  unfold gml_parse_polygon.build
  generalize gml_parse_polygon.verify dyn_pg 0 0 1 0 [] = v at h2
  obtain ⟨inners, outers, has_z, points, exterior_ring⟩ := v
  simp only at h2
  subst h2
  simp only [h, ne_eq, not_false_eq_true, if_true]

theorem gml_parse_polygon_build_some (geom : List (gaiaGeomColl R)) (srid : Int)
    (dyn_pg : List (gmlDynamicRing R)) (e : gmlDynamicRing R)
    (h : dyn_pg.filter (fun r : gmlDynamicRing R => decide (r.interior = 0)) = [e]) :
    ∃ pg new_pg, gml_parse_polygon.build geom srid dyn_pg = some (geom ++ [pg]) ∧
      pg.Srid = srid ∧ pg.FirstPoint = [] ∧ pg.FirstLinestring = [] ∧
      pg.FirstPolygon = [new_pg] ∧
      pg.DimensionModel = (if ∀ r ∈ dyn_pg, r.has_z ≠ 0 then GAIA_XY_Z else GAIA_XY) ∧
      ringOfPoints pg.DimensionModel new_pg.Exterior e.ring ∧
      new_pg.NumInteriors =
        (dyn_pg.filter (fun r : gmlDynamicRing R => decide (r.interior ≠ 0))).length ∧
      List.Forall₂ (fun r d => ringOfPoints pg.DimensionModel r d.ring) new_pg.Interiors
        (dyn_pg.filter (fun r : gmlDynamicRing R => decide (r.interior ≠ 0))) := by
  obtain ⟨h1, h2, h3, h4, -⟩ := gml_parse_polygon_verify_spec dyn_pg 0 0 1 0 []
  have h4e := h4 e h
  rw [h, Nat.zero_add] at h2
  rw [Nat.zero_add] at h1
  unfold gml_parse_polygon.build
  generalize gml_parse_polygon.verify dyn_pg 0 0 1 0 [] = v at h1 h2 h3 h4e
  obtain ⟨inners, outers, has_z, points, exterior_ring⟩ := v
  simp only [List.length_singleton, Prod.mk.injEq] at h1 h2 h3 h4e
  obtain ⟨hp, hx⟩ := h4e
  subst h1 h2 hp hx
  have ho : ¬ (1 : Nat) ≠ 1 := by simp
  simp only [ho, if_false]
  by_cases hz : ∀ r ∈ dyn_pg, r.has_z ≠ 0
  · rw [if_pos hz] at h3
    subst h3
    have h10 : (1 : Int) ≠ 0 := by decide
    simp only [h10, ne_eq, not_false_eq_true, if_true]
    have ha : gaiaAddPolygonToGeomColl.alloc
        ({ (gaiaAllocGeomCollXYZ : gaiaGeomColl R) with Srid := srid } : gaiaGeomColl R)
        e.ring.length
        (dyn_pg.filter (fun r : gmlDynamicRing R => decide (r.interior ≠ 0))).length =
        (⟨gaiaAllocRingByModel GAIA_XY_Z e.ring.length,
          List.replicate
            (dyn_pg.filter (fun r : gmlDynamicRing R => decide (r.interior ≠ 0))).length
            ⟨0, [], GAIA_XY⟩, 0, GAIA_XY_Z⟩ : gaiaPolygon R) := rfl
    rw [ha]
    refine ⟨_, _, rfl, rfl, rfl, rfl, rfl, ?_, ?_, ?_, ?_⟩
    · simp only [gaiaAddPolygonToGeomColl.link, gaiaAllocGeomCollXYZ, if_pos hz]
    · rw [(gml_parse_polygon_interiorsXYZ_spec dyn_pg 0 _).2.1]
      exact ringOfPoints_fillXYZ e.ring
    · simp only [gaiaPolygon.NumInteriors]
      rw [(gml_parse_polygon_interiorsXYZ_spec dyn_pg 0 _).2.2.1]
      simp
    · exact gml_parse_polygon_interiorsXYZ_rings dyn_pg _
  · rw [if_neg hz] at h3
    subst h3
    have h10 : ¬ (0 : Int) ≠ 0 := by simp
    simp only [h10, if_false]
    have ha : gaiaAddPolygonToGeomColl.alloc
        ({ (gaiaAllocGeomColl : gaiaGeomColl R) with Srid := srid } : gaiaGeomColl R)
        e.ring.length
        (dyn_pg.filter (fun r : gmlDynamicRing R => decide (r.interior ≠ 0))).length =
        (⟨gaiaAllocRingByModel GAIA_XY e.ring.length,
          List.replicate
            (dyn_pg.filter (fun r : gmlDynamicRing R => decide (r.interior ≠ 0))).length
            ⟨0, [], GAIA_XY⟩, 0, GAIA_XY⟩ : gaiaPolygon R) := rfl
    rw [ha]
    refine ⟨_, _, rfl, rfl, rfl, rfl, rfl, ?_, ?_, ?_, ?_⟩
    · simp only [gaiaAddPolygonToGeomColl.link, gaiaAllocGeomColl, if_neg hz]
    · rw [(gml_parse_polygon_interiors_spec dyn_pg 0 _).2.1]
      exact ringOfPoints_fill e.ring
    · simp only [gaiaPolygon.NumInteriors]
      rw [(gml_parse_polygon_interiors_spec dyn_pg 0 _).2.2.1]
      simp
    · exact gml_parse_polygon_interiors_rings dyn_pg _

/-- C19: at every iteration of the loop on rings of `gml_parse_polygon` (the
run on `node` has reached the ring at `n` with the rings `dyn_pg` collected),
the ring that `gml_parse_ring` has just parsed makes the loop, and with it
the whole polygon parse, fail when it has fewer than 4 points, or when its
first and its last point differ in X or in Y, or in Z for a 3D ring;
otherwise (a closed ring of exactly 4 points for instance) the ring is
appended to the rings collected so far and the loop goes on with the node
that follows the ring. -/
theorem gml_parse_polygon_ring_checks (atof : List Char → R) (geom : List (gaiaGeomColl R))
    (node : List gmlNode) (srid : Int) (next_n : Option (List gmlNode)) (fuel : Nat)
    (n : gmlNode) (n_next : List gmlNode) (dyn_pg : List (gmlDynamicRing R))
    (dyn : List (gaiaPoint R)) (interior has_z : Int) (next : List gmlNode)
    (hn : ¬ (n.Tag = "gml:Polygon" ∨ n.Tag = "Polygon"))
    (hr : gml_parse_ring atof n n_next = some (some (dyn, interior, has_z, next)))
    (hpre : gml_parse_polygon.rings atof node.length node [] next_n =
      gml_parse_polygon.rings atof (fuel + 1) (n :: n_next) dyn_pg next_n) :
    gml_parse_polygon.rings atof (fuel + 1) (n :: n_next) dyn_pg next_n =
      (if (dyn).length < 4 ∨
          (dyn).head?.map (fun p => p.X) ≠ (dyn).getLast?.map (fun p => p.X) ∨
          (dyn).head?.map (fun p => p.Y) ≠ (dyn).getLast?.map (fun p => p.Y) ∨
          (has_z ≠ 0 ∧
            (dyn).head?.map (fun p => p.Z) ≠ (dyn).getLast?.map (fun p => p.Z))
       then some none
       else gml_parse_polygon.rings atof fuel next
          (dyn_pg ++ [{ ring := dyn, interior := interior, has_z := has_z }])
          next_n) ∧
    (¬ ((dyn).length < 4 ∨
          (dyn).head?.map (fun p => p.X) ≠ (dyn).getLast?.map (fun p => p.X) ∨
          (dyn).head?.map (fun p => p.Y) ≠ (dyn).getLast?.map (fun p => p.Y) ∨
          (has_z ≠ 0 ∧
            (dyn).head?.map (fun p => p.Z) ≠ (dyn).getLast?.map (fun p => p.Z))) ∨
      gml_parse_polygon atof geom node srid next_n = some none) := by
  have hA : gml_parse_polygon.rings atof (fuel + 1) (n :: n_next) dyn_pg next_n =
      (if dyn.length < 4 ∨
          dyn.head?.map (fun p => p.X) ≠ dyn.getLast?.map (fun p => p.X) ∨
          dyn.head?.map (fun p => p.Y) ≠ dyn.getLast?.map (fun p => p.Y) ∨
          (has_z ≠ 0 ∧ dyn.head?.map (fun p => p.Z) ≠ dyn.getLast?.map (fun p => p.Z))
       then some none
       else gml_parse_polygon.rings atof fuel next
          (dyn_pg ++ [{ ring := dyn, interior := interior, has_z := has_z }]) next_n) := by
    simp only [gml_parse_polygon.rings, hn, if_false, hr, gml_count_dyn_points,
      gml_add_polygon_ring]
    by_cases h4 : dyn.length < 4
    · simp [h4]
    · have hd : dyn ≠ [] := by
        intro h; rw [h] at h4; simp at h4
      by_cases hc : gml_parse_polygon.closed dyn has_z = true
      · have hc2 := (gml_parse_polygon_closed_iff dyn has_z hd).mp hc
        rw [if_neg h4, if_pos hc, if_neg]
        rintro (h | h | h | ⟨hz, h⟩)
        · exact h4 h
        · exact h hc2.1
        · exact h hc2.2.1
        · rcases hc2.2.2 with h0 | h0
          · exact hz h0
          · exact h h0
      · have hc2 := mt (gml_parse_polygon_closed_iff dyn has_z hd).mpr hc
        rw [if_neg h4, if_neg hc, if_pos]
        right
        by_contra hcon
        apply hc2
        simp only [not_or, not_and, not_not] at hcon
        refine ⟨hcon.1, hcon.2.1, ?_⟩
        by_cases hz : has_z = 0
        · left; exact hz
        · right; exact hcon.2.2 hz
  refine ⟨hA, ?_⟩
  by_cases hc : dyn.length < 4 ∨
      dyn.head?.map (fun p => p.X) ≠ dyn.getLast?.map (fun p => p.X) ∨
      dyn.head?.map (fun p => p.Y) ≠ dyn.getLast?.map (fun p => p.Y) ∨
      (has_z ≠ 0 ∧ dyn.head?.map (fun p => p.Z) ≠ dyn.getLast?.map (fun p => p.Z))
  · right
    rw [if_pos hc] at hA
    simp only [gml_parse_polygon, hpre, hA]
  · left; exact hc

/-- Witness for C19: the second ring of the sample polygon, a closed ring of
exactly 4 points. -/
theorem gml_parse_polygon_ring_checks_witness :
    ¬ ((gml_createNode "gml:innerBoundaryIs" [] []).Tag = "gml:Polygon" ∨
      (gml_createNode "gml:innerBoundaryIs" [] []).Tag = "Polygon") ∧
    gml_parse_ring sampleAtof (gml_createNode "gml:innerBoundaryIs" [] [])
        ((sampleRingNodes "gml:innerBoundaryIs" ["1,1", "2,1", "2,2", "1,1"]).tail ++
          [gml_closingNode "gml:Polygon"]) =
      some (some (sampleInnerRing.ring, 1, 0, [gml_closingNode "gml:Polygon"])) ∧
    gml_parse_polygon.rings sampleAtof samplePolygonTree.tail.length samplePolygonTree.tail
        [] none =
      gml_parse_polygon.rings sampleAtof (11 + 1)
        (gml_createNode "gml:innerBoundaryIs" [] [] ::
          ((sampleRingNodes "gml:innerBoundaryIs" ["1,1", "2,1", "2,2", "1,1"]).tail ++
            [gml_closingNode "gml:Polygon"]))
        [sampleOuterRing] none ∧
    gml_parse_polygon.rings sampleAtof (11 + 1) ((gml_createNode "gml:innerBoundaryIs" [] []) :: ((sampleRingNodes "gml:innerBoundaryIs" ["1,1", "2,1", "2,2", "1,1"]).tail ++
        [gml_closingNode "gml:Polygon"])) [sampleOuterRing] none =
      (if (sampleInnerRing.ring).length < 4 ∨
          (sampleInnerRing.ring).head?.map (fun p => p.X) ≠ (sampleInnerRing.ring).getLast?.map (fun p => p.X) ∨
          (sampleInnerRing.ring).head?.map (fun p => p.Y) ≠ (sampleInnerRing.ring).getLast?.map (fun p => p.Y) ∨
          ((0 : Int) ≠ 0 ∧
            (sampleInnerRing.ring).head?.map (fun p => p.Z) ≠ (sampleInnerRing.ring).getLast?.map (fun p => p.Z))
       then some none
       else gml_parse_polygon.rings sampleAtof 11 [gml_closingNode "gml:Polygon"]
          ([sampleOuterRing] ++ [{ ring := sampleInnerRing.ring, interior := 1, has_z := (0 : Int) }])
          none) ∧
    (¬ ((sampleInnerRing.ring).length < 4 ∨
          (sampleInnerRing.ring).head?.map (fun p => p.X) ≠ (sampleInnerRing.ring).getLast?.map (fun p => p.X) ∨
          (sampleInnerRing.ring).head?.map (fun p => p.Y) ≠ (sampleInnerRing.ring).getLast?.map (fun p => p.Y) ∨
          ((0 : Int) ≠ 0 ∧
            (sampleInnerRing.ring).head?.map (fun p => p.Z) ≠ (sampleInnerRing.ring).getLast?.map (fun p => p.Z))) ∨
      gml_parse_polygon sampleAtof ([gaiaAllocGeomColl] : List (gaiaGeomColl Int)) samplePolygonTree.tail 4326 none = some none) :=
  ⟨by decide, by decide, by decide,
    gml_parse_polygon_ring_checks sampleAtof [gaiaAllocGeomColl] samplePolygonTree.tail 4326
      none 11 (gml_createNode "gml:innerBoundaryIs" [] [])
      ((sampleRingNodes "gml:innerBoundaryIs" ["1,1", "2,1", "2,2", "1,1"]).tail ++
        [gml_closingNode "gml:Polygon"])
      [sampleOuterRing] sampleInnerRing.ring 1 0 [gml_closingNode "gml:Polygon"]
      (by decide) (by decide) (by decide)⟩

/-- C20: when the loop on rings of `gml_parse_polygon` has collected the
rings `dyn_pg` (in document order), the function succeeds exactly when the
part that builds the polygon does, and that part fails unless exactly one of
the rings is an exterior one (`interior = 0`, which `gml_parse_ring` gives to
outerBoundaryIs and exterior elements only); with exactly one exterior ring
`e` it appends to the chain a geometry holding one polygon whose exterior
ring has the points of `e` and whose interior rings are, one for one and in
order, the rings with `interior = 1`. -/
theorem gml_parse_polygon_one_exterior (atof : List Char → R) (geom : List (gaiaGeomColl R))
    (node : List gmlNode) (srid : Int) (next_n : Option (List gmlNode))
    (dyn_pg : List (gmlDynamicRing R)) (next_n2 : Option (List gmlNode))
    (h : gml_parse_polygon.rings atof node.length node [] next_n =
      some (some (dyn_pg, next_n2))) :
    gml_parse_polygon atof geom node srid next_n =
      some ((gml_parse_polygon.build geom srid dyn_pg).map
        (fun chain => (chain, next_n2))) ∧
    (gml_parse_polygon.build geom srid dyn_pg = none ↔
      ((dyn_pg).filter (fun r : gmlDynamicRing R => decide (r.interior = 0))).length ≠ 1) ∧
    (∀ e, (dyn_pg).filter (fun r : gmlDynamicRing R => decide (r.interior = 0)) = [e] →
      ∃ pg new_pg, gml_parse_polygon.build geom srid dyn_pg = some (geom ++ [pg]) ∧
        pg.Srid = srid ∧ pg.FirstPoint = [] ∧ pg.FirstLinestring = [] ∧
        pg.FirstPolygon = [new_pg] ∧
        pg.DimensionModel =
          (if ∀ r ∈ dyn_pg, r.has_z ≠ 0 then GAIA_XY_Z else GAIA_XY) ∧
        ringOfPoints pg.DimensionModel new_pg.Exterior e.ring ∧
        new_pg.NumInteriors =
          ((dyn_pg).filter
            (fun r : gmlDynamicRing R => decide (r.interior ≠ 0))).length ∧
        List.Forall₂ (fun r d => ringOfPoints pg.DimensionModel r d.ring) new_pg.Interiors
          ((dyn_pg).filter (fun r : gmlDynamicRing R => decide (r.interior ≠ 0)))) ∧
    (∀ (n0 : gmlNode) (rest : List gmlNode) (dyn : List (gaiaPoint R)) (interior has_z : Int)
        (next : List gmlNode),
      gml_parse_ring atof n0 rest = some (some (dyn, interior, has_z, next)) →
        (interior = 0 ∧
          n0.Tag ∈ ["gml:outerBoundaryIs", "outerBoundaryIs", "gml:exterior", "exterior"]) ∨
        (interior = 1 ∧
          n0.Tag ∈ ["gml:innerBoundaryIs", "innerBoundaryIs", "gml:interior", "interior"])) := by
  refine ⟨?_, ⟨?_, ?_⟩, ?_, ?_⟩
  · simp only [gml_parse_polygon, h]
    cases gml_parse_polygon.build geom srid dyn_pg <;> rfl
  · intro hb hl
    obtain ⟨e, he⟩ := List.length_eq_one.mp hl
    obtain ⟨pg, new_pg, hs, -⟩ := gml_parse_polygon_build_some geom srid dyn_pg e he
    rw [hs] at hb
    cases hb
  · exact gml_parse_polygon_build_none geom srid dyn_pg
  · intro e he
    exact gml_parse_polygon_build_some geom srid dyn_pg e he
  · intro n0 rest dyn interior has_z next hr
    obtain ⟨n1, n2, n3, n4, n5, -, -, -, -, h05⟩ :=
      gml_parse_ring_some atof n0 rest dyn interior has_z next hr
    simp only [List.mem_cons, List.mem_singleton, List.not_mem_nil, or_false]
    rcases h05 with ⟨a, -, c⟩ | ⟨a, -, c⟩ | ⟨a, -, c⟩ | ⟨a, -, c⟩
    · left; exact ⟨c, by tauto⟩
    · right; exact ⟨c, by tauto⟩
    · left; exact ⟨c, by tauto⟩
    · right; exact ⟨c, by tauto⟩

/-- Witness for C20: the sample polygon, one exterior ring and one hole. -/
theorem gml_parse_polygon_one_exterior_witness :
    gml_parse_polygon.rings sampleAtof samplePolygonTree.tail.length samplePolygonTree.tail
        [] none =
      some (some ([sampleOuterRing, sampleInnerRing], some [])) ∧
    gml_parse_polygon sampleAtof ([gaiaAllocGeomColl] : List (gaiaGeomColl Int)) samplePolygonTree.tail 4326 none =
      some ((gml_parse_polygon.build ([gaiaAllocGeomColl] : List (gaiaGeomColl Int)) 4326 [sampleOuterRing, sampleInnerRing]).map
        (fun chain => (chain, (some [])))) ∧
    (gml_parse_polygon.build ([gaiaAllocGeomColl] : List (gaiaGeomColl Int)) 4326 [sampleOuterRing, sampleInnerRing] = none ↔
      (([sampleOuterRing, sampleInnerRing]).filter (fun r : gmlDynamicRing Int => decide (r.interior = 0))).length ≠ 1) ∧
    (∀ e, ([sampleOuterRing, sampleInnerRing]).filter (fun r : gmlDynamicRing Int => decide (r.interior = 0)) = [e] →
      ∃ pg new_pg, gml_parse_polygon.build ([gaiaAllocGeomColl] : List (gaiaGeomColl Int)) 4326 [sampleOuterRing, sampleInnerRing] = some (([gaiaAllocGeomColl] : List (gaiaGeomColl Int)) ++ [pg]) ∧
        pg.Srid = 4326 ∧ pg.FirstPoint = [] ∧ pg.FirstLinestring = [] ∧
        pg.FirstPolygon = [new_pg] ∧
        pg.DimensionModel =
          (if ∀ r ∈ [sampleOuterRing, sampleInnerRing], r.has_z ≠ 0 then GAIA_XY_Z else GAIA_XY) ∧
        ringOfPoints pg.DimensionModel new_pg.Exterior e.ring ∧
        new_pg.NumInteriors =
          (([sampleOuterRing, sampleInnerRing]).filter
            (fun r : gmlDynamicRing Int => decide (r.interior ≠ 0))).length ∧
        List.Forall₂ (fun r d => ringOfPoints pg.DimensionModel r d.ring) new_pg.Interiors
          (([sampleOuterRing, sampleInnerRing]).filter (fun r : gmlDynamicRing Int => decide (r.interior ≠ 0)))) ∧
    (∀ (n0 : gmlNode) (rest : List gmlNode) (dyn : List (gaiaPoint Int)) (interior has_z : Int)
        (next : List gmlNode),
      gml_parse_ring sampleAtof n0 rest = some (some (dyn, interior, has_z, next)) →
        (interior = 0 ∧
          n0.Tag ∈ ["gml:outerBoundaryIs", "outerBoundaryIs", "gml:exterior", "exterior"]) ∨
        (interior = 1 ∧
          n0.Tag ∈ ["gml:innerBoundaryIs", "innerBoundaryIs", "gml:interior", "interior"])) :=
  ⟨by decide,
    gml_parse_polygon_one_exterior sampleAtof [gaiaAllocGeomColl] samplePolygonTree.tail 4326
      none [sampleOuterRing, sampleInnerRing] (some []) (by decide)⟩

/-- The loop of `gml_parse_posList` on a 2D list, started with `count = 0`. -/
theorem gml_parse_posList_loop2 (atof : List Char → R) (coord : List (List Char)) :
    ∀ (dyn : List (gaiaPoint R)) (x y z : R),
      gml_parse_posList.loop atof 0 coord dyn 0 x y z =
        if (∀ t ∈ coord, gml_check_coord t = true) ∧ coord.length % 2 = 0 then
          some (dyn ++ posListPoints2 atof coord)
        else none := by
  induction coord using posListPoints2.induct (R := R) atof with
  | case1 a b rest ih =>
    intro dyn x y z
    by_cases ha : gml_check_coord a = true
    · by_cases hb : gml_check_coord b = true
      · have h10 : ¬ (1 : Nat) = 0 := by decide
        simp only [gml_parse_posList.loop, ha, hb, Bool.not_true, Bool.false_eq_true,
          if_false, if_true, Nat.zero_add, gml_add_point_to_line,
          gaiaAppendPointToDynamicLine, h10]
        rw [ih]
        have hm : (a :: b :: rest).length % 2 = rest.length % 2 := by
          simp only [List.length_cons]; omega
        simp only [List.mem_cons, forall_eq_or_imp, ha, hb, true_and, hm, posListPoints2,
          List.append_assoc, List.singleton_append]
      · simp [gml_parse_posList.loop, ha, hb]
    · simp [gml_parse_posList.loop, ha]
  | case2 coord hne =>
    intro dyn x y z
    match coord, hne with
    | [], _ => simp [gml_parse_posList.loop, posListPoints2]
    | [a], _ =>
      by_cases ha : gml_check_coord a = true
      · simp [gml_parse_posList.loop, ha]
      · simp [gml_parse_posList.loop, ha]
    | a :: b :: rest, h => exact absurd rfl (h a b rest)

/-- The loop of `gml_parse_posList` on a 3D list, started with `count = 0`. -/
theorem gml_parse_posList_loop3 (atof : List Char → R) (has_z : Int) (hz : has_z ≠ 0)
    (coord : List (List Char)) :
    ∀ (dyn : List (gaiaPoint R)) (x y z : R),
      gml_parse_posList.loop atof has_z coord dyn 0 x y z =
        if (∀ t ∈ coord, gml_check_coord t = true) ∧ coord.length % 3 = 0 then
          some (dyn ++ posListPoints3 atof coord)
        else none := by
  induction coord using posListPoints3.induct (R := R) atof with
  | case1 a b c rest ih =>
    intro dyn x y z
    by_cases ha : gml_check_coord a = true
    · by_cases hb : gml_check_coord b = true
      · by_cases hc : gml_check_coord c = true
        · have h10 : ¬ (1 : Nat) = 0 := by decide
          have h20 : ¬ (2 : Nat) = 0 := by decide
          have h21 : ¬ (2 : Nat) = 1 := by decide
          simp only [gml_parse_posList.loop, ha, hb, hc, hz, Bool.not_true, Bool.false_eq_true,
            if_false, if_true, Nat.zero_add, gml_add_point_to_lineZ,
            gaiaAppendPointZToDynamicLine, h10, h20, h21, Nat.reduceAdd]
          rw [ih]
          have hm : (a :: b :: c :: rest).length % 3 = rest.length % 3 := by
            simp only [List.length_cons]; omega
          simp only [List.mem_cons, forall_eq_or_imp, ha, hb, hc, true_and, hm, posListPoints3,
            List.append_assoc, List.singleton_append]
        · simp [gml_parse_posList.loop, ha, hb, hc, hz]
      · simp [gml_parse_posList.loop, ha, hb, hz]
    · simp [gml_parse_posList.loop, ha]
  | case2 coord hne =>
    intro dyn x y z
    match coord, hne with
    | [], _ => simp [gml_parse_posList.loop, posListPoints3]
    | [a], _ =>
      by_cases ha : gml_check_coord a = true
      · simp [gml_parse_posList.loop, ha, hz]
      · simp [gml_parse_posList.loop, ha]
    | [a, b], _ =>
      by_cases ha : gml_check_coord a = true
      · by_cases hb : gml_check_coord b = true
        · simp [gml_parse_posList.loop, ha, hb, hz]
        · simp [gml_parse_posList.loop, ha, hb, hz]
      · simp [gml_parse_posList.loop, ha]
    | a :: b :: c :: rest, h => exact absurd rfl (h a b c rest)

theorem posListPoints2_eq (atof : List Char → R) (coord : List (List Char)) :
    posListPoints2 atof coord = (List.range (coord.length / 2)).map (fun j =>
      gaiaAllocPoint (atof (coord.getD (2 * j) [])) (atof (coord.getD (2 * j + 1) []))) := by
  induction coord using posListPoints2.induct (R := R) atof with
  | case1 a b rest ih =>
    have hl : (a :: b :: rest).length / 2 = rest.length / 2 + 1 := by
      simp only [List.length_cons]; omega
    rw [posListPoints2, ih, hl, List.range_succ_eq_map, List.map_cons, List.map_map]
    congr 1
  | case2 coord hne =>
    match coord, hne with
    | [], _ => simp [posListPoints2]
    | [a], _ => simp [posListPoints2]
    | a :: b :: rest, h => exact absurd rfl (h a b rest)

theorem posListPoints3_eq (atof : List Char → R) (coord : List (List Char)) :
    posListPoints3 atof coord = (List.range (coord.length / 3)).map (fun j =>
      gaiaAllocPointXYZ (atof (coord.getD (3 * j) [])) (atof (coord.getD (3 * j + 1) []))
        (atof (coord.getD (3 * j + 2) []))) := by
  induction coord using posListPoints3.induct (R := R) atof with
  | case1 a b c rest ih =>
    have hl : (a :: b :: c :: rest).length / 3 = rest.length / 3 + 1 := by
      simp only [List.length_cons]; omega
    rw [posListPoints3, ih, hl, List.range_succ_eq_map, List.map_cons, List.map_map]
    congr 1
  | case2 coord hne =>
    match coord, hne with
    | [], _ => simp [posListPoints3]
    | [a], _ => simp [posListPoints3]
    | [a, b], _ => simp [posListPoints3]
    | a :: b :: c :: rest, h => exact absurd rfl (h a b c rest)

theorem gml_get_srsDimension_loop_eq (attrs : List gmlAttr) :
    gml_get_srsDimension.loop attrs =
      match attrs.find? (fun a => decide (a.Key = "srsDimension")) with
      | none => some 0
      | some a => (atoi a.Value).map (fun v => if v = 3 then 1 else 0) := by
  induction attrs with
  | nil => rfl
  | cons a l ih =>
    by_cases h : a.Key = "srsDimension"
    · simp only [gml_get_srsDimension.loop, h, if_true, List.find?_cons, decide_True]
      cases atoi a.Value with
      | none => rfl
      | some v => by_cases hv : v = 3 <;> simp [hv]
    · simp only [gml_get_srsDimension.loop, h, if_false, List.find?_cons, decide_False]
      exact ih

/-- C21: `gml_parse_posList` succeeds exactly when every token passes
`gml_check_coord` and the number of tokens is a multiple of k, with k = 2
when `has_z` is 0 and k = 3 otherwise; it then appends n/k points, the j-th
one built from the tokens j*k, ..., j*k+k-1. `gml_get_srsDimension` gives 1
exactly when the first `srsDimension` attribute of the node has the `atoi`
value 3, and 0 when there is no such attribute or its value is another
integer. -/
theorem gml_parse_posList_spec (atof : List Char → R) (coord : List (List Char))
    (dyn : List (gaiaPoint R)) (has_z : Int) (node : gmlNode) :
    gml_parse_posList atof coord dyn has_z =
      (if (∀ t ∈ coord, gml_check_coord t = true) ∧
          coord.length % (if has_z = 0 then 2 else 3) = 0 then
        some (dyn ++ (List.range (coord.length / (if has_z = 0 then 2 else 3))).map (fun j =>
          if has_z = 0 then
            gaiaAllocPoint (atof (coord.getD (2 * j) [])) (atof (coord.getD (2 * j + 1) []))
          else
            gaiaAllocPointXYZ (atof (coord.getD (3 * j) [])) (atof (coord.getD (3 * j + 1) []))
              (atof (coord.getD (3 * j + 2) []))))
      else none) ∧
    (gml_get_srsDimension node = some 1 ↔
      ∃ a, node.Attributes.find? (fun a => decide (a.Key = "srsDimension")) = some a ∧
        atoi a.Value = some 3) ∧
    (gml_get_srsDimension node = some 0 ↔
      node.Attributes.find? (fun a => decide (a.Key = "srsDimension")) = none ∨
      ∃ a v, node.Attributes.find? (fun a => decide (a.Key = "srsDimension")) = some a ∧
        atoi a.Value = some v ∧ v ≠ 3) := by
  refine ⟨?_, ?_, ?_⟩
  · by_cases hz : has_z = 0
    · subst hz
      simp only [gml_parse_posList, gml_parse_posList_loop2, if_true, posListPoints2_eq]
    · simp only [gml_parse_posList, gml_parse_posList_loop3 atof has_z hz, hz, if_false,
        posListPoints3_eq]
  · simp only [gml_get_srsDimension, gml_get_srsDimension_loop_eq]
    cases hf : node.Attributes.find? (fun a => decide (a.Key = "srsDimension")) with
    | none => simp
    | some a =>
      cases ha : atoi a.Value with
      | none => simp [ha]
      | some v => by_cases hv : v = 3 <;> simp [ha, hv]
  · simp only [gml_get_srsDimension, gml_get_srsDimension_loop_eq]
    cases hf : node.Attributes.find? (fun a => decide (a.Key = "srsDimension")) with
    | none => simp
    | some a =>
      cases ha : atoi a.Value with
      | none => simp [ha]
      | some v => by_cases hv : v = 3 <;> simp [ha, hv]

/-- The loop of `gml_extract_coords` stores the fields of the token, as long
as no field reaches the size of `buf`. -/
theorem gml_extract_coords_loop_fields (atof : List Char → R) (input : List Char) :
    ∀ (buf : List Char) (x y z : R) (count : Nat),
      (∀ f ∈ splitCommasFrom buf input, f.length < 1024) →
      gml_extract_coords.loop atof input buf x y z count =
        some (storeFields atof (splitCommasFrom buf input) (x, y, z, count)) := by
  induction input with
  | nil =>
    intro buf x y z count _
    by_cases hb : buf = []
    · simp [gml_extract_coords.loop, splitCommasFrom, storeFields, hb]
    · by_cases hc : gml_check_coord buf = true
      · simp [gml_extract_coords.loop, splitCommasFrom, storeFields, hb, hc]
      · simp [gml_extract_coords.loop, splitCommasFrom, storeFields, hb, hc]
  | cons c cs ih =>
    intro buf x y z count hlen
    by_cases hcomma : c = ','
    · subst hcomma
      simp only [splitCommasFrom, if_true, List.mem_cons, forall_eq_or_imp] at hlen
      by_cases hb : buf = []
      · simp only [gml_extract_coords.loop, splitCommasFrom, storeFields, hb, if_true,
          ne_eq, not_true_eq_false, if_false]
        exact ih [] x y z count hlen.2
      · by_cases hc : gml_check_coord buf = true
        · simp only [gml_extract_coords.loop, splitCommasFrom, storeFields, hb, hc, if_true,
            ne_eq, not_false_eq_true, if_false, Bool.not_true, Bool.false_eq_true]
          exact ih [] _ _ _ _ hlen.2
        · simp [gml_extract_coords.loop, splitCommasFrom, storeFields, hb, hc]
    · simp only [splitCommasFrom, hcomma, if_false] at hlen
      have hl : buf.length + 1 < 1024 := by
        have : ∀ (inp cur : List Char), ∃ f ∈ splitCommasFrom cur inp, cur.length ≤ f.length := by
          intro inp
          induction inp with
          | nil => intro cur; exact ⟨cur, by simp [splitCommasFrom], le_refl _⟩
          | cons d ds ihd =>
            intro cur
            by_cases hd : d = ','
            · exact ⟨cur, by simp [splitCommasFrom, hd], le_refl _⟩
            · obtain ⟨f, hf, hle⟩ := ihd (cur ++ [d])
              refine ⟨f, by simpa [splitCommasFrom, hd] using hf, ?_⟩
              simp at hle; omega
        obtain ⟨f, hf, hle⟩ := this cs (buf ++ [c])
        have := hlen f hf
        simp at hle; omega
      have hl2 : ¬ buf.length + 1 ≥ 1024 := by omega
      simp only [gml_extract_coords.loop, hcomma, if_false, hl2, splitCommasFrom]
      exact ih (buf ++ [c]) x y z count hlen

theorem storeFields_append (atof : List Char → R) (a b : List (List Char)) :
    ∀ s : R × R × R × Nat,
      storeFields atof (a ++ b) s = (storeFields atof a s).bind (storeFields atof b) := by
  induction a with
  | nil => intro s; rfl
  | cons f fs ih =>
    intro s
    obtain ⟨x, y, z, count⟩ := s
    by_cases hf : f = []
    · simp only [List.cons_append, storeFields, hf, if_true]; exact ih _
    · by_cases hc : gml_check_coord f = true
      · simp only [List.cons_append, storeFields, hf, hc, if_true, if_false]; exact ih _
      · simp [storeFields, hf, hc]

theorem storeFields_filter (atof : List Char → R) (fs : List (List Char)) :
    ∀ s : R × R × R × Nat,
      storeFields atof fs s = storeFields atof (fs.filter (fun f => decide (f ≠ []))) s := by
  induction fs with
  | nil => intro s; rfl
  | cons f fs ih =>
    intro s
    obtain ⟨x, y, z, count⟩ := s
    by_cases hf : f = []
    · simp only [storeFields, hf, if_true, List.filter_cons, ne_eq, not_true_eq_false,
        decide_False, Bool.false_eq_true, if_false]
      exact ih _
    · by_cases hc : gml_check_coord f = true
      · simp only [storeFields, hf, hc, if_true, if_false, List.filter_cons, ne_eq,
          not_false_eq_true, decide_True]
        exact ih _
      · simp [storeFields, hf, hc, List.filter_cons]

/-- The loop of `gml_parse_point_v2` stores the fields of all the tokens. -/
theorem gml_parse_point_v2_loop_fields (atof : List Char → R) (coord : List (List Char)) :
    ∀ (x y z : R) (count : Nat),
      (∀ f ∈ coord.flatMap splitCommas, f.length < 1024) →
      gml_parse_point_v2.loop atof coord x y z count =
        some (storeFields atof (coord.flatMap splitCommas) (x, y, z, count)) := by
  induction coord with
  | nil => intro x y z count _; rfl
  | cons c cs ih =>
    intro x y z count hlen
    simp only [List.flatMap_cons, List.mem_append] at hlen
    have h1 := gml_extract_coords_loop_fields atof c [] x y z count
      (fun f hf => hlen f (Or.inl hf))
    simp only [gml_parse_point_v2.loop, gml_extract_coords, h1, List.flatMap_cons,
      storeFields_append, splitCommas]
    cases hs : storeFields atof (splitCommasFrom [] c) (x, y, z, count) with
    | none => rfl
    | some s =>
      obtain ⟨x2, y2, z2, c2⟩ := s
      simp only [Option.bind_some]
      exact ih x2 y2 z2 c2 (fun f hf => hlen f (Or.inr hf))

/-- From the fourth field on, the fields are counted and not stored. -/
theorem storeFields_further (atof : List Char → R) (F : List (List Char)) :
    (∀ f ∈ F, f ≠ []) → ∀ (x y z : R) (c : Nat), 3 ≤ c →
      storeFields atof F (x, y, z, c) =
        if ∀ f ∈ F, gml_check_coord f = true then some (x, y, z, c + F.length) else none := by
  induction F with
  | nil => intro _ x y z c _; simp [storeFields]
  | cons f fs ih =>
    intro hne x y z c h3
    have hf : f ≠ [] := hne f (List.mem_cons_self _ _)
    have hfs : ∀ g ∈ fs, g ≠ [] := fun g hg => hne g (List.mem_cons_of_mem _ hg)
    have h0 : c ≠ 0 := by omega
    have h1 : c ≠ 1 := by omega
    have h2 : c ≠ 2 := by omega
    by_cases hc : gml_check_coord f = true
    · simp only [storeFields, hf, hc, if_true, if_false, List.mem_cons, forall_eq_or_imp,
        true_and, gml_extract_coords.store, h0, h1, h2]
      rw [ih hfs x y z (c + 1) (by omega)]
      simp only [List.length_cons]
      have e : c + 1 + fs.length = c + (fs.length + 1) := by omega
      rw [e]
    · simp [storeFields, hf, hc]

/-- The result of `gml_parse_point_v2` in terms of the non-empty fields of
the tokens, when no field reaches the 1024 bytes of `buf`. -/
theorem gml_parse_point_v2_refines_spec (atof : List Char → R) (coord : List (List Char))
    (hlen : ∀ f ∈ coord.flatMap splitCommas, f.length < 1024) :
    gml_parse_point_v2 atof coord =
      some (if (∀ f ∈ pointFields coord, gml_check_coord f = true) ∧
          ((pointFields coord).length = 2 ∨ (pointFields coord).length = 3) then
        some (atof ((pointFields coord).getD 0 []), atof ((pointFields coord).getD 1 []),
          (if (pointFields coord).length = 3 then atof ((pointFields coord).getD 2 []) else 0),
          (if (pointFields coord).length = 3 then 1 else 0))
      else none) := by
  have hne : ∀ f ∈ pointFields coord, f ≠ [] := by
    intro f hf
    simpa using (List.mem_filter.1 hf).2
  simp only [gml_parse_point_v2, gml_parse_point_v2_loop_fields atof coord 0 0 0 0 hlen]
  rw [storeFields_filter, ← pointFields.eq_1]
  generalize pointFields coord = F at hne
  rcases F with _ | ⟨a, _ | ⟨b, _ | ⟨c, rest⟩⟩⟩
  · simp [storeFields]
  · have ha : a ≠ [] := hne a (by simp)
    by_cases ca : gml_check_coord a = true <;>
      simp [storeFields, gml_extract_coords.store, ha, ca]
  · have ha : a ≠ [] := hne a (by simp)
    have hb : b ≠ [] := hne b (by simp)
    by_cases ca : gml_check_coord a = true <;> by_cases cb : gml_check_coord b = true <;>
      simp [storeFields, gml_extract_coords.store, ha, hb, ca, cb]
  · have ha : a ≠ [] := hne a (by simp)
    have hb : b ≠ [] := hne b (by simp)
    have hc : c ≠ [] := hne c (by simp)
    have hr : ∀ f ∈ rest, f ≠ [] := fun f hf => hne f (by simp [hf])
    by_cases ca : gml_check_coord a = true
    · by_cases cb : gml_check_coord b = true
      · by_cases cc : gml_check_coord c = true
        · simp only [storeFields, gml_extract_coords.store, ha, hb, hc, ca, cb, cc, if_true,
            if_false, Nat.zero_add, one_ne_zero, Nat.reduceAdd, OfNat.ofNat_ne_zero,
            OfNat.ofNat_ne_one]
          rw [storeFields_further atof rest hr _ _ _ 3 (le_refl _)]
          by_cases hall : ∀ f ∈ rest, gml_check_coord f = true
          · rw [if_pos hall]
            by_cases hr0 : rest = []
            · subst hr0; simp [ca, cb, cc]
            · have e0 : rest.length ≠ 0 := fun h => hr0 (List.length_eq_zero.1 h)
              have e1 : 3 + rest.length ≠ 2 := by omega
              have e2 : 3 + rest.length ≠ 3 := by omega
              simp [e1, e2, hr0]
          · have : ¬ ∀ f ∈ a :: b :: c :: rest, gml_check_coord f = true := by
              intro h; exact hall (fun f hf => h f (by simp [hf]))
            simp [hall, this]
        · simp [storeFields, gml_extract_coords.store, ha, hb, hc, ca, cb, cc]
      · simp [storeFields, gml_extract_coords.store, ha, hb, ca, cb]
    · simp [storeFields, gml_extract_coords.store, ha, ca]

/-- A field of 1024 characters or more is written past the end of `buf`. -/
theorem gml_extract_coords_loop_overrun (atof : List Char → R) (pre rest : List Char)
    (hnc : ∀ c ∈ pre, c ≠ ',') :
    ∀ (buf : List Char) (x y z : R) (count : Nat), buf.length < 1024 →
      1024 ≤ buf.length + pre.length →
      gml_extract_coords.loop atof (pre ++ rest) buf x y z count = none := by
  induction pre with
  | nil => intro buf x y z count h1 h2; simp at h2; omega
  | cons c cs ih =>
    intro buf x y z count h1 h2
    have hc : c ≠ ',' := hnc c (List.mem_cons_self _ _)
    simp only [List.cons_append, gml_extract_coords.loop, hc, if_false]
    by_cases hb : buf.length + 1 ≥ 1024
    · simp [hb]
    · simp only [hb, if_false]
      refine ih (fun d hd => hnc d (List.mem_cons_of_mem _ hd)) _ x y z count ?_ ?_
      · simp; omega
      · simp at h2 ⊢; omega

/-- A field without comma is read as a whole. -/
theorem splitCommasFrom_field (f : List Char) (hnc : ∀ c ∈ f, c ≠ ',') :
    ∀ (cur rest : List Char),
      splitCommasFrom cur (f ++ rest) = splitCommasFrom (cur ++ f) rest := by
  induction f with
  | nil => intro cur rest; simp
  | cons c cs ih =>
    intro cur rest
    have hc : c ≠ ',' := hnc c (List.mem_cons_self _ _)
    have e : splitCommasFrom cur (c :: (cs ++ rest)) =
        splitCommasFrom (cur ++ [c]) (cs ++ rest) := by
      simp only [splitCommasFrom, hc, if_false]
    rw [List.cons_append, e, ih (fun d hd => hnc d (List.mem_cons_of_mem _ hd))]
    simp

theorem gml_check_coord_loop_no_comma (p : List Char) :
    ∀ d, gml_check_coord.loop p d = true → ∀ c ∈ p, c ≠ ',' := by
  induction p with
  | nil => intro d _ c hc; simp at hc
  | cons a p ih =>
    intro d h c hc
    simp only [gml_check_coord.loop] at h
    by_cases ha : a = '.'
    · subst ha
      simp only [if_true] at h
      rcases List.mem_cons.1 hc with rfl | hm
      · decide
      · cases d with
        | false => exact ih true (by simpa using h) c hm
        | true => simp at h
    · simp only [ha, if_false] at h
      by_cases hd : 48 ≤ a.toNat ∧ a.toNat ≤ 57
      · simp only [hd, and_self, if_true] at h
        rcases List.mem_cons.1 hc with rfl | hm
        · intro hcomma; subst hcomma; revert hd; decide
        · exact ih d h c hm
      · simp [hd] at h

/-- A text that passes `gml_check_coord` holds no comma. -/
theorem gml_check_coord_no_comma (f : List Char) (h : gml_check_coord f = true) :
    ∀ c ∈ f, c ≠ ',' := by
  cases f with
  | nil => intro c hc; simp at hc
  | cons a p =>
    simp only [gml_check_coord] at h
    by_cases ha : a = '+' ∨ a = '-'
    · simp only [ha, if_true] at h
      intro c hc
      rcases List.mem_cons.1 hc with rfl | hm
      · rcases ha with rfl | rfl <;> decide
      · exact gml_check_coord_loop_no_comma p false h c hm
    · simp only [ha, if_false] at h
      exact gml_check_coord_loop_no_comma (a :: p) false h

/-- The fields of a token made of two or three texts that pass
`gml_check_coord`, with commas in between. -/
theorem splitCommas_fields (fx fy fz : List Char) (hx : gml_check_coord fx = true)
    (hy : gml_check_coord fy = true) (hz : gml_check_coord fz = true) :
    splitCommas (fx ++ ',' :: fy) = [fx, fy] ∧
    splitCommas (fx ++ ',' :: (fy ++ ',' :: fz)) = [fx, fy, fz] := by
  have e1 : ∀ f : List Char, gml_check_coord f = true → splitCommasFrom [] f = [f] := by
    intro f hf
    have := splitCommasFrom_field f (gml_check_coord_no_comma f hf) [] []
    simpa [splitCommasFrom] using this
  have e2 : ∀ f rest : List Char, gml_check_coord f = true →
      splitCommasFrom [] (f ++ ',' :: rest) = f :: splitCommasFrom [] rest := by
    intro f rest hf
    rw [splitCommasFrom_field f (gml_check_coord_no_comma f hf)]
    simp [splitCommasFrom]
  constructor
  · simp only [splitCommas]; rw [e2 fx _ hx, e1 fy hy]
  · simp only [splitCommas]; rw [e2 fx _ hx, e2 fy _ hy, e1 fz hz]

set_option maxRecDepth 100000

/-- C22 (failing input): a coordinate token whose first field has 1024
digits. Both fields of the token `11…1,2` pass `gml_check_coord` and there
are exactly two of them, yet `gml_parse_point_v2` does not succeed with
`has_z = 0`: `gml_extract_coords` copies the first field into
`char buf[1024]` without a check and writes past its end, so the call has no
defined result. With one digit less the two fields are stored in `x` and `y`. -/
theorem gml_parse_point_v2_overruns_buf (atof : List Char → R) :
    gml_check_coord (List.replicate 1024 '1') = true ∧ gml_check_coord ['2'] = true ∧
    gml_parse_point_v2 atof [List.replicate 1024 '1' ++ [',', '2']] = none ∧
    gml_parse_point_v2 atof [List.replicate 1023 '1' ++ [',', '2']] =
      some (some (atof (List.replicate 1023 '1'), atof ['2'], 0, 0)) := by
  have c1 : gml_check_coord (List.replicate 1023 '1') = true := by decide
  have c2 : gml_check_coord ['2'] = true := by decide
  refine ⟨by decide, c2, ?_, ?_⟩
  · simp only [gml_parse_point_v2, gml_parse_point_v2.loop, gml_extract_coords]
    rw [gml_extract_coords_loop_overrun atof (List.replicate 1024 '1') [',', '2']
      (fun c hc => by rw [(List.mem_replicate.1 hc).2]; decide) [] 0 0 0 0 (by decide)
      (by simp)]
  · have hs := (splitCommas_fields (List.replicate 1023 '1') ['2'] ['2'] c1 c2 c2).1
    have hf : [List.replicate 1023 '1' ++ [',', '2']].flatMap splitCommas =
        [List.replicate 1023 '1', ['2']] := by
      simp only [List.flatMap_cons, List.flatMap_nil, List.append_nil]; exact hs
    have hp : pointFields [List.replicate 1023 '1' ++ [',', '2']] =
        [List.replicate 1023 '1', ['2']] := by
      rw [pointFields, hf]
      simp [List.filter_cons]
    have hall : ∀ f ∈ [List.replicate 1023 '1', ['2']], gml_check_coord f = true := by
      intro f hf
      rcases List.mem_cons.1 hf with rfl | hf
      · exact c1
      · rw [List.mem_singleton.1 hf]; exact c2
    rw [gml_parse_point_v2_refines_spec atof _ (by rw [hf]; simp), hp,
      if_pos ⟨hall, Or.inl rfl⟩]
    rfl

/-- The coordinates that `gml_parse_point_v2` reads from one token of two or
three fields. -/
theorem gml_parse_point_v2_one_token (atof : List Char → R) (fx fy fz : List Char)
    (hx : fx ≠ [] ∧ gml_check_coord fx = true ∧ fx.length < 1024)
    (hy : fy ≠ [] ∧ gml_check_coord fy = true ∧ fy.length < 1024)
    (hz : fz ≠ [] ∧ gml_check_coord fz = true ∧ fz.length < 1024) :
    gml_parse_point_v2 atof [fx ++ ',' :: fy] = some (some (atof fx, atof fy, 0, 0)) ∧
    gml_parse_point_v2 atof [fx ++ ',' :: (fy ++ ',' :: fz)] =
      some (some (atof fx, atof fy, atof fz, 1)) := by
  obtain ⟨s2, s3⟩ := splitCommas_fields fx fy fz hx.2.1 hy.2.1 hz.2.1
  constructor
  · have hf : [fx ++ ',' :: fy].flatMap splitCommas = [fx, fy] := by
      simp only [List.flatMap_cons, List.flatMap_nil, List.append_nil]; exact s2
    have hp : pointFields [fx ++ ',' :: fy] = [fx, fy] := by
      rw [pointFields, hf]; simp [List.filter_cons, hx.1, hy.1]
    have hall : ∀ f ∈ [fx, fy], gml_check_coord f = true := by
      intro f hm
      rcases List.mem_cons.1 hm with rfl | hm
      · exact hx.2.1
      · rw [List.mem_singleton.1 hm]; exact hy.2.1
    rw [gml_parse_point_v2_refines_spec atof _
      (by rw [hf]; intro f hm; rcases List.mem_cons.1 hm with rfl | hm
          · exact hx.2.2
          · rw [List.mem_singleton.1 hm]; exact hy.2.2), hp, if_pos ⟨hall, Or.inl rfl⟩]
    rfl
  · have hf : [fx ++ ',' :: (fy ++ ',' :: fz)].flatMap splitCommas = [fx, fy, fz] := by
      simp only [List.flatMap_cons, List.flatMap_nil, List.append_nil]; exact s3
    have hp : pointFields [fx ++ ',' :: (fy ++ ',' :: fz)] = [fx, fy, fz] := by
      rw [pointFields, hf]; simp [List.filter_cons, hx.1, hy.1, hz.1]
    have hall : ∀ f ∈ [fx, fy, fz], gml_check_coord f = true := by
      intro f hm
      rcases List.mem_cons.1 hm with rfl | hm
      · exact hx.2.1
      · rcases List.mem_cons.1 hm with rfl | hm
        · exact hy.2.1
        · rw [List.mem_singleton.1 hm]; exact hz.2.1
    rw [gml_parse_point_v2_refines_spec atof _
      (by rw [hf]; intro f hm; rcases List.mem_cons.1 hm with rfl | hm
          · exact hx.2.2
          · rcases List.mem_cons.1 hm with rfl | hm
            · exact hy.2.2
            · rw [List.mem_singleton.1 hm]; exact hz.2.2), hp, if_pos ⟨hall, Or.inr rfl⟩]
    rfl

/-- C23: for the nodes of a Point element (an opening Point tag, a
coordinates node, a closing coordinates tag, a closing Point tag) whose
coordinates node carries the single token `x,y,z` made of three non-empty
numeric fields (each shorter than the 1024 bytes of the buffer of
`gml_extract_coords`), `gml_build_geometry` returns a geometry of declared type
POINT, of dimension model XYZ, with exactly the point (x, y, z); when the
token is `x,y` the geometry is the 2D one with exactly the point (x, y). The
SRID is the one found on the Point tag (-1 without attribute). In particular
the nodes of `<gml:Point><gml:coordinates>1,2,3</gml:coordinates></gml:Point>`
give the 3D point (1, 2, 3). -/
theorem gml_build_geometry_point_coordinates {S : Type} (atof : List Char → R)
    (sqlite_handle : Option S) (gml_proj_params : S → Int → List Char)
    (gaiaTransform : gaiaGeomColl R → List Char → List Char → Option (gaiaGeomColl R))
    (t c c2 t2 : gmlNode) (srid : Int) (fx fy fz : List Char)
    (ht : t.Tag = "gml:Point" ∨ t.Tag = "Point") (hs : guessGmlSrid t = some srid)
    (hc : c.Tag = "gml:coordinates" ∨ c.Tag = "coordinates")
    (hc2 : c2.Tag = "gml:coordinates" ∨ c2.Tag = "coordinates")
    (ht2 : t2.Tag = "gml:Point" ∨ t2.Tag = "Point")
    (hx : fx ≠ [] ∧ gml_check_coord fx = true ∧ fx.length < 1024)
    (hy : fy ≠ [] ∧ gml_check_coord fy = true ∧ fy.length < 1024)
    (hz : fz ≠ [] ∧ gml_check_coord fz = true ∧ fz.length < 1024) :
    (c.Coordinates = [fx ++ ',' :: (fy ++ ',' :: fz)] →
      gml_build_geometry atof sqlite_handle gml_proj_params gaiaTransform [t, c, c2, t2] =
        some (some ⟨srid, [gaiaAllocPointXYZ (atof fx) (atof fy) (atof fz)], [], [],
          GAIA_XY_Z, GAIA_POINT, none⟩)) ∧
    (c.Coordinates = [fx ++ ',' :: fy] →
      gml_build_geometry atof sqlite_handle gml_proj_params gaiaTransform [t, c, c2, t2] =
        some (some ⟨srid, [gaiaAllocPoint (atof fx) (atof fy)], [], [],
          GAIA_XY, GAIA_POINT, none⟩)) ∧
    sampleGmlBuild [gml_createNode "gml:Point" [] [],
        gml_createNode "gml:coordinates" [] ["1,2,3".toList],
        gml_closingNode "gml:coordinates", gml_closingNode "gml:Point"] =
      some (some ⟨-1, [gaiaAllocPointXYZ 1 2 3], [], [], GAIA_XY_Z, GAIA_POINT, none⟩) := by
  obtain ⟨v2, v3⟩ := gml_parse_point_v2_one_token atof fx fy fz hx hy hz
  have hg := guessGmlGeometryType_point t ht
  have hne : ¬ GAIA_GML_POINT = GAIA_GML_UNKNOWN := by decide
  refine ⟨?_, ?_, by decide⟩
  · intro hcoord
    simp only [gml_build_geometry, hg, hne, if_false, hs, gml_build_geometry.parse, if_true,
      gml_parse_point, hc, hcoord, v3, hc2, ht2]
    rfl
  · intro hcoord
    simp only [gml_build_geometry, hg, hne, if_false, hs, gml_build_geometry.parse, if_true,
      gml_parse_point, hc, hcoord, v2, hc2, ht2]
    rfl

/-- C23 (witness): the token `10,20,30`. -/
theorem gml_build_geometry_point_coordinates_witness :
    sampleGmlBuild [gml_createNode "gml:Point" [] [],
        gml_createNode "gml:coordinates" [] ["10,20,30".toList],
        gml_closingNode "gml:coordinates", gml_closingNode "gml:Point"] =
      some (some ⟨-1, [gaiaAllocPointXYZ 10 20 30], [], [], GAIA_XY_Z, GAIA_POINT, none⟩) :=
  (gml_build_geometry_point_coordinates sampleAtof (none : Option Unit) (fun _ _ => [])
    (fun _ _ _ => none) (gml_createNode "gml:Point" [] [])
    (gml_createNode "gml:coordinates" [] ["10,20,30".toList])
    (gml_closingNode "gml:coordinates") (gml_closingNode "gml:Point") (-1)
    "10".toList "20".toList "30".toList (Or.inl rfl) rfl (Or.inl rfl) (Or.inl rfl) (Or.inl rfl)
    (by decide) (by decide) (by decide)).1 rfl

theorem chainPoints_cons (g : gaiaGeomColl R) (next : List (gaiaGeomColl R)) :
    chainPoints (g :: next) = g.FirstPoint ++ chainPoints next := by
  simp [chainPoints]

theorem chainLinestrings_cons (g : gaiaGeomColl R) (next : List (gaiaGeomColl R)) :
    chainLinestrings (g :: next) = g.FirstLinestring ++ chainLinestrings next := by
  simp [chainLinestrings]

theorem chainPolygons_cons (g : gaiaGeomColl R) (next : List (gaiaGeomColl R)) :
    chainPolygons (g :: next) = g.FirstPolygon ++ chainPolygons next := by
  simp [chainPolygons]

/-- The counting loop of `gml_validate_geometry` on the members after the
head. -/
theorem gml_validate_geometry_count_false (chain : List (gaiaGeomColl R)) :
    ∀ (xy xyz pts lns pgs : Nat) (sp : Option (gaiaPoint R)) (sl : Option (gaiaLinestring R))
      (sg : Option (gaiaPolygon R)),
      gml_validate_geometry.count false chain xy xyz pts lns pgs sp sl sg =
        (xy + chain.countP (fun g => decide (g.DimensionModel = GAIA_XY)),
         xyz + chain.countP (fun g => decide (g.DimensionModel = GAIA_XY_Z)),
         pts + (chainPoints chain).length, lns + (chainLinestrings chain).length,
         pgs + (chainPolygons chain).length,
         (chainPoints chain).getLast?.or sp, (chainLinestrings chain).getLast?.or sl,
         (chainPolygons chain).getLast?.or sg) := by
  induction chain with
  | nil =>
    intro xy xyz pts lns pgs sp sl sg
    simp [gml_validate_geometry.count, chainPoints, chainLinestrings, chainPolygons]
  | cons g next ih =>
    intro xy xyz pts lns pgs sp sl sg
    simp only [gml_validate_geometry.count, ih, chainPoints_cons, chainLinestrings_cons,
      chainPolygons_cons, List.length_append, List.countP_cons]
    refine Prod.ext ?_ (Prod.ext ?_ (Prod.ext ?_ (Prod.ext ?_ (Prod.ext ?_
      (Prod.ext ?_ (Prod.ext ?_ ?_))))))
    · by_cases h : g.DimensionModel = GAIA_XY <;> first | (simp [h]; done) | (simp [h]; omega)
    · by_cases h : g.DimensionModel = GAIA_XY_Z <;> first | (simp [h]; done) | (simp [h]; omega)
    · simp only; omega
    · simp only; omega
    · simp only; omega
    · simp only [List.getLast?_append]
      cases g.FirstPoint.getLast? <;> cases (chainPoints next).getLast? <;> rfl
    · simp only [List.getLast?_append]
      cases g.FirstLinestring.getLast? <;> cases (chainLinestrings next).getLast? <;> rfl
    · simp only [List.getLast?_append]
      cases g.FirstPolygon.getLast? <;> cases (chainPolygons next).getLast? <;> rfl

/-- The counting loop of `gml_validate_geometry` on a chain: `xy` and `xyz`
count the members after the head, the other counters the whole chain. -/
theorem gml_validate_geometry_count_chain (head : gaiaGeomColl R)
    (rest : List (gaiaGeomColl R)) :
    gml_validate_geometry.count true (head :: rest) 0 0 0 0 0 none none none =
      (rest.countP (fun g => decide (g.DimensionModel = GAIA_XY)),
       rest.countP (fun g => decide (g.DimensionModel = GAIA_XY_Z)),
       (chainPoints (head :: rest)).length, (chainLinestrings (head :: rest)).length,
       (chainPolygons (head :: rest)).length,
       (chainPoints (head :: rest)).getLast?, (chainLinestrings (head :: rest)).getLast?,
       (chainPolygons (head :: rest)).getLast?) := by
  simp only [gml_validate_geometry.count, gml_validate_geometry_count_false, chainPoints_cons,
    chainLinestrings_cons, chainPolygons_cons, List.length_append]
  refine Prod.ext ?_ (Prod.ext ?_ (Prod.ext ?_ (Prod.ext ?_ (Prod.ext ?_ (Prod.ext ?_ (Prod.ext ?_ ?_))))))
  · simp
  · simp
  · simp
  · simp
  · simp
  · simp only [List.getLast?_append]
    cases head.FirstPoint.getLast? <;> cases (chainPoints rest).getLast? <;> rfl
  · simp only [List.getLast?_append]
    cases head.FirstLinestring.getLast? <;> cases (chainLinestrings rest).getLast? <;> rfl
  · simp only [List.getLast?_append]
    cases head.FirstPolygon.getLast? <;> cases (chainPolygons rest).getLast? <;> rfl

/-! ### What the merging loops leave unchanged -/

theorem gml_validate_geometry_points_frame (l : List (gaiaPoint R)) :
    ∀ geom : gaiaGeomColl R,
      (gml_validate_geometry.points l geom).DimensionModel = geom.DimensionModel ∧
      (gml_validate_geometry.points l geom).DeclaredType = geom.DeclaredType ∧
      (gml_validate_geometry.points l geom).Srid = geom.Srid := by
  induction l with
  | nil => intro geom; exact ⟨rfl, rfl, rfl⟩
  | cons p l ih => intro geom; exact ih _

theorem gml_validate_geometry_pointsXYZ_frame (l : List (gaiaPoint R)) :
    ∀ geom : gaiaGeomColl R,
      (gml_validate_geometry.pointsXYZ l geom).DimensionModel = geom.DimensionModel ∧
      (gml_validate_geometry.pointsXYZ l geom).DeclaredType = geom.DeclaredType ∧
      (gml_validate_geometry.pointsXYZ l geom).Srid = geom.Srid := by
  induction l with
  | nil => intro geom; exact ⟨rfl, rfl, rfl⟩
  | cons p l ih => intro geom; exact ih _

theorem gml_validate_geometry_linestrings_frame (l : List (gaiaLinestring R)) :
    ∀ geom : gaiaGeomColl R,
      (gml_validate_geometry.linestrings l geom).DimensionModel = geom.DimensionModel ∧
      (gml_validate_geometry.linestrings l geom).DeclaredType = geom.DeclaredType ∧
      (gml_validate_geometry.linestrings l geom).Srid = geom.Srid := by
  induction l with
  | nil => intro geom; exact ⟨rfl, rfl, rfl⟩
  | cons p l ih => intro geom; exact ih _

theorem gml_validate_geometry_polygons_frame (l : List (gaiaPolygon R)) :
    ∀ geom : gaiaGeomColl R,
      (gml_validate_geometry.polygons l geom).DimensionModel = geom.DimensionModel ∧
      (gml_validate_geometry.polygons l geom).DeclaredType = geom.DeclaredType ∧
      (gml_validate_geometry.polygons l geom).Srid = geom.Srid := by
  induction l with
  | nil => intro geom; exact ⟨rfl, rfl, rfl⟩
  | cons p l ih => intro geom; exact ih _

theorem gml_validate_geometry_points_mbr (l : List (gaiaPoint R)) :
    ∀ geom : gaiaGeomColl R,
      (gml_validate_geometry.points l geom).Mbr = geom.Mbr := by
  induction l with
  | nil => intro geom; rfl
  | cons p l ih => intro geom; exact ih _

theorem gml_validate_geometry_pointsXYZ_mbr (l : List (gaiaPoint R)) :
    ∀ geom : gaiaGeomColl R,
      (gml_validate_geometry.pointsXYZ l geom).Mbr = geom.Mbr := by
  induction l with
  | nil => intro geom; rfl
  | cons p l ih => intro geom; exact ih _

theorem gml_validate_geometry_linestrings_mbr (l : List (gaiaLinestring R)) :
    ∀ geom : gaiaGeomColl R,
      (gml_validate_geometry.linestrings l geom).Mbr = geom.Mbr := by
  induction l with
  | nil => intro geom; rfl
  | cons p l ih => intro geom; exact ih _

theorem gml_validate_geometry_polygons_mbr (l : List (gaiaPolygon R)) :
    ∀ geom : gaiaGeomColl R,
      (gml_validate_geometry.polygons l geom).Mbr = geom.Mbr := by
  induction l with
  | nil => intro geom; rfl
  | cons p l ih => intro geom; exact ih _


/-- The merging loops of `gml_validate_geometry` change neither the dimension
model nor the declared type of the geometry they fill, whatever the
reprojection does. -/
theorem gml_validate_geometry_merge_frame {S : Type} (sqlite_handle : Option S)
    (gml_proj_params : S → Int → List Char)
    (gaiaTransform : gaiaGeomColl R → List Char → List Char → Option (gaiaGeomColl R))
    (pts lns pgs xyz : Bool) (chain : List (gaiaGeomColl R)) :
    ∀ geom : gaiaGeomColl R,
      (gml_validate_geometry.merge sqlite_handle gml_proj_params gaiaTransform pts lns pgs xyz
        chain geom).DimensionModel = geom.DimensionModel ∧
      (gml_validate_geometry.merge sqlite_handle gml_proj_params gaiaTransform pts lns pgs xyz
        chain geom).DeclaredType = geom.DeclaredType := by
  induction chain with
  | nil => intro geom; exact ⟨rfl, rfl⟩
  | cons g next ih =>
    intro geom
    simp only [gml_validate_geometry.merge]
    refine ⟨(ih _).1.trans ?_, (ih _).2.trans ?_⟩
    · cases pgs <;> cases lns <;> cases pts <;> cases xyz <;>
        simp only [if_true, if_false, Bool.false_eq_true,
          (gml_validate_geometry_polygons_frame _ _).1,
          (gml_validate_geometry_linestrings_frame _ _).1,
          (gml_validate_geometry_points_frame _ _).1,
          (gml_validate_geometry_pointsXYZ_frame _ _).1] <;>
        split <;> rfl
    · cases pgs <;> cases lns <;> cases pts <;> cases xyz <;>
        simp only [if_true, if_false, Bool.false_eq_true,
          (gml_validate_geometry_polygons_frame _ _).2.1,
          (gml_validate_geometry_linestrings_frame _ _).2.1,
          (gml_validate_geometry_points_frame _ _).2.1,
          (gml_validate_geometry_pointsXYZ_frame _ _).2.1] <;>
        split <;> rfl

theorem gml_validate_geometry_alloc_frame (xy : Nat) (srid declared : Int) :
    (gml_validate_geometry.alloc xy srid declared : gaiaGeomColl R).DimensionModel =
      (if xy > 0 then GAIA_XY else GAIA_XY_Z) ∧
    (gml_validate_geometry.alloc xy srid declared : gaiaGeomColl R).DeclaredType = declared ∧
    (gml_validate_geometry.alloc xy srid declared : gaiaGeomColl R).Srid = srid ∧
    (gml_validate_geometry.alloc xy srid declared : gaiaGeomColl R).FirstPoint = [] ∧
    (gml_validate_geometry.alloc xy srid declared : gaiaGeomColl R).FirstLinestring = [] ∧
    (gml_validate_geometry.alloc xy srid declared : gaiaGeomColl R).FirstPolygon = [] := by
  unfold gml_validate_geometry.alloc
  split <;> exact ⟨rfl, rfl, rfl, rfl, rfl, rfl⟩

theorem gml_last_of_length_pos {α : Type} (l : List α) (h : l.length ≥ 1) :
    ∃ a, l.getLast? = some a := by
  cases hl : l.getLast? with
  | none => rw [List.getLast?_eq_none_iff] at hl; subst hl; simp at h
  | some a => exact ⟨a, rfl⟩

theorem gmlDeclaredKind_single (H : Int) :
    gmlDeclaredKind H 1 0 0 =
      (if H = GAIA_MULTIPOINT then GAIA_MULTIPOINT
       else if H = GAIA_GEOMETRYCOLLECTION then GAIA_GEOMETRYCOLLECTION else GAIA_POINT) ∧
    gmlDeclaredKind H 0 1 0 =
      (if H = GAIA_MULTILINESTRING then GAIA_MULTILINESTRING
       else if H = GAIA_GEOMETRYCOLLECTION then GAIA_GEOMETRYCOLLECTION
       else GAIA_LINESTRING) ∧
    gmlDeclaredKind H 0 0 1 =
      (if H = GAIA_MULTIPOLYGON then GAIA_MULTIPOLYGON
       else if H = GAIA_GEOMETRYCOLLECTION then GAIA_GEOMETRYCOLLECTION
       else GAIA_POLYGON) := by
  have e1 : GAIA_MULTIPOINT ≠ GAIA_GEOMETRYCOLLECTION := by decide
  have e2 : GAIA_MULTILINESTRING ≠ GAIA_GEOMETRYCOLLECTION := by decide
  have e3 : GAIA_MULTIPOLYGON ≠ GAIA_GEOMETRYCOLLECTION := by decide
  refine ⟨?_, ?_, ?_⟩
  · by_cases h : H = GAIA_GEOMETRYCOLLECTION
    · subst h; simp [gmlDeclaredKind, e1.symm]
    · by_cases h2 : H = GAIA_MULTIPOINT
      · subst h2; simp [gmlDeclaredKind, e1]
      · simp [gmlDeclaredKind, h, h2]
  · by_cases h : H = GAIA_GEOMETRYCOLLECTION
    · subst h; simp [gmlDeclaredKind, e2.symm]
    · by_cases h2 : H = GAIA_MULTILINESTRING
      · subst h2; simp [gmlDeclaredKind, e2]
      · simp [gmlDeclaredKind, h, h2]
  · by_cases h : H = GAIA_GEOMETRYCOLLECTION
    · subst h; simp [gmlDeclaredKind, e3.symm]
    · by_cases h2 : H = GAIA_MULTIPOLYGON
      · subst h2; simp [gmlDeclaredKind, e3]
      · simp [gmlDeclaredKind, h, h2]

theorem gmlDeclaredKind_multi (H : Int) (n : Nat) (h1 : n ≥ 1) (h2 : n ≠ 1) :
    gmlDeclaredKind H n 0 0 =
      (if H = GAIA_GEOMETRYCOLLECTION then GAIA_GEOMETRYCOLLECTION else GAIA_MULTIPOINT) ∧
    gmlDeclaredKind H 0 n 0 =
      (if H = GAIA_GEOMETRYCOLLECTION then GAIA_GEOMETRYCOLLECTION
       else GAIA_MULTILINESTRING) ∧
    gmlDeclaredKind H 0 0 n =
      (if H = GAIA_GEOMETRYCOLLECTION then GAIA_GEOMETRYCOLLECTION
       else GAIA_MULTIPOLYGON) := by
  have h0 : n ≠ 0 := by omega
  refine ⟨?_, ?_, ?_⟩ <;>
    by_cases h : H = GAIA_GEOMETRYCOLLECTION <;> simp [gmlDeclaredKind, h, h0, h2]

theorem gmlDeclaredKind_mixed (H : Int) (P L G : Nat)
    (h : (P ≠ 0 ∧ L ≠ 0) ∨ (P ≠ 0 ∧ G ≠ 0) ∨ (L ≠ 0 ∧ G ≠ 0)) :
    gmlDeclaredKind H P L G = GAIA_GEOMETRYCOLLECTION := by
  simp only [gmlDeclaredKind, h, or_true, if_true]

theorem gml_validate_geometry_polygon_frame (pg : gaiaPolygon R) (geom : gaiaGeomColl R) :
    (gml_validate_geometry.polygon pg geom).DimensionModel = geom.DimensionModel ∧
    (gml_validate_geometry.polygon pg geom).DeclaredType = geom.DeclaredType :=
  ⟨rfl, rfl⟩

/-- The declared type and the dimension model of the result of
`gml_validate_geometry`, from the counters of its first loop. -/
theorem gml_validate_geometry_kind {S : Type} (sqlite_handle : Option S)
    (gml_proj_params : S → Int → List Char)
    (gaiaTransform : gaiaGeomColl R → List Char → List Char → Option (gaiaGeomColl R))
    (head : gaiaGeomColl R) (rest : List (gaiaGeomColl R)) :
    (gml_validate_geometry sqlite_handle gml_proj_params gaiaTransform (head :: rest)).map
        (fun g => (g.DeclaredType, g.DimensionModel)) =
      if (chainPoints (head :: rest)).length = 0 ∧ (chainLinestrings (head :: rest)).length = 0 ∧
          (chainPolygons (head :: rest)).length = 0 then none
      else some (gmlDeclaredKind head.DeclaredType (chainPoints (head :: rest)).length
          (chainLinestrings (head :: rest)).length (chainPolygons (head :: rest)).length,
        if rest.countP (fun g => decide (g.DimensionModel = GAIA_XY)) > 0 then GAIA_XY
        else GAIA_XY_Z) := by
  have hcount := gml_validate_geometry_count_chain head rest
  unfold gml_validate_geometry
  rw [hcount]
  simp only []
  generalize hP : (chainPoints (head :: rest)).length = P
  generalize hL : (chainLinestrings (head :: rest)).length = L
  generalize hG : (chainPolygons (head :: rest)).length = G
  generalize rest.countP (fun g => decide (g.DimensionModel = GAIA_XY)) = xy
  by_cases h1 : P = 1 ∧ L = 0 ∧ G = 0
  · obtain ⟨sp, hsp⟩ := gml_last_of_length_pos (chainPoints (head :: rest)) (by omega)
    obtain ⟨rfl, rfl, rfl⟩ := h1
    rw [if_pos ⟨rfl, rfl, rfl⟩, hsp]
    have hn : ¬ ((1 : Nat) = 0 ∧ (0 : Nat) = 0 ∧ (0 : Nat) = 0) := by omega
    rw [if_neg hn, (gmlDeclaredKind_single head.DeclaredType).1]
    by_cases hxy : xy > 0
    · simp only [hxy, if_true, Option.map_some', gaiaAddPointToGeomColl,
        (gml_validate_geometry_alloc_frame _ _ _).1, (gml_validate_geometry_alloc_frame _ _ _).2.1]
    · simp only [hxy, if_false, Option.map_some', gaiaAddPointToGeomCollXYZ,
        (gml_validate_geometry_alloc_frame _ _ _).1, (gml_validate_geometry_alloc_frame _ _ _).2.1]
  rw [if_neg h1]
  by_cases h2 : P = 0 ∧ L = 1 ∧ G = 0
  · obtain ⟨sl, hsl⟩ := gml_last_of_length_pos (chainLinestrings (head :: rest)) (by omega)
    obtain ⟨rfl, rfl, rfl⟩ := h2
    rw [if_pos ⟨rfl, rfl, rfl⟩, hsl]
    have hn : ¬ ((0 : Nat) = 0 ∧ (1 : Nat) = 0 ∧ (0 : Nat) = 0) := by omega
    rw [if_neg hn, (gmlDeclaredKind_single head.DeclaredType).2.1]
    simp only [Option.map_some', gaiaAddLinestringToGeomColl.link,
      (gml_validate_geometry_alloc_frame _ _ _).1, (gml_validate_geometry_alloc_frame _ _ _).2.1]
  rw [if_neg h2]
  by_cases h3 : P = 0 ∧ L = 0 ∧ G = 1
  · obtain ⟨sg, hsg⟩ := gml_last_of_length_pos (chainPolygons (head :: rest)) (by omega)
    obtain ⟨rfl, rfl, rfl⟩ := h3
    rw [if_pos ⟨rfl, rfl, rfl⟩, hsg]
    have hn : ¬ ((0 : Nat) = 0 ∧ (0 : Nat) = 0 ∧ (1 : Nat) = 0) := by omega
    rw [if_neg hn, (gmlDeclaredKind_single head.DeclaredType).2.2]
    simp only [Option.map_some', (gml_validate_geometry_polygon_frame _ _).1,
      (gml_validate_geometry_polygon_frame _ _).2,
      (gml_validate_geometry_alloc_frame _ _ _).1, (gml_validate_geometry_alloc_frame _ _ _).2.1]
  rw [if_neg h3]
  by_cases h4 : P ≥ 1 ∧ L = 0 ∧ G = 0
  · obtain ⟨hp, rfl, rfl⟩ := h4
    have hn : ¬ (P = 0 ∧ (0 : Nat) = 0 ∧ (0 : Nat) = 0) := by omega
    rw [if_pos ⟨hp, rfl, rfl⟩, if_neg hn,
      (gmlDeclaredKind_multi head.DeclaredType P hp (by omega)).1]
    simp only [Option.map_some', (gml_validate_geometry_merge_frame _ _ _ _ _ _ _ _ _).1,
      (gml_validate_geometry_merge_frame _ _ _ _ _ _ _ _ _).2,
      (gml_validate_geometry_alloc_frame _ _ _).1, (gml_validate_geometry_alloc_frame _ _ _).2.1]
  rw [if_neg h4]
  by_cases h5 : P = 0 ∧ L ≥ 1 ∧ G = 0
  · obtain ⟨rfl, hp, rfl⟩ := h5
    have hn : ¬ ((0 : Nat) = 0 ∧ L = 0 ∧ (0 : Nat) = 0) := by omega
    rw [if_pos ⟨rfl, hp, rfl⟩, if_neg hn,
      (gmlDeclaredKind_multi head.DeclaredType L hp (by omega)).2.1]
    simp only [Option.map_some', (gml_validate_geometry_merge_frame _ _ _ _ _ _ _ _ _).1,
      (gml_validate_geometry_merge_frame _ _ _ _ _ _ _ _ _).2,
      (gml_validate_geometry_alloc_frame _ _ _).1, (gml_validate_geometry_alloc_frame _ _ _).2.1]
  rw [if_neg h5]
  by_cases h6 : P = 0 ∧ L = 0 ∧ G ≥ 1
  · obtain ⟨rfl, rfl, hp⟩ := h6
    have hn : ¬ ((0 : Nat) = 0 ∧ (0 : Nat) = 0 ∧ G = 0) := by omega
    rw [if_pos ⟨rfl, rfl, hp⟩, if_neg hn,
      (gmlDeclaredKind_multi head.DeclaredType G hp (by omega)).2.2]
    simp only [Option.map_some', (gml_validate_geometry_merge_frame _ _ _ _ _ _ _ _ _).1,
      (gml_validate_geometry_merge_frame _ _ _ _ _ _ _ _ _).2,
      (gml_validate_geometry_alloc_frame _ _ _).1, (gml_validate_geometry_alloc_frame _ _ _).2.1]
  rw [if_neg h6]
  by_cases h7 : P + L + G > 0
  · have hn : ¬ (P = 0 ∧ L = 0 ∧ G = 0) := by omega
    rw [if_pos h7, if_neg hn, gmlDeclaredKind_mixed head.DeclaredType P L G (by omega)]
    simp only [Option.map_some', (gml_validate_geometry_merge_frame _ _ _ _ _ _ _ _ _).1,
      (gml_validate_geometry_merge_frame _ _ _ _ _ _ _ _ _).2,
      (gml_validate_geometry_alloc_frame _ _ _).1, (gml_validate_geometry_alloc_frame _ _ _).2.1]
  · have hn : P = 0 ∧ L = 0 ∧ G = 0 := by omega
    rw [if_neg h7, if_pos hn]
    rfl

/-- C26 (counter-example): the chain that `gml_parse_multi_geometry` builds
for a MultiGeometry with the two Point members `1,2` and `3,4,5`. Its second
member is 3D, yet `gml_validate_geometry` returns a 2D geometry: the Z of the
second point is dropped. -/
theorem gml_validate_geometry_mixed_chain_2d :
    gml_build_geometry.parse sampleAtof GAIA_GML_MULTIGEOMETRY
        ⟨-1, [], [], [], GAIA_XY, GAIA_UNKNOWN, none⟩ sampleMixedPointsTree.tail =
      some (some sampleMixedPointsChain) ∧
    (sampleMixedPointsChain.tail.map (fun g => g.DimensionModel)) = [GAIA_XY, GAIA_XY_Z] ∧
    gml_validate_geometry (none : Option Unit) (fun _ _ => []) (fun _ _ _ => none)
        sampleMixedPointsChain =
      some ⟨-1, [gaiaAllocPoint 1 2, gaiaAllocPoint 3 4], [], [], GAIA_XY,
        GAIA_GEOMETRYCOLLECTION, none⟩ := by
  decide

/-- C26: when `gml_validate_geometry` returns a geometry for a chain, that
geometry is 2D if at least one member of the chain after the head is 2D, and
3D otherwise (in particular when every member after the head is 3D). -/
theorem gml_validate_geometry_dimension {S : Type} (sqlite_handle : Option S)
    (gml_proj_params : S → Int → List Char)
    (gaiaTransform : gaiaGeomColl R → List Char → List Char → Option (gaiaGeomColl R))
    (head : gaiaGeomColl R) (rest : List (gaiaGeomColl R)) (g : gaiaGeomColl R)
    (h : gml_validate_geometry sqlite_handle gml_proj_params gaiaTransform (head :: rest) =
      some g) :
    ((∃ m ∈ rest, m.DimensionModel = GAIA_XY) → g.DimensionModel = GAIA_XY) ∧
    ((∀ m ∈ rest, m.DimensionModel ≠ GAIA_XY) → g.DimensionModel = GAIA_XY_Z) ∧
    ((∀ m ∈ rest, m.DimensionModel = GAIA_XY_Z) → g.DimensionModel = GAIA_XY_Z) := by
  have hk := gml_validate_geometry_kind sqlite_handle gml_proj_params gaiaTransform head rest
  rw [h] at hk
  have hd : g.DimensionModel =
      if rest.countP (fun g => decide (g.DimensionModel = GAIA_XY)) > 0 then GAIA_XY
      else GAIA_XY_Z := by
    split_ifs at hk with h0
    · simp at hk
    · simp only [Option.map_some', Option.some.injEq, Prod.mk.injEq] at hk
      rw [hk.2]; simp [*]
    · simp only [Option.map_some', Option.some.injEq, Prod.mk.injEq] at hk
      rw [hk.2]; simp [*]
  have hpos : rest.countP (fun g => decide (g.DimensionModel = GAIA_XY)) > 0 ↔
      ∃ m ∈ rest, m.DimensionModel = GAIA_XY := by
    rw [gt_iff_lt, List.countP_pos_iff]
    simp
  have hne : GAIA_XY_Z ≠ GAIA_XY := by decide
  refine ⟨fun hx => ?_, fun hx => ?_, fun hx => ?_⟩
  · rw [hd, if_pos (hpos.2 hx)]
  · rw [hd, if_neg]
    rw [hpos]; rintro ⟨m, hm, he⟩; exact hx m hm he
  · rw [hd, if_neg]
    rw [hpos]; rintro ⟨m, hm, he⟩; exact hne ((hx m hm).symm.trans he)

/-- C26 (witness): the chain of the two Point members `1,2` and `3,4,5`. -/
theorem gml_validate_geometry_dimension_witness :
    (⟨-1, [gaiaAllocPoint 1 2, gaiaAllocPoint 3 4], [], [], GAIA_XY,
      GAIA_GEOMETRYCOLLECTION, none⟩ : gaiaGeomColl Int).DimensionModel = GAIA_XY :=
  (gml_validate_geometry_dimension (none : Option Unit) (fun _ _ => []) (fun _ _ _ => none)
    ⟨-1, [], [], [], GAIA_XY, GAIA_GEOMETRYCOLLECTION, none⟩
    [⟨-1, [gaiaAllocPoint 1 2], [], [], GAIA_XY, GAIA_UNKNOWN, none⟩,
     ⟨-1, [gaiaAllocPointXYZ 3 4 5], [], [], GAIA_XY_Z, GAIA_UNKNOWN, none⟩]
    ⟨-1, [gaiaAllocPoint 1 2, gaiaAllocPoint 3 4], [], [], GAIA_XY, GAIA_GEOMETRYCOLLECTION, none⟩
    (by decide)).1 ⟨⟨-1, [gaiaAllocPoint 1 2], [], [], GAIA_XY, GAIA_UNKNOWN, none⟩,
      List.mem_cons_self _ _, rfl⟩

/-- C30 (failing inputs): node sequences that end right after the closing tag
of a member, the closing tag of the enclosing Multi element being absent.
Each of the six parsers returns 1 on its sequence, with the member linked to
the chain, and `gml_build_geometry` returns a geometry for the document
`<gml:MultiPoint><gml:pointMember>…</gml:pointMember>` that is never closed. -/
theorem gml_parse_multi_accepts_truncated :
    (gml_parse_multi_point sampleAtof [sampleShell GAIA_MULTIPOINT]
        (sampleElement "gml:pointMember" samplePointNodes)).map (Option.map List.length) =
      some (some 2) ∧
    (gml_parse_multi_linestring sampleAtof [sampleShell GAIA_MULTILINESTRING]
        (sampleElement "gml:lineStringMember" sampleLinestringNodes)).map
          (Option.map List.length) = some (some 2) ∧
    (gml_parse_multi_curve sampleAtof [sampleShell GAIA_MULTILINESTRING]
        (sampleElement "gml:curveMember" sampleCurveNodes)).map (Option.map List.length) =
      some (some 2) ∧
    (gml_parse_multi_polygon sampleAtof [sampleShell GAIA_MULTIPOLYGON]
        (sampleElement "gml:polygonMember" samplePolygonNodes)).map (Option.map List.length) =
      some (some 2) ∧
    (gml_parse_multi_surface sampleAtof [sampleShell GAIA_MULTIPOLYGON]
        (sampleElement "gml:surfaceMember" samplePolygonNodes)).map (Option.map List.length) =
      some (some 2) ∧
    (gml_parse_multi_geometry sampleAtof [sampleShell GAIA_GEOMETRYCOLLECTION]
        (sampleElement "gml:geometryMember" samplePointNodes)).map (Option.map List.length) =
      some (some 2) ∧
    ((sampleElement "gml:pointMember" samplePointNodes).getLast?.map (fun n => n.Tag)) =
      some "gml:pointMember" ∧
    sampleGmlBuild (gml_createNode "gml:MultiPoint" [] [] ::
        sampleElement "gml:pointMember" samplePointNodes) =
      some (some ⟨-1, [gaiaAllocPoint 1 2], [], [], GAIA_XY, GAIA_MULTIPOINT, none⟩) := by
  refine ⟨?_, ?_, ?_, ?_, ?_, ?_, ?_, ?_⟩
  all_goals decide

theorem gml_validate_geometry_merge_mbr {S : Type} (sqlite_handle : Option S)
    (gml_proj_params : S → Int → List Char)
    (gaiaTransform : gaiaGeomColl R → List Char → List Char → Option (gaiaGeomColl R))
    (pts lns pgs xyz : Bool) (chain : List (gaiaGeomColl R)) :
    ∀ geom : gaiaGeomColl R,
      (gml_validate_geometry.merge sqlite_handle gml_proj_params gaiaTransform pts lns pgs xyz
        chain geom).Mbr = geom.Mbr := by
  induction chain with
  | nil => intro geom; rfl
  | cons g next ih =>
    intro geom
    simp only [gml_validate_geometry.merge]
    refine (ih _).trans ?_
    cases pgs <;> cases lns <;> cases pts <;> cases xyz <;>
      simp only [if_true, if_false, Bool.false_eq_true,
        gml_validate_geometry_polygons_mbr,
        gml_validate_geometry_linestrings_mbr,
        gml_validate_geometry_points_mbr,
        gml_validate_geometry_pointsXYZ_mbr] <;>
      split <;> rfl

theorem gml_validate_geometry_alloc_mbr (xy : Nat) (srid declared : Int) :
    (gml_validate_geometry.alloc xy srid declared : gaiaGeomColl R).Mbr = none := by
  unfold gml_validate_geometry.alloc
  split <;> rfl

/-- The geometry that `gml_validate_geometry` returns has the envelope fields
of its allocation: no statement of the function assigns them, and the
geometries handed back by the reprojection are only read. -/
theorem gml_validate_geometry_mbr {S : Type} (sqlite_handle : Option S)
    (gml_proj_params : S → Int → List Char)
    (gaiaTransform : gaiaGeomColl R → List Char → List Char → Option (gaiaGeomColl R))
    (chain : List (gaiaGeomColl R)) (g : gaiaGeomColl R)
    (h : gml_validate_geometry sqlite_handle gml_proj_params gaiaTransform chain = some g) :
    g.Mbr = none := by
  unfold gml_validate_geometry at h
  generalize gml_validate_geometry.count true chain 0 0 0 0 0 none none none = c at h
  obtain ⟨xy, xyz, pts, lns, pgs, save_pt, save_ln, save_pg⟩ := c
  simp only [] at h
  cases chain with
  | nil => simp at h
  | cons head rest =>
    simp only [] at h
    have hp : ∀ (pg : gaiaPolygon R) (geom : gaiaGeomColl R),
        (gml_validate_geometry.polygon pg geom).Mbr = geom.Mbr := fun _ _ => rfl
    split_ifs at h
    all_goals try split at h
    all_goals first
      | (have e := Option.some.inj h
         subst e
         simp only [gaiaAddPointToGeomColl, gaiaAddPointToGeomCollXYZ,
           gaiaAddLinestringToGeomColl.link, hp, gml_validate_geometry_merge_mbr,
           gml_validate_geometry_alloc_mbr])
      | simp at h

/-- The geometry that `gml_build_geometry` returns has the envelope fields of
its allocation. -/
theorem gml_build_geometry_mbr {S : Type} (atof : List Char → R) (sqlite_handle : Option S)
    (gml_proj_params : S → Int → List Char)
    (gaiaTransform : gaiaGeomColl R → List Char → List Char → Option (gaiaGeomColl R))
    (tree : List gmlNode) (g : gaiaGeomColl R)
    (h : gml_build_geometry atof sqlite_handle gml_proj_params gaiaTransform tree =
      some (some g)) :
    g.Mbr = none := by
  cases tree with
  | nil => simp [gml_build_geometry] at h
  | cons t tree_next =>
    simp only [gml_build_geometry] at h
    split_ifs at h
    · simp at h
    cases hs : guessGmlSrid t with
    | none => rw [hs] at h; simp at h
    | some srid =>
      rw [hs] at h
      simp only [] at h
      generalize gml_build_geometry.parse atof (guessGmlGeometryType t) _ tree_next = r at h
      rcases r with _ | _ | chain
      · simp at h
      · simp at h
      · simp only [] at h
        cases hv : gml_validate_geometry sqlite_handle gml_proj_params gaiaTransform chain with
        | none => rw [hv] at h; simp at h
        | some result =>
          rw [hv] at h
          simp only [Option.some.injEq] at h
          subst h
          exact gml_validate_geometry_mbr _ _ _ _ _ hv

/-- C29 (counterexample): on a text whose nodes are those of
`<gml:Point><gml:coordinates>1,2</coordinates></Point>`, `gaiaParseGml`
returns a Point geometry whose envelope fields are those of its allocation:
it is not a geometry left by an envelope computation, whatever the
computation that stores an envelope. -/
theorem gaiaParseGml_result_without_envelope :
    gaiaParseGml () sampleGmlParse 0 sampleGmlYylex sampleAtof (fun _ _ => [])
        (fun _ _ _ => none) [] (none : Option Unit) =
      some (some ⟨-1, [gaiaAllocPoint 1 2], [], [], GAIA_XY, GAIA_POINT, none⟩) ∧
    ∀ gaiaMbrGeometry : gaiaGeomColl Int → gaiaGeomColl Int,
      (∀ x, (gaiaMbrGeometry x).Mbr ≠ none) →
      ∀ x, gaiaMbrGeometry x ≠
        ⟨-1, [gaiaAllocPoint 1 2], [], [], GAIA_XY, GAIA_POINT, none⟩ := by
  refine ⟨by decide, ?_⟩
  intro M hM x hx
  exact hM x (by rw [hx])

/-- C29 (amended): the geometry that `gaiaParseGml` returns is the geometry
that `gml_build_geometry` has built from the nodes left by the parser, as it
is: between the call of `gml_build_geometry` and the `return` nothing is done
to it, no envelope computation `gaiaMbrGeometry` is among the collaborators
of the function, and the envelope fields of the returned geometry are those
of its allocation. -/
theorem gaiaParseGml_returns_built_geometry {P S : Type} (ParseAlloc : P)
    (Parse : GmlParse P) (GML_NEWLINE : Int)
    (yylex : List Char → List (Int × Option (List Char))) (atof : List Char → R)
    (gml_proj_params : S → Int → List Char)
    (gaiaTransform : gaiaGeomColl R → List Char → List Char → Option (gaiaGeomColl R))
    (dirty_buffer : List Char) (sqlite_handle : Option S) (g : gaiaGeomColl R)
    (h : gaiaParseGml ParseAlloc Parse GML_NEWLINE yylex atof gml_proj_params gaiaTransform
      dirty_buffer sqlite_handle = some (some g)) :
    (gaiaParseGml.drive ParseAlloc Parse GML_NEWLINE (yylex dirty_buffer)).2 = 0 ∧
    gml_build_geometry atof sqlite_handle gml_proj_params gaiaTransform
      (gaiaParseGml.drive ParseAlloc Parse GML_NEWLINE (yylex dirty_buffer)).1 =
        some (some g) ∧
    g.Mbr = none := by
  unfold gaiaParseGml at h
  by_cases he : (gaiaParseGml.drive ParseAlloc Parse GML_NEWLINE (yylex dirty_buffer)).2 = 0
  · have hb : gml_build_geometry atof sqlite_handle gml_proj_params gaiaTransform
        (gaiaParseGml.drive ParseAlloc Parse GML_NEWLINE (yylex dirty_buffer)).1 =
          some (some g) := by
      simpa [he] using h
    exact ⟨he, hb, gml_build_geometry_mbr _ _ _ _ _ _ hb⟩
  · simp [he] at h

/-- C29 (witness): a run of `gaiaParseGml` in which the parser leaves
the nodes of `<gml:Point><gml:coordinates>1,2</coordinates></Point>`. -/
theorem gaiaParseGml_returns_built_geometry_witness :
    (gaiaParseGml.drive () sampleGmlParse 0 (sampleGmlYylex [])).2 = 0 ∧
    gml_build_geometry sampleAtof (none : Option Unit) (fun _ _ => []) (fun _ _ _ => none)
      (gaiaParseGml.drive () sampleGmlParse 0 (sampleGmlYylex [])).1 =
        some (some ⟨-1, [gaiaAllocPoint 1 2], [], [], GAIA_XY, GAIA_POINT, none⟩) ∧
    (⟨-1, [gaiaAllocPoint 1 2], [], [], GAIA_XY, GAIA_POINT, none⟩ : gaiaGeomColl Int).Mbr =
      none :=
  gaiaParseGml_returns_built_geometry () sampleGmlParse 0 sampleGmlYylex sampleAtof
    (fun _ _ => []) (fun _ _ _ => none) [] (none : Option Unit)
    ⟨-1, [gaiaAllocPoint 1 2], [], [], GAIA_XY, GAIA_POINT, none⟩ (by decide)

/-! ### Copies across dimension models -/

theorem gaiaCopyCoords_step_to_xy (sd : Int) (src dst : List R) (iv : Nat) :
    gaiaCopyCoords.step sd src GAIA_XY dst iv =
      gaiaSetPoint dst iv (vertexXYZ sd src iv).1 (vertexXYZ sd src iv).2.1 := by
  have e1 : ¬ GAIA_XY = GAIA_XY_Z := by decide
  have e2 : ¬ GAIA_XY = GAIA_XY_M := by decide
  have e3 : ¬ GAIA_XY = GAIA_XY_Z_M := by decide
  by_cases h1 : sd = GAIA_XY_Z
  · subst h1; rfl
  · by_cases h2 : sd = GAIA_XY_M
    · subst h2; rfl
    · by_cases h3 : sd = GAIA_XY_Z_M
      · subst h3; rfl
      · simp [gaiaCopyCoords.step, vertexXYZ, h1, h2, h3, e1, e2, e3, gaiaGetPoint]

theorem gaiaCopyCoords_step_to_xyz (sd : Int) (src dst : List R) (iv : Nat) :
    gaiaCopyCoords.step sd src GAIA_XY_Z dst iv =
      gaiaSetPointXYZ dst iv (vertexXYZ sd src iv).1 (vertexXYZ sd src iv).2.1
        (vertexXYZ sd src iv).2.2 := by
  by_cases h1 : sd = GAIA_XY_Z
  · subst h1; rfl
  · by_cases h2 : sd = GAIA_XY_M
    · subst h2; rfl
    · by_cases h3 : sd = GAIA_XY_Z_M
      · subst h3; rfl
      · simp [gaiaCopyCoords.step, vertexXYZ, h1, h2, h3, gaiaGetPoint]

theorem gaiaCopyCoords_loop_to_xy (sd : Int) (src : List R) (n : Nat) :
    ∀ (iv : Nat) (dst : List R),
      (gaiaCopyCoords.loop sd src GAIA_XY n iv dst).length = dst.length ∧
      ∀ i, ((gaiaCopyCoords.loop sd src GAIA_XY n iv dst).getD (i * 2) 0 =
          if iv ≤ i ∧ i < iv + n ∧ i * 2 < dst.length then (vertexXYZ sd src i).1
          else dst.getD (i * 2) 0) ∧
        ((gaiaCopyCoords.loop sd src GAIA_XY n iv dst).getD (i * 2 + 1) 0 =
          if iv ≤ i ∧ i < iv + n ∧ i * 2 + 1 < dst.length then (vertexXYZ sd src i).2.1
          else dst.getD (i * 2 + 1) 0) := by
  induction n with
  | zero =>
    intro iv dst
    refine ⟨rfl, fun i => ⟨?_, ?_⟩⟩ <;> simp only [gaiaCopyCoords.loop] <;>
      split_ifs <;> first | rfl | (exfalso; omega)
  | succ n ih =>
    intro iv dst
    simp only [gaiaCopyCoords.loop, gaiaCopyCoords_step_to_xy]
    obtain ⟨hl, hc⟩ := ih (iv + 1)
      (gaiaSetPoint dst iv (vertexXYZ sd src iv).1 (vertexXYZ sd src iv).2.1)
    have hlen : (gaiaSetPoint dst iv (vertexXYZ sd src iv).1 (vertexXYZ sd src iv).2.1).length
        = dst.length := by simp [gaiaSetPoint]
    refine ⟨hl.trans hlen, fun i => ⟨?_, ?_⟩⟩
    · rw [(hc i).1, gaiaSetPoint_getD, hlen]
      split_ifs <;> first | rfl | (exfalso; omega) |
        (have e : i = iv := by omega
         subst e; rfl)
    · rw [(hc i).2, gaiaSetPoint_getD, hlen]
      split_ifs <;> first | rfl | (exfalso; omega) |
        (have e : i = iv := by omega
         subst e; rfl)

theorem gaiaCopyCoords_loop_to_xyz (sd : Int) (src : List R) (n : Nat) :
    ∀ (iv : Nat) (dst : List R),
      (gaiaCopyCoords.loop sd src GAIA_XY_Z n iv dst).length = dst.length ∧
      ∀ i, ((gaiaCopyCoords.loop sd src GAIA_XY_Z n iv dst).getD (i * 3) 0 =
          if iv ≤ i ∧ i < iv + n ∧ i * 3 < dst.length then (vertexXYZ sd src i).1
          else dst.getD (i * 3) 0) ∧
        ((gaiaCopyCoords.loop sd src GAIA_XY_Z n iv dst).getD (i * 3 + 1) 0 =
          if iv ≤ i ∧ i < iv + n ∧ i * 3 + 1 < dst.length then (vertexXYZ sd src i).2.1
          else dst.getD (i * 3 + 1) 0) ∧
        ((gaiaCopyCoords.loop sd src GAIA_XY_Z n iv dst).getD (i * 3 + 2) 0 =
          if iv ≤ i ∧ i < iv + n ∧ i * 3 + 2 < dst.length then (vertexXYZ sd src i).2.2
          else dst.getD (i * 3 + 2) 0) := by
  induction n with
  | zero =>
    intro iv dst
    refine ⟨rfl, fun i => ⟨?_, ?_, ?_⟩⟩ <;> simp only [gaiaCopyCoords.loop] <;>
      split_ifs <;> first | rfl | (exfalso; omega)
  | succ n ih =>
    intro iv dst
    simp only [gaiaCopyCoords.loop, gaiaCopyCoords_step_to_xyz]
    obtain ⟨hl, hc⟩ := ih (iv + 1)
      (gaiaSetPointXYZ dst iv (vertexXYZ sd src iv).1 (vertexXYZ sd src iv).2.1
        (vertexXYZ sd src iv).2.2)
    have hlen : (gaiaSetPointXYZ dst iv (vertexXYZ sd src iv).1 (vertexXYZ sd src iv).2.1
        (vertexXYZ sd src iv).2.2).length = dst.length := by simp [gaiaSetPointXYZ]
    refine ⟨hl.trans hlen, fun i => ⟨?_, ?_, ?_⟩⟩
    · rw [(hc i).1, gaiaSetPointXYZ_getD, hlen]
      split_ifs <;> first | rfl | (exfalso; omega) |
        (have e : i = iv := by omega
         subst e; rfl)
    · rw [(hc i).2.1, gaiaSetPointXYZ_getD, hlen]
      split_ifs <;> first | rfl | (exfalso; omega) |
        (have e : i = iv := by omega
         subst e; rfl)
    · rw [(hc i).2.2, gaiaSetPointXYZ_getD, hlen]
      split_ifs <;> first | rfl | (exfalso; omega) |
        (have e : i = iv := by omega
         subst e; rfl)

/-- The vertices of a fresh buffer of `n` vertices, of model XY or XYZ,
filled by the copy loop. -/
theorem gaiaCopyCoords_fresh_carries (sd : Int) (src : List R) (d : Int)
    (hd : d = GAIA_XY ∨ d = GAIA_XY_Z) (n i : Nat) (hi : i < n) :
    coordTuple d (gaiaCopyCoords.loop sd src d n 0
        (List.replicate (n * (if d = GAIA_XY_Z then 3 else 2)) 0)) i =
      carriedTuple d (vertexXYZ sd src i) := by
  rcases hd with rfl | rfl
  · have e1 : ¬ GAIA_XY = GAIA_XY_Z := by decide
    have e2 : ¬ GAIA_XY = GAIA_XY_M := by decide
    have e3 : ¬ GAIA_XY = GAIA_XY_Z_M := by decide
    obtain ⟨-, hc⟩ := gaiaCopyCoords_loop_to_xy sd src n 0 (List.replicate (n * 2) 0)
    simp only [coordTuple, carriedTuple, e1, e2, e3, if_false, gaiaGetPoint, (hc i).1, (hc i).2,
      List.length_replicate]
    have c1 : 0 ≤ i ∧ i < 0 + n ∧ i * 2 < n * 2 := by omega
    have c2 : 0 ≤ i ∧ i < 0 + n ∧ i * 2 + 1 < n * 2 := by omega
    rw [if_pos c1, if_pos c2]
  · obtain ⟨-, hc⟩ := gaiaCopyCoords_loop_to_xyz sd src n 0 (List.replicate (n * 3) 0)
    simp only [coordTuple, carriedTuple, if_true, gaiaGetPointXYZ, (hc i).1, (hc i).2.1,
      (hc i).2.2, List.length_replicate]
    have c1 : 0 ≤ i ∧ i < 0 + n ∧ i * 3 < n * 3 := by omega
    have c2 : 0 ≤ i ∧ i < 0 + n ∧ i * 3 + 1 < n * 3 := by omega
    have c3 : 0 ≤ i ∧ i < 0 + n ∧ i * 3 + 2 < n * 3 := by omega
    rw [if_pos c1, if_pos c2, if_pos c3]

/-- The ring copy made into a fresh ring of model XY or XYZ, whatever the
model of the source. -/
theorem gaiaCopyRingCoords_ringCarries (d : Int) (hd : d = GAIA_XY ∨ d = GAIA_XY_Z)
    (src : gaiaRing R) :
    ringCarries d (gaiaCopyRingCoords (gaiaAllocRingByModel d src.Points) src) src := by
  have hfresh : (gaiaAllocRingByModel d src.Points : gaiaRing R) =
      ⟨src.Points, List.replicate (src.Points * (if d = GAIA_XY_Z then 3 else 2)) 0, d⟩ := by
    rcases hd with rfl | rfl <;> rfl
  rw [hfresh]
  simp only [gaiaCopyRingCoords, ne_eq, not_true_eq_false, if_false]
  exact ⟨rfl, fun i hi => gaiaCopyCoords_fresh_carries _ _ d hd _ i hi⟩

/-- The linestring copy made into a fresh linestring of a geometry of model
XY or XYZ, whatever the model of the source. -/
theorem gaiaCopyLinestringCoords_linestringCarries (a : gaiaGeomColl R)
    (hd : a.DimensionModel = GAIA_XY ∨ a.DimensionModel = GAIA_XY_Z)
    (src : gaiaLinestring R) :
    linestringCarries a.DimensionModel
      (gaiaCopyLinestringCoords (gaiaAddLinestringToGeomColl.alloc a src.Points) src) src := by
  have hfresh : (gaiaAddLinestringToGeomColl.alloc a src.Points : gaiaLinestring R) =
      ⟨src.Points, List.replicate
        (src.Points * (if a.DimensionModel = GAIA_XY_Z then 3 else 2)) 0, a.DimensionModel⟩ := by
    unfold gaiaAddLinestringToGeomColl.alloc
    rcases hd with h | h <;> rw [h] <;> rfl
  rw [hfresh]
  simp only [gaiaCopyLinestringCoords, ne_eq, not_true_eq_false, if_false]
  exact ⟨rfl, fun i hi => gaiaCopyCoords_fresh_carries _ _ _ hd _ i hi⟩

/-! ### What the merging loops copy -/

theorem gml_validate_geometry_points_content (l : List (gaiaPoint R)) :
    ∀ geom : gaiaGeomColl R,
      (gml_validate_geometry.points l geom).FirstPoint =
        geom.FirstPoint ++ l.map (fun p => gaiaAllocPoint p.X p.Y) ∧
      (gml_validate_geometry.points l geom).FirstLinestring = geom.FirstLinestring ∧
      (gml_validate_geometry.points l geom).FirstPolygon = geom.FirstPolygon := by
  induction l with
  | nil => intro geom; simp [gml_validate_geometry.points]
  | cons p l ih =>
    intro geom
    simp only [gml_validate_geometry.points, ih, gaiaAddPointToGeomColl, List.map_cons,
      List.append_assoc, List.singleton_append, and_self]

theorem gml_validate_geometry_pointsXYZ_content (l : List (gaiaPoint R)) :
    ∀ geom : gaiaGeomColl R,
      (gml_validate_geometry.pointsXYZ l geom).FirstPoint =
        geom.FirstPoint ++ l.map (fun p => gaiaAllocPointXYZ p.X p.Y p.Z) ∧
      (gml_validate_geometry.pointsXYZ l geom).FirstLinestring = geom.FirstLinestring ∧
      (gml_validate_geometry.pointsXYZ l geom).FirstPolygon = geom.FirstPolygon := by
  induction l with
  | nil => intro geom; simp [gml_validate_geometry.pointsXYZ]
  | cons p l ih =>
    intro geom
    simp only [gml_validate_geometry.pointsXYZ, ih, gaiaAddPointToGeomCollXYZ, List.map_cons,
      List.append_assoc, List.singleton_append, and_self]

theorem gml_validate_geometry_linestrings_eq (l : List (gaiaLinestring R)) :
    ∀ geom : gaiaGeomColl R,
      gml_validate_geometry.linestrings l geom = ewkt_multilinestring.loop l geom := by
  induction l with
  | nil => intro geom; rfl
  | cons p l ih => intro geom; simp only [gml_validate_geometry.linestrings, ewkt_multilinestring.loop, ih]

theorem gml_validate_geometry_linestrings_content (l : List (gaiaLinestring R))
    (geom : gaiaGeomColl R)
    (hd : geom.DimensionModel = GAIA_XY ∨ geom.DimensionModel = GAIA_XY_Z) :
    (∃ news, (gml_validate_geometry.linestrings l geom).FirstLinestring =
        geom.FirstLinestring ++ news ∧
      List.Forall₂ (linestringCarries geom.DimensionModel) news l) ∧
    (gml_validate_geometry.linestrings l geom).FirstPoint = geom.FirstPoint ∧
    (gml_validate_geometry.linestrings l geom).FirstPolygon = geom.FirstPolygon := by
  rw [gml_validate_geometry_linestrings_eq]
  obtain ⟨h1, h2, h3⟩ := ewkt_multilinestring_loop_lines l geom
  refine ⟨⟨_, h1, ?_⟩, h2, h3⟩
  rw [List.forall₂_map_left_iff, List.forall₂_same]
  intro ln _
  exact gaiaCopyLinestringCoords_linestringCarries geom hd ln

theorem gml_validate_geometry_interiors_eq (pg : gaiaPolygon R) (n : Nat) :
    ∀ (ib : Nat) (save_pg : gaiaPolygon R),
      gml_validate_geometry.interiors pg n ib save_pg =
        ewkt_multipolygon.interiors pg n ib save_pg := by
  induction n with
  | zero => intro ib save_pg; rfl
  | succ n ih =>
    intro ib save_pg
    simp only [gml_validate_geometry.interiors, ewkt_multipolygon.interiors, ih]

/-- The copy of one polygon made by `gml_validate_geometry`. -/
theorem gml_validate_geometry_polygon_content (pg : gaiaPolygon R) (geom : gaiaGeomColl R)
    (hd : geom.DimensionModel = GAIA_XY ∨ geom.DimensionModel = GAIA_XY_Z) :
    ∃ new, gml_validate_geometry.polygon pg geom = gaiaAddPolygonToGeomColl.link geom new ∧
      polygonCarries geom.DimensionModel new pg := by
  have hdm : isDimensionModel geom.DimensionModel := by
    rcases hd with h | h
    · exact Or.inl h
    · exact Or.inr (Or.inl h)
  refine ⟨_, rfl, ?_⟩
  rw [gml_validate_geometry_interiors_eq, gaiaAddPolygonToGeomColl_alloc_eq geom hdm]
  have hn : (⟨gaiaCopyRingCoords (gaiaAllocRingByModel geom.DimensionModel pg.Exterior.Points)
      pg.Exterior, List.replicate pg.NumInteriors ⟨0, [], GAIA_XY⟩, 0,
      geom.DimensionModel⟩ : gaiaPolygon R).Interiors.length = pg.Interiors.length := by
    simp [gaiaPolygon.NumInteriors]
  have hm := ewkt_multipolygon_interiors_map pg _ hn
  have hs := ewkt_multipolygon_interiors_spec pg pg.NumInteriors 0
    ⟨gaiaCopyRingCoords (gaiaAllocRingByModel geom.DimensionModel pg.Exterior.Points)
      pg.Exterior, List.replicate pg.NumInteriors ⟨0, [], GAIA_XY⟩, 0, geom.DimensionModel⟩
  have hni : (⟨gaiaCopyRingCoords (gaiaAllocRingByModel geom.DimensionModel pg.Exterior.Points)
      pg.Exterior, List.replicate pg.NumInteriors ⟨0, [], GAIA_XY⟩, 0,
      geom.DimensionModel⟩ : gaiaPolygon R).NumInteriors = pg.NumInteriors := by
    simp [gaiaPolygon.NumInteriors]
  rw [hni] at hm
  refine ⟨?_, ?_, ?_⟩
  · rw [hs.2.1]
    exact gaiaCopyRingCoords_ringCarries _ hd _
  · simp only [gaiaPolygon.NumInteriors] at hm ⊢
    rw [hm, List.length_map]
  · rw [hm, List.forall₂_map_left_iff, List.forall₂_same]
    intro r _
    exact gaiaCopyRingCoords_ringCarries _ hd _

theorem gml_validate_geometry_polygons_content (l : List (gaiaPolygon R)) :
    ∀ geom : gaiaGeomColl R,
      (geom.DimensionModel = GAIA_XY ∨ geom.DimensionModel = GAIA_XY_Z) →
      (∃ news, (gml_validate_geometry.polygons l geom).FirstPolygon =
          geom.FirstPolygon ++ news ∧
        List.Forall₂ (polygonCarries geom.DimensionModel) news l) ∧
      (gml_validate_geometry.polygons l geom).FirstPoint = geom.FirstPoint ∧
      (gml_validate_geometry.polygons l geom).FirstLinestring = geom.FirstLinestring := by
  induction l with
  | nil => intro geom _; exact ⟨⟨[], by simp [gml_validate_geometry.polygons], List.Forall₂.nil⟩, rfl, rfl⟩
  | cons pg l ih =>
    intro geom hd
    obtain ⟨new, hnew, hc⟩ := gml_validate_geometry_polygon_content pg geom hd
    simp only [gml_validate_geometry.polygons, hnew]
    obtain ⟨⟨news, h1, h2⟩, h3, h4⟩ := ih (gaiaAddPolygonToGeomColl.link geom new) hd
    refine ⟨⟨new :: news, ?_, List.Forall₂.cons hc h2⟩, h3, h4⟩
    rw [h1]; simp [gaiaAddPolygonToGeomColl.link]

theorem gmlTargetSrid_cons (g : gaiaGeomColl R) (next : List (gaiaGeomColl R)) :
    gmlTargetSrid (g :: next) = if g.Srid ≠ -1 then g.Srid else gmlTargetSrid next := by
  by_cases h : g.Srid = -1 <;> simp [gmlTargetSrid, List.find?_cons, h]

/-- Without database, or when the projection parameters of one of the two
SRIDs are the empty string, the member is merged as it is. -/
theorem gml_validate_geometry_reproject_none {S : Type} (sqlite_handle : Option S)
    (gml_proj_params : S → Int → List Char)
    (gaiaTransform : gaiaGeomColl R → List Char → List Char → Option (gaiaGeomColl R))
    (geom g : gaiaGeomColl R)
    (h : ∀ s, sqlite_handle = some s → g.Srid ≠ geom.Srid → g.Srid ≠ -1 →
      gml_proj_params s g.Srid = [] ∨ gml_proj_params s geom.Srid = []) :
    gml_validate_geometry.reproject sqlite_handle gml_proj_params gaiaTransform geom g = g := by
  cases sqlite_handle with
  | none => rfl
  | some s =>
    simp only [gml_validate_geometry.reproject]
    by_cases hc : g.Srid ≠ geom.Srid ∧ g.Srid ≠ -1
    · rw [if_pos hc]
      have := h s rfl hc.1 hc.2
      rw [if_pos (Or.symm this)]
    · rw [if_neg hc]

/-- One member merged by the body of the merging loops. -/
theorem gml_validate_geometry_member_content (pts lns pgs xyz : Bool) (g geom : gaiaGeomColl R)
    (hd : geom.DimensionModel = GAIA_XY ∨ geom.DimensionModel = GAIA_XY_Z)
    (hx : xyz = true ↔ geom.DimensionModel = GAIA_XY_Z) :
    ∃ np nl ng,
      (if pgs then gml_validate_geometry.polygons g.FirstPolygon
          (if lns then gml_validate_geometry.linestrings g.FirstLinestring
            (if pts then
              if xyz then gml_validate_geometry.pointsXYZ g.FirstPoint geom
              else gml_validate_geometry.points g.FirstPoint geom
            else geom)
          else (if pts then
              if xyz then gml_validate_geometry.pointsXYZ g.FirstPoint geom
              else gml_validate_geometry.points g.FirstPoint geom
            else geom))
        else (if lns then gml_validate_geometry.linestrings g.FirstLinestring
            (if pts then
              if xyz then gml_validate_geometry.pointsXYZ g.FirstPoint geom
              else gml_validate_geometry.points g.FirstPoint geom
            else geom)
          else (if pts then
              if xyz then gml_validate_geometry.pointsXYZ g.FirstPoint geom
              else gml_validate_geometry.points g.FirstPoint geom
            else geom))) =
        ({ geom with FirstPoint := geom.FirstPoint ++ np,
                     FirstLinestring := geom.FirstLinestring ++ nl,
                     FirstPolygon := geom.FirstPolygon ++ ng } : gaiaGeomColl R) ∧
      List.Forall₂ (pointCarries geom.DimensionModel) np (if pts then g.FirstPoint else []) ∧
      List.Forall₂ (linestringCarries geom.DimensionModel) nl
        (if lns then g.FirstLinestring else []) ∧
      List.Forall₂ (polygonCarries geom.DimensionModel) ng
        (if pgs then g.FirstPolygon else []) := by
  -- the points
  have hA : ∃ np, (if pts then
        if xyz then gml_validate_geometry.pointsXYZ g.FirstPoint geom
        else gml_validate_geometry.points g.FirstPoint geom
      else geom) = ({ geom with FirstPoint := geom.FirstPoint ++ np } : gaiaGeomColl R) ∧
      List.Forall₂ (pointCarries geom.DimensionModel) np (if pts then g.FirstPoint else []) := by
    cases pts with
    | false => exact ⟨[], by simp, by simp⟩
    | true =>
      simp only [if_true]
      cases xyz with
      | false =>
        have hm : geom.DimensionModel = GAIA_XY := by
          rcases hd with h | h
          · exact h
          · exact absurd (hx.2 h) (by simp)
        refine ⟨g.FirstPoint.map (fun p => gaiaAllocPoint p.X p.Y), ?_, ?_⟩
        · obtain ⟨a, b, c⟩ := gml_validate_geometry_points_content g.FirstPoint geom
          obtain ⟨d, e, f⟩ := gml_validate_geometry_points_frame g.FirstPoint geom
          simp only [Bool.false_eq_true, if_false]
          have m := gml_validate_geometry_points_mbr g.FirstPoint geom
          generalize gml_validate_geometry.points g.FirstPoint geom = r at a b c d e f m
          cases r; cases geom; simp_all
        · rw [List.forall₂_map_left_iff, List.forall₂_same]
          intro p _
          have e1 : ¬ GAIA_XY = GAIA_XY_Z := by decide
          simp [pointCarries, carriedTuple, hm, e1, gaiaAllocPoint]
      | true =>
        have hm : geom.DimensionModel = GAIA_XY_Z := hx.1 rfl
        refine ⟨g.FirstPoint.map (fun p => gaiaAllocPointXYZ p.X p.Y p.Z), ?_, ?_⟩
        · obtain ⟨a, b, c⟩ := gml_validate_geometry_pointsXYZ_content g.FirstPoint geom
          obtain ⟨d, e, f⟩ := gml_validate_geometry_pointsXYZ_frame g.FirstPoint geom
          simp only [if_true]
          have m := gml_validate_geometry_pointsXYZ_mbr g.FirstPoint geom
          generalize gml_validate_geometry.pointsXYZ g.FirstPoint geom = r at a b c d e f m
          cases r; cases geom; simp_all
        · rw [List.forall₂_map_left_iff, List.forall₂_same]
          intro p _
          simp [pointCarries, carriedTuple, hm, gaiaAllocPointXYZ]
  obtain ⟨np, hA1, hA2⟩ := hA
  rw [hA1]
  -- the linestrings
  have hB : ∃ nl, (if lns then gml_validate_geometry.linestrings g.FirstLinestring
        ({ geom with FirstPoint := geom.FirstPoint ++ np } : gaiaGeomColl R)
      else ({ geom with FirstPoint := geom.FirstPoint ++ np } : gaiaGeomColl R)) =
      ({ geom with FirstPoint := geom.FirstPoint ++ np,
                   FirstLinestring := geom.FirstLinestring ++ nl } : gaiaGeomColl R) ∧
      List.Forall₂ (linestringCarries geom.DimensionModel) nl
        (if lns then g.FirstLinestring else []) := by
    cases lns with
    | false => exact ⟨[], by simp, by simp⟩
    | true =>
      simp only [if_true]
      obtain ⟨⟨nl, a, b⟩, c, d⟩ := gml_validate_geometry_linestrings_content g.FirstLinestring
        ({ geom with FirstPoint := geom.FirstPoint ++ np } : gaiaGeomColl R) hd
      obtain ⟨e, f, k⟩ := gml_validate_geometry_linestrings_frame g.FirstLinestring
        ({ geom with FirstPoint := geom.FirstPoint ++ np } : gaiaGeomColl R)
      refine ⟨nl, ?_, b⟩
      have m := gml_validate_geometry_linestrings_mbr g.FirstLinestring
        ({ geom with FirstPoint := geom.FirstPoint ++ np } : gaiaGeomColl R)
      generalize gml_validate_geometry.linestrings g.FirstLinestring
        ({ geom with FirstPoint := geom.FirstPoint ++ np } : gaiaGeomColl R) = r at a c d e f k m
      cases r; cases geom; simp_all
  obtain ⟨nl, hB1, hB2⟩ := hB
  rw [hB1]
  have hC : ∃ ng, (if pgs then gml_validate_geometry.polygons g.FirstPolygon
        ({ geom with FirstPoint := geom.FirstPoint ++ np,
                     FirstLinestring := geom.FirstLinestring ++ nl } : gaiaGeomColl R)
      else ({ geom with FirstPoint := geom.FirstPoint ++ np,
                        FirstLinestring := geom.FirstLinestring ++ nl } : gaiaGeomColl R)) =
      ({ geom with FirstPoint := geom.FirstPoint ++ np,
                   FirstLinestring := geom.FirstLinestring ++ nl,
                   FirstPolygon := geom.FirstPolygon ++ ng } : gaiaGeomColl R) ∧
      List.Forall₂ (polygonCarries geom.DimensionModel) ng
        (if pgs then g.FirstPolygon else []) := by
    cases pgs with
    | false => exact ⟨[], by simp, by simp⟩
    | true =>
      simp only [if_true]
      obtain ⟨⟨ng, a, b⟩, c, d⟩ := gml_validate_geometry_polygons_content g.FirstPolygon
        ({ geom with FirstPoint := geom.FirstPoint ++ np,
                     FirstLinestring := geom.FirstLinestring ++ nl } : gaiaGeomColl R) hd
      obtain ⟨e, f, k⟩ := gml_validate_geometry_polygons_frame g.FirstPolygon
        ({ geom with FirstPoint := geom.FirstPoint ++ np,
                     FirstLinestring := geom.FirstLinestring ++ nl } : gaiaGeomColl R)
      refine ⟨ng, ?_, b⟩
      have m := gml_validate_geometry_polygons_mbr g.FirstPolygon
        ({ geom with FirstPoint := geom.FirstPoint ++ np,
                     FirstLinestring := geom.FirstLinestring ++ nl } : gaiaGeomColl R)
      generalize gml_validate_geometry.polygons g.FirstPolygon
        ({ geom with FirstPoint := geom.FirstPoint ++ np,
                     FirstLinestring := geom.FirstLinestring ++ nl } : gaiaGeomColl R) = r
        at a c d e f k m
      cases r; cases geom; simp_all
  obtain ⟨ng, hC1, hC2⟩ := hC
  exact ⟨np, nl, ng, hC1, hA2, hB2, hC2⟩

/-- What the merging loops of `gml_validate_geometry` add to the geometry when
no member is reprojected: the points, linestrings and polygons of the chain,
in chain order. -/
theorem gml_validate_geometry_merge_content {S : Type} (sqlite_handle : Option S)
    (gml_proj_params : S → Int → List Char)
    (gaiaTransform : gaiaGeomColl R → List Char → List Char → Option (gaiaGeomColl R))
    (pts lns pgs xyz : Bool) (chain : List (gaiaGeomColl R)) :
    ∀ geom : gaiaGeomColl R,
      (geom.DimensionModel = GAIA_XY ∨ geom.DimensionModel = GAIA_XY_Z) →
      (xyz = true ↔ geom.DimensionModel = GAIA_XY_Z) →
      (∀ s, sqlite_handle = some s → ∀ m ∈ chain,
        gml_proj_params s m.Srid = [] ∨
        gml_proj_params s (if geom.Srid ≠ -1 then geom.Srid else gmlTargetSrid chain) = []) →
      ∃ np nl ng,
        (gml_validate_geometry.merge sqlite_handle gml_proj_params gaiaTransform pts lns pgs xyz
          chain geom).FirstPoint = geom.FirstPoint ++ np ∧
        (gml_validate_geometry.merge sqlite_handle gml_proj_params gaiaTransform pts lns pgs xyz
          chain geom).FirstLinestring = geom.FirstLinestring ++ nl ∧
        (gml_validate_geometry.merge sqlite_handle gml_proj_params gaiaTransform pts lns pgs xyz
          chain geom).FirstPolygon = geom.FirstPolygon ++ ng ∧
        List.Forall₂ (pointCarries geom.DimensionModel) np
          (if pts then chainPoints chain else []) ∧
        List.Forall₂ (linestringCarries geom.DimensionModel) nl
          (if lns then chainLinestrings chain else []) ∧
        List.Forall₂ (polygonCarries geom.DimensionModel) ng
          (if pgs then chainPolygons chain else []) := by
  induction chain with
  | nil =>
    intro geom _ _ _
    refine ⟨[], [], [], by simp [gml_validate_geometry.merge],
      by simp [gml_validate_geometry.merge], by simp [gml_validate_geometry.merge], ?_, ?_, ?_⟩ <;>
    · cases pts <;> cases lns <;> cases pgs <;>
        simp [chainPoints, chainLinestrings, chainPolygons]
  | cons g next ih =>
    intro geom hd hx hno
    -- the SRID taken from the first member that has one
    have hsrid : ∀ geom1 : gaiaGeomColl R,
        geom1 = (if geom.Srid = -1 then { geom with Srid := g.Srid } else geom) →
        geom1.DimensionModel = geom.DimensionModel ∧ geom1.FirstPoint = geom.FirstPoint ∧
        geom1.FirstLinestring = geom.FirstLinestring ∧
        geom1.FirstPolygon = geom.FirstPolygon ∧
        (if geom1.Srid ≠ -1 then geom1.Srid else gmlTargetSrid next) =
          (if geom.Srid ≠ -1 then geom.Srid else gmlTargetSrid (g :: next)) ∧
        (g.Srid ≠ geom1.Srid → g.Srid ≠ -1 →
          geom1.Srid = (if geom.Srid ≠ -1 then geom.Srid else gmlTargetSrid (g :: next))) := by
      intro geom1 h1
      by_cases hs : geom.Srid = -1
      · rw [if_pos hs] at h1
        subst h1
        refine ⟨rfl, rfl, rfl, rfl, ?_, ?_⟩
        · simp only [hs, ne_eq, not_true_eq_false, if_false, gmlTargetSrid_cons]
        · intro h _; exact absurd rfl h
      · rw [if_neg hs] at h1
        subst h1
        refine ⟨rfl, rfl, rfl, rfl, ?_, ?_⟩
        · simp only [ne_eq, hs, not_false_eq_true, if_true]
        · intro _ _; simp only [ne_eq, hs, not_false_eq_true, if_true]
    simp only [gml_validate_geometry.merge]
    generalize hg1 : (if geom.Srid = -1 then ({ geom with Srid := g.Srid } : gaiaGeomColl R)
      else geom) = geom1
    obtain ⟨k1, k2, k3, k4, k5, k6⟩ := hsrid geom1 hg1.symm
    have hrep : gml_validate_geometry.reproject sqlite_handle gml_proj_params gaiaTransform
        geom1 g = g := by
      apply gml_validate_geometry_reproject_none
      intro s hs h1 h2
      have := hno s hs g (List.mem_cons_self _ _)
      rw [← k6 h1 h2] at this
      exact this
    rw [hrep]
    have hd1 : geom1.DimensionModel = GAIA_XY ∨ geom1.DimensionModel = GAIA_XY_Z := by
      rw [k1]; exact hd
    have hx1 : xyz = true ↔ geom1.DimensionModel = GAIA_XY_Z := by rw [k1]; exact hx
    obtain ⟨np, nl, ng, hstep, hp, hl, hgp⟩ :=
      gml_validate_geometry_member_content pts lns pgs xyz g geom1 hd1 hx1
    rw [hstep]
    obtain ⟨np2, nl2, ng2, e1, e2, e3, f1, f2, f3⟩ := ih
      ({ geom1 with FirstPoint := geom1.FirstPoint ++ np,
                    FirstLinestring := geom1.FirstLinestring ++ nl,
                    FirstPolygon := geom1.FirstPolygon ++ ng } : gaiaGeomColl R) hd1 hx1
      (by
        intro s hs m hm
        have := hno s hs m (List.mem_cons_of_mem _ hm)
        rw [← k5] at this
        exact this)
    refine ⟨np ++ np2, nl ++ nl2, ng ++ ng2, ?_, ?_, ?_, ?_, ?_, ?_⟩
    · rw [e1, k2, List.append_assoc]
    · rw [e2, k3, List.append_assoc]
    · rw [e3, k4, List.append_assoc]
    · rw [k1] at hp f1
      have := List.rel_append hp f1
      cases pts
      · simpa using this
      · simpa [chainPoints_cons] using this
    · rw [k1] at hl f2
      have := List.rel_append hl f2
      cases lns
      · simpa using this
      · simpa [chainLinestrings_cons] using this
    · rw [k1] at hgp f3
      have := List.rel_append hgp f3
      cases pgs
      · simpa using this
      · simpa [chainPolygons_cons] using this

theorem gml_single_of_last {α : Type} (l : List α) (a : α) (h1 : l.length = 1)
    (h2 : l.getLast? = some a) : l = [a] := by
  match l, h1 with
  | [b], _ => simp at h2; rw [h2]

/-- The primitives of the geometry returned by `gml_validate_geometry` when no
member is reprojected. -/
theorem gml_validate_geometry_content {S : Type} (sqlite_handle : Option S)
    (gml_proj_params : S → Int → List Char)
    (gaiaTransform : gaiaGeomColl R → List Char → List Char → Option (gaiaGeomColl R))
    (head : gaiaGeomColl R) (rest : List (gaiaGeomColl R))
    (hno : ∀ s, sqlite_handle = some s → ∀ m ∈ head :: rest,
      gml_proj_params s m.Srid = [] ∨
      gml_proj_params s (gmlTargetSrid (head :: rest)) = [])
    (g : gaiaGeomColl R)
    (h : gml_validate_geometry sqlite_handle gml_proj_params gaiaTransform (head :: rest) =
      some g) :
    List.Forall₂ (pointCarries g.DimensionModel) g.FirstPoint (chainPoints (head :: rest)) ∧
    List.Forall₂ (linestringCarries g.DimensionModel) g.FirstLinestring
      (chainLinestrings (head :: rest)) ∧
    List.Forall₂ (polygonCarries g.DimensionModel) g.FirstPolygon
      (chainPolygons (head :: rest)) := by
  have hcount := gml_validate_geometry_count_chain head rest
  unfold gml_validate_geometry at h
  rw [hcount] at h
  simp only [] at h
  have e1 : ¬ GAIA_XY = GAIA_XY_Z := by decide
  -- the geometry allocated by every branch
  have halloc : ∀ declared : Int,
      ((gml_validate_geometry.alloc
        (rest.countP (fun g => decide (g.DimensionModel = GAIA_XY))) head.Srid declared :
          gaiaGeomColl R).DimensionModel = GAIA_XY ∨
       (gml_validate_geometry.alloc
        (rest.countP (fun g => decide (g.DimensionModel = GAIA_XY))) head.Srid declared :
          gaiaGeomColl R).DimensionModel = GAIA_XY_Z) ∧
      (decide (¬ rest.countP (fun g => decide (g.DimensionModel = GAIA_XY)) > 0) = true ↔
        (gml_validate_geometry.alloc
          (rest.countP (fun g => decide (g.DimensionModel = GAIA_XY))) head.Srid declared :
            gaiaGeomColl R).DimensionModel = GAIA_XY_Z) := by
    intro declared
    rw [(gml_validate_geometry_alloc_frame _ _ _).1]
    by_cases hxy : rest.countP (fun g => decide (g.DimensionModel = GAIA_XY)) > 0
    · simp [hxy, e1]
    · simp [hxy]
  -- the hypothesis on the projection parameters, as the merging loops need it
  have hno2 : ∀ declared : Int, ∀ s, sqlite_handle = some s → ∀ m ∈ head :: rest,
      gml_proj_params s m.Srid = [] ∨
      gml_proj_params s
        (if (gml_validate_geometry.alloc
            (rest.countP (fun g => decide (g.DimensionModel = GAIA_XY))) head.Srid declared :
              gaiaGeomColl R).Srid ≠ -1
         then (gml_validate_geometry.alloc
            (rest.countP (fun g => decide (g.DimensionModel = GAIA_XY))) head.Srid declared :
              gaiaGeomColl R).Srid
         else gmlTargetSrid (head :: rest)) = [] := by
    intro declared s hs m hm
    have := hno s hs m hm
    rw [(gml_validate_geometry_alloc_frame _ _ _).2.2.1]
    by_cases hh : head.Srid = -1
    · simpa [hh] using this
    · rw [gmlTargetSrid_cons, if_pos hh] at this
      simpa [hh] using this
  -- what the merging loops give
  have hmerge : ∀ (pts lns pgs : Bool) (declared : Int),
      (pts = false → chainPoints (head :: rest) = []) →
      (lns = false → chainLinestrings (head :: rest) = []) →
      (pgs = false → chainPolygons (head :: rest) = []) →
      g = gml_validate_geometry.merge sqlite_handle gml_proj_params gaiaTransform pts lns pgs
        (decide (¬ rest.countP (fun g => decide (g.DimensionModel = GAIA_XY)) > 0))
        (head :: rest)
        (gml_validate_geometry.alloc
          (rest.countP (fun g => decide (g.DimensionModel = GAIA_XY))) head.Srid declared) →
      List.Forall₂ (pointCarries g.DimensionModel) g.FirstPoint (chainPoints (head :: rest)) ∧
      List.Forall₂ (linestringCarries g.DimensionModel) g.FirstLinestring
        (chainLinestrings (head :: rest)) ∧
      List.Forall₂ (polygonCarries g.DimensionModel) g.FirstPolygon
        (chainPolygons (head :: rest)) := by
    intro pts lns pgs declared hp hl hg hgeq
    obtain ⟨np, nl, ng, a1, a2, a3, b1, b2, b3⟩ :=
      gml_validate_geometry_merge_content sqlite_handle gml_proj_params gaiaTransform
        pts lns pgs _ (head :: rest) _ (halloc declared).1 (halloc declared).2 (hno2 declared)
    have hdm := (gml_validate_geometry_merge_frame sqlite_handle gml_proj_params gaiaTransform
      pts lns pgs (decide (¬ rest.countP (fun g => decide (g.DimensionModel = GAIA_XY)) > 0))
      (head :: rest) (gml_validate_geometry.alloc
          (rest.countP (fun g => decide (g.DimensionModel = GAIA_XY))) head.Srid declared)).1
    rw [← hgeq] at a1 a2 a3 hdm
    rw [(gml_validate_geometry_alloc_frame _ _ _).2.2.2.1] at a1
    rw [(gml_validate_geometry_alloc_frame _ _ _).2.2.2.2.1] at a2
    rw [(gml_validate_geometry_alloc_frame _ _ _).2.2.2.2.2] at a3
    rw [← hdm] at b1 b2 b3
    rw [a1, a2, a3]
    refine ⟨?_, ?_, ?_⟩
    · cases pts
      · rw [hp rfl]; simpa using b1
      · simpa using b1
    · cases lns
      · rw [hl rfl]; simpa using b2
      · simpa using b2
    · cases pgs
      · rw [hg rfl]; simpa using b3
      · simpa using b3
  generalize hP : (chainPoints (head :: rest)).length = P at h
  generalize hL : (chainLinestrings (head :: rest)).length = L at h
  generalize hG : (chainPolygons (head :: rest)).length = G at h
  have zP : P = 0 → chainPoints (head :: rest) = [] := fun z =>
    List.length_eq_zero.1 (hP.trans z)
  have zL : L = 0 → chainLinestrings (head :: rest) = [] := fun z =>
    List.length_eq_zero.1 (hL.trans z)
  have zG : G = 0 → chainPolygons (head :: rest) = [] := fun z =>
    List.length_eq_zero.1 (hG.trans z)
  by_cases h1 : P = 1 ∧ L = 0 ∧ G = 0
  · obtain ⟨sp, hsp⟩ := gml_last_of_length_pos (chainPoints (head :: rest)) (by omega)
    rw [if_pos h1, hsp] at h
    have hl1 := gml_single_of_last _ sp (hP.trans h1.1) hsp
    rw [hl1, zL h1.2.1, zG h1.2.2]
    by_cases hxy : rest.countP (fun g => decide (g.DimensionModel = GAIA_XY)) > 0
    · simp only [hxy, if_true, Option.some.injEq] at h
      subst h
      refine ⟨?_, ?_, ?_⟩
      · simp [gaiaAddPointToGeomColl, gml_validate_geometry.alloc, hxy, gaiaAllocGeomColl,
          pointCarries, carriedTuple, e1, gaiaAllocPoint]
      · simp [gaiaAddPointToGeomColl, gml_validate_geometry.alloc, hxy, gaiaAllocGeomColl]
      · simp [gaiaAddPointToGeomColl, gml_validate_geometry.alloc, hxy, gaiaAllocGeomColl]
    · simp only [hxy, if_false, Option.some.injEq] at h
      subst h
      refine ⟨?_, ?_, ?_⟩
      · simp [gaiaAddPointToGeomCollXYZ, gml_validate_geometry.alloc, hxy, gaiaAllocGeomCollXYZ,
          pointCarries, carriedTuple, gaiaAllocPointXYZ]
      · simp [gaiaAddPointToGeomCollXYZ, gml_validate_geometry.alloc, hxy, gaiaAllocGeomCollXYZ]
      · simp [gaiaAddPointToGeomCollXYZ, gml_validate_geometry.alloc, hxy, gaiaAllocGeomCollXYZ]
  rw [if_neg h1] at h
  by_cases h2 : P = 0 ∧ L = 1 ∧ G = 0
  · obtain ⟨sl, hsl⟩ := gml_last_of_length_pos (chainLinestrings (head :: rest)) (by omega)
    rw [if_pos h2, hsl] at h
    have hl1 := gml_single_of_last _ sl (hL.trans h2.2.1) hsl
    rw [hl1, zP h2.1, zG h2.2.2]
    simp only [Option.some.injEq] at h
    subst h
    have hc := gaiaCopyLinestringCoords_linestringCarries _ (halloc
      (if head.DeclaredType = GAIA_MULTILINESTRING then GAIA_MULTILINESTRING
        else if head.DeclaredType = GAIA_GEOMETRYCOLLECTION then GAIA_GEOMETRYCOLLECTION
        else GAIA_LINESTRING)).1 sl
    refine ⟨?_, ?_, ?_⟩
    · simp [gaiaAddLinestringToGeomColl.link, (gml_validate_geometry_alloc_frame _ _ _).2.2.2.1]
    · simp only [gaiaAddLinestringToGeomColl.link,
        (gml_validate_geometry_alloc_frame _ _ _).2.2.2.2.1, List.nil_append]
      exact List.Forall₂.cons hc List.Forall₂.nil
    · simp [gaiaAddLinestringToGeomColl.link,
        (gml_validate_geometry_alloc_frame _ _ _).2.2.2.2.2]
  rw [if_neg h2] at h
  by_cases h3 : P = 0 ∧ L = 0 ∧ G = 1
  · obtain ⟨sg, hsg⟩ := gml_last_of_length_pos (chainPolygons (head :: rest)) (by omega)
    rw [if_pos h3, hsg] at h
    have hl1 := gml_single_of_last _ sg (hG.trans h3.2.2) hsg
    rw [hl1, zP h3.1, zL h3.2.1]
    simp only [Option.some.injEq] at h
    subst h
    obtain ⟨new, hnew, hc⟩ := gml_validate_geometry_polygon_content sg _ (halloc
      (if head.DeclaredType = GAIA_MULTIPOLYGON then GAIA_MULTIPOLYGON
        else if head.DeclaredType = GAIA_GEOMETRYCOLLECTION then GAIA_GEOMETRYCOLLECTION
        else GAIA_POLYGON)).1
    rw [hnew]
    refine ⟨?_, ?_, ?_⟩
    · simp [gaiaAddPolygonToGeomColl.link, (gml_validate_geometry_alloc_frame _ _ _).2.2.2.1]
    · simp [gaiaAddPolygonToGeomColl.link,
        (gml_validate_geometry_alloc_frame _ _ _).2.2.2.2.1]
    · simp only [gaiaAddPolygonToGeomColl.link,
        (gml_validate_geometry_alloc_frame _ _ _).2.2.2.2.2, List.nil_append]
      exact List.Forall₂.cons hc List.Forall₂.nil
  rw [if_neg h3] at h
  by_cases h4 : P ≥ 1 ∧ L = 0 ∧ G = 0
  · rw [if_pos h4] at h
    simp only [Option.some.injEq] at h
    exact hmerge true false false _ (fun z => by simp at z) (fun _ => zL h4.2.1)
      (fun _ => zG h4.2.2) h.symm
  rw [if_neg h4] at h
  by_cases h5 : P = 0 ∧ L ≥ 1 ∧ G = 0
  · rw [if_pos h5] at h
    simp only [Option.some.injEq] at h
    exact hmerge false true false _ (fun _ => zP h5.1) (fun z => by simp at z)
      (fun _ => zG h5.2.2) h.symm
  rw [if_neg h5] at h
  by_cases h6 : P = 0 ∧ L = 0 ∧ G ≥ 1
  · rw [if_pos h6] at h
    simp only [Option.some.injEq] at h
    exact hmerge false false true _ (fun _ => zP h6.1) (fun _ => zL h6.2.1)
      (fun z => by simp at z) h.symm
  rw [if_neg h6] at h
  by_cases h7 : P + L + G > 0
  · rw [if_pos h7] at h
    simp only [Option.some.injEq] at h
    exact hmerge true true true _ (fun z => by simp at z) (fun z => by simp at z)
      (fun z => by simp at z) h.symm
  · rw [if_neg h7] at h
    simp at h

theorem gmlChainExtends_refl (geom : List (gaiaGeomColl R)) : gmlChainExtends geom geom :=
  ⟨[], by simp, by simp⟩

theorem gmlChainExtends_trans {a b c : List (gaiaGeomColl R)} (h1 : gmlChainExtends a b)
    (h2 : gmlChainExtends b c) : gmlChainExtends a c := by
  obtain ⟨e1, rfl, k1⟩ := h1
  obtain ⟨e2, rfl, k2⟩ := h2
  refine ⟨e1 ++ e2, by simp, ?_⟩
  intro m hm
  rcases List.mem_append.1 hm with h | h
  · exact k1 m h
  · exact k2 m h

theorem gml_parse_point_ok_extends (geom : List (gaiaGeomColl R)) (srid : Int) (x y z : R)
    (has_z : Int) : gmlChainExtends geom (gml_parse_point.ok geom srid x y z has_z) := by
  unfold gml_parse_point.ok
  split
  · refine ⟨[_], rfl, ?_⟩
    intro m hm
    rw [List.mem_singleton.1 hm]
    exact ⟨by simp [gaiaAddPointToGeomCollXYZ, gaiaAllocGeomCollXYZ],
      by simp [gaiaAddPointToGeomCollXYZ, gaiaAllocGeomCollXYZ]⟩
  · refine ⟨[_], rfl, ?_⟩
    intro m hm
    rw [List.mem_singleton.1 hm]
    exact ⟨by simp [gaiaAddPointToGeomColl, gaiaAllocGeomColl],
      by simp [gaiaAddPointToGeomColl, gaiaAllocGeomColl]⟩

theorem gml_parse_point_extends (atof : List Char → R) (geom : List (gaiaGeomColl R))
    (node : List gmlNode) (srid : Int) (chain : List (gaiaGeomColl R)) (next : List gmlNode)
    (h : gml_parse_point atof geom node srid = some (some (chain, next))) :
    gmlChainExtends geom chain := by
  unfold gml_parse_point at h
  repeat' split at h
  all_goals first
    | (simp at h; done)
    | (simp only [Option.some.injEq, Prod.mk.injEq] at h
       obtain ⟨rfl, -⟩ := h
       exact gml_parse_point_ok_extends _ _ _ _ _ _)

theorem gml_parse_linestring_ok_extends (geom : List (gaiaGeomColl R)) (srid : Int)
    (dyn : List (gaiaPoint R)) (has_z : Int) (chain : List (gaiaGeomColl R))
    (h : gml_parse_linestring.ok geom srid dyn has_z = some chain) :
    gmlChainExtends geom chain := by
  unfold gml_parse_linestring.ok at h
  simp only [gml_count_dyn_points] at h
  by_cases hp : dyn.length < 2
  · simp [hp] at h
  · rw [if_neg hp] at h
    by_cases hz : has_z ≠ 0
    · rw [if_pos hz] at h
      simp only [Option.some.injEq] at h
      subst h
      refine ⟨[_], rfl, ?_⟩
      intro m hm
      rw [List.mem_singleton.1 hm]
      refine ⟨?_, by simp [gaiaAddLinestringToGeomColl.link, gaiaAllocGeomCollXYZ]⟩
      intro ln hln
      simp only [gaiaAddLinestringToGeomColl.link, gaiaAllocGeomCollXYZ, List.nil_append,
        List.mem_singleton] at hln
      subst hln
      change dyn.length ≥ 2
      omega
    · rw [if_neg hz] at h
      simp only [Option.some.injEq] at h
      subst h
      refine ⟨[_], rfl, ?_⟩
      intro m hm
      rw [List.mem_singleton.1 hm]
      refine ⟨?_, by simp [gaiaAddLinestringToGeomColl.link, gaiaAllocGeomColl]⟩
      intro ln hln
      simp only [gaiaAddLinestringToGeomColl.link, gaiaAllocGeomColl, List.nil_append,
        List.mem_singleton] at hln
      subst hln
      change dyn.length ≥ 2
      omega

theorem gml_parse_linestring_extends (atof : List Char → R) (geom : List (gaiaGeomColl R))
    (node : List gmlNode) (srid : Int) (chain : List (gaiaGeomColl R)) (next : List gmlNode)
    (h : gml_parse_linestring atof geom node srid = some (some (chain, next))) :
    gmlChainExtends geom chain := by
  unfold gml_parse_linestring at h
  repeat' split at h
  all_goals first
    | (simp at h; done)
    | (simp only [Option.some.injEq, Prod.mk.injEq] at h
       obtain ⟨rfl, -⟩ := h
       exact gml_parse_linestring_ok_extends _ _ _ _ _ (by assumption))

theorem gml_parse_curve_extends (atof : List Char → R) (geom : List (gaiaGeomColl R))
    (node : List gmlNode) (srid : Int) (chain : List (gaiaGeomColl R)) (next : List gmlNode)
    (h : gml_parse_curve atof geom node srid = some (some (chain, next))) :
    gmlChainExtends geom chain := by
  unfold gml_parse_curve at h
  repeat' split at h
  all_goals first
    | (simp at h; done)
    | (simp only [Option.some.injEq, Prod.mk.injEq] at h
       obtain ⟨rfl, -⟩ := h
       exact gml_parse_linestring_ok_extends _ _ _ _ _ (by assumption))

/-- Every ring that the loop on rings of `gml_parse_polygon` collects has
passed the two checks: 4 points or more, and closed. -/
theorem gml_parse_polygon_rings_checked (atof : List Char → R) :
    ∀ (fuel : Nat) (node : List gmlNode) (dyn_pg : List (gmlDynamicRing R))
      (next_n : Option (List gmlNode)) (res : List (gmlDynamicRing R))
      (next2 : Option (List gmlNode)),
      gml_parse_polygon.rings atof fuel node dyn_pg next_n = some (some (res, next2)) →
      (∀ r ∈ dyn_pg, r.ring.length ≥ 4 ∧ gml_parse_polygon.closed r.ring r.has_z = true) →
      ∀ r ∈ res, r.ring.length ≥ 4 ∧ gml_parse_polygon.closed r.ring r.has_z = true := by
  intro fuel
  induction fuel with
  | zero =>
    intro node dyn_pg next_n res next2 h hinv
    cases node with
    | nil =>
      simp only [gml_parse_polygon.rings, Option.some.injEq, Prod.mk.injEq] at h
      rw [← h.1]; exact hinv
    | cons n rest => simp [gml_parse_polygon.rings] at h
  | succ fuel ih =>
    intro node dyn_pg next_n res next2 h hinv
    cases node with
    | nil =>
      simp only [gml_parse_polygon.rings, Option.some.injEq, Prod.mk.injEq] at h
      rw [← h.1]; exact hinv
    | cons n rest =>
      simp only [gml_parse_polygon.rings] at h
      by_cases ht : n.Tag = "gml:Polygon" ∨ n.Tag = "Polygon"
      · rw [if_pos ht] at h
        simp only [Option.some.injEq, Prod.mk.injEq] at h
        rw [← h.1]; exact hinv
      · rw [if_neg ht] at h
        cases hr : gml_parse_ring atof n rest with
        | none => rw [hr] at h; simp at h
        | some r1 =>
          cases r1 with
          | none => rw [hr] at h; simp at h
          | some t =>
            obtain ⟨dyn, interior, has_z, next⟩ := t
            rw [hr] at h
            simp only [gml_count_dyn_points] at h
            by_cases h4 : dyn.length < 4
            · simp [h4] at h
            · rw [if_neg h4] at h
              by_cases hc : gml_parse_polygon.closed dyn has_z = true
              · rw [if_pos hc] at h
                refine ih next _ next_n res next2 h ?_
                intro r hm
                simp only [gml_add_polygon_ring, List.mem_append, List.mem_singleton] at hm
                rcases hm with hm | rfl
                · exact hinv r hm
                · exact ⟨by simp only; omega, hc⟩
              · simp [hc] at h

/-- A ring built from the points of a closed dynamic ring is closed. -/
theorem gmlRingClosed_of_points (dim : Int) (hd : dim = GAIA_XY ∨ dim = GAIA_XY_Z)
    (ring : gaiaRing R) (pts : List (gaiaPoint R)) (has_z : Int)
    (hr : ringOfPoints dim ring pts) (h4 : pts.length ≥ 4)
    (hc : gml_parse_polygon.closed pts has_z = true) (hz : dim = GAIA_XY_Z → has_z ≠ 0) :
    gmlRingClosed ring := by
  obtain ⟨hm, hp, ht⟩ := hr
  have hne : pts ≠ [] := by intro h; rw [h] at h4; simp at h4
  obtain ⟨cx, cy, cz⟩ := (gml_parse_polygon_closed_iff pts has_z hne).1 hc
  have h0 : pts[0]? = some (pts[0]) := List.getElem?_eq_getElem (by omega)
  have hl : pts[pts.length - 1]? = some (pts[pts.length - 1]) :=
    List.getElem?_eq_getElem (by omega)
  have hhead : pts.head? = some (pts[0]) := by rw [List.head?_eq_getElem?]; exact h0
  have hlast : pts.getLast? = some (pts[pts.length - 1]) := by
    rw [List.getLast?_eq_getElem?]; exact hl
  rw [hhead, hlast] at cx cy cz
  simp only [Option.map_some', Option.some.injEq] at cx cy cz
  have t0 := ht 0 _ h0
  have tl := ht (pts.length - 1) _ hl
  refine ⟨by omega, ?_⟩
  rw [hm, hp]
  rcases hd with rfl | rfl
  · have e1 : ¬ GAIA_XY = GAIA_XY_Z := by decide
    have e2 : ¬ GAIA_XY = GAIA_XY_M := by decide
    have e3 : ¬ GAIA_XY = GAIA_XY_Z_M := by decide
    simp only [coordTuple, pointTuple, e1, e2, e3, if_false, List.cons.injEq, and_true] at t0 tl
    simp only [vertexXYZ, e1, e2, e3, if_false, Prod.mk.injEq, and_true]
    exact ⟨t0.1.trans (cx.trans tl.1.symm), t0.2.trans (cy.trans tl.2.symm)⟩
  · have hz0 := hz rfl
    have cz2 : (pts[0]).Z = (pts[pts.length - 1]).Z := by
      rcases cz with h | h
      · exact absurd h hz0
      · exact h
    simp only [coordTuple, pointTuple, if_true, List.cons.injEq, and_true] at t0 tl
    simp only [vertexXYZ, if_true, gaiaGetPointXYZ, Prod.mk.injEq]
    simp only [gaiaGetPointXYZ] at t0 tl
    exact ⟨t0.1.trans (cx.trans tl.1.symm), t0.2.1.trans (cy.trans tl.2.1.symm),
      t0.2.2.trans (cz2.trans tl.2.2.symm)⟩

theorem gml_parse_polygon_extends (atof : List Char → R) (geom : List (gaiaGeomColl R))
    (node : List gmlNode) (srid : Int) (next_n : Option (List gmlNode))
    (chain : List (gaiaGeomColl R)) (next2 : Option (List gmlNode))
    (h : gml_parse_polygon atof geom node srid next_n = some (some (chain, next2))) :
    gmlChainExtends geom chain := by
  unfold gml_parse_polygon at h
  cases hr : gml_parse_polygon.rings atof node.length node [] next_n with
  | none => rw [hr] at h; simp at h
  | some r1 =>
    cases r1 with
    | none => rw [hr] at h; simp at h
    | some t =>
      obtain ⟨dyn_pg, nn⟩ := t
      rw [hr] at h
      simp only [] at h
      have hchk := gml_parse_polygon_rings_checked atof node.length node [] next_n dyn_pg nn hr
        (by simp)
      cases hb : gml_parse_polygon.build geom srid dyn_pg with
      | none => rw [hb] at h; simp at h
      | some c =>
        rw [hb] at h
        simp only [Option.some.injEq, Prod.mk.injEq] at h
        obtain ⟨rfl, -⟩ := h
        have hlen : (dyn_pg.filter (fun r : gmlDynamicRing R => decide (r.interior = 0))).length
            = 1 := by
          by_contra hne
          rw [gml_parse_polygon_build_none geom srid dyn_pg hne] at hb
          exact absurd hb (by simp)
        obtain ⟨e, he⟩ := List.length_eq_one.1 hlen
        obtain ⟨pg, new_pg, k1, -, -, k4, k5, k6, k7, -, k9⟩ :=
          gml_parse_polygon_build_some geom srid dyn_pg e he
        rw [hb] at k1
        simp only [Option.some.injEq] at k1
        subst k1
        refine ⟨[pg], rfl, ?_⟩
        intro m hm
        rw [List.mem_singleton.1 hm]
        have hd : pg.DimensionModel = GAIA_XY ∨ pg.DimensionModel = GAIA_XY_Z := by
          rw [k6]; split
          · exact Or.inr rfl
          · exact Or.inl rfl
        have hz : ∀ d ∈ dyn_pg, pg.DimensionModel = GAIA_XY_Z → d.has_z ≠ 0 := by
          intro d hdm hxyz
          rw [k6] at hxyz
          by_cases hall : ∀ r ∈ dyn_pg, r.has_z ≠ 0
          · exact hall d hdm
          · rw [if_neg hall] at hxyz
            exact absurd hxyz (by decide)
        refine ⟨by rw [k4]; simp, ?_⟩
        intro q hq r hrm
        rw [k5, List.mem_singleton] at hq
        subst hq
        rcases List.mem_cons.1 hrm with rfl | hri
        · have hem : e ∈ dyn_pg := by
            have : e ∈ dyn_pg.filter (fun r : gmlDynamicRing R => decide (r.interior = 0)) := by
              rw [he]; exact List.mem_singleton_self _
            exact (List.mem_filter.1 this).1
          exact gmlRingClosed_of_points _ hd _ e.ring e.has_z k7 (hchk e hem).1 (hchk e hem).2
            (hz e hem)
        · obtain ⟨i, hi, rfl⟩ := List.getElem_of_mem hri
          have hlen2 := k9.length_eq
          have hrel := List.forall₂_iff_get.1 k9
          have hj : i < (dyn_pg.filter
              (fun r : gmlDynamicRing R => decide (r.interior ≠ 0))).length := by
            rw [← hlen2]; exact hi
          have hrp := hrel.2 i hi hj
          have hdm : (dyn_pg.filter
              (fun r : gmlDynamicRing R => decide (r.interior ≠ 0)))[i] ∈ dyn_pg :=
            (List.mem_filter.1 (List.getElem_mem hj)).1
          exact gmlRingClosed_of_points _ hd _ _ _ hrp (hchk _ hdm).1 (hchk _ hdm).2
            (hz _ hdm)

theorem gml_parse_multi_geometry_member_extends (atof : List Char → R)
    (geom : List (gaiaGeomColl R)) (n1 : gmlNode) (n : List gmlNode)
    (next : Option (List gmlNode)) (chain : List (gaiaGeomColl R))
    (next2 : Option (List gmlNode))
    (h : gml_parse_multi_geometry.member atof geom n1 n next = some (some (chain, next2))) :
    gmlChainExtends geom chain := by
  unfold gml_parse_multi_geometry.member at h
  repeat' split at h
  all_goals first
    | (simp at h; done)
    | exact gml_parse_polygon_extends _ _ _ _ _ _ _ h
    | (simp only [Option.some.injEq, Prod.mk.injEq] at h
       obtain ⟨rfl, -⟩ := h
       first
         | exact gml_parse_point_extends _ _ _ _ _ _ (by assumption)
         | exact gml_parse_linestring_extends _ _ _ _ _ _ (by assumption)
         | exact gml_parse_curve_extends _ _ _ _ _ _ (by assumption))

theorem gml_parse_multi_point_loop_extends (atof : List Char → R) :
    ∀ (fuel : Nat) (geom : List (gaiaGeomColl R)) (node : List gmlNode)
      (chain : List (gaiaGeomColl R)),
      gml_parse_multi_point.loop atof fuel geom node = some (some chain) →
      gmlChainExtends geom chain := by
  intro fuel
  induction fuel with
  | zero =>
    intro geom node chain h
    cases node with
    | nil =>
      simp only [gml_parse_multi_point.loop, Option.some.injEq] at h
      subst h; exact gmlChainExtends_refl _
    | cons n rest => simp [gml_parse_multi_point.loop] at h
  | succ fuel ih =>
    intro geom node chain h
    cases node with
    | nil =>
      simp only [gml_parse_multi_point.loop, Option.some.injEq] at h
      subst h; exact gmlChainExtends_refl _
    | cons n rest =>
      simp only [gml_parse_multi_point.loop] at h
      repeat' split at h
      all_goals first
        | (simp at h; done)
        | (simp only [Option.some.injEq] at h
           subst h; exact gmlChainExtends_refl _)
        | exact gmlChainExtends_trans (gml_parse_point_extends _ _ _ _ _ _ (by assumption)) (ih _ _ _ h)

theorem gml_parse_multi_linestring_loop_extends (atof : List Char → R) :
    ∀ (fuel : Nat) (geom : List (gaiaGeomColl R)) (node : List gmlNode)
      (chain : List (gaiaGeomColl R)),
      gml_parse_multi_linestring.loop atof fuel geom node = some (some chain) →
      gmlChainExtends geom chain := by
  intro fuel
  induction fuel with
  | zero =>
    intro geom node chain h
    cases node with
    | nil =>
      simp only [gml_parse_multi_linestring.loop, Option.some.injEq] at h
      subst h; exact gmlChainExtends_refl _
    | cons n rest => simp [gml_parse_multi_linestring.loop] at h
  | succ fuel ih =>
    intro geom node chain h
    cases node with
    | nil =>
      simp only [gml_parse_multi_linestring.loop, Option.some.injEq] at h
      subst h; exact gmlChainExtends_refl _
    | cons n rest =>
      simp only [gml_parse_multi_linestring.loop] at h
      repeat' split at h
      all_goals first
        | (simp at h; done)
        | (simp only [Option.some.injEq] at h
           subst h; exact gmlChainExtends_refl _)
        | exact gmlChainExtends_trans (gml_parse_linestring_extends _ _ _ _ _ _ (by assumption)) (ih _ _ _ h)

theorem gml_parse_multi_curve_loop_extends (atof : List Char → R) :
    ∀ (fuel : Nat) (geom : List (gaiaGeomColl R)) (node : List gmlNode)
      (chain : List (gaiaGeomColl R)),
      gml_parse_multi_curve.loop atof fuel geom node = some (some chain) →
      gmlChainExtends geom chain := by
  intro fuel
  induction fuel with
  | zero =>
    intro geom node chain h
    cases node with
    | nil =>
      simp only [gml_parse_multi_curve.loop, Option.some.injEq] at h
      subst h; exact gmlChainExtends_refl _
    | cons n rest => simp [gml_parse_multi_curve.loop] at h
  | succ fuel ih =>
    intro geom node chain h
    cases node with
    | nil =>
      simp only [gml_parse_multi_curve.loop, Option.some.injEq] at h
      subst h; exact gmlChainExtends_refl _
    | cons n rest =>
      simp only [gml_parse_multi_curve.loop] at h
      repeat' split at h
      all_goals first
        | (simp at h; done)
        | (simp only [Option.some.injEq] at h
           subst h; exact gmlChainExtends_refl _)
        | exact gmlChainExtends_trans (gml_parse_curve_extends _ _ _ _ _ _ (by assumption)) (ih _ _ _ h)

theorem gml_parse_multi_polygon_loop_extends (atof : List Char → R) :
    ∀ (fuel : Nat) (geom : List (gaiaGeomColl R)) (node : List gmlNode) (next : Option (List gmlNode))
      (chain : List (gaiaGeomColl R)),
      gml_parse_multi_polygon.loop atof fuel geom node next = some (some chain) →
      gmlChainExtends geom chain := by
  intro fuel
  induction fuel with
  | zero =>
    intro geom node next chain h
    cases node with
    | nil =>
      simp only [gml_parse_multi_polygon.loop, Option.some.injEq] at h
      subst h; exact gmlChainExtends_refl _
    | cons n rest => simp [gml_parse_multi_polygon.loop] at h
  | succ fuel ih =>
    intro geom node next chain h
    cases node with
    | nil =>
      simp only [gml_parse_multi_polygon.loop, Option.some.injEq] at h
      subst h; exact gmlChainExtends_refl _
    | cons n rest =>
      simp only [gml_parse_multi_polygon.loop] at h
      repeat' split at h
      all_goals first
        | (simp at h; done)
        | (simp only [Option.some.injEq] at h
           subst h; exact gmlChainExtends_refl _)
        | exact gmlChainExtends_trans (gml_parse_polygon_extends _ _ _ _ _ _ _ (by assumption)) (ih _ _ _ _ h)

theorem gml_parse_multi_surface_loop_extends (atof : List Char → R) :
    ∀ (fuel : Nat) (geom : List (gaiaGeomColl R)) (node : List gmlNode) (next : Option (List gmlNode))
      (chain : List (gaiaGeomColl R)),
      gml_parse_multi_surface.loop atof fuel geom node next = some (some chain) →
      gmlChainExtends geom chain := by
  intro fuel
  induction fuel with
  | zero =>
    intro geom node next chain h
    cases node with
    | nil =>
      simp only [gml_parse_multi_surface.loop, Option.some.injEq] at h
      subst h; exact gmlChainExtends_refl _
    | cons n rest => simp [gml_parse_multi_surface.loop] at h
  | succ fuel ih =>
    intro geom node next chain h
    cases node with
    | nil =>
      simp only [gml_parse_multi_surface.loop, Option.some.injEq] at h
      subst h; exact gmlChainExtends_refl _
    | cons n rest =>
      simp only [gml_parse_multi_surface.loop] at h
      repeat' split at h
      all_goals first
        | (simp at h; done)
        | (simp only [Option.some.injEq] at h
           subst h; exact gmlChainExtends_refl _)
        | exact gmlChainExtends_trans (gml_parse_polygon_extends _ _ _ _ _ _ _ (by assumption)) (ih _ _ _ _ h)

theorem gml_parse_multi_geometry_loop_extends (atof : List Char → R) :
    ∀ (fuel : Nat) (geom : List (gaiaGeomColl R)) (node : List gmlNode) (next : Option (List gmlNode))
      (chain : List (gaiaGeomColl R)),
      gml_parse_multi_geometry.loop atof fuel geom node next = some (some chain) →
      gmlChainExtends geom chain := by
  intro fuel
  induction fuel with
  | zero =>
    intro geom node next chain h
    cases node with
    | nil =>
      simp only [gml_parse_multi_geometry.loop, Option.some.injEq] at h
      subst h; exact gmlChainExtends_refl _
    | cons n rest => simp [gml_parse_multi_geometry.loop] at h
  | succ fuel ih =>
    intro geom node next chain h
    cases node with
    | nil =>
      simp only [gml_parse_multi_geometry.loop, Option.some.injEq] at h
      subst h; exact gmlChainExtends_refl _
    | cons n rest =>
      simp only [gml_parse_multi_geometry.loop] at h
      repeat' split at h
      all_goals first
        | (simp at h; done)
        | (simp only [Option.some.injEq] at h
           subst h; exact gmlChainExtends_refl _)
        | exact gmlChainExtends_trans (gml_parse_multi_geometry_member_extends _ _ _ _ _ _ _ (by assumption)) (ih _ _ _ _ h)

/-- The chain that the parsers leave to `gml_validate_geometry`: the main
geometry, which holds nothing, followed by well-formed members. -/
theorem gml_build_geometry_parse_extends (atof : List Char → R) (geom_type : Int)
    (geom : gaiaGeomColl R) (tree_next : List gmlNode) (chain : List (gaiaGeomColl R))
    (h : gml_build_geometry.parse atof geom_type geom tree_next = some (some chain)) :
    ∃ declared, gmlChainExtends [{ geom with DeclaredType := declared }] chain ∧
      (geom_type = GAIA_GML_MULTIGEOMETRY → declared = GAIA_GEOMETRYCOLLECTION) := by
  have d1 : GAIA_GML_MULTIGEOMETRY ≠ GAIA_GML_POINT := by decide
  have d2 : GAIA_GML_MULTIGEOMETRY ≠ GAIA_GML_LINESTRING := by decide
  have d3 : GAIA_GML_MULTIGEOMETRY ≠ GAIA_GML_CURVE := by decide
  have d4 : GAIA_GML_MULTIGEOMETRY ≠ GAIA_GML_POLYGON := by decide
  have d5 : GAIA_GML_MULTIGEOMETRY ≠ GAIA_GML_MULTIPOINT := by decide
  have d6 : GAIA_GML_MULTIGEOMETRY ≠ GAIA_GML_MULTILINESTRING := by decide
  have d7 : GAIA_GML_MULTIGEOMETRY ≠ GAIA_GML_MULTICURVE := by decide
  have d8 : GAIA_GML_MULTIGEOMETRY ≠ GAIA_GML_MULTIPOLYGON := by decide
  have d9 : GAIA_GML_MULTIGEOMETRY ≠ GAIA_GML_MULTISURFACE := by decide
  unfold gml_build_geometry.parse at h
  by_cases t1 : geom_type = GAIA_GML_POINT
  · rw [if_pos t1] at h
    dsimp only at h
    refine ⟨GAIA_POINT, ?_, fun e => absurd (e.symm.trans t1) d1⟩
    cases hp : gml_parse_point atof
        [({ geom with DeclaredType := GAIA_POINT } : gaiaGeomColl R)] tree_next geom.Srid with
    | none => rw [hp] at h; simp at h
    | some r =>
      cases r with
      | none => rw [hp] at h; simp at h
      | some cn =>
        obtain ⟨c, nx⟩ := cn
        rw [hp] at h
        simp only [Option.some.injEq] at h
        subst h
        exact gml_parse_point_extends _ _ _ _ _ _ hp
  rw [if_neg t1] at h
  by_cases t2 : geom_type = GAIA_GML_LINESTRING
  · rw [if_pos t2] at h
    dsimp only at h
    refine ⟨GAIA_LINESTRING, ?_, fun e => absurd (e.symm.trans t2) d2⟩
    cases hp : gml_parse_linestring atof
        [({ geom with DeclaredType := GAIA_LINESTRING } : gaiaGeomColl R)] tree_next geom.Srid with
    | none => rw [hp] at h; simp at h
    | some r =>
      cases r with
      | none => rw [hp] at h; simp at h
      | some cn =>
        obtain ⟨c, nx⟩ := cn
        rw [hp] at h
        simp only [Option.some.injEq] at h
        subst h
        exact gml_parse_linestring_extends _ _ _ _ _ _ hp
  rw [if_neg t2] at h
  by_cases t3 : geom_type = GAIA_GML_CURVE
  · rw [if_pos t3] at h
    dsimp only at h
    refine ⟨GAIA_LINESTRING, ?_, fun e => absurd (e.symm.trans t3) d3⟩
    cases hp : gml_parse_curve atof
        [({ geom with DeclaredType := GAIA_LINESTRING } : gaiaGeomColl R)] tree_next geom.Srid with
    | none => rw [hp] at h; simp at h
    | some r =>
      cases r with
      | none => rw [hp] at h; simp at h
      | some cn =>
        obtain ⟨c, nx⟩ := cn
        rw [hp] at h
        simp only [Option.some.injEq] at h
        subst h
        exact gml_parse_curve_extends _ _ _ _ _ _ hp
  rw [if_neg t3] at h
  by_cases t4 : geom_type = GAIA_GML_POLYGON
  · rw [if_pos t4] at h
    dsimp only at h
    refine ⟨GAIA_POLYGON, ?_, fun e => absurd (e.symm.trans t4) d4⟩
    cases hp : gml_parse_polygon atof
        [({ geom with DeclaredType := GAIA_POLYGON } : gaiaGeomColl R)] tree_next geom.Srid none with
    | none => rw [hp] at h; simp at h
    | some r =>
      cases r with
      | none => rw [hp] at h; simp at h
      | some cn =>
        obtain ⟨c, nx⟩ := cn
        rw [hp] at h
        cases nx with
        | none => simp at h
        | some l =>
          cases l with
          | nil =>
            simp only [Option.some.injEq] at h
            subst h
            exact gml_parse_polygon_extends _ _ _ _ _ _ _ hp
          | cons a b => simp at h
  rw [if_neg t4] at h
  by_cases t5 : geom_type = GAIA_GML_MULTIPOINT
  · rw [if_pos t5] at h
    exact ⟨GAIA_MULTIPOINT, gml_parse_multi_point_loop_extends _ _ _ _ _ h,
      fun e => absurd (e.symm.trans t5) d5⟩
  rw [if_neg t5] at h
  by_cases t6 : geom_type = GAIA_GML_MULTILINESTRING
  · rw [if_pos t6] at h
    exact ⟨GAIA_MULTILINESTRING, gml_parse_multi_linestring_loop_extends _ _ _ _ _ h,
      fun e => absurd (e.symm.trans t6) d6⟩
  rw [if_neg t6] at h
  by_cases t7 : geom_type = GAIA_GML_MULTICURVE
  · rw [if_pos t7] at h
    exact ⟨GAIA_MULTILINESTRING, gml_parse_multi_curve_loop_extends _ _ _ _ _ h,
      fun e => absurd (e.symm.trans t7) d7⟩
  rw [if_neg t7] at h
  by_cases t8 : geom_type = GAIA_GML_MULTIPOLYGON
  · rw [if_pos t8] at h
    exact ⟨GAIA_MULTIPOLYGON, gml_parse_multi_polygon_loop_extends _ _ _ _ _ _ h,
      fun e => absurd (e.symm.trans t8) d8⟩
  rw [if_neg t8] at h
  by_cases t9 : geom_type = GAIA_GML_MULTISURFACE
  · rw [if_pos t9] at h
    exact ⟨GAIA_MULTIPOLYGON, gml_parse_multi_surface_loop_extends _ _ _ _ _ _ h,
      fun e => absurd (e.symm.trans t9) d9⟩
  rw [if_neg t9] at h
  by_cases t10 : geom_type = GAIA_GML_MULTIGEOMETRY
  · rw [if_pos t10] at h
    exact ⟨GAIA_GEOMETRYCOLLECTION, gml_parse_multi_geometry_loop_extends _ _ _ _ _ _ h,
      fun _ => rfl⟩
  rw [if_neg t10] at h
  simp only [Option.some.injEq] at h
  subst h
  exact ⟨geom.DeclaredType, gmlChainExtends_refl _, fun e => absurd e t10⟩

theorem gml_forall₂_mem_left {α β : Type} {P : α → β → Prop} {l1 : List α} {l2 : List β}
    (h : List.Forall₂ P l1 l2) : ∀ a ∈ l1, ∃ b ∈ l2, P a b := by
  induction h with
  | nil => intro a ha; simp at ha
  | cons hab _ ih =>
    intro a ha
    rcases List.mem_cons.1 ha with rfl | ha
    · exact ⟨_, List.mem_cons_self _ _, hab⟩
    · obtain ⟨b, hb, hp⟩ := ih a ha
      exact ⟨b, List.mem_cons_of_mem _ hb, hp⟩

theorem gmlMemberOk_chain (chain : List (gaiaGeomColl R))
    (hok : ∀ m ∈ chain, gmlMemberOk m) :
    (∀ ln ∈ chainLinestrings chain, ln.Points ≥ 2) ∧
    (∀ pg ∈ chainPolygons chain, ∀ r ∈ pg.Exterior :: pg.Interiors, gmlRingClosed r) := by
  constructor
  · intro ln hln
    simp only [chainLinestrings, List.mem_flatMap] at hln
    obtain ⟨m, hm, hl⟩ := hln
    exact (hok m hm).1 ln hl
  · intro pg hpg
    simp only [chainPolygons, List.mem_flatMap] at hpg
    obtain ⟨m, hm, hl⟩ := hpg
    exact (hok m hm).2 pg hl

/-- A ring that carries the points of a closed ring is closed in the
dimensions of the geometry. -/
theorem ringCarries_closed (dim : Int) (new src : gaiaRing R) (h : ringCarries dim new src)
    (hc : gmlRingClosed src) :
    new.Points ≥ 4 ∧ coordTuple dim new.Coords 0 = coordTuple dim new.Coords (new.Points - 1) := by
  obtain ⟨hp, ht⟩ := h
  obtain ⟨h4, hv⟩ := hc
  refine ⟨by omega, ?_⟩
  rw [ht 0 (by omega), hp, ht (src.Points - 1) (by omega), hv]

/-- The geometry that `gml_validate_geometry` returns for a chain of
well-formed members, when no member is reprojected. -/
theorem gml_validate_geometry_well_formed {S : Type} (sqlite_handle : Option S)
    (gml_proj_params : S → Int → List Char)
    (gaiaTransform : gaiaGeomColl R → List Char → List Char → Option (gaiaGeomColl R))
    (head : gaiaGeomColl R) (rest : List (gaiaGeomColl R))
    (hno : ∀ s, sqlite_handle = some s → ∀ srid, gml_proj_params s srid = [])
    (hok : ∀ m ∈ head :: rest, gmlMemberOk m) (g : gaiaGeomColl R)
    (h : gml_validate_geometry sqlite_handle gml_proj_params gaiaTransform (head :: rest) =
      some g) :
    (g.FirstPoint ≠ [] ∨ g.FirstLinestring ≠ [] ∨ g.FirstPolygon ≠ []) ∧
    (∀ ln ∈ g.FirstLinestring, ln.Points ≥ 2) ∧
    (∀ pg ∈ g.FirstPolygon, ∀ r ∈ pg.Exterior :: pg.Interiors,
      r.Points ≥ 4 ∧
      coordTuple g.DimensionModel r.Coords 0 =
        coordTuple g.DimensionModel r.Coords (r.Points - 1)) := by
  obtain ⟨c1, c2, c3⟩ := gml_validate_geometry_content sqlite_handle gml_proj_params
    gaiaTransform head rest (fun s hs m _ => Or.inl (hno s hs m.Srid)) g h
  obtain ⟨k1, k2⟩ := gmlMemberOk_chain (head :: rest) hok
  refine ⟨?_, ?_, ?_⟩
  · have hk := gml_validate_geometry_kind sqlite_handle gml_proj_params gaiaTransform head rest
    rw [h] at hk
    by_cases hz : (chainPoints (head :: rest)).length = 0 ∧
        (chainLinestrings (head :: rest)).length = 0 ∧
        (chainPolygons (head :: rest)).length = 0
    · rw [if_pos hz] at hk; simp at hk
    · rw [← c1.length_eq, ← c2.length_eq, ← c3.length_eq] at hz
      by_contra hcon
      simp only [not_or, not_not] at hcon
      apply hz
      rw [hcon.1, hcon.2.1, hcon.2.2]
      exact ⟨rfl, rfl, rfl⟩
  · intro ln hln
    obtain ⟨src, hs, hc⟩ := gml_forall₂_mem_left c2 ln hln
    rw [hc.1]
    exact k1 src hs
  · intro pg hpg r hr
    obtain ⟨src, hs, hc⟩ := gml_forall₂_mem_left c3 pg hpg
    rcases List.mem_cons.1 hr with rfl | hri
    · exact ringCarries_closed _ _ _ hc.1 (k2 src hs _ (List.mem_cons_self _ _))
    · obtain ⟨sr, hsr, hrc⟩ := gml_forall₂_mem_left hc.2.2 r hri
      exact ringCarries_closed _ _ _ hrc (k2 src hs _ (List.mem_cons_of_mem _ hsr))

/-- The chain that `gml_build_geometry` hands to `gml_validate_geometry`. -/
theorem gml_build_geometry_some {S : Type} (atof : List Char → R)
    (sqlite_handle : Option S) (gml_proj_params : S → Int → List Char)
    (gaiaTransform : gaiaGeomColl R → List Char → List Char → Option (gaiaGeomColl R))
    (tree : List gmlNode) (g : gaiaGeomColl R)
    (h : gml_build_geometry atof sqlite_handle gml_proj_params gaiaTransform tree =
      some (some g)) :
    ∃ t tree_next srid declared ext, tree = t :: tree_next ∧
      (guessGmlGeometryType t = GAIA_GML_MULTIGEOMETRY → declared = GAIA_GEOMETRYCOLLECTION) ∧
      (∀ m ∈ ext, gmlMemberOk m) ∧
      gml_validate_geometry sqlite_handle gml_proj_params gaiaTransform
        ((⟨srid, [], [], [], GAIA_XY, declared, none⟩ : gaiaGeomColl R) :: ext) = some g := by
  cases tree with
  | nil => simp [gml_build_geometry] at h
  | cons t tree_next =>
    simp only [gml_build_geometry] at h
    by_cases hu : guessGmlGeometryType t = GAIA_GML_UNKNOWN
    · simp [hu] at h
    · rw [if_neg hu] at h
      cases hs : guessGmlSrid t with
      | none => rw [hs] at h; simp at h
      | some srid =>
        rw [hs] at h
        dsimp only at h
        cases hp : gml_build_geometry.parse atof (guessGmlGeometryType t)
            ({ (gaiaAllocGeomColl : gaiaGeomColl R) with Srid := srid } : gaiaGeomColl R)
            tree_next with
        | none => rw [hp] at h; simp at h
        | some r =>
          cases r with
          | none => rw [hp] at h; simp at h
          | some chain =>
            rw [hp] at h
            dsimp only at h
            obtain ⟨declared, ⟨ext, rfl, hext⟩, hd⟩ :=
              gml_build_geometry_parse_extends atof _ _ tree_next chain hp
            cases hv : gml_validate_geometry sqlite_handle gml_proj_params gaiaTransform
                ([({ ({ (gaiaAllocGeomColl : gaiaGeomColl R) with Srid := srid } :
                  gaiaGeomColl R) with DeclaredType := declared } : gaiaGeomColl R)] ++ ext) with
            | none => rw [hv] at h; simp at h
            | some g2 =>
              rw [hv] at h
              simp only [Option.some.injEq] at h
              subst h
              exact ⟨t, tree_next, srid, declared, ext, rfl, hd, hext, hv⟩

/-- C24: when `gml_build_geometry` returns a geometry for a node sequence
whose first tag is `gml:MultiGeometry` or `MultiGeometry`, the declared type
of that geometry is GEOMETRYCOLLECTION, whatever the number and the kinds of
the members. In particular the MultiGeometry that wraps the Point (1,2) and
the LineString (1,2), (3,4) gives the GEOMETRYCOLLECTION that holds that
point and that linestring. -/
theorem gml_build_geometry_multigeometry {S : Type} (atof : List Char → R)
    (sqlite_handle : Option S) (gml_proj_params : S → Int → List Char)
    (gaiaTransform : gaiaGeomColl R → List Char → List Char → Option (gaiaGeomColl R))
    (t : gmlNode) (tree_next : List gmlNode) (g : gaiaGeomColl R)
    (ht : t.Tag = "gml:MultiGeometry" ∨ t.Tag = "MultiGeometry")
    (h : gml_build_geometry atof sqlite_handle gml_proj_params gaiaTransform (t :: tree_next) =
      some (some g)) :
    g.DeclaredType = GAIA_GEOMETRYCOLLECTION ∧
    sampleGmlBuild sampleCollectionTree =
      some (some ⟨-1, [gaiaAllocPoint 1 2], [⟨2, [1, 2, 3, 4], GAIA_XY⟩], [], GAIA_XY,
        GAIA_GEOMETRYCOLLECTION, none⟩) := by
  refine ⟨?_, by decide⟩
  obtain ⟨t2, tn, srid, declared, ext, htree, hd, -, hv⟩ :=
    gml_build_geometry_some atof sqlite_handle gml_proj_params gaiaTransform _ g h
  simp only [List.cons.injEq] at htree
  obtain ⟨rfl, rfl⟩ := htree
  have hg : guessGmlGeometryType t = GAIA_GML_MULTIGEOMETRY := by
    rw [guessGmlGeometryType_cascade, if_pos ht]
  have hdecl := hd hg
  subst hdecl
  have hk := gml_validate_geometry_kind sqlite_handle gml_proj_params gaiaTransform
    (⟨srid, [], [], [], GAIA_XY, GAIA_GEOMETRYCOLLECTION, none⟩ : gaiaGeomColl R) ext
  rw [hv] at hk
  by_cases hz : (chainPoints ((⟨srid, [], [], [], GAIA_XY, GAIA_GEOMETRYCOLLECTION, none⟩ :
      gaiaGeomColl R) :: ext)).length = 0 ∧
      (chainLinestrings ((⟨srid, [], [], [], GAIA_XY, GAIA_GEOMETRYCOLLECTION, none⟩ :
        gaiaGeomColl R) :: ext)).length = 0 ∧
      (chainPolygons ((⟨srid, [], [], [], GAIA_XY, GAIA_GEOMETRYCOLLECTION, none⟩ :
        gaiaGeomColl R) :: ext)).length = 0
  · rw [if_pos hz] at hk; simp at hk
  · rw [if_neg hz] at hk
    simp only [Option.map_some', Option.some.injEq, Prod.mk.injEq] at hk
    rw [hk.1]
    simp [gmlDeclaredKind]

/-- C24 (witness): the MultiGeometry that wraps one Point and one LineString. -/
theorem gml_build_geometry_multigeometry_witness :
    (⟨-1, [gaiaAllocPoint 1 2], [⟨2, [1, 2, 3, 4], GAIA_XY⟩], [], GAIA_XY,
      GAIA_GEOMETRYCOLLECTION, none⟩ : gaiaGeomColl Int).DeclaredType = GAIA_GEOMETRYCOLLECTION ∧
    sampleGmlBuild sampleCollectionTree =
      some (some ⟨-1, [gaiaAllocPoint 1 2], [⟨2, [1, 2, 3, 4], GAIA_XY⟩], [], GAIA_XY,
        GAIA_GEOMETRYCOLLECTION, none⟩) :=
  gml_build_geometry_multigeometry sampleAtof (none : Option Unit) (fun _ _ => [])
    (fun _ _ _ => none) (gml_createNode "gml:MultiGeometry" [] []) sampleCollectionTree.tail
    ⟨-1, [gaiaAllocPoint 1 2], [⟨2, [1, 2, 3, 4], GAIA_XY⟩], [], GAIA_XY,
      GAIA_GEOMETRYCOLLECTION, none⟩ (Or.inl rfl) (by decide)

/-- C28: when no reprojection is applied (there is no database handle, or
the database has no projection parameters), every geometry returned by
`gml_build_geometry` holds at least one point, linestring or polygon; each of
its linestrings has at least 2 points; and each ring of its polygons has at
least 4 points, its first point being equal to its last point in every
dimension that the geometry carries. -/
theorem gml_build_geometry_well_formed {S : Type} (atof : List Char → R)
    (sqlite_handle : Option S) (gml_proj_params : S → Int → List Char)
    (gaiaTransform : gaiaGeomColl R → List Char → List Char → Option (gaiaGeomColl R))
    (tree : List gmlNode) (g : gaiaGeomColl R)
    (hno : ∀ s, sqlite_handle = some s → ∀ srid, gml_proj_params s srid = [])
    (h : gml_build_geometry atof sqlite_handle gml_proj_params gaiaTransform tree =
      some (some g)) :
    (g.FirstPoint ≠ [] ∨ g.FirstLinestring ≠ [] ∨ g.FirstPolygon ≠ []) ∧
    (∀ ln ∈ g.FirstLinestring, ln.Points ≥ 2) ∧
    (∀ pg ∈ g.FirstPolygon, ∀ r ∈ pg.Exterior :: pg.Interiors,
      r.Points ≥ 4 ∧
      coordTuple g.DimensionModel r.Coords 0 =
        coordTuple g.DimensionModel r.Coords (r.Points - 1)) := by
  obtain ⟨t, tn, srid, declared, ext, -, -, hext, hv⟩ :=
    gml_build_geometry_some atof sqlite_handle gml_proj_params gaiaTransform tree g h
  refine gml_validate_geometry_well_formed sqlite_handle gml_proj_params gaiaTransform
    _ ext hno ?_ g hv
  intro m hm
  rcases List.mem_cons.1 hm with rfl | hm
  · exact ⟨by simp, by simp⟩
  · exact hext m hm

/-- C28 (witness): the polygon in EPSG:4326 with one hole. -/
theorem gml_build_geometry_well_formed_witness :
    ((⟨4326, [], [], [⟨⟨4, [0, 0, 4, 0, 4, 4, 0, 0], GAIA_XY⟩,
        [⟨4, [1, 1, 2, 1, 2, 2, 1, 1], GAIA_XY⟩], 0, GAIA_XY⟩], GAIA_XY,
        GAIA_POLYGON, none⟩ : gaiaGeomColl Int).FirstPoint ≠ [] ∨
     (⟨4326, [], [], [⟨⟨4, [0, 0, 4, 0, 4, 4, 0, 0], GAIA_XY⟩,
        [⟨4, [1, 1, 2, 1, 2, 2, 1, 1], GAIA_XY⟩], 0, GAIA_XY⟩], GAIA_XY,
        GAIA_POLYGON, none⟩ : gaiaGeomColl Int).FirstLinestring ≠ [] ∨
     (⟨4326, [], [], [⟨⟨4, [0, 0, 4, 0, 4, 4, 0, 0], GAIA_XY⟩,
        [⟨4, [1, 1, 2, 1, 2, 2, 1, 1], GAIA_XY⟩], 0, GAIA_XY⟩], GAIA_XY,
        GAIA_POLYGON, none⟩ : gaiaGeomColl Int).FirstPolygon ≠ []) ∧
    (∀ ln ∈ (⟨4326, [], [], [⟨⟨4, [0, 0, 4, 0, 4, 4, 0, 0], GAIA_XY⟩,
        [⟨4, [1, 1, 2, 1, 2, 2, 1, 1], GAIA_XY⟩], 0, GAIA_XY⟩], GAIA_XY,
        GAIA_POLYGON, none⟩ : gaiaGeomColl Int).FirstLinestring, ln.Points ≥ 2) ∧
    (∀ pg ∈ (⟨4326, [], [], [⟨⟨4, [0, 0, 4, 0, 4, 4, 0, 0], GAIA_XY⟩,
        [⟨4, [1, 1, 2, 1, 2, 2, 1, 1], GAIA_XY⟩], 0, GAIA_XY⟩], GAIA_XY,
        GAIA_POLYGON, none⟩ : gaiaGeomColl Int).FirstPolygon,
      ∀ r ∈ pg.Exterior :: pg.Interiors,
        r.Points ≥ 4 ∧
        coordTuple GAIA_XY r.Coords 0 = coordTuple GAIA_XY r.Coords (r.Points - 1)) :=
  gml_build_geometry_well_formed sampleAtof (some ()) (fun _ _ => [])
    (fun _ _ _ => none) samplePolygonTree
    ⟨4326, [], [], [⟨⟨4, [0, 0, 4, 0, 4, 4, 0, 0], GAIA_XY⟩,
      [⟨4, [1, 1, 2, 1, 2, 2, 1, 1], GAIA_XY⟩], 0, GAIA_XY⟩], GAIA_XY, GAIA_POLYGON, none⟩
    (fun _ _ _ => rfl) (by decide)

/-! ### Numeric texts, SRID attributes and attribute values -/

theorem isDecimalDigit_iff (c : Char) :
    isDecimalDigit c ↔ 48 ≤ c.toNat ∧ c.toNat ≤ 57 := by
  constructor
  · intro h
    simp only [isDecimalDigit, List.mem_cons, List.mem_singleton, List.not_mem_nil,
      or_false] at h
    rcases h with h | h | h | h | h | h | h | h | h | h <;> subst h <;> decide
  · rintro ⟨h1, h2⟩
    have hc : c = Char.ofNat c.toNat := (Char.ofNat_toNat c).symm
    rw [hc]
    generalize c.toNat = n at h1 h2
    interval_cases n <;> decide

theorem gml_check_coord_loop_iff (p : List Char) :
    ∀ decimal : Bool, gml_check_coord.loop p decimal = true ↔
      ((∀ c ∈ p, isDecimalDigit c ∨ c = '.') ∧
        p.count '.' + (if decimal then 1 else 0) ≤ 1) := by
  induction p with
  | nil => intro d; cases d <;> simp [gml_check_coord.loop]
  | cons a p ih =>
    intro d
    simp only [gml_check_coord.loop, List.mem_cons, forall_eq_or_imp]
    by_cases ha : a = '.'
    · subst ha
      cases d with
      | false =>
        simp only [if_true, Bool.not_false, ih true, List.count_cons_self, or_true, true_and]
        simp only [Bool.false_eq_true, if_false, if_true]
      | true =>
        simp only [if_true, Bool.not_true, Bool.false_eq_true, if_false, List.count_cons_self,
          or_true, true_and, false_iff, not_and, not_le]
        intro _; omega
    · have hne : ¬ ('.' = a) := fun h => ha h.symm
      have hcount : List.count '.' (a :: p) = List.count '.' p := by
        rw [List.count_cons]; simp [ha]
      simp only [ha, if_false, hcount, or_false]
      by_cases hd : 48 ≤ a.toNat ∧ a.toNat ≤ 57
      · have := (isDecimalDigit_iff a).2 hd
        simp only [hd, and_self, if_true, ih d, this, true_and]
      · have hn : ¬ isDecimalDigit a := fun h => hd ((isDecimalDigit_iff a).1 h)
        simp [hd, hn]

/-- The texts that `gml_check_coord` accepts. -/
theorem gml_check_coord_iff (s : List Char) :
    gml_check_coord s = true ↔
      ((∀ c ∈ coordBody s, isDecimalDigit c ∨ c = '.') ∧ (coordBody s).count '.' ≤ 1) := by
  cases s with
  | nil => simp [gml_check_coord, gml_check_coord.loop, coordBody]
  | cons a p =>
    simp only [gml_check_coord, coordBody]
    by_cases ha : a = '+' ∨ a = '-'
    · simp only [ha, if_true, gml_check_coord_loop_iff]
      simp
    · simp only [ha, if_false, gml_check_coord_loop_iff]
      simp

/-- C32: `gml_check_coord` returns 1 exactly on the texts that, after at most
one leading `+` or `-`, consist of decimal digits and at most one `.`; the
empty text, a lone sign and a lone `.` are accepted, an exponent and an
embedded blank are rejected. -/
theorem gml_check_coord_spec (s : List Char) :
    (gml_check_coord s = true ↔
      ((∀ c ∈ coordBody s, isDecimalDigit c ∨ c = '.') ∧ (coordBody s).count '.' ≤ 1)) ∧
    gml_check_coord "".toList = true ∧
    gml_check_coord "-".toList = true ∧
    gml_check_coord ".".toList = true ∧
    gml_check_coord "1e5".toList = false ∧
    gml_check_coord "1 2".toList = false := by
  refine ⟨gml_check_coord_iff s, ?_, ?_, ?_, ?_, ?_⟩
  all_goals decide

/-- C38: on `SRID=;POINT(1 2)` the function `findEwktSrid` returns 0 with
`base_offset` 6; on `SRID=-1;POINT(1 2)` it returns -1 with `base_offset` 8,
the value it also returns, with `base_offset` 0, on a text without prefix. -/
theorem findEwktSrid_empty_and_negative_srid :
    findEwktSrid "SRID=;POINT(1 2)".toList = some (0, 6) ∧
    findEwktSrid "SRID=-1;POINT(1 2)".toList = some (-1, 8) ∧
    findEwktSrid "POINT(1 2)".toList = some (-1, 0) := by
  refine ⟨?_, ?_, ?_⟩
  all_goals decide

theorem guessGmlSrid_lastColon_none (value : List Char) :
    ∀ k, k ≤ value.length → ':' ∉ value.take k → guessGmlSrid.lastColon value k = none := by
  intro k
  induction k with
  | zero => intro _ _; rfl
  | succ k ih =>
    intro hk hn
    have hlt : k < value.length := by omega
    have ht : value.take (k + 1) = value.take k ++ [value.get ⟨k, hlt⟩] := by
      rw [List.take_succ]; simp [List.getElem?_eq_getElem hlt]
    rw [ht] at hn
    simp only [List.mem_append, List.mem_singleton, not_or] at hn
    have hg : value.getD k ' ' = value.get ⟨k, hlt⟩ := by
      simp [List.getD, List.getElem?_eq_getElem hlt]
    have hne : ¬ value.getD k ' ' = ':' := by
      rw [hg]; intro h; exact hn.2 h.symm
    simp only [guessGmlSrid.lastColon, hne, if_false]
    exact ih (by omega) hn.1

theorem guessGmlSrid_lastColon_some (value : List Char) :
    ∀ k, k ≤ value.length → ':' ∈ value.take k →
      ∃ pre mid, value.take k = pre ++ ':' :: mid ∧ ':' ∉ mid ∧
        guessGmlSrid.lastColon value k = some (mid ++ value.drop k) := by
  intro k
  induction k with
  | zero => intro _ h; simp at h
  | succ k ih =>
    intro hk hm
    have hlt : k < value.length := by omega
    have ht : value.take (k + 1) = value.take k ++ [value.get ⟨k, hlt⟩] := by
      rw [List.take_succ]; simp [List.getElem?_eq_getElem hlt]
    have hg : value.getD k ' ' = value.get ⟨k, hlt⟩ := by
      simp [List.getD, List.getElem?_eq_getElem hlt]
    have hd : value.drop k = value.get ⟨k, hlt⟩ :: value.drop (k + 1) := by
      simp
    by_cases hc : value.getD k ' ' = ':'
    · refine ⟨value.take k, [], ?_, by simp, ?_⟩
      · rw [ht, ← hg, hc]
      · simp only [guessGmlSrid.lastColon, hc, if_true, List.nil_append]
    · have hm2 : ':' ∈ value.take k := by
        rw [ht] at hm
        simp only [List.mem_append, List.mem_singleton] at hm
        rcases hm with h | h
        · exact h
        · exact absurd (hg.trans h.symm) hc
      obtain ⟨pre, mid, e1, e2, e3⟩ := ih (by omega) hm2
      refine ⟨pre, mid ++ [value.get ⟨k, hlt⟩], ?_, ?_, ?_⟩
      · rw [ht, e1]; simp
      · simp only [List.mem_append, List.mem_singleton, not_or]
        refine ⟨e2, ?_⟩
        intro h; exact hc (hg.trans h.symm)
      · simp only [guessGmlSrid.lastColon, hc, if_false, e3, hd]
        simp

theorem afterLastColon_append (pre mid : List Char) (h : ':' ∉ mid) :
    afterLastColon (pre ++ ':' :: mid) = mid := by
  unfold afterLastColon
  have hr : (pre ++ ':' :: mid).reverse = mid.reverse ++ ':' :: pre.reverse := by simp
  rw [hr, List.takeWhile_append_of_pos, List.takeWhile_cons]
  · simp
  · intro c hc
    have : c ∈ mid := List.mem_reverse.1 hc
    simp only [ne_eq, decide_not, Bool.not_eq_eq_eq_not, Bool.not_true, decide_eq_false_iff_not]
    intro e; subst e; exact h this

/-- The scan for the last `:` of `guessGmlSrid` on a value that holds one. -/
theorem guessGmlSrid_lastColon_eq (value : List Char) (h : ':' ∈ value) :
    guessGmlSrid.lastColon value value.length = some (afterLastColon value) := by
  have hm : ':' ∈ value.take value.length := by simpa using h
  obtain ⟨pre, mid, e1, e2, e3⟩ := guessGmlSrid_lastColon_some value value.length le_rfl hm
  rw [e3]
  simp only [List.take_length] at e1
  have : afterLastColon value = mid := by
    rw [e1]; exact afterLastColon_append pre mid e2
  simp [this]

theorem srsNameIsUrn_colon (v : List Char) (h : srsNameIsUrn v) : ':' ∈ v := by
  have h2 : ':' ∈ v.take 21 := by rw [h.2]; decide
  exact List.mem_of_mem_take h2

/-- The SRID that `guessGmlSrid` reads from a list of attributes. -/
theorem guessGmlSrid_loop_eq (attrs : List gmlAttr) :
    guessGmlSrid.loop attrs =
      (srsNameAttr attrs).elim (some (-1)) (fun a =>
        if srsNameIsEpsg a.Value then atoi (a.Value.drop 5)
        else atoi (afterLastColon a.Value)) := by
  induction attrs with
  | nil => rfl
  | cons a next ih =>
    unfold srsNameAttr at ih ⊢
    simp only [guessGmlSrid.loop, List.find?_cons]
    by_cases hk : a.Key = "srsName"
    · by_cases he : srsNameIsEpsg a.Value
      · have he2 := he
        unfold srsNameIsEpsg at he2
        have he3 : a.Value.length > 5 ∧ a.Value.take 5 = "EPSG:".toList := he2
        simp only [hk, if_true, he3, and_self, he, true_or, decide_True, Option.elim]
      · have he3 : ¬ (a.Value.length > 5 ∧ a.Value.take 5 = "EPSG:".toList) := he
        by_cases hu : srsNameIsUrn a.Value
        · have hu3 : a.Value.length > 21 ∧
              a.Value.take 21 = "urn:ogc:def:crs:EPSG:".toList := hu
          simp only [hk, if_true, he3, if_false, hu3, and_self,
            guessGmlSrid_lastColon_eq a.Value (srsNameIsUrn_colon a.Value hu), he, hu,
            or_true, decide_True, Option.elim]
        · have hu3 : ¬ (a.Value.length > 21 ∧
              a.Value.take 21 = "urn:ogc:def:crs:EPSG:".toList) := hu
          simp only [hk, if_true, he3, if_false, hu3, he, hu, or_self, and_false,
            decide_False, ih]
    · simp only [hk, if_false, false_and, decide_False, ih]

/-- C34: `guessGmlSrid` returns the integer that follows `EPSG:` for a
`srsName` longer than 5 characters that starts with `EPSG:`, the integer that
follows the last `:` for a `srsName` longer than 21 characters that starts
with `urn:ogc:def:crs:EPSG:`, and -1 when the node has no `srsName` of one of
the two forms; the prefixes are matched case-sensitively. -/
theorem guessGmlSrid_spec (node : gmlNode) :
    guessGmlSrid node =
      (srsNameAttr node.Attributes).elim (some (-1)) (fun a =>
        if srsNameIsEpsg a.Value then atoi (a.Value.drop 5)
        else atoi (afterLastColon a.Value)) ∧
    guessGmlSrid (gml_createSelfClosedNode "gml:Point"
      [{ Key := "srsName", Value := "EPSG:4326".toList }]) = some 4326 ∧
    guessGmlSrid (gml_createSelfClosedNode "gml:Point"
      [{ Key := "srsName", Value := "urn:ogc:def:crs:EPSG::4326".toList }]) = some 4326 ∧
    guessGmlSrid (gml_createSelfClosedNode "gml:Point"
      [{ Key := "srsName", Value := "urn:ogc:def:crs:EPSG:6.9:4326".toList }]) = some 4326 ∧
    guessGmlSrid (gml_createSelfClosedNode "gml:Point"
      [{ Key := "srsName", Value := "epsg:4326".toList }]) = some (-1) ∧
    guessGmlSrid (gml_createSelfClosedNode "gml:Point"
      [{ Key := "srsDimension", Value := "3".toList }]) = some (-1) ∧
    guessGmlSrid (gml_createSelfClosedNode "gml:Point" []) = some (-1) := by
  refine ⟨guessGmlSrid_loop_eq node.Attributes, ?_, ?_, ?_, ?_, ?_, ?_⟩
  all_goals decide

/-- The de-quoting branch of `gml_attribute` on a quoted token: the block of
`len - 1` bytes receives the text and the closing quote, and the terminator
is stored one byte past the block. -/
theorem gml_attribute_quoted (key : String) (v : List Char) :
    gml_attribute.block ('"' :: (v ++ ['"'])) = v ++ ['"'] ∧
    gml_attribute.terminate (gml_attribute.block ('"' :: (v ++ ['"'])))
      (('"' :: (v ++ ['"'])).length - 1) = none ∧
    gml_attribute key ('"' :: (v ++ ['"'])) = none := by
  have hb : gml_attribute.block ('"' :: (v ++ ['"'])) = v ++ ['"'] := by
    simp [gml_attribute.block]
  have ht : gml_attribute.terminate (gml_attribute.block ('"' :: (v ++ ['"'])))
      (('"' :: (v ++ ['"'])).length - 1) = none := by
    rw [hb]; simp [gml_attribute.terminate]
  refine ⟨hb, ht, ?_⟩
  have hl : ('"' :: (v ++ ['"'])).getLast? = some '"' := by
    have e : '"' :: (v ++ ['"']) = ('"' :: v) ++ ['"'] := rfl
    rw [e, List.getLast?_append]; rfl
  simp only [gml_attribute, List.head?_cons, hl, and_self, if_true]
  rw [ht]

/-- The result of `gml_attribute` on every token: the de-quoting branch
always stores its terminator outside the block. -/
theorem gml_attribute_eq (key : String) (value : List Char) :
    gml_attribute key value =
      if value.head? = some '"' ∧ value.getLast? = some '"' then none
      else some { Key := key, Value := value } := by
  have ht : gml_attribute.terminate (gml_attribute.block value) (value.length - 1) = none := by
    have hl : (gml_attribute.block value).length = value.length - 1 := by
      simp [gml_attribute.block]
    simp [gml_attribute.terminate, hl]
  simp only [gml_attribute, ht]

/-- C31: on a token `"v"` the de-quoting branch of `gml_attribute` copies `v`
and the closing quote into the block of `len - 1` bytes and stores the
terminator one byte past that block, so that no value `v` is stored; a token
that is not enclosed in double quotes is stored unchanged. -/
theorem gml_attribute_dequote_overruns (key : String) (value v : List Char) :
    gml_attribute key value =
      (if value.head? = some '"' ∧ value.getLast? = some '"' then none
       else some { Key := key, Value := value }) ∧
    gml_attribute.block ('"' :: (v ++ ['"'])) = v ++ ['"'] ∧
    gml_attribute key ('"' :: (v ++ ['"'])) = none ∧
    gml_attribute key ('"' :: (v ++ ['"'])) ≠ some { Key := key, Value := v } ∧
    gml_attribute key "\"EPSG:4326\"".toList = none ∧
    gml_attribute key "EPSG:4326".toList = some { Key := key, Value := "EPSG:4326".toList } := by
  obtain ⟨h1, _, h3⟩ := gml_attribute_quoted key v
  refine ⟨gml_attribute_eq key value, h1, h3, by rw [h3]; simp, ?_, ?_⟩
  · exact (gml_attribute_quoted key "EPSG:4326".toList).2.2
  · rfl

/-! ### The SRID of the result of `gml_validate_geometry` -/

/-- The eleven values of `guessGmlGeometryType`. -/
theorem guessGmlGeometryType_values (t : gmlNode) :
    guessGmlGeometryType t = GAIA_GML_MULTIGEOMETRY ∨
    guessGmlGeometryType t = GAIA_GML_MULTISURFACE ∨
    guessGmlGeometryType t = GAIA_GML_MULTIPOLYGON ∨
    guessGmlGeometryType t = GAIA_GML_MULTICURVE ∨
    guessGmlGeometryType t = GAIA_GML_MULTILINESTRING ∨
    guessGmlGeometryType t = GAIA_GML_MULTIPOINT ∨
    guessGmlGeometryType t = GAIA_GML_POLYGON ∨
    guessGmlGeometryType t = GAIA_GML_CURVE ∨
    guessGmlGeometryType t = GAIA_GML_LINESTRING ∨
    guessGmlGeometryType t = GAIA_GML_POINT ∨
    guessGmlGeometryType t = GAIA_GML_UNKNOWN := by
  rw [guessGmlGeometryType_cascade]
  by_cases h1 : t.Tag = "gml:MultiGeometry" ∨ t.Tag = "MultiGeometry"
  · rw [if_pos h1]; exact Or.inl rfl
  rw [if_neg h1]
  by_cases h2 : t.Tag = "gml:MultiSurface" ∨ t.Tag = "MultiSurface"
  · rw [if_pos h2]; exact Or.inr (Or.inl rfl)
  rw [if_neg h2]
  by_cases h3 : t.Tag = "gml:MultiPolygon" ∨ t.Tag = "MultiPolygon"
  · rw [if_pos h3]; exact Or.inr (Or.inr (Or.inl rfl))
  rw [if_neg h3]
  by_cases h4 : t.Tag = "gml:MultiCurve" ∨ t.Tag = "MultiCurve"
  · rw [if_pos h4]; exact Or.inr (Or.inr (Or.inr (Or.inl rfl)))
  rw [if_neg h4]
  by_cases h5 : t.Tag = "gml:MultiLineString" ∨ t.Tag = "MultiLineString"
  · rw [if_pos h5]; exact Or.inr (Or.inr (Or.inr (Or.inr (Or.inl rfl))))
  rw [if_neg h5]
  by_cases h6 : t.Tag = "gml:MultiPoint" ∨ t.Tag = "MultiPoint"
  · rw [if_pos h6]; exact Or.inr (Or.inr (Or.inr (Or.inr (Or.inr (Or.inl rfl)))))
  rw [if_neg h6]
  by_cases h7 : t.Tag = "gml:Polygon" ∨ t.Tag = "Polygon"
  · rw [if_pos h7]; exact Or.inr (Or.inr (Or.inr (Or.inr (Or.inr (Or.inr (Or.inl rfl))))))
  rw [if_neg h7]
  by_cases h8 : t.Tag = "gml:Curve" ∨ t.Tag = "Curve"
  · rw [if_pos h8]
    exact Or.inr (Or.inr (Or.inr (Or.inr (Or.inr (Or.inr (Or.inr (Or.inl rfl)))))))
  rw [if_neg h8]
  by_cases h9 : t.Tag = "gml:LineString" ∨ t.Tag = "LineString"
  · rw [if_pos h9]
    exact Or.inr (Or.inr (Or.inr (Or.inr (Or.inr (Or.inr (Or.inr (Or.inr (Or.inl rfl))))))))
  rw [if_neg h9]
  by_cases h10 : t.Tag = "gml:Point" ∨ t.Tag = "Point"
  · rw [if_pos h10]
    exact Or.inr (Or.inr (Or.inr (Or.inr (Or.inr (Or.inr (Or.inr (Or.inr (Or.inr
      (Or.inl rfl)))))))))
  rw [if_neg h10]
  exact Or.inr (Or.inr (Or.inr (Or.inr (Or.inr (Or.inr (Or.inr (Or.inr (Or.inr
    (Or.inr rfl)))))))))

/-- The result of `gml_build_geometry` on a sequence of one node whose SRID
can be read: the parsers of Point, LineString and Curve read the tag of the
node after it. -/
theorem gml_build_geometry_one_node {S : Type} (atof : List Char → R)
    (sqlite_handle : Option S) (gml_proj_params : S → Int → List Char)
    (gaiaTransform : gaiaGeomColl R → List Char → List Char → Option (gaiaGeomColl R))
    (t : gmlNode) (srid : Int) (hs : guessGmlSrid t = some srid) :
    gml_build_geometry atof sqlite_handle gml_proj_params gaiaTransform [t] =
      if guessGmlGeometryType t = GAIA_GML_POINT ∨
          guessGmlGeometryType t = GAIA_GML_LINESTRING ∨
          guessGmlGeometryType t = GAIA_GML_CURVE then none
      else some none := by
  simp only [gml_build_geometry, hs]
  rcases guessGmlGeometryType_values t with h | h | h | h | h | h | h | h | h | h | h <;>
    rw [h] <;> rfl

/-- C37: on a sequence of one node whose tag is recognized (and whose SRID
can be read) `gml_build_geometry` returns no result for Polygon and for the
six Multi tags, but for Point, LineString and Curve it hands the missing next
node to the parser, which reads its tag; the Multi parsers test the next node
before they call the same parser. -/
theorem gml_build_geometry_one_node_reads_missing_next {S : Type} (atof : List Char → R)
    (sqlite_handle : Option S) (gml_proj_params : S → Int → List Char)
    (gaiaTransform : gaiaGeomColl R → List Char → List Char → Option (gaiaGeomColl R))
    (t : gmlNode) (srid : Int) (hs : guessGmlSrid t = some srid) :
    (gml_build_geometry atof sqlite_handle gml_proj_params gaiaTransform [t] = none ↔
      (guessGmlGeometryType t = GAIA_GML_POINT ∨ guessGmlGeometryType t = GAIA_GML_LINESTRING ∨
        guessGmlGeometryType t = GAIA_GML_CURVE)) ∧
    (gml_build_geometry atof sqlite_handle gml_proj_params gaiaTransform [t] = some none ↔
      ¬ (guessGmlGeometryType t = GAIA_GML_POINT ∨
        guessGmlGeometryType t = GAIA_GML_LINESTRING ∨
        guessGmlGeometryType t = GAIA_GML_CURVE)) ∧
    sampleGmlBuild [gml_createSelfClosedNode "gml:Point" []] = none ∧
    sampleGmlBuild [gml_createSelfClosedNode "gml:LineString" []] = none ∧
    sampleGmlBuild [gml_createSelfClosedNode "gml:Curve" []] = none ∧
    sampleGmlBuild [gml_createSelfClosedNode "gml:Polygon" []] = some none ∧
    sampleGmlBuild [gml_createSelfClosedNode "gml:MultiPoint" []] = some none ∧
    sampleGmlBuild [gml_createNode "gml:MultiPoint" [] [], gml_createNode "gml:pointMember" [] [],
      gml_createSelfClosedNode "gml:Point" []] = some none := by
  have h := gml_build_geometry_one_node atof sqlite_handle gml_proj_params gaiaTransform t
    srid hs
  refine ⟨?_, ?_, ?_, ?_, ?_, ?_, ?_, ?_⟩
  · rw [h]; split_ifs with hc <;> simp [hc]
  · rw [h]; split_ifs with hc <;> simp [hc]
  all_goals decide

theorem gml_build_geometry_one_node_reads_missing_next_witness :
    guessGmlSrid (gml_createSelfClosedNode "gml:Point" []) = some (-1) ∧
    ((sampleGmlBuild [gml_createSelfClosedNode "gml:Point" []] = none ↔
      (guessGmlGeometryType (gml_createSelfClosedNode "gml:Point" []) = GAIA_GML_POINT ∨
        guessGmlGeometryType (gml_createSelfClosedNode "gml:Point" []) = GAIA_GML_LINESTRING ∨
        guessGmlGeometryType (gml_createSelfClosedNode "gml:Point" []) = GAIA_GML_CURVE)) ∧
     guessGmlGeometryType (gml_createSelfClosedNode "gml:Point" []) = GAIA_GML_POINT) :=
  ⟨by decide,
   (gml_build_geometry_one_node_reads_missing_next sampleAtof (none : Option Unit)
      (fun _ _ => []) (fun _ _ _ => none) (gml_createSelfClosedNode "gml:Point" []) (-1)
      (by decide)).1,
   by decide⟩

/-! ### Nodes after the closing tag of the top-level element -/

/-- A successful `gml_parse_point` reads the three nodes it needs only: more
nodes after them are handed back in `*next`. -/
theorem gml_parse_point_append (atof : List Char → R) (geom : List (gaiaGeomColl R))
    (node : List gmlNode) (srid : Int) (chain : List (gaiaGeomColl R)) (next : List gmlNode)
    (h : gml_parse_point atof geom node srid = some (some (chain, next)))
    (extra : List gmlNode) :
    gml_parse_point atof geom (node ++ extra) srid = some (some (chain, next ++ extra)) := by
  obtain ⟨n0, n1, n2, rfl, -, -⟩ := gml_parse_point_some atof geom node srid chain next h
  simp only [List.cons_append]
  unfold gml_parse_point at h ⊢
  simp only [] at h ⊢
  generalize gml_parse_point_v2 atof n0.Coordinates = r2 at h ⊢
  generalize gml_parse_point_v3 atof n0.Coordinates = r3 at h ⊢
  rcases r2 with _ | _ | ⟨x, y, z, hz⟩ <;> rcases r3 with _ | ⟨x3, y3, z3, hz3⟩ <;>
    simp only [] at h ⊢ <;> split_ifs at h ⊢ <;>
    first
      | (simp at h; done)
      | (simp only [Option.some.injEq, Prod.mk.injEq] at h ⊢
         exact ⟨h.1, trivial⟩)

/-- A successful `gml_parse_linestring` has read three nodes: the coordinates
(or posList) node, a node of the same name up to the prefix, and a LineString
node. -/
theorem gml_parse_linestring_some (atof : List Char → R) (geom : List (gaiaGeomColl R))
    (node : List gmlNode) (srid : Int) (chain : List (gaiaGeomColl R)) (next : List gmlNode)
    (h : gml_parse_linestring atof geom node srid = some (some (chain, next))) :
    ∃ n0 n1 n2, node = n0 :: n1 :: n2 :: next ∧
      (((n0.Tag = "gml:coordinates" ∨ n0.Tag = "coordinates") ∧
        (n1.Tag = "gml:coordinates" ∨ n1.Tag = "coordinates")) ∨
       (¬ (n0.Tag = "gml:coordinates" ∨ n0.Tag = "coordinates") ∧
        (n0.Tag = "gml:posList" ∨ n0.Tag = "posList") ∧
        (n1.Tag = "gml:posList" ∨ n1.Tag = "posList"))) ∧
      (n2.Tag = "gml:LineString" ∨ n2.Tag = "LineString") := by
  unfold gml_parse_linestring at h
  repeat' split at h
  all_goals first
    | (simp at h; done)
    | (simp only [Option.some.injEq, Prod.mk.injEq] at h
       obtain ⟨-, rfl⟩ := h
       refine ⟨_, _, _, rfl, ?_, by assumption⟩
       first
         | (left; exact ⟨by assumption, by assumption⟩)
         | (right; exact ⟨by assumption, by assumption, by assumption⟩))

/-- A successful `gml_parse_linestring` reads the three nodes it needs only. -/
theorem gml_parse_linestring_append (atof : List Char → R) (geom : List (gaiaGeomColl R))
    (node : List gmlNode) (srid : Int) (chain : List (gaiaGeomColl R)) (next : List gmlNode)
    (h : gml_parse_linestring atof geom node srid = some (some (chain, next)))
    (extra : List gmlNode) :
    gml_parse_linestring atof geom (node ++ extra) srid = some (some (chain, next ++ extra)) := by
  obtain ⟨n0, n1, n2, rfl, hd, h2⟩ :=
    gml_parse_linestring_some atof geom node srid chain next h
  simp only [List.cons_append]
  rcases hd with ⟨h0, h1⟩ | ⟨hn, h0, h1⟩
  · simp only [gml_parse_linestring, h0, h1, h2, if_true] at h ⊢
    generalize gml_parse_coordinates atof n0.Coordinates [] 1 = rc at h ⊢
    rcases rc with _ | _ | ⟨dyn, hz⟩
    · simp at h
    · simp at h
    · simp only [] at h ⊢
      generalize gml_parse_linestring.ok geom srid dyn hz = ro at h ⊢
      rcases ro with _ | g1
      · simp at h
      · simp only [Option.some.injEq, Prod.mk.injEq] at h ⊢
        exact ⟨h.1, trivial⟩
  · simp only [gml_parse_linestring, hn, h0, h1, h2, if_true, if_false] at h ⊢
    generalize gml_get_srsDimension n0 = rd at h ⊢
    rcases rd with _ | hz3
    · simp at h
    simp only [] at h ⊢
    generalize gml_parse_posList atof n0.Coordinates [] hz3 = rp at h ⊢
    rcases rp with _ | dyn3
    · simp at h
    simp only [] at h ⊢
    generalize gml_parse_linestring.ok geom srid dyn3 hz3 = ro at h ⊢
    rcases ro with _ | g1
    · simp at h
    · simp only [Option.some.injEq, Prod.mk.injEq] at h ⊢
      exact ⟨h.1, trivial⟩

/-- A successful `gml_parse_curve` has read seven nodes: segments,
LineStringSegment, posList, and four nodes that repeat these names and the
name Curve, up to the prefix. -/
theorem gml_parse_curve_some (atof : List Char → R) (geom : List (gaiaGeomColl R))
    (node : List gmlNode) (srid : Int) (chain : List (gaiaGeomColl R)) (next : List gmlNode)
    (h : gml_parse_curve atof geom node srid = some (some (chain, next))) :
    ∃ n0 n1 n2 n3 n4 n5 n6, node = n0 :: n1 :: n2 :: n3 :: n4 :: n5 :: n6 :: next ∧
      (n0.Tag = "gml:segments" ∨ n0.Tag = "segments") ∧
      (n1.Tag = "gml:LineStringSegment" ∨ n1.Tag = "LineStringSegment") ∧
      (n2.Tag = "gml:posList" ∨ n2.Tag = "posList") ∧
      (n3.Tag = "gml:posList" ∨ n3.Tag = "posList") ∧
      (n4.Tag = "gml:LineStringSegment" ∨ n4.Tag = "LineStringSegment") ∧
      (n5.Tag = "gml:segments" ∨ n5.Tag = "segments") ∧
      (n6.Tag = "gml:Curve" ∨ n6.Tag = "Curve") := by
  unfold gml_parse_curve at h
  repeat' split at h
  all_goals first
    | (simp at h; done)
    | (simp only [Option.some.injEq, Prod.mk.injEq] at h
       obtain ⟨-, rfl⟩ := h
       exact ⟨_, _, _, _, _, _, _, rfl, by assumption, by assumption, by assumption,
         by assumption, by assumption, by assumption, by assumption⟩)

/-- A successful `gml_parse_curve` reads the seven nodes it needs only. -/
theorem gml_parse_curve_append (atof : List Char → R) (geom : List (gaiaGeomColl R))
    (node : List gmlNode) (srid : Int) (chain : List (gaiaGeomColl R)) (next : List gmlNode)
    (h : gml_parse_curve atof geom node srid = some (some (chain, next)))
    (extra : List gmlNode) :
    gml_parse_curve atof geom (node ++ extra) srid = some (some (chain, next ++ extra)) := by
  obtain ⟨n0, n1, n2, n3, n4, n5, n6, rfl, h0, h1, h2, h3, h4, h5, h6⟩ :=
    gml_parse_curve_some atof geom node srid chain next h
  simp only [List.cons_append]
  simp only [gml_parse_curve, h0, h1, h2, h3, h4, h5, h6, if_true] at h ⊢
  generalize gml_get_srsDimension n2 = rd at h ⊢
  rcases rd with _ | hz3
  · simp at h
  simp only [] at h ⊢
  generalize gml_parse_posList atof n2.Coordinates [] hz3 = rp at h ⊢
  rcases rp with _ | dyn3
  · simp at h
  simp only [] at h ⊢
  generalize gml_parse_linestring.ok geom srid dyn3 hz3 = ro at h ⊢
  rcases ro with _ | g1
  · simp at h
  · simp only [Option.some.injEq, Prod.mk.injEq] at h ⊢
    exact ⟨h.1, trivial⟩

/-- The result of a successful `gml_parse_ring` as a function of the nodes
that follow the six nodes it reads. -/
theorem gml_parse_ring_append (atof : List Char → R) (n0 : gmlNode) (node : List gmlNode)
    (dyn : List (gaiaPoint R)) (interior has_z : Int) (next : List gmlNode)
    (h : gml_parse_ring atof n0 node = some (some (dyn, interior, has_z, next)))
    (extra : List gmlNode) :
    gml_parse_ring atof n0 (node ++ extra) =
      some (some (dyn, interior, has_z, next ++ extra)) := by
  obtain ⟨n1, n2, n3, n4, n5, rfl, h1, h4, hd, hk⟩ :=
    gml_parse_ring_some atof n0 node dyn interior has_z next h
  have c_p : ∀ n : gmlNode, (n.Tag = "gml:coordinates" ∨ n.Tag = "coordinates") →
      ¬ (n.Tag = "gml:posList" ∨ n.Tag = "posList") := by
    intro n hn; rcases hn with e | e <;> rw [e] <;> decide
  have p_c : ∀ n : gmlNode, (n.Tag = "gml:posList" ∨ n.Tag = "posList") →
      ¬ (n.Tag = "gml:coordinates" ∨ n.Tag = "coordinates") := by
    intro n hn; rcases hn with e | e <;> rw [e] <;> decide
  have i_o : (n0.Tag = "gml:innerBoundaryIs" ∨ n0.Tag = "innerBoundaryIs") →
      ¬ (n0.Tag = "gml:outerBoundaryIs" ∨ n0.Tag = "outerBoundaryIs") := by
    intro hn; rcases hn with e | e <;> rw [e] <;> decide
  have e_o : (n0.Tag = "gml:exterior" ∨ n0.Tag = "exterior") →
      ¬ (n0.Tag = "gml:outerBoundaryIs" ∨ n0.Tag = "outerBoundaryIs") ∧
      ¬ (n0.Tag = "gml:innerBoundaryIs" ∨ n0.Tag = "innerBoundaryIs") := by
    intro hn; rcases hn with e | e <;> rw [e] <;> decide
  have n_o : (n0.Tag = "gml:interior" ∨ n0.Tag = "interior") →
      ¬ (n0.Tag = "gml:outerBoundaryIs" ∨ n0.Tag = "outerBoundaryIs") ∧
      ¬ (n0.Tag = "gml:innerBoundaryIs" ∨ n0.Tag = "innerBoundaryIs") ∧
      ¬ (n0.Tag = "gml:exterior" ∨ n0.Tag = "exterior") := by
    intro hn; rcases hn with e | e <;> rw [e] <;> decide
  simp only [List.cons_append]
  rcases hk with ⟨h0, h5, rfl⟩ | ⟨h0, h5, rfl⟩ | ⟨h0, h5, rfl⟩ | ⟨h0, h5, rfl⟩ <;>
    rcases hd with ⟨h2, h3⟩ | ⟨h2, h3⟩
  · simp only [gml_parse_ring, h0, h1, h2, h3, h4, h5, if_true, if_false] at h ⊢
    generalize gml_parse_coordinates atof n2.Coordinates [] 1 = rc at h ⊢
    rcases rc with _ | _ | ⟨dyn1, hz⟩
    · simp at h
    · simp at h
    · simp only [Option.some.injEq, Prod.mk.injEq] at h ⊢
      exact ⟨h.1, trivial, h.2.2.1, trivial⟩
  · simp only [gml_parse_ring, p_c n2 h2, h0, h1, h2, h3, h4, h5, if_true, if_false] at h ⊢
    generalize gml_get_srsDimension n2 = rd at h ⊢
    rcases rd with _ | hz3
    · simp at h
    simp only [] at h ⊢
    generalize gml_parse_posList atof n2.Coordinates [] hz3 = rp at h ⊢
    rcases rp with _ | dyn3
    · simp at h
    · simp only [Option.some.injEq, Prod.mk.injEq] at h ⊢
      exact ⟨h.1, trivial, h.2.2.1, trivial⟩
  · simp only [gml_parse_ring, i_o h0, h0, h1, h2, h3, h4, h5, if_true, if_false] at h ⊢
    generalize gml_parse_coordinates atof n2.Coordinates [] 1 = rc at h ⊢
    rcases rc with _ | _ | ⟨dyn1, hz⟩
    · simp at h
    · simp at h
    · simp only [Option.some.injEq, Prod.mk.injEq] at h ⊢
      exact ⟨h.1, trivial, h.2.2.1, trivial⟩
  · simp only [gml_parse_ring, i_o h0, p_c n2 h2, h0, h1, h2, h3, h4, h5, if_true, if_false] at h ⊢
    generalize gml_get_srsDimension n2 = rd at h ⊢
    rcases rd with _ | hz3
    · simp at h
    simp only [] at h ⊢
    generalize gml_parse_posList atof n2.Coordinates [] hz3 = rp at h ⊢
    rcases rp with _ | dyn3
    · simp at h
    · simp only [Option.some.injEq, Prod.mk.injEq] at h ⊢
      exact ⟨h.1, trivial, h.2.2.1, trivial⟩
  · simp only [gml_parse_ring, (e_o h0).1, (e_o h0).2, c_p n2 h2, h0, h1, h4, h5, if_true, if_false] at h
    simp at h
  · simp only [gml_parse_ring, (e_o h0).1, (e_o h0).2, p_c n2 h2, h0, h1, h2, h3, h4, h5, if_true, if_false] at h ⊢
    generalize gml_get_srsDimension n2 = rd at h ⊢
    rcases rd with _ | hz3
    · simp at h
    simp only [] at h ⊢
    generalize gml_parse_posList atof n2.Coordinates [] hz3 = rp at h ⊢
    rcases rp with _ | dyn3
    · simp at h
    · simp only [Option.some.injEq, Prod.mk.injEq] at h ⊢
      exact ⟨h.1, trivial, h.2.2.1, trivial⟩
  · simp only [gml_parse_ring, (n_o h0).1, (n_o h0).2.1, (n_o h0).2.2, c_p n2 h2, h0, h1, h4, h5, if_true, if_false] at h
    simp at h
  · simp only [gml_parse_ring, (n_o h0).1, (n_o h0).2.1, (n_o h0).2.2, p_c n2 h2, h0, h1, h2, h3, h4, h5, if_true, if_false] at h ⊢
    generalize gml_get_srsDimension n2 = rd at h ⊢
    rcases rd with _ | hz3
    · simp at h
    simp only [] at h ⊢
    generalize gml_parse_posList atof n2.Coordinates [] hz3 = rp at h ⊢
    rcases rp with _ | dyn3
    · simp at h
    · simp only [Option.some.injEq, Prod.mk.injEq] at h ⊢
      exact ⟨h.1, trivial, h.2.2.1, trivial⟩


/-- The loop on rings of `gml_parse_polygon` stops at the closing Polygon
tag: the nodes after it are handed back in `*next_n`. -/
theorem gml_parse_polygon_rings_append (atof : List Char → R) (extra : List gmlNode) :
    ∀ (fuel fuel2 : Nat) (node : List gmlNode) (dyn_pg res : List (gmlDynamicRing R))
      (rest : List gmlNode), fuel ≤ fuel2 →
      gml_parse_polygon.rings atof fuel node dyn_pg none = some (some (res, some rest)) →
      gml_parse_polygon.rings atof fuel2 (node ++ extra) dyn_pg none =
        some (some (res, some (rest ++ extra))) := by
  intro fuel
  induction fuel with
  | zero =>
    intro fuel2 node dyn_pg res rest _ h
    cases node with
    | nil => simp [gml_parse_polygon.rings] at h
    | cons n n_next => simp [gml_parse_polygon.rings] at h
  | succ fuel ih =>
    intro fuel2 node dyn_pg res rest hle h
    cases node with
    | nil => simp [gml_parse_polygon.rings] at h
    | cons n n_next =>
      obtain ⟨f2, rfl⟩ : ∃ f2, fuel2 = f2 + 1 := ⟨fuel2 - 1, by omega⟩
      rw [List.cons_append]
      simp only [gml_parse_polygon.rings] at h ⊢
      by_cases ht : n.Tag = "gml:Polygon" ∨ n.Tag = "Polygon"
      · simp only [ht, if_true, Option.some.injEq, Prod.mk.injEq] at h ⊢
        exact ⟨h.1, by rw [h.2]⟩
      · simp only [ht, if_false] at h ⊢
        cases hr : gml_parse_ring atof n n_next with
        | none => rw [hr] at h; simp at h
        | some r1 =>
          cases r1 with
          | none => rw [hr] at h; simp at h
          | some r2 =>
            obtain ⟨dyn, interior, has_z, next⟩ := r2
            rw [gml_parse_ring_append atof n n_next dyn interior has_z next hr extra]
            rw [hr] at h
            simp only [] at h ⊢
            by_cases h4 : gml_count_dyn_points dyn < 4
            · simp [h4] at h
            · simp only [h4, if_false] at h ⊢
              by_cases hc : gml_parse_polygon.closed dyn has_z = true
              · simp only [hc, if_true] at h ⊢
                exact ih f2 next _ res rest (by omega) h
              · simp [hc] at h

/-- A successful `gml_parse_polygon` that has met the closing Polygon tag
hands back the nodes after it. -/
theorem gml_parse_polygon_append (atof : List Char → R) (geom : List (gaiaGeomColl R))
    (node : List gmlNode) (srid : Int) (chain : List (gaiaGeomColl R)) (rest : List gmlNode)
    (h : gml_parse_polygon atof geom node srid none = some (some (chain, some rest)))
    (extra : List gmlNode) :
    gml_parse_polygon atof geom (node ++ extra) srid none =
      some (some (chain, some (rest ++ extra))) := by
  unfold gml_parse_polygon at h ⊢
  cases hr : gml_parse_polygon.rings atof node.length node [] none with
  | none => rw [hr] at h; simp at h
  | some r1 =>
    cases r1 with
    | none => rw [hr] at h; simp at h
    | some r2 =>
      obtain ⟨dyn_pg, next_n⟩ := r2
      rw [hr] at h
      simp only [] at h
      cases hb : gml_parse_polygon.build geom srid dyn_pg with
      | none => rw [hb] at h; simp at h
      | some g2 =>
        rw [hb] at h
        simp only [Option.some.injEq, Prod.mk.injEq] at h
        obtain ⟨rfl, rfl⟩ := h
        rw [gml_parse_polygon_rings_append atof extra node.length (node ++ extra).length node []
          dyn_pg rest (by simp) hr]
        simp only [hb]

/-- The `switch` of `gml_build_geometry` on a sequence with more nodes after
an accepted one: the parsers of Point, LineString and Curve do not look at
them, and the test `next != NULL` made after the parser of Polygon fails. -/
theorem gml_build_geometry_parse_append (atof : List Char → R) (geom_type : Int)
    (geom : gaiaGeomColl R) (tree_next extra : List gmlNode) (chain : List (gaiaGeomColl R))
    (h : gml_build_geometry.parse atof geom_type geom tree_next = some (some chain)) :
    ((geom_type = GAIA_GML_POINT ∨ geom_type = GAIA_GML_LINESTRING ∨
        geom_type = GAIA_GML_CURVE) →
      gml_build_geometry.parse atof geom_type geom (tree_next ++ extra) = some (some chain)) ∧
    (geom_type = GAIA_GML_POLYGON → extra ≠ [] →
      gml_build_geometry.parse atof geom_type geom (tree_next ++ extra) = some none) := by
  constructor
  · rintro (rfl | rfl | rfl)
    · simp only [gml_build_geometry.parse, if_true] at h ⊢
      cases hp : gml_parse_point atof [{ geom with DeclaredType := GAIA_POINT }] tree_next
          geom.Srid with
      | none => rw [hp] at h; simp at h
      | some r1 =>
        cases r1 with
        | none => rw [hp] at h; simp at h
        | some r2 =>
          obtain ⟨c, nx⟩ := r2
          rw [hp] at h
          rw [gml_parse_point_append atof _ _ _ c nx hp extra]
          exact h
    · have hne : ¬ GAIA_GML_LINESTRING = GAIA_GML_POINT := by decide
      simp only [gml_build_geometry.parse, hne, if_false, if_true] at h ⊢
      cases hp : gml_parse_linestring atof [{ geom with DeclaredType := GAIA_LINESTRING }]
          tree_next geom.Srid with
      | none => rw [hp] at h; simp at h
      | some r1 =>
        cases r1 with
        | none => rw [hp] at h; simp at h
        | some r2 =>
          obtain ⟨c, nx⟩ := r2
          rw [hp] at h
          rw [gml_parse_linestring_append atof _ _ _ c nx hp extra]
          exact h
    · have hne : ¬ GAIA_GML_CURVE = GAIA_GML_POINT := by decide
      have hne2 : ¬ GAIA_GML_CURVE = GAIA_GML_LINESTRING := by decide
      simp only [gml_build_geometry.parse, hne, hne2, if_false, if_true] at h ⊢
      cases hp : gml_parse_curve atof [{ geom with DeclaredType := GAIA_LINESTRING }]
          tree_next geom.Srid with
      | none => rw [hp] at h; simp at h
      | some r1 =>
        cases r1 with
        | none => rw [hp] at h; simp at h
        | some r2 =>
          obtain ⟨c, nx⟩ := r2
          rw [hp] at h
          rw [gml_parse_curve_append atof _ _ _ c nx hp extra]
          exact h
  · rintro rfl hex
    have hne : ¬ GAIA_GML_POLYGON = GAIA_GML_POINT := by decide
    have hne2 : ¬ GAIA_GML_POLYGON = GAIA_GML_LINESTRING := by decide
    have hne3 : ¬ GAIA_GML_POLYGON = GAIA_GML_CURVE := by decide
    simp only [gml_build_geometry.parse, hne, hne2, hne3, if_false, if_true] at h ⊢
    cases hp : gml_parse_polygon atof [{ geom with DeclaredType := GAIA_POLYGON }]
        tree_next geom.Srid none with
    | none => rw [hp] at h; simp at h
    | some r1 =>
      cases r1 with
      | none => rw [hp] at h; simp at h
      | some r2 =>
        obtain ⟨c, nx⟩ := r2
        rw [hp] at h
        cases nx with
        | none => simp at h
        | some nodes =>
          cases nodes with
          | cons a b => simp at h
          | nil =>
            rw [gml_parse_polygon_append atof _ _ _ c [] hp extra]
            cases extra with
            | nil => exact absurd rfl hex
            | cons e es => rfl

/-- The result of `gml_build_geometry` on a sequence with more nodes after an
accepted one. -/
theorem gml_build_geometry_append {S : Type} (atof : List Char → R)
    (sqlite_handle : Option S) (gml_proj_params : S → Int → List Char)
    (gaiaTransform : gaiaGeomColl R → List Char → List Char → Option (gaiaGeomColl R))
    (t : gmlNode) (rest extra : List gmlNode) (g : gaiaGeomColl R)
    (h : gml_build_geometry atof sqlite_handle gml_proj_params gaiaTransform (t :: rest) =
      some (some g)) :
    ((guessGmlGeometryType t = GAIA_GML_POINT ∨ guessGmlGeometryType t = GAIA_GML_LINESTRING ∨
        guessGmlGeometryType t = GAIA_GML_CURVE) →
      gml_build_geometry atof sqlite_handle gml_proj_params gaiaTransform
        (t :: (rest ++ extra)) = some (some g)) ∧
    (guessGmlGeometryType t = GAIA_GML_POLYGON → extra ≠ [] →
      gml_build_geometry atof sqlite_handle gml_proj_params gaiaTransform
        (t :: (rest ++ extra)) = some none) := by
  simp only [gml_build_geometry] at h ⊢
  by_cases hu : guessGmlGeometryType t = GAIA_GML_UNKNOWN
  · simp [hu] at h
  rw [if_neg hu] at h
  rw [if_neg hu]
  cases hs : guessGmlSrid t with
  | none => rw [hs] at h; simp at h
  | some srid =>
    rw [hs] at h
    dsimp only at h ⊢
    cases hp : gml_build_geometry.parse atof (guessGmlGeometryType t)
        ({ (gaiaAllocGeomColl : gaiaGeomColl R) with Srid := srid } : gaiaGeomColl R) rest with
    | none => rw [hp] at h; simp at h
    | some r =>
      cases r with
      | none => rw [hp] at h; simp at h
      | some chain =>
        obtain ⟨k1, k2⟩ := gml_build_geometry_parse_append atof _ _ rest extra chain hp
        rw [hp] at h
        constructor
        · intro hty
          rw [k1 hty]
          exact h
        · intro hty hex
          rw [k2 hty hex]

/-- C36: when `gml_build_geometry` accepts a sequence whose top-level tag
is Point, LineString or Curve, it returns the same geometry on the sequence
followed by any further nodes; when it accepts a sequence whose top-level
tag is Polygon, it returns no result on the sequence followed by one node or
more. -/
theorem gml_build_geometry_trailing_nodes {S : Type} (atof : List Char → R)
    (sqlite_handle : Option S) (gml_proj_params : S → Int → List Char)
    (gaiaTransform : gaiaGeomColl R → List Char → List Char → Option (gaiaGeomColl R))
    (t : gmlNode) (rest extra : List gmlNode) (g : gaiaGeomColl R)
    (h : gml_build_geometry atof sqlite_handle gml_proj_params gaiaTransform (t :: rest) =
      some (some g)) :
    ((guessGmlGeometryType t = GAIA_GML_POINT ∨ guessGmlGeometryType t = GAIA_GML_LINESTRING ∨
        guessGmlGeometryType t = GAIA_GML_CURVE) →
      gml_build_geometry atof sqlite_handle gml_proj_params gaiaTransform
        (t :: (rest ++ extra)) = some (some g)) ∧
    (guessGmlGeometryType t = GAIA_GML_POLYGON → extra ≠ [] →
      gml_build_geometry atof sqlite_handle gml_proj_params gaiaTransform
        (t :: (rest ++ extra)) = some none) ∧
    sampleGmlBuild (sampleLinestringNodes ++ sampleTrailing) =
      sampleGmlBuild sampleLinestringNodes ∧
    sampleGmlBuild (sampleCurveNodes ++ sampleTrailing) = sampleGmlBuild sampleCurveNodes ∧
    sampleGmlBuild sampleLinestringNodes =
      some (some ⟨-1, [], [⟨2, [1, 2, 3, 4], GAIA_XY⟩], [], GAIA_XY, GAIA_LINESTRING, none⟩) ∧
    sampleGmlBuild sampleCurveNodes =
      some (some ⟨-1, [], [⟨2, [1, 2, 3, 4], GAIA_XY⟩], [], GAIA_XY, GAIA_LINESTRING, none⟩) := by
  obtain ⟨k1, k2⟩ := gml_build_geometry_append atof sqlite_handle gml_proj_params
    gaiaTransform t rest extra g h
  refine ⟨k1, k2, ?_, ?_, ?_, ?_⟩
  all_goals decide

/-- C36 (witness): the sample Point and the sample Polygon, each followed by
two nodes. -/
theorem gml_build_geometry_trailing_nodes_witness :
    (sampleGmlBuild (gml_createNode "gml:Point" [] [] :: samplePointRest) =
        some (some ⟨-1, [gaiaAllocPoint 1 2], [], [], GAIA_XY, GAIA_POINT, none⟩) ∧
     sampleGmlBuild (gml_createNode "gml:Point" [] [] :: (samplePointRest ++ sampleTrailing)) =
        some (some ⟨-1, [gaiaAllocPoint 1 2], [], [], GAIA_XY, GAIA_POINT, none⟩)) ∧
    (sampleGmlBuild (gml_createNode "gml:Polygon" [] [] :: samplePolygonRest) =
        some (some ⟨-1, [], [], [⟨⟨4, [0, 0, 4, 0, 4, 4, 0, 0], GAIA_XY⟩, [], 0, GAIA_XY⟩],
          GAIA_XY, GAIA_POLYGON, none⟩) ∧
     sampleGmlBuild (gml_createNode "gml:Polygon" [] [] ::
        (samplePolygonRest ++ sampleTrailing)) = some none) :=
  ⟨⟨by decide,
    (gml_build_geometry_trailing_nodes sampleAtof (none : Option Unit) (fun _ _ => [])
      (fun _ _ _ => none) (gml_createNode "gml:Point" [] []) samplePointRest sampleTrailing
      ⟨-1, [gaiaAllocPoint 1 2], [], [], GAIA_XY, GAIA_POINT, none⟩ (by decide)).1
      (Or.inl (by decide))⟩,
   ⟨by decide,
    (gml_build_geometry_trailing_nodes sampleAtof (none : Option Unit) (fun _ _ => [])
      (fun _ _ _ => none) (gml_createNode "gml:Polygon" [] []) samplePolygonRest
      sampleTrailing
      ⟨-1, [], [], [⟨⟨4, [0, 0, 4, 0, 4, 4, 0, 0], GAIA_XY⟩, [], 0, GAIA_XY⟩], GAIA_XY,
        GAIA_POLYGON, none⟩ (by decide)).2.1 (by decide) (by decide)⟩⟩

/-! ### The tuples of `gml:coordinates` -/

/-- The fields of one token stored from the count 0: the first three
non-empty fields replace `x`, `y` and `z`. -/
theorem storeFields_from_zero (atof : List Char → R) (G : List (List Char))
    (hne : ∀ f ∈ G, f ≠ []) (x y z : R) :
    storeFields atof G (x, y, z, 0) =
      if ∀ f ∈ G, gml_check_coord f = true then
        some (if 0 < G.length then atof (G.getD 0 []) else x,
          if 1 < G.length then atof (G.getD 1 []) else y,
          if 2 < G.length then atof (G.getD 2 []) else z, G.length)
      else none := by
  rcases G with _ | ⟨a, _ | ⟨b, _ | ⟨c, rest⟩⟩⟩
  · simp [storeFields]
  · have ha : a ≠ [] := hne a (by simp)
    by_cases ca : gml_check_coord a = true <;>
      simp [storeFields, gml_extract_coords.store, ha, ca]
  · have ha : a ≠ [] := hne a (by simp)
    have hb : b ≠ [] := hne b (by simp)
    by_cases ca : gml_check_coord a = true <;> by_cases cb : gml_check_coord b = true <;>
      simp [storeFields, gml_extract_coords.store, ha, hb, ca, cb]
  · have ha : a ≠ [] := hne a (by simp)
    have hb : b ≠ [] := hne b (by simp)
    have hc : c ≠ [] := hne c (by simp)
    have hr : ∀ f ∈ rest, f ≠ [] := fun f hf => hne f (by simp [hf])
    by_cases ca : gml_check_coord a = true
    · by_cases cb : gml_check_coord b = true
      · by_cases cc : gml_check_coord c = true
        · simp only [storeFields, gml_extract_coords.store, ha, hb, hc, ca, cb, cc, if_true,
            if_false, Nat.zero_add, one_ne_zero, Nat.reduceAdd, OfNat.ofNat_ne_zero,
            OfNat.ofNat_ne_one]
          rw [storeFields_further atof rest hr _ _ _ 3 (le_refl _)]
          by_cases hall : ∀ f ∈ rest, gml_check_coord f = true
          · have hall2 : ∀ f ∈ a :: b :: c :: rest, gml_check_coord f = true := by
              intro f hf
              simp only [List.mem_cons] at hf
              rcases hf with rfl | rfl | rfl | hf
              · exact ca
              · exact cb
              · exact cc
              · exact hall f hf
            rw [if_pos hall, if_pos hall2]
            simp only [List.length_cons, List.getD_cons_zero, List.getD_cons_succ]
            have e0 : 0 < rest.length + 1 + 1 + 1 := by omega
            have e1 : 1 < rest.length + 1 + 1 + 1 := by omega
            have e2 : 2 < rest.length + 1 + 1 + 1 := by omega
            rw [if_pos e0, if_pos e1, if_pos e2]
            have e : 3 + rest.length = rest.length + 1 + 1 + 1 := by omega
            rw [e]
          · have : ¬ ∀ f ∈ a :: b :: c :: rest, gml_check_coord f = true := by
              intro h; exact hall (fun f hf => h f (by simp [hf]))
            simp [hall, this]
        · simp [storeFields, gml_extract_coords.store, ha, hb, hc, ca, cb, cc]
      · simp [storeFields, gml_extract_coords.store, ha, hb, ca, cb]
    · simp [storeFields, gml_extract_coords.store, ha, ca]

/-- The fields of a complete tuple, as `gml_extract_multi_coord` stores them:
the tuple does not end with a comma, so that `follow` is 0. -/
theorem gml_extract_multi_coord_fields (atof : List Char → R) (c : List Char) (x y z : R)
    (count : Nat) (hc : completeTuple c) (hlen : ∀ f ∈ splitCommas c, f.length < 1024) :
    gml_extract_multi_coord atof c x y z count =
      some ((storeFields atof (splitCommas c) (x, y, z, count)).map
        (fun s => (s.1, s.2.1, s.2.2.1, s.2.2.2, false))) := by
  obtain ⟨hne, -, hlast⟩ := hc
  unfold gml_extract_multi_coord
  rw [gml_extract_coords_loop_fields atof c [] x y z count hlen, ← splitCommas.eq_1]
  cases hs : storeFields atof (splitCommas c) (x, y, z, count) with
  | none => rfl
  | some s =>
    obtain ⟨x1, y1, z1, n1⟩ := s
    cases hl : c.getLast? with
    | none => rw [List.getLast?_eq_none_iff] at hl; exact absurd hl hne
    | some last =>
      have hd : decide (last = ',') = false := by
        rw [decide_eq_false_iff_not]
        intro e; rw [hl, e] at hlast; exact hlast rfl
      simp only [Option.map_some', hd]

/-- One call of `gml_extract_multi_coords` on a list of complete tuples reads
the first tuple only, and hands back the tuples after it in `*next`. -/
theorem gml_extract_multi_coords_fields (atof : List Char → R) (c : List Char)
    (c_next : List (List Char)) (x y z : R) (count : Nat) (next : Option (List (List Char)))
    (hc : completeTuple c) (hlen : ∀ f ∈ splitCommas c, f.length < 1024)
    (hn : ∀ v ∈ c_next, completeTuple v) :
    gml_extract_multi_coords atof (c :: c_next) x y z count next =
      some ((storeFields atof (splitCommas c) (x, y, z, count)).map
        (fun s => (s.1, s.2.1, s.2.2.1, s.2.2.2, some c_next))) := by
  simp only [gml_extract_multi_coords, gml_extract_multi_coord_fields atof c x y z count hc hlen]
  cases hs : storeFields atof (splitCommas c) (x, y, z, count) with
  | none => rfl
  | some s =>
    obtain ⟨x1, y1, z1, n1⟩ := s
    cases c_next with
    | nil => rfl
    | cons v vs =>
      have hv : v.head? ≠ some ',' := (hn v (List.mem_cons_self _ _)).2.1
      simp [hv]

theorem pointFields_single (c : List Char) :
    pointFields [c] = (splitCommas c).filter (fun f => decide (f ≠ [])) := by
  simp [pointFields]

/-- The loop of `gml_parse_coordinates` on a list of complete tuples: one
point per tuple, as long as every tuple has 2 or 3 fields that pass
`gml_check_coord`. -/
theorem gml_parse_coordinates_loop_tuples (atof : List Char → R) (coord : List (List Char)) :
    ∀ (fuel : Nat) (dyn : List (gaiaPoint R)) (has_z : Int) (x y z : R)
      (next : Option (List (List Char))), coord.length ≤ fuel →
      (∀ c ∈ coord, completeTuple c) →
      (∀ c ∈ coord, ∀ f ∈ splitCommas c, f.length < 1024) →
      gml_parse_coordinates.loop atof fuel coord dyn has_z 0 x y z next =
        some (if ∀ c ∈ coord, tupleOk c then
          some (dyn ++ coord.map (tuplePoint atof),
            if ∃ c ∈ coord, (pointFields [c]).length = 2 then 0 else has_z)
        else none) := by
  induction coord with
  | nil =>
    intro fuel dyn has_z x y z next _ _ _
    cases fuel <;> simp [gml_parse_coordinates.loop]
  | cons c cs ih =>
    intro fuel dyn has_z x y z next hfuel htuple hlen
    obtain ⟨f, rfl⟩ : ∃ f, fuel = f + 1 := ⟨fuel - 1, by simp at hfuel; omega⟩
    have hc : completeTuple c := htuple c (List.mem_cons_self _ _)
    have hcs : ∀ v ∈ cs, completeTuple v := fun v hv => htuple v (List.mem_cons_of_mem _ hv)
    have hl : ∀ f ∈ splitCommas c, f.length < 1024 := hlen c (List.mem_cons_self _ _)
    have hls : ∀ v ∈ cs, ∀ f ∈ splitCommas v, f.length < 1024 :=
      fun v hv => hlen v (List.mem_cons_of_mem _ hv)
    have hne : ∀ f ∈ pointFields [c], f ≠ [] := by
      intro f hf
      simpa using (List.mem_filter.1 hf).2
    have hf : cs.length ≤ f := by simp at hfuel; omega
    simp only [gml_parse_coordinates.loop,
      gml_extract_multi_coords_fields atof c cs x y z 0 next hc hl hcs]
    rw [storeFields_filter, ← pointFields_single,
      storeFields_from_zero atof (pointFields [c]) hne]
    by_cases hall : ∀ f ∈ pointFields [c], gml_check_coord f = true
    · rw [if_pos hall]
      simp only [Option.map_some']
      by_cases h2 : (pointFields [c]).length = 2
      · have hok : tupleOk c := ⟨hall, Or.inl h2⟩
        have hex : ∃ v ∈ c :: cs, (pointFields [v]).length = 2 :=
          ⟨c, List.mem_cons_self _ _, h2⟩
        have hiff : (∀ v ∈ c :: cs, tupleOk v) ↔ ∀ v ∈ cs, tupleOk v := by
          simp [hok]
        simp only [h2, if_true, hiff, hex]
        rw [ih f _ 0 _ _ _ (some cs) hf hcs hls]
        simp only [ite_self, List.map_cons, tuplePoint, h2, if_true, gml_add_point_to_line,
          gaiaAppendPointToDynamicLine, List.append_assoc, List.singleton_append,
          Nat.lt_irrefl, Nat.zero_lt_two, Nat.one_lt_two, if_false]
      · by_cases h3 : (pointFields [c]).length = 3
        · have hok : tupleOk c := ⟨hall, Or.inr h3⟩
          have hiff : (∀ v ∈ c :: cs, tupleOk v) ↔ ∀ v ∈ cs, tupleOk v := by
            simp [hok]
          have hex : (∃ v ∈ c :: cs, (pointFields [v]).length = 2) ↔
              ∃ v ∈ cs, (pointFields [v]).length = 2 := by
            simp [h2]
          have e32 : ¬ (3 : Nat) = 2 := by omega
          simp only [h3, e32, if_true, if_false, hiff, hex]
          rw [ih f _ has_z _ _ _ (some cs) hf hcs hls]
          simp only [List.map_cons, tuplePoint, h3, e32, if_false, gml_add_point_to_lineZ,
            gaiaAppendPointZToDynamicLine, List.append_assoc, List.singleton_append,
            Nat.lt_irrefl, if_true, Nat.lt_add_one, Nat.reduceLT]
        · have hok : ¬ tupleOk c := by
            rintro ⟨-, h | h⟩
            · exact h2 h
            · exact h3 h
          have hno : ¬ ∀ v ∈ c :: cs, tupleOk v :=
            fun h => hok (h c (List.mem_cons_self _ _))
          simp only [h2, h3, if_false, hno]
    · have hok : ¬ tupleOk c := fun h => hall h.1
      have hno : ¬ ∀ v ∈ c :: cs, tupleOk v :=
        fun h => hok (h c (List.mem_cons_self _ _))
      simp only [hall, if_false, Option.map_none', hno]

/-- C33: on a list of tokens that are complete tuples (not empty, neither
starting nor ending with a comma, fields shorter than the 1024 bytes of
`buf`) `gml_parse_coordinates` succeeds exactly when every token has 2 or 3
non-empty fields that all pass `gml_check_coord`; it then appends one point
per token, in order, and `has_z` is 0 when some token has 2 fields and is
left as it was otherwise, so that a list mixing 2-field and 3-field tuples is
accepted and reported as 2D. -/
theorem gml_parse_coordinates_tuples (atof : List Char → R) (coord : List (List Char))
    (dyn : List (gaiaPoint R)) (has_z : Int)
    (htuple : ∀ c ∈ coord, completeTuple c)
    (hlen : ∀ c ∈ coord, ∀ f ∈ splitCommas c, f.length < 1024) :
    gml_parse_coordinates atof coord dyn has_z =
      some (if ∀ c ∈ coord, tupleOk c then
          some (dyn ++ coord.map (tuplePoint atof),
            if ∃ c ∈ coord, (pointFields [c]).length = 2 then 0 else has_z)
        else none) ∧
    gml_parse_coordinates sampleAtof ["1,2,3".toList, "4,5".toList, "6,7,8".toList] [] 1 =
      some (some ([gaiaAllocPointXYZ 1 2 3, gaiaAllocPoint 4 5, gaiaAllocPointXYZ 6 7 8], 0)) ∧
    gml_parse_coordinates sampleAtof ["1,2,3".toList, "4,5,6".toList] [] 1 =
      some (some ([gaiaAllocPointXYZ 1 2 3, gaiaAllocPointXYZ 4 5 6], 1)) ∧
    gml_parse_coordinates sampleAtof ["1,,2".toList] [] 1 =
      some (some ([gaiaAllocPoint 1 2], 0)) ∧
    gml_parse_coordinates sampleAtof ["1,2".toList, "3,4,5,6".toList] [] 1 = some none ∧
    gml_parse_coordinates sampleAtof ["1,2".toList, "3,x".toList] [] 1 = some none ∧
    gml_parse_coordinates sampleAtof ["1,2".toList, "3".toList] [] 1 = some none := by
  refine ⟨?_, ?_, ?_, ?_, ?_, ?_, ?_⟩
  · exact gml_parse_coordinates_loop_tuples atof coord coord.length dyn has_z 0 0 0 none
      (le_refl _) htuple hlen
  all_goals decide

/-- C33 (witness): a 3-field tuple followed by a 2-field tuple. -/
theorem gml_parse_coordinates_tuples_witness :
    (∀ c ∈ ["1,2,3".toList, "4,5".toList], completeTuple c) ∧
    (∀ c ∈ ["1,2,3".toList, "4,5".toList], ∀ f ∈ splitCommas c, f.length < 1024) ∧
    gml_parse_coordinates sampleAtof ["1,2,3".toList, "4,5".toList] [] 1 =
      some (if ∀ c ∈ ["1,2,3".toList, "4,5".toList], tupleOk c then
          some ([] ++ ["1,2,3".toList, "4,5".toList].map (tuplePoint sampleAtof),
            if ∃ c ∈ ["1,2,3".toList, "4,5".toList], (pointFields [c]).length = 2 then 0
            else 1)
        else none) :=
  ⟨by decide, by decide,
   (gml_parse_coordinates_tuples sampleAtof ["1,2,3".toList, "4,5".toList] [] 1
     (by decide) (by decide)).1⟩

/-! ### Closing tags and the names of their opening tags -/

theorem gmlNested_append {a b : List gmlNode} (ha : gmlNested a) (hb : gmlNested b) :
    gmlNested (a ++ b) := by
  induction ha with
  | nil => exact hb
  | element o c inner rest hn _ _ _ ih2 =>
    have e : (o :: (inner ++ c :: rest)) ++ b = o :: (inner ++ c :: (rest ++ b)) := by
      simp
    rw [e]
    exact gmlNested.element o c inner (rest ++ b) hn (by assumption) ih2

theorem gmlNested_one (o c : gmlNode) (inner : List gmlNode)
    (hn : gmlLocalName c.Tag = gmlLocalName o.Tag) (hi : gmlNested inner) :
    gmlNested (o :: (inner ++ [c])) :=
  gmlNested.element o c inner [] hn hi gmlNested.nil

theorem gmlNested_leaf (o c : gmlNode) (hn : gmlLocalName c.Tag = gmlLocalName o.Tag) :
    gmlNested [o, c] :=
  gmlNested.element o c [] [] hn gmlNested.nil gmlNested.nil

/-- In a sequence of complete elements every name, up to the prefix, is
carried by an even number of nodes. -/
theorem gmlNested_even {l : List gmlNode} (h : gmlNested l) (name : List Char) :
    (l.countP (fun n => decide (gmlLocalName n.Tag = name))) % 2 = 0 := by
  induction h with
  | nil => rfl
  | element o c inner rest hn _ _ ih1 ih2 =>
    simp only [List.countP_cons, List.countP_append, hn]
    split <;> omega

theorem gmlRename_length (tag : String) :
    ∀ (i : Nat) (l : List gmlNode), (gmlRename tag i l).length = l.length := by
  intro i l
  induction l generalizing i with
  | nil => cases i <;> rfl
  | cons n rest ih =>
    cases i with
    | zero => rfl
    | succ i => simp only [gmlRename, List.length_cons, ih]

theorem gmlRename_take (tag : String) :
    ∀ (i k : Nat) (l : List gmlNode), i < k →
      (gmlRename tag i l).take k = gmlRename tag i (l.take k) := by
  intro i k l
  induction l generalizing i k with
  | nil => intro _; cases i <;> simp [gmlRename]
  | cons n rest ih =>
    intro h
    cases k with
    | zero => omega
    | succ k =>
      cases i with
      | zero => simp [gmlRename]
      | succ i =>
        simp only [gmlRename, List.take_succ_cons]
        rw [ih i k (by omega)]

/-- Renaming one node takes one node from the count of its former name and
adds one to the count of its new name. -/
theorem gmlRename_count (tag : String) :
    ∀ (i : Nat) (l : List gmlNode) (n : gmlNode), l[i]? = some n →
      gmlLocalName tag ≠ gmlLocalName n.Tag →
      (gmlRename tag i l).countP (fun m => decide (gmlLocalName m.Tag = gmlLocalName n.Tag))
          + 1 =
        l.countP (fun m => decide (gmlLocalName m.Tag = gmlLocalName n.Tag)) ∧
      (gmlRename tag i l).countP (fun m => decide (gmlLocalName m.Tag = gmlLocalName tag)) =
        l.countP (fun m => decide (gmlLocalName m.Tag = gmlLocalName tag)) + 1 := by
  intro i l
  induction l generalizing i with
  | nil => intro n h; simp at h
  | cons m rest ih =>
    intro n h hne
    cases i with
    | zero =>
      simp only [List.getElem?_cons_zero, Option.some.injEq] at h
      subst h
      have e1 : decide (gmlLocalName tag = gmlLocalName m.Tag) = false := by simp [hne]
      have e2 : decide (gmlLocalName m.Tag = gmlLocalName tag) = false := by
        simp [Ne.symm hne]
      simp only [gmlRename, List.countP_cons, e1, e2, decide_True, Bool.false_eq_true,
        if_false, if_true]
      exact ⟨trivial, trivial⟩
    | succ i =>
      simp only [List.getElem?_cons_succ] at h
      obtain ⟨a, b⟩ := ih i n h hne
      simp only [gmlRename, List.countP_cons]
      omega

/-- A sequence whose elements are matched does not stay so when one node
after the first takes a name that differs from its own by more than the
prefix. -/
theorem gmlMatched_rename_absurd (t : gmlNode) (l : List gmlNode) (j : Nat) (n : gmlNode)
    (tag : String) (hj : l[j]? = some n) (hne : gmlLocalName tag ≠ gmlLocalName n.Tag)
    (h1 : gmlMatched (t :: l)) (h2 : gmlMatched (t :: gmlRename tag j l)) : False := by
  obtain ⟨cX, cY⟩ := gmlRename_count tag j l n hj hne
  have key : ∀ (m : List gmlNode), gmlMatched (t :: m) → ∀ name,
      ((t :: m).countP (fun n => decide (gmlLocalName n.Tag = name))) % 2 = 0 ∨
      (m.countP (fun n => decide (gmlLocalName n.Tag = name))) % 2 = 0 := by
    intro m hm name
    rcases hm with hm | ⟨o, r, e, hr⟩
    · exact Or.inl (gmlNested_even hm name)
    · simp only [List.cons.injEq] at e
      obtain ⟨-, rfl⟩ := e
      exact Or.inr (gmlNested_even hr name)
  have kind : ∀ (m : List gmlNode), gmlMatched (t :: m) →
      (∀ name, ((t :: m).countP (fun n => decide (gmlLocalName n.Tag = name))) % 2 = 0) ∨
      (∀ name, (m.countP (fun n => decide (gmlLocalName n.Tag = name))) % 2 = 0) := by
    intro m hm
    rcases hm with hm | ⟨o, r, e, hr⟩
    · exact Or.inl (fun name => gmlNested_even hm name)
    · simp only [List.cons.injEq] at e
      obtain ⟨-, rfl⟩ := e
      exact Or.inr (fun name => gmlNested_even hr name)
  have hX : ∀ m : List gmlNode,
      (t :: m).countP (fun k => decide (gmlLocalName k.Tag = gmlLocalName n.Tag)) =
        m.countP (fun k => decide (gmlLocalName k.Tag = gmlLocalName n.Tag)) +
          (if gmlLocalName t.Tag = gmlLocalName n.Tag then 1 else 0) := by
    intro m; simp only [List.countP_cons, decide_eq_true_eq]
  have hY : ∀ m : List gmlNode,
      (t :: m).countP (fun k => decide (gmlLocalName k.Tag = gmlLocalName tag)) =
        m.countP (fun k => decide (gmlLocalName k.Tag = gmlLocalName tag)) +
          (if gmlLocalName t.Tag = gmlLocalName tag then 1 else 0) := by
    intro m; simp only [List.countP_cons, decide_eq_true_eq]
  rcases kind l h1 with a | a <;> rcases kind (gmlRename tag j l) h2 with b | b
  · have a1 := a (gmlLocalName n.Tag)
    have b1 := b (gmlLocalName n.Tag)
    rw [hX] at a1 b1
    omega
  · have a1 := a (gmlLocalName n.Tag)
    have a2 := a (gmlLocalName tag)
    have b1 := b (gmlLocalName n.Tag)
    have b2 := b (gmlLocalName tag)
    rw [hX] at a1
    rw [hY] at a2
    by_cases e1 : gmlLocalName t.Tag = gmlLocalName n.Tag
    · by_cases e2 : gmlLocalName t.Tag = gmlLocalName tag
      · exact hne (e2.symm.trans e1)
      · rw [if_neg e2] at a2; omega
    · rw [if_neg e1] at a1; omega
  · have a1 := a (gmlLocalName n.Tag)
    have a2 := a (gmlLocalName tag)
    have b1 := b (gmlLocalName n.Tag)
    have b2 := b (gmlLocalName tag)
    rw [hX] at b1
    rw [hY] at b2
    by_cases e1 : gmlLocalName t.Tag = gmlLocalName n.Tag
    · by_cases e2 : gmlLocalName t.Tag = gmlLocalName tag
      · exact hne (e2.symm.trans e1)
      · rw [if_neg e2] at b2; omega
    · rw [if_neg e1] at b1; omega
  · have a1 := a (gmlLocalName n.Tag)
    have b1 := b (gmlLocalName n.Tag)
    omega

/-- The nodes that a successful `gml_parse_point` has read form, with any
Point tag before them, one complete Point element. -/
theorem gml_parse_point_nested (atof : List Char → R) (geom : List (gaiaGeomColl R))
    (node : List gmlNode) (srid : Int) (chain : List (gaiaGeomColl R)) (next : List gmlNode)
    (h : gml_parse_point atof geom node srid = some (some (chain, next))) :
    ∃ inner, node = inner ++ next ∧ inner.length = 3 ∧
      ∀ o : gmlNode, (o.Tag = "gml:Point" ∨ o.Tag = "Point") → gmlNested (o :: inner) := by
  obtain ⟨n0, n1, n2, hn, h01, h2⟩ := gml_parse_point_some atof geom node srid chain next h
  refine ⟨[n0, n1, n2], by rw [hn]; rfl, rfl, ?_⟩
  intro o ho
  have e1 : gmlLocalName n1.Tag = gmlLocalName n0.Tag := by
    rcases h01 with ⟨a | a, b | b⟩ | ⟨a | a, b | b⟩ <;> rw [a, b] <;> rfl
  have e2 : gmlLocalName n2.Tag = gmlLocalName o.Tag := by
    rcases h2 with a | a <;> rcases ho with b | b <;> rw [a, b] <;> rfl
  exact gmlNested_one o n2 [n0, n1] e2 (gmlNested_leaf n0 n1 e1)

/-- The nodes that a successful `gml_parse_linestring` has read form, with any
LineString tag before them, one complete LineString element. -/
theorem gml_parse_linestring_nested (atof : List Char → R) (geom : List (gaiaGeomColl R))
    (node : List gmlNode) (srid : Int) (chain : List (gaiaGeomColl R)) (next : List gmlNode)
    (h : gml_parse_linestring atof geom node srid = some (some (chain, next))) :
    ∃ inner, node = inner ++ next ∧ inner.length = 3 ∧
      ∀ o : gmlNode, (o.Tag = "gml:LineString" ∨ o.Tag = "LineString") →
        gmlNested (o :: inner) := by
  obtain ⟨n0, n1, n2, hn, h01, h2⟩ :=
    gml_parse_linestring_some atof geom node srid chain next h
  refine ⟨[n0, n1, n2], by rw [hn]; rfl, rfl, ?_⟩
  intro o ho
  have e1 : gmlLocalName n1.Tag = gmlLocalName n0.Tag := by
    rcases h01 with ⟨a | a, b | b⟩ | ⟨-, a | a, b | b⟩ <;> rw [a, b] <;> rfl
  have e2 : gmlLocalName n2.Tag = gmlLocalName o.Tag := by
    rcases h2 with a | a <;> rcases ho with b | b <;> rw [a, b] <;> rfl
  exact gmlNested_one o n2 [n0, n1] e2 (gmlNested_leaf n0 n1 e1)

/-- The nodes that a successful `gml_parse_curve` has read form, with any
Curve tag before them, one complete Curve element. -/
theorem gml_parse_curve_nested (atof : List Char → R) (geom : List (gaiaGeomColl R))
    (node : List gmlNode) (srid : Int) (chain : List (gaiaGeomColl R)) (next : List gmlNode)
    (h : gml_parse_curve atof geom node srid = some (some (chain, next))) :
    ∃ inner, node = inner ++ next ∧ inner.length = 7 ∧
      ∀ o : gmlNode, (o.Tag = "gml:Curve" ∨ o.Tag = "Curve") → gmlNested (o :: inner) := by
  obtain ⟨n0, n1, n2, n3, n4, n5, n6, hn, h0, h1, h2, h3, h4, h5, h6⟩ :=
    gml_parse_curve_some atof geom node srid chain next h
  refine ⟨[n0, n1, n2, n3, n4, n5, n6], by rw [hn]; rfl, rfl, ?_⟩
  intro o ho
  have e1 : gmlLocalName n3.Tag = gmlLocalName n2.Tag := by
    rcases h2 with a | a <;> rcases h3 with b | b <;> rw [a, b] <;> rfl
  have e2 : gmlLocalName n4.Tag = gmlLocalName n1.Tag := by
    rcases h1 with a | a <;> rcases h4 with b | b <;> rw [a, b] <;> rfl
  have e3 : gmlLocalName n5.Tag = gmlLocalName n0.Tag := by
    rcases h0 with a | a <;> rcases h5 with b | b <;> rw [a, b] <;> rfl
  have e4 : gmlLocalName n6.Tag = gmlLocalName o.Tag := by
    rcases h6 with a | a <;> rcases ho with b | b <;> rw [a, b] <;> rfl
  exact gmlNested_one o n6 [n0, n1, n2, n3, n4, n5] e4
    (gmlNested_one n0 n5 [n1, n2, n3, n4] e3
      (gmlNested_one n1 n4 [n2, n3] e2 (gmlNested_leaf n2 n3 e1)))

/-- The nodes that a successful `gml_parse_ring` has read form, with the ring
tag before them, one complete ring element. -/
theorem gml_parse_ring_nested (atof : List Char → R) (n0 : gmlNode) (node : List gmlNode)
    (dyn : List (gaiaPoint R)) (interior has_z : Int) (next : List gmlNode)
    (h : gml_parse_ring atof n0 node = some (some (dyn, interior, has_z, next))) :
    ∃ inner, node = inner ++ next ∧ gmlNested (n0 :: inner) := by
  obtain ⟨n1, n2, n3, n4, n5, hn, h1, h4, h23, h05⟩ :=
    gml_parse_ring_some atof n0 node dyn interior has_z next h
  refine ⟨[n1, n2, n3, n4, n5], by rw [hn]; rfl, ?_⟩
  have e1 : gmlLocalName n3.Tag = gmlLocalName n2.Tag := by
    rcases h23 with ⟨a | a, b | b⟩ | ⟨a | a, b | b⟩ <;> rw [a, b] <;> rfl
  have e2 : gmlLocalName n4.Tag = gmlLocalName n1.Tag := by
    rcases h1 with a | a <;> rcases h4 with b | b <;> rw [a, b] <;> rfl
  have e3 : gmlLocalName n5.Tag = gmlLocalName n0.Tag := by
    rcases h05 with ⟨a | a, b | b, -⟩ | ⟨a | a, b | b, -⟩ | ⟨a | a, b | b, -⟩ |
      ⟨a | a, b | b, -⟩ <;> rw [a, b] <;> rfl
  exact gmlNested_one n0 n5 [n1, n2, n3, n4] e3
    (gmlNested_one n1 n4 [n2, n3] e2 (gmlNested_leaf n2 n3 e1))

/-- The nodes that the loop on rings of `gml_parse_polygon` has read: complete
ring elements and then a Polygon tag, after which `next` points; or the loop
has met the end of the nodes and has left `next` as it was. -/
theorem gml_parse_polygon_rings_nested (atof : List Char → R) :
    ∀ (fuel : Nat) (node : List gmlNode) (dyn_pg : List (gmlDynamicRing R))
      (next_n : Option (List gmlNode)) (d : List (gmlDynamicRing R))
      (next : Option (List gmlNode)),
      gml_parse_polygon.rings atof fuel node dyn_pg next_n = some (some (d, next)) →
      (∃ rings c rest, node = rings ++ c :: rest ∧ gmlNested rings ∧
        (c.Tag = "gml:Polygon" ∨ c.Tag = "Polygon") ∧ next = some rest) ∨
      next = next_n := by
  intro fuel
  induction fuel with
  | zero =>
    intro node dyn_pg next_n d next h
    cases node with
    | nil =>
      simp only [gml_parse_polygon.rings, Option.some.injEq, Prod.mk.injEq] at h
      exact Or.inr h.2.symm
    | cons n rest => simp [gml_parse_polygon.rings] at h
  | succ fuel ih =>
    intro node dyn_pg next_n d next h
    cases node with
    | nil =>
      simp only [gml_parse_polygon.rings, Option.some.injEq, Prod.mk.injEq] at h
      exact Or.inr h.2.symm
    | cons n n_next =>
      simp only [gml_parse_polygon.rings] at h
      by_cases hp : n.Tag = "gml:Polygon" ∨ n.Tag = "Polygon"
      · rw [if_pos hp] at h
        simp only [Option.some.injEq, Prod.mk.injEq] at h
        exact Or.inl ⟨[], n, n_next, rfl, gmlNested.nil, hp, h.2.symm⟩
      · rw [if_neg hp] at h
        cases hr : gml_parse_ring atof n n_next with
        | none => rw [hr] at h; simp at h
        | some r =>
          cases r with
          | none => rw [hr] at h; simp at h
          | some r =>
            obtain ⟨dyn, interior, has_z, nx⟩ := r
            rw [hr] at h
            simp only [] at h
            split_ifs at h
            · simp at h
            · obtain ⟨inner, hin, hnest⟩ :=
                gml_parse_ring_nested atof n n_next dyn interior has_z nx hr
              rcases ih _ _ _ _ _ h with ⟨rings, c, rest, e, hr2, hc, hn2⟩ | hst
              · left
                refine ⟨(n :: inner) ++ rings, c, rest, ?_, gmlNested_append hnest hr2, hc,
                  hn2⟩
                rw [hin, e]
                simp
              · exact Or.inr hst
            · simp at h

/-- The nodes that a successful `gml_parse_polygon` has read, see
`gml_parse_polygon_rings_nested`. -/
theorem gml_parse_polygon_nested (atof : List Char → R) (geom : List (gaiaGeomColl R))
    (node : List gmlNode) (srid : Int) (next_n : Option (List gmlNode))
    (chain : List (gaiaGeomColl R)) (next : Option (List gmlNode))
    (h : gml_parse_polygon atof geom node srid next_n = some (some (chain, next))) :
    (∃ rings c rest, node = rings ++ c :: rest ∧ gmlNested rings ∧
      (c.Tag = "gml:Polygon" ∨ c.Tag = "Polygon") ∧ next = some rest) ∨
    next = next_n := by
  unfold gml_parse_polygon at h
  cases hr : gml_parse_polygon.rings atof node.length node [] next_n with
  | none => rw [hr] at h; simp at h
  | some r =>
    cases r with
    | none => rw [hr] at h; simp at h
    | some r =>
      obtain ⟨d, nx⟩ := r
      rw [hr] at h
      simp only [] at h
      cases hb : gml_parse_polygon.build geom srid d with
      | none => rw [hb] at h; simp at h
      | some g =>
        rw [hb] at h
        simp only [Option.some.injEq, Prod.mk.injEq] at h
        obtain ⟨-, rfl⟩ := h
        exact gml_parse_polygon_rings_nested atof _ _ _ _ _ _ hr

theorem gml_parse_multi_point_loop_step (atof : List Char → R) (fuel : Nat)
    (geom : List (gaiaGeomColl R)) (n0 n1 : gmlNode) (n : List gmlNode)
    (chain : List (gaiaGeomColl R))
    (h : gml_parse_multi_point.loop atof (fuel + 1) geom (n0 :: n1 :: n) = some (some chain)) :
    ∃ srid geom2 n2 rest,
      (n0.Tag = "gml:pointMember" ∨ n0.Tag = "pointMember") ∧
      (n1.Tag = "gml:Point" ∨ n1.Tag = "Point") ∧
      gml_parse_point atof geom n srid = some (some (geom2, n2 :: rest)) ∧
      (n2.Tag = "gml:pointMember" ∨ n2.Tag = "pointMember") ∧
      gml_parse_multi_point.loop atof fuel geom2 rest = some (some chain) := by
  simp only [gml_parse_multi_point.loop] at h
  repeat' split at h
  all_goals first
    | (simp at h)
    | exact ⟨_, _, _, _, by assumption, by assumption, by assumption, by assumption, h⟩

/-- The nodes that a successful loop of `gml_parse_multi_point` has read:
complete member elements, and then nothing or one MultiPoint tag. -/
theorem gml_parse_multi_point_loop_nested (atof : List Char → R) :
    ∀ (fuel : Nat) (geom : List (gaiaGeomColl R)) (node : List gmlNode)
      (chain : List (gaiaGeomColl R)),
      gml_parse_multi_point.loop atof fuel geom node = some (some chain) →
      gmlNested node ∨ ∃ inner c, node = inner ++ [c] ∧ gmlNested inner ∧
        (c.Tag = "gml:MultiPoint" ∨ c.Tag = "MultiPoint") := by
  intro fuel
  induction fuel with
  | zero =>
    intro geom node chain h
    cases node with
    | nil => exact Or.inl gmlNested.nil
    | cons n rest => simp [gml_parse_multi_point.loop] at h
  | succ fuel ih =>
    intro geom node chain h
    rcases node with _ | ⟨n0, _ | ⟨n1, n⟩⟩
    · exact Or.inl gmlNested.nil
    · simp only [gml_parse_multi_point.loop] at h
      split_ifs at h with ht
      · exact Or.inr ⟨[], n0, rfl, gmlNested.nil, ht⟩
      · simp at h
    · obtain ⟨srid, geom2, n2, rest, h0, h1, hp, h2, hl⟩ :=
        gml_parse_multi_point_loop_step atof fuel geom n0 n1 n chain h
      obtain ⟨inner, hin, -, hnest⟩ := gml_parse_point_nested atof geom n srid geom2 _ hp
      have e2 : gmlLocalName n2.Tag = gmlLocalName n0.Tag := by
        rcases h2 with a | a <;> rcases h0 with b | b <;> rw [a, b] <;> rfl
      have hm : gmlNested (n0 :: ((n1 :: inner) ++ [n2])) :=
        gmlNested_one n0 n2 (n1 :: inner) e2 (hnest n1 h1)
      have hn : n0 :: n1 :: n = (n0 :: ((n1 :: inner) ++ [n2])) ++ rest := by
        rw [hin]; simp
      rw [hn]
      rcases ih _ _ _ hl with hr | ⟨inner2, c, e, hr, hc⟩
      · exact Or.inl (gmlNested_append hm hr)
      · right
        refine ⟨(n0 :: ((n1 :: inner) ++ [n2])) ++ inner2, c, ?_, gmlNested_append hm hr, hc⟩
        rw [e]; simp

theorem gml_parse_multi_linestring_loop_step (atof : List Char → R) (fuel : Nat)
    (geom : List (gaiaGeomColl R)) (n0 n1 : gmlNode) (n : List gmlNode)
    (chain : List (gaiaGeomColl R))
    (h : gml_parse_multi_linestring.loop atof (fuel + 1) geom (n0 :: n1 :: n) = some (some chain)) :
    ∃ srid geom2 n2 rest,
      (n0.Tag = "gml:lineStringMember" ∨ n0.Tag = "lineStringMember") ∧
      (n1.Tag = "gml:LineString" ∨ n1.Tag = "LineString") ∧
      gml_parse_linestring atof geom n srid = some (some (geom2, n2 :: rest)) ∧
      (n2.Tag = "gml:lineStringMember" ∨ n2.Tag = "lineStringMember") ∧
      gml_parse_multi_linestring.loop atof fuel geom2 rest = some (some chain) := by
  simp only [gml_parse_multi_linestring.loop] at h
  repeat' split at h
  all_goals first
    | (simp at h)
    | exact ⟨_, _, _, _, by assumption, by assumption, by assumption, by assumption, h⟩

/-- The nodes that a successful loop of `gml_parse_multi_linestring` has read:
complete member elements, and then nothing or one MultiLineString tag. -/
theorem gml_parse_multi_linestring_loop_nested (atof : List Char → R) :
    ∀ (fuel : Nat) (geom : List (gaiaGeomColl R)) (node : List gmlNode)
      (chain : List (gaiaGeomColl R)),
      gml_parse_multi_linestring.loop atof fuel geom node = some (some chain) →
      gmlNested node ∨ ∃ inner c, node = inner ++ [c] ∧ gmlNested inner ∧
        (c.Tag = "gml:MultiLineString" ∨ c.Tag = "MultiLineString") := by
  intro fuel
  induction fuel with
  | zero =>
    intro geom node chain h
    cases node with
    | nil => exact Or.inl gmlNested.nil
    | cons n rest => simp [gml_parse_multi_linestring.loop] at h
  | succ fuel ih =>
    intro geom node chain h
    rcases node with _ | ⟨n0, _ | ⟨n1, n⟩⟩
    · exact Or.inl gmlNested.nil
    · simp only [gml_parse_multi_linestring.loop] at h
      split_ifs at h with ht
      · exact Or.inr ⟨[], n0, rfl, gmlNested.nil, ht⟩
      · simp at h
    · obtain ⟨srid, geom2, n2, rest, h0, h1, hp, h2, hl⟩ :=
        gml_parse_multi_linestring_loop_step atof fuel geom n0 n1 n chain h
      obtain ⟨inner, hin, -, hnest⟩ := gml_parse_linestring_nested atof geom n srid geom2 _ hp
      have e2 : gmlLocalName n2.Tag = gmlLocalName n0.Tag := by
        rcases h2 with a | a <;> rcases h0 with b | b <;> rw [a, b] <;> rfl
      have hm : gmlNested (n0 :: ((n1 :: inner) ++ [n2])) :=
        gmlNested_one n0 n2 (n1 :: inner) e2 (hnest n1 h1)
      have hn : n0 :: n1 :: n = (n0 :: ((n1 :: inner) ++ [n2])) ++ rest := by
        rw [hin]; simp
      rw [hn]
      rcases ih _ _ _ hl with hr | ⟨inner2, c, e, hr, hc⟩
      · exact Or.inl (gmlNested_append hm hr)
      · right
        refine ⟨(n0 :: ((n1 :: inner) ++ [n2])) ++ inner2, c, ?_, gmlNested_append hm hr, hc⟩
        rw [e]; simp

theorem gml_parse_multi_curve_loop_step (atof : List Char → R) (fuel : Nat)
    (geom : List (gaiaGeomColl R)) (n0 n1 : gmlNode) (n : List gmlNode)
    (chain : List (gaiaGeomColl R))
    (h : gml_parse_multi_curve.loop atof (fuel + 1) geom (n0 :: n1 :: n) = some (some chain)) :
    ∃ srid geom2 n2 rest,
      (n0.Tag = "gml:curveMember" ∨ n0.Tag = "curveMember") ∧
      (n1.Tag = "gml:Curve" ∨ n1.Tag = "Curve") ∧
      gml_parse_curve atof geom n srid = some (some (geom2, n2 :: rest)) ∧
      (n2.Tag = "gml:curveMember" ∨ n2.Tag = "curveMember") ∧
      gml_parse_multi_curve.loop atof fuel geom2 rest = some (some chain) := by
  simp only [gml_parse_multi_curve.loop] at h
  repeat' split at h
  all_goals first
    | (simp at h)
    | exact ⟨_, _, _, _, by assumption, by assumption, by assumption, by assumption, h⟩

/-- The nodes that a successful loop of `gml_parse_multi_curve` has read:
complete member elements, and then nothing or one MultiCurve tag. -/
theorem gml_parse_multi_curve_loop_nested (atof : List Char → R) :
    ∀ (fuel : Nat) (geom : List (gaiaGeomColl R)) (node : List gmlNode)
      (chain : List (gaiaGeomColl R)),
      gml_parse_multi_curve.loop atof fuel geom node = some (some chain) →
      gmlNested node ∨ ∃ inner c, node = inner ++ [c] ∧ gmlNested inner ∧
        (c.Tag = "gml:MultiCurve" ∨ c.Tag = "MultiCurve") := by
  intro fuel
  induction fuel with
  | zero =>
    intro geom node chain h
    cases node with
    | nil => exact Or.inl gmlNested.nil
    | cons n rest => simp [gml_parse_multi_curve.loop] at h
  | succ fuel ih =>
    intro geom node chain h
    rcases node with _ | ⟨n0, _ | ⟨n1, n⟩⟩
    · exact Or.inl gmlNested.nil
    · simp only [gml_parse_multi_curve.loop] at h
      split_ifs at h with ht
      · exact Or.inr ⟨[], n0, rfl, gmlNested.nil, ht⟩
      · simp at h
    · obtain ⟨srid, geom2, n2, rest, h0, h1, hp, h2, hl⟩ :=
        gml_parse_multi_curve_loop_step atof fuel geom n0 n1 n chain h
      obtain ⟨inner, hin, -, hnest⟩ := gml_parse_curve_nested atof geom n srid geom2 _ hp
      have e2 : gmlLocalName n2.Tag = gmlLocalName n0.Tag := by
        rcases h2 with a | a <;> rcases h0 with b | b <;> rw [a, b] <;> rfl
      have hm : gmlNested (n0 :: ((n1 :: inner) ++ [n2])) :=
        gmlNested_one n0 n2 (n1 :: inner) e2 (hnest n1 h1)
      have hn : n0 :: n1 :: n = (n0 :: ((n1 :: inner) ++ [n2])) ++ rest := by
        rw [hin]; simp
      rw [hn]
      rcases ih _ _ _ hl with hr | ⟨inner2, c, e, hr, hc⟩
      · exact Or.inl (gmlNested_append hm hr)
      · right
        refine ⟨(n0 :: ((n1 :: inner) ++ [n2])) ++ inner2, c, ?_, gmlNested_append hm hr, hc⟩
        rw [e]; simp

theorem gml_parse_multi_polygon_loop_step (atof : List Char → R) (fuel : Nat)
    (geom : List (gaiaGeomColl R)) (n0 n1 : gmlNode) (n : List gmlNode)
    (next : Option (List gmlNode)) (chain : List (gaiaGeomColl R))
    (h : gml_parse_multi_polygon.loop atof (fuel + 1) geom (n0 :: n1 :: n) next =
      some (some chain)) :
    ∃ srid geom2 n2 rest,
      (n0.Tag = "gml:polygonMember" ∨ n0.Tag = "polygonMember") ∧
      (n1.Tag = "gml:Polygon" ∨ n1.Tag = "Polygon") ∧
      gml_parse_polygon atof geom n srid next = some (some (geom2, some (n2 :: rest))) ∧
      (n2.Tag = "gml:polygonMember" ∨ n2.Tag = "polygonMember") ∧
      gml_parse_multi_polygon.loop atof fuel geom2 rest (some (n2 :: rest)) = some (some chain) := by
  simp only [gml_parse_multi_polygon.loop] at h
  repeat' split at h
  all_goals first
    | (simp at h)
    | exact ⟨_, _, _, _, by assumption, by assumption, by assumption, by assumption, h⟩

/-- The nodes that a successful loop of `gml_parse_multi_polygon` has read:
complete member elements, and then nothing or one MultiPolygon tag. The
variable `next` is never assigned or points to the node before `node`. -/
theorem gml_parse_multi_polygon_loop_nested (atof : List Char → R) :
    ∀ (fuel : Nat) (geom : List (gaiaGeomColl R)) (node : List gmlNode)
      (next : Option (List gmlNode)) (chain : List (gaiaGeomColl R)),
      (next = none ∨ ∃ m, next = some (m :: node)) →
      gml_parse_multi_polygon.loop atof fuel geom node next = some (some chain) →
      gmlNested node ∨ ∃ inner c, node = inner ++ [c] ∧ gmlNested inner ∧
        (c.Tag = "gml:MultiPolygon" ∨ c.Tag = "MultiPolygon") := by
  intro fuel
  induction fuel with
  | zero =>
    intro geom node next chain _ h
    cases node with
    | nil => exact Or.inl gmlNested.nil
    | cons n rest => simp [gml_parse_multi_polygon.loop] at h
  | succ fuel ih =>
    intro geom node next chain hinv h
    rcases node with _ | ⟨n0, _ | ⟨n1, n⟩⟩
    · exact Or.inl gmlNested.nil
    · simp only [gml_parse_multi_polygon.loop] at h
      split_ifs at h with ht
      · exact Or.inr ⟨[], n0, rfl, gmlNested.nil, ht⟩
      · simp at h
    · obtain ⟨srid, geom2, n2, rest, h0, h1, hp, h2, hl⟩ :=
        gml_parse_multi_polygon_loop_step atof fuel geom n0 n1 n next chain h
      rcases gml_parse_polygon_nested atof geom n srid next geom2 _ hp with
        ⟨rings, c, rest2, hin, hrings, hc, hnx⟩ | hst
      · simp only [Option.some.injEq] at hnx
        subst hnx
        have e1 : gmlLocalName c.Tag = gmlLocalName n1.Tag := by
          rcases hc with a | a <;> rcases h1 with b | b <;> rw [a, b] <;> rfl
        have e2 : gmlLocalName n2.Tag = gmlLocalName n0.Tag := by
          rcases h2 with a | a <;> rcases h0 with b | b <;> rw [a, b] <;> rfl
        have hm : gmlNested (n0 :: ((n1 :: (rings ++ [c])) ++ [n2])) :=
          gmlNested_one n0 n2 (n1 :: (rings ++ [c])) e2 (gmlNested_one n1 c rings e1 hrings)
        have hn : n0 :: n1 :: n = (n0 :: ((n1 :: (rings ++ [c])) ++ [n2])) ++ rest := by
          rw [hin]; simp
        rw [hn]
        rcases ih _ _ _ _ (Or.inr ⟨n2, rfl⟩) hl with hr | ⟨inner2, c2, e, hr, hc2⟩
        · exact Or.inl (gmlNested_append hm hr)
        · right
          refine ⟨(n0 :: ((n1 :: (rings ++ [c])) ++ [n2])) ++ inner2, c2, ?_,
            gmlNested_append hm hr, hc2⟩
          rw [e]; simp
      · rcases hinv with hnone | ⟨m, hm⟩
        · rw [hnone] at hst; simp at hst
        · rw [hm] at hst
          simp only [Option.some.injEq, List.cons.injEq] at hst
          obtain ⟨rfl, rfl⟩ := hst
          exact ih _ _ _ _ (Or.inr ⟨n2, rfl⟩) hl

theorem gml_parse_multi_surface_loop_step (atof : List Char → R) (fuel : Nat)
    (geom : List (gaiaGeomColl R)) (n0 n1 : gmlNode) (n : List gmlNode)
    (next : Option (List gmlNode)) (chain : List (gaiaGeomColl R))
    (h : gml_parse_multi_surface.loop atof (fuel + 1) geom (n0 :: n1 :: n) next =
      some (some chain)) :
    ∃ srid geom2 n2 rest,
      (n0.Tag = "gml:surfaceMember" ∨ n0.Tag = "surfaceMember") ∧
      (n1.Tag = "gml:Polygon" ∨ n1.Tag = "Polygon") ∧
      gml_parse_polygon atof geom n srid next = some (some (geom2, some (n2 :: rest))) ∧
      (n2.Tag = "gml:surfaceMember" ∨ n2.Tag = "surfaceMember") ∧
      gml_parse_multi_surface.loop atof fuel geom2 rest (some (n2 :: rest)) = some (some chain) := by
  simp only [gml_parse_multi_surface.loop] at h
  repeat' split at h
  all_goals first
    | (simp at h)
    | exact ⟨_, _, _, _, by assumption, by assumption, by assumption, by assumption, h⟩

/-- The nodes that a successful loop of `gml_parse_multi_surface` has read:
complete member elements, and then nothing or one MultiSurface tag. The
variable `next` is never assigned or points to the node before `node`. -/
theorem gml_parse_multi_surface_loop_nested (atof : List Char → R) :
    ∀ (fuel : Nat) (geom : List (gaiaGeomColl R)) (node : List gmlNode)
      (next : Option (List gmlNode)) (chain : List (gaiaGeomColl R)),
      (next = none ∨ ∃ m, next = some (m :: node)) →
      gml_parse_multi_surface.loop atof fuel geom node next = some (some chain) →
      gmlNested node ∨ ∃ inner c, node = inner ++ [c] ∧ gmlNested inner ∧
        (c.Tag = "gml:MultiSurface" ∨ c.Tag = "MultiSurface") := by
  intro fuel
  induction fuel with
  | zero =>
    intro geom node next chain _ h
    cases node with
    | nil => exact Or.inl gmlNested.nil
    | cons n rest => simp [gml_parse_multi_surface.loop] at h
  | succ fuel ih =>
    intro geom node next chain hinv h
    rcases node with _ | ⟨n0, _ | ⟨n1, n⟩⟩
    · exact Or.inl gmlNested.nil
    · simp only [gml_parse_multi_surface.loop] at h
      split_ifs at h with ht
      · exact Or.inr ⟨[], n0, rfl, gmlNested.nil, ht⟩
      · simp at h
    · obtain ⟨srid, geom2, n2, rest, h0, h1, hp, h2, hl⟩ :=
        gml_parse_multi_surface_loop_step atof fuel geom n0 n1 n next chain h
      rcases gml_parse_polygon_nested atof geom n srid next geom2 _ hp with
        ⟨rings, c, rest2, hin, hrings, hc, hnx⟩ | hst
      · simp only [Option.some.injEq] at hnx
        subst hnx
        have e1 : gmlLocalName c.Tag = gmlLocalName n1.Tag := by
          rcases hc with a | a <;> rcases h1 with b | b <;> rw [a, b] <;> rfl
        have e2 : gmlLocalName n2.Tag = gmlLocalName n0.Tag := by
          rcases h2 with a | a <;> rcases h0 with b | b <;> rw [a, b] <;> rfl
        have hm : gmlNested (n0 :: ((n1 :: (rings ++ [c])) ++ [n2])) :=
          gmlNested_one n0 n2 (n1 :: (rings ++ [c])) e2 (gmlNested_one n1 c rings e1 hrings)
        have hn : n0 :: n1 :: n = (n0 :: ((n1 :: (rings ++ [c])) ++ [n2])) ++ rest := by
          rw [hin]; simp
        rw [hn]
        rcases ih _ _ _ _ (Or.inr ⟨n2, rfl⟩) hl with hr | ⟨inner2, c2, e, hr, hc2⟩
        · exact Or.inl (gmlNested_append hm hr)
        · right
          refine ⟨(n0 :: ((n1 :: (rings ++ [c])) ++ [n2])) ++ inner2, c2, ?_,
            gmlNested_append hm hr, hc2⟩
          rw [e]; simp
      · rcases hinv with hnone | ⟨m, hm⟩
        · rw [hnone] at hst; simp at hst
        · rw [hm] at hst
          simp only [Option.some.injEq, List.cons.injEq] at hst
          obtain ⟨rfl, rfl⟩ := hst
          exact ih _ _ _ _ (Or.inr ⟨n2, rfl⟩) hl

/-- The nodes that the member geometry of one iteration of
`gml_parse_multi_geometry` has read form, with the tag of the member
geometry before them, one complete element, after which `next` points; or
the polygon parser has met the end of the nodes and has left `next` as it
was. -/
theorem gml_parse_multi_geometry_member_nested (atof : List Char → R)
    (geom : List (gaiaGeomColl R)) (n1 : gmlNode) (n : List gmlNode)
    (next : Option (List gmlNode)) (chain : List (gaiaGeomColl R))
    (next2 : Option (List gmlNode))
    (h : gml_parse_multi_geometry.member atof geom n1 n next = some (some (chain, next2))) :
    (∃ inner rest, n = inner ++ rest ∧ gmlNested (n1 :: inner) ∧ next2 = some rest) ∨
    next2 = next := by
  unfold gml_parse_multi_geometry.member at h
  repeat' split at h
  all_goals first
    | (simp at h <;> done)
    | (rcases gml_parse_polygon_nested _ _ _ _ _ _ _ h with
         ⟨rings, c, rest2, hin, hrings, hc, hnx⟩ | hst
       · left
         have hp : n1.Tag = "gml:Polygon" ∨ n1.Tag = "Polygon" := by assumption
         have e1 : gmlLocalName c.Tag = gmlLocalName n1.Tag := by
           rcases hc with a | a <;> rcases hp with b | b <;> rw [a, b] <;> rfl
         refine ⟨rings ++ [c], rest2, ?_, gmlNested_one n1 c rings e1 hrings, hnx⟩
         rw [hin]; simp
       · exact Or.inr hst)
    | (simp only [Option.some.injEq, Prod.mk.injEq] at h
       obtain ⟨-, rfl⟩ := h
       first
         | (obtain ⟨inner, hin, -, hnest⟩ :=
              gml_parse_point_nested _ _ _ _ _ _ (by assumption)
            exact Or.inl ⟨inner, _, hin, hnest n1 (by assumption), rfl⟩)
         | (obtain ⟨inner, hin, -, hnest⟩ :=
              gml_parse_linestring_nested _ _ _ _ _ _ (by assumption)
            exact Or.inl ⟨inner, _, hin, hnest n1 (by assumption), rfl⟩)
         | (obtain ⟨inner, hin, -, hnest⟩ :=
              gml_parse_curve_nested _ _ _ _ _ _ (by assumption)
            exact Or.inl ⟨inner, _, hin, hnest n1 (by assumption), rfl⟩))

theorem gml_parse_multi_geometry_loop_step (atof : List Char → R) (fuel : Nat)
    (geom : List (gaiaGeomColl R)) (n0 n1 : gmlNode) (n : List gmlNode)
    (next : Option (List gmlNode)) (chain : List (gaiaGeomColl R))
    (h : gml_parse_multi_geometry.loop atof (fuel + 1) geom (n0 :: n1 :: n) next =
      some (some chain)) :
    ∃ geom2 n2 rest,
      (n0.Tag = "gml:geometryMember" ∨ n0.Tag = "geometryMember") ∧
      gml_parse_multi_geometry.member atof geom n1 n next =
        some (some (geom2, some (n2 :: rest))) ∧
      (n2.Tag = "gml:geometryMember" ∨ n2.Tag = "geometryMember") ∧
      gml_parse_multi_geometry.loop atof fuel geom2 rest (some (n2 :: rest)) =
        some (some chain) := by
  simp only [gml_parse_multi_geometry.loop] at h
  repeat' split at h
  all_goals first
    | (simp at h)
    | exact ⟨_, _, _, by assumption, by assumption, by assumption, h⟩

/-- The nodes that a successful loop of `gml_parse_multi_geometry` has read:
complete member elements, and then nothing or one MultiGeometry tag. The
variable `next` is never assigned or points to the node before `node`. -/
theorem gml_parse_multi_geometry_loop_nested (atof : List Char → R) :
    ∀ (fuel : Nat) (geom : List (gaiaGeomColl R)) (node : List gmlNode)
      (next : Option (List gmlNode)) (chain : List (gaiaGeomColl R)),
      (next = none ∨ ∃ m, next = some (m :: node)) →
      gml_parse_multi_geometry.loop atof fuel geom node next = some (some chain) →
      gmlNested node ∨ ∃ inner c, node = inner ++ [c] ∧ gmlNested inner ∧
        (c.Tag = "gml:MultiGeometry" ∨ c.Tag = "MultiGeometry") := by
  intro fuel
  induction fuel with
  | zero =>
    intro geom node next chain _ h
    cases node with
    | nil => exact Or.inl gmlNested.nil
    | cons n rest => simp [gml_parse_multi_geometry.loop] at h
  | succ fuel ih =>
    intro geom node next chain hinv h
    rcases node with _ | ⟨n0, _ | ⟨n1, n⟩⟩
    · exact Or.inl gmlNested.nil
    · simp only [gml_parse_multi_geometry.loop] at h
      split_ifs at h with ht
      · exact Or.inr ⟨[], n0, rfl, gmlNested.nil, ht⟩
      · simp at h
    · obtain ⟨geom2, n2, rest, h0, hp, h2, hl⟩ :=
        gml_parse_multi_geometry_loop_step atof fuel geom n0 n1 n next chain h
      rcases gml_parse_multi_geometry_member_nested atof geom n1 n next geom2 _ hp with
        ⟨inner, rest2, hin, hnest, hnx⟩ | hst
      · simp only [Option.some.injEq] at hnx
        subst hnx
        have e2 : gmlLocalName n2.Tag = gmlLocalName n0.Tag := by
          rcases h2 with a | a <;> rcases h0 with b | b <;> rw [a, b] <;> rfl
        have hm : gmlNested (n0 :: ((n1 :: inner) ++ [n2])) :=
          gmlNested_one n0 n2 (n1 :: inner) e2 hnest
        have hn : n0 :: n1 :: n = (n0 :: ((n1 :: inner) ++ [n2])) ++ rest := by
          rw [hin]; simp
        rw [hn]
        rcases ih _ _ _ _ (Or.inr ⟨n2, rfl⟩) hl with hr | ⟨inner2, c2, e, hr, hc2⟩
        · exact Or.inl (gmlNested_append hm hr)
        · right
          refine ⟨(n0 :: ((n1 :: inner) ++ [n2])) ++ inner2, c2, ?_,
            gmlNested_append hm hr, hc2⟩
          rw [e]; simp
      · rcases hinv with hnone | ⟨m, hm⟩
        · rw [hnone] at hst; simp at hst
        · rw [hm] at hst
          simp only [Option.some.injEq, List.cons.injEq] at hst
          obtain ⟨rfl, rfl⟩ := hst
          exact ih _ _ _ _ (Or.inr ⟨n2, rfl⟩) hl

/-- The tag of a node of each recognized kind. -/
theorem guessGmlGeometryType_tag (t : gmlNode) :
    (guessGmlGeometryType t = GAIA_GML_MULTIGEOMETRY →
      (t.Tag = "gml:MultiGeometry" ∨ t.Tag = "MultiGeometry")) ∧
    (guessGmlGeometryType t = GAIA_GML_MULTISURFACE →
      (t.Tag = "gml:MultiSurface" ∨ t.Tag = "MultiSurface")) ∧
    (guessGmlGeometryType t = GAIA_GML_MULTIPOLYGON →
      (t.Tag = "gml:MultiPolygon" ∨ t.Tag = "MultiPolygon")) ∧
    (guessGmlGeometryType t = GAIA_GML_MULTICURVE →
      (t.Tag = "gml:MultiCurve" ∨ t.Tag = "MultiCurve")) ∧
    (guessGmlGeometryType t = GAIA_GML_MULTILINESTRING →
      (t.Tag = "gml:MultiLineString" ∨ t.Tag = "MultiLineString")) ∧
    (guessGmlGeometryType t = GAIA_GML_MULTIPOINT →
      (t.Tag = "gml:MultiPoint" ∨ t.Tag = "MultiPoint")) ∧
    (guessGmlGeometryType t = GAIA_GML_POLYGON →
      (t.Tag = "gml:Polygon" ∨ t.Tag = "Polygon")) ∧
    (guessGmlGeometryType t = GAIA_GML_CURVE →
      (t.Tag = "gml:Curve" ∨ t.Tag = "Curve")) ∧
    (guessGmlGeometryType t = GAIA_GML_LINESTRING →
      (t.Tag = "gml:LineString" ∨ t.Tag = "LineString")) ∧
    (guessGmlGeometryType t = GAIA_GML_POINT →
      (t.Tag = "gml:Point" ∨ t.Tag = "Point")) := by
  rw [guessGmlGeometryType_cascade]
  by_cases h1 : t.Tag = "gml:MultiGeometry" ∨ t.Tag = "MultiGeometry"
  · rw [if_pos h1]
    refine ⟨?_, ?_, ?_, ?_, ?_, ?_, ?_, ?_, ?_, ?_⟩ <;> intro h <;>
      first | assumption | exact absurd h (by decide)
  rw [if_neg h1]
  by_cases h2 : t.Tag = "gml:MultiSurface" ∨ t.Tag = "MultiSurface"
  · rw [if_pos h2]
    refine ⟨?_, ?_, ?_, ?_, ?_, ?_, ?_, ?_, ?_, ?_⟩ <;> intro h <;>
      first | assumption | exact absurd h (by decide)
  rw [if_neg h2]
  by_cases h3 : t.Tag = "gml:MultiPolygon" ∨ t.Tag = "MultiPolygon"
  · rw [if_pos h3]
    refine ⟨?_, ?_, ?_, ?_, ?_, ?_, ?_, ?_, ?_, ?_⟩ <;> intro h <;>
      first | assumption | exact absurd h (by decide)
  rw [if_neg h3]
  by_cases h4 : t.Tag = "gml:MultiCurve" ∨ t.Tag = "MultiCurve"
  · rw [if_pos h4]
    refine ⟨?_, ?_, ?_, ?_, ?_, ?_, ?_, ?_, ?_, ?_⟩ <;> intro h <;>
      first | assumption | exact absurd h (by decide)
  rw [if_neg h4]
  by_cases h5 : t.Tag = "gml:MultiLineString" ∨ t.Tag = "MultiLineString"
  · rw [if_pos h5]
    refine ⟨?_, ?_, ?_, ?_, ?_, ?_, ?_, ?_, ?_, ?_⟩ <;> intro h <;>
      first | assumption | exact absurd h (by decide)
  rw [if_neg h5]
  by_cases h6 : t.Tag = "gml:MultiPoint" ∨ t.Tag = "MultiPoint"
  · rw [if_pos h6]
    refine ⟨?_, ?_, ?_, ?_, ?_, ?_, ?_, ?_, ?_, ?_⟩ <;> intro h <;>
      first | assumption | exact absurd h (by decide)
  rw [if_neg h6]
  by_cases h7 : t.Tag = "gml:Polygon" ∨ t.Tag = "Polygon"
  · rw [if_pos h7]
    refine ⟨?_, ?_, ?_, ?_, ?_, ?_, ?_, ?_, ?_, ?_⟩ <;> intro h <;>
      first | assumption | exact absurd h (by decide)
  rw [if_neg h7]
  by_cases h8 : t.Tag = "gml:Curve" ∨ t.Tag = "Curve"
  · rw [if_pos h8]
    refine ⟨?_, ?_, ?_, ?_, ?_, ?_, ?_, ?_, ?_, ?_⟩ <;> intro h <;>
      first | assumption | exact absurd h (by decide)
  rw [if_neg h8]
  by_cases h9 : t.Tag = "gml:LineString" ∨ t.Tag = "LineString"
  · rw [if_pos h9]
    refine ⟨?_, ?_, ?_, ?_, ?_, ?_, ?_, ?_, ?_, ?_⟩ <;> intro h <;>
      first | assumption | exact absurd h (by decide)
  rw [if_neg h9]
  by_cases h10 : t.Tag = "gml:Point" ∨ t.Tag = "Point"
  · rw [if_pos h10]
    refine ⟨?_, ?_, ?_, ?_, ?_, ?_, ?_, ?_, ?_, ?_⟩ <;> intro h <;>
      first | assumption | exact absurd h (by decide)
  rw [if_neg h10]
  refine ⟨?_, ?_, ?_, ?_, ?_, ?_, ?_, ?_, ?_, ?_⟩ <;> intro h <;>
    exact absurd h (by decide)

theorem gmlNodesRead_cons (t : gmlNode) (rest : List gmlNode) :
    gmlNodesRead (t :: rest) =
      if guessGmlGeometryType t = GAIA_GML_POINT ∨
          guessGmlGeometryType t = GAIA_GML_LINESTRING then 4
      else if guessGmlGeometryType t = GAIA_GML_CURVE then 8
      else rest.length + 1 := rfl

/-- The nodes that a successful `switch` of `gml_build_geometry` has read,
with the top-level tag `t` before them: their elements are all closed by a
tag of their name. -/
theorem gml_build_geometry_parse_nested (atof : List Char → R) (t : gmlNode)
    (geom : gaiaGeomColl R) (rest : List gmlNode) (chain : List (gaiaGeomColl R))
    (h : gml_build_geometry.parse atof (guessGmlGeometryType t) geom rest =
      some (some chain))
    (hu : guessGmlGeometryType t ≠ GAIA_GML_UNKNOWN) :
    gmlMatched ((t :: rest).take (gmlNodesRead (t :: rest))) ∧
    gmlNodesRead (t :: rest) ≤ (t :: rest).length := by
  obtain ⟨t1, t2, t3, t4, t5, t6, t7, t8, t9, t10⟩ := guessGmlGeometryType_tag t
  rw [gmlNodesRead_cons]
  generalize hty : guessGmlGeometryType t = ty at h hu t1 t2 t3 t4 t5 t6 t7 t8 t9 t10 ⊢
  have hall : (t :: rest).take (rest.length + 1) = t :: rest := by
    rw [List.take_of_length_le]; simp
  have multi : ∀ (a b : String), (t.Tag = a ∨ t.Tag = b) →
      (gmlNested rest ∨ ∃ inner c, rest = inner ++ [c] ∧ gmlNested inner ∧
        (c.Tag = a ∨ c.Tag = b)) →
      gmlLocalName a = gmlLocalName b →
      gmlMatched (t :: rest) := by
    intro a b ht hr hl
    rcases hr with hr | ⟨inner, c, e, hr, hc⟩
    · exact Or.inr ⟨t, rest, rfl, hr⟩
    · left
      rw [e]
      refine gmlNested_one t c inner ?_ hr
      rcases hc with x | x <;> rcases ht with y | y <;> rw [x, y] <;>
        first | rfl | exact hl | exact hl.symm
  unfold gml_build_geometry.parse at h
  by_cases k1 : ty = GAIA_GML_POINT
  · rw [if_pos k1] at h
    rw [if_pos (Or.inl k1)]
    simp only [] at h
    generalize hp : gml_parse_point atof _ rest _ = r at h
    rcases r with _ | _ | ⟨c, nx⟩
    · simp at h
    · simp at h
    · obtain ⟨inner, hin, hlen, hnest⟩ := gml_parse_point_nested atof _ rest _ c nx hp
      have e : (t :: rest).take 4 = t :: inner := by
        rw [hin, List.take_succ_cons, List.take_left' hlen]
      rw [e]
      refine ⟨Or.inl (hnest t (t10 k1)), ?_⟩
      rw [hin]; simp only [List.length_cons, List.length_append, hlen]; omega
  rw [if_neg k1] at h
  by_cases k2 : ty = GAIA_GML_LINESTRING
  · rw [if_pos k2] at h
    rw [if_pos (Or.inr k2)]
    simp only [] at h
    generalize hp : gml_parse_linestring atof _ rest _ = r at h
    rcases r with _ | _ | ⟨c, nx⟩
    · simp at h
    · simp at h
    · obtain ⟨inner, hin, hlen, hnest⟩ := gml_parse_linestring_nested atof _ rest _ c nx hp
      have e : (t :: rest).take 4 = t :: inner := by
        rw [hin, List.take_succ_cons, List.take_left' hlen]
      rw [e]
      refine ⟨Or.inl (hnest t (t9 k2)), ?_⟩
      rw [hin]; simp only [List.length_cons, List.length_append, hlen]; omega
  rw [if_neg k2] at h
  rw [if_neg (not_or.mpr ⟨k1, k2⟩)]
  by_cases k3 : ty = GAIA_GML_CURVE
  · rw [if_pos k3] at h
    rw [if_pos k3]
    simp only [] at h
    generalize hp : gml_parse_curve atof _ rest _ = r at h
    rcases r with _ | _ | ⟨c, nx⟩
    · simp at h
    · simp at h
    · obtain ⟨inner, hin, hlen, hnest⟩ := gml_parse_curve_nested atof _ rest _ c nx hp
      have e : (t :: rest).take 8 = t :: inner := by
        rw [hin, List.take_succ_cons, List.take_left' hlen]
      rw [e]
      refine ⟨Or.inl (hnest t (t8 k3)), ?_⟩
      rw [hin]; simp only [List.length_cons, List.length_append, hlen]; omega
  rw [if_neg k3] at h
  rw [if_neg k3]
  by_cases k4 : ty = GAIA_GML_POLYGON
  · rw [if_pos k4] at h
    refine ⟨?_, Nat.le_refl _⟩
    rw [hall]
    simp only [] at h
    generalize hp : gml_parse_polygon atof _ rest _ none = r at h
    rcases r with _ | _ | ⟨c, nx⟩
    · simp at h
    · simp at h
    · simp only [] at h
      rcases gml_parse_polygon_nested atof _ rest _ none c nx hp with
        ⟨rings, cl, rest2, hin, hrings, hc, hnx⟩ | hst
      · subst hnx
        cases rest2 with
        | nil =>
          left
          rw [hin]
          refine gmlNested_one t cl rings ?_ hrings
          rcases hc with x | x <;> rcases t7 k4 with y | y <;> rw [x, y] <;> rfl
        | cons m ms => simp at h
      · subst hst; simp at h
  rw [if_neg k4] at h
  by_cases k5 : ty = GAIA_GML_MULTIPOINT
  · rw [if_pos k5] at h
    refine ⟨?_, Nat.le_refl _⟩
    rw [hall]
    exact multi "gml:MultiPoint" "MultiPoint" (t6 k5)
      (gml_parse_multi_point_loop_nested atof _ _ _ _ h) rfl
  rw [if_neg k5] at h
  by_cases k6 : ty = GAIA_GML_MULTILINESTRING
  · rw [if_pos k6] at h
    refine ⟨?_, Nat.le_refl _⟩
    rw [hall]
    exact multi "gml:MultiLineString" "MultiLineString" (t5 k6)
      (gml_parse_multi_linestring_loop_nested atof _ _ _ _ h) rfl
  rw [if_neg k6] at h
  by_cases k7 : ty = GAIA_GML_MULTICURVE
  · rw [if_pos k7] at h
    refine ⟨?_, Nat.le_refl _⟩
    rw [hall]
    exact multi "gml:MultiCurve" "MultiCurve" (t4 k7)
      (gml_parse_multi_curve_loop_nested atof _ _ _ _ h) rfl
  rw [if_neg k7] at h
  by_cases k8 : ty = GAIA_GML_MULTIPOLYGON
  · rw [if_pos k8] at h
    refine ⟨?_, Nat.le_refl _⟩
    rw [hall]
    exact multi "gml:MultiPolygon" "MultiPolygon" (t3 k8)
      (gml_parse_multi_polygon_loop_nested atof _ _ _ _ _ (Or.inl rfl) h) rfl
  rw [if_neg k8] at h
  by_cases k9 : ty = GAIA_GML_MULTISURFACE
  · rw [if_pos k9] at h
    refine ⟨?_, Nat.le_refl _⟩
    rw [hall]
    exact multi "gml:MultiSurface" "MultiSurface" (t2 k9)
      (gml_parse_multi_surface_loop_nested atof _ _ _ _ _ (Or.inl rfl) h) rfl
  rw [if_neg k9] at h
  by_cases k10 : ty = GAIA_GML_MULTIGEOMETRY
  · rw [if_pos k10] at h
    refine ⟨?_, Nat.le_refl _⟩
    rw [hall]
    exact multi "gml:MultiGeometry" "MultiGeometry" (t1 k10)
      (gml_parse_multi_geometry_loop_nested atof _ _ _ _ _ (Or.inl rfl) h) rfl
  rw [if_neg k10] at h
  exfalso
  rcases guessGmlGeometryType_values t with v | v | v | v | v | v | v | v | v | v | v <;>
    rw [hty] at v
  · exact k10 v
  · exact k9 v
  · exact k8 v
  · exact k7 v
  · exact k6 v
  · exact k5 v
  · exact k4 v
  · exact k3 v
  · exact k2 v
  · exact k1 v
  · exact hu v

/-- The nodes that a successful `gml_build_geometry` has read: their elements
are all closed by a tag of their name, up to the prefix. -/
theorem gml_build_geometry_nested {S : Type} (atof : List Char → R)
    (sqlite_handle : Option S) (gml_proj_params : S → Int → List Char)
    (gaiaTransform : gaiaGeomColl R → List Char → List Char → Option (gaiaGeomColl R))
    (tree : List gmlNode) (g : gaiaGeomColl R)
    (h : gml_build_geometry atof sqlite_handle gml_proj_params gaiaTransform tree =
      some (some g)) :
    gmlMatched (tree.take (gmlNodesRead tree)) ∧ gmlNodesRead tree ≤ tree.length := by
  cases tree with
  | nil => simp [gml_build_geometry] at h
  | cons t rest =>
    simp only [gml_build_geometry] at h
    by_cases hu : guessGmlGeometryType t = GAIA_GML_UNKNOWN
    · rw [if_pos hu] at h; simp at h
    · rw [if_neg hu] at h
      cases hs : guessGmlSrid t with
      | none => rw [hs] at h; simp at h
      | some srid =>
        rw [hs] at h
        simp only [] at h
        generalize hp : gml_build_geometry.parse atof (guessGmlGeometryType t) _ rest = r at h
        rcases r with _ | _ | chain
        · simp at h
        · simp at h
        · exact gml_build_geometry_parse_nested atof t _ rest chain hp hu

/-- A sequence that `gml_build_geometry` accepts is no longer made of
elements closed by tags of their names when one node read after the first
takes a name that differs from its own by more than the prefix. -/
theorem gml_build_geometry_rename_unmatched {S : Type} (atof : List Char → R)
    (sqlite_handle : Option S) (gml_proj_params : S → Int → List Char)
    (gaiaTransform : gaiaGeomColl R → List Char → List Char → Option (gaiaGeomColl R))
    (tree : List gmlNode) (g : gaiaGeomColl R) (i : Nat) (n : gmlNode) (tag : String)
    (hb : gml_build_geometry atof sqlite_handle gml_proj_params gaiaTransform tree =
      some (some g))
    (hi0 : 0 < i) (hik : i < gmlNodesRead tree)
    (hn : tree[i]? = some n)
    (hne : gmlLocalName tag ≠ gmlLocalName n.Tag) :
    ¬ gmlMatched ((gmlRename tag i tree).take (gmlNodesRead (gmlRename tag i tree))) := by
  intro hm2
  obtain ⟨hm, -⟩ := gml_build_geometry_nested atof sqlite_handle gml_proj_params
    gaiaTransform tree g hb
  cases tree with
  | nil => simp [gmlNodesRead] at hik
  | cons t rest =>
    cases i with
    | zero => omega
    | succ j =>
      have er : gmlRename tag (j + 1) (t :: rest) = t :: gmlRename tag j rest := rfl
      have ek : gmlNodesRead (t :: gmlRename tag j rest) = gmlNodesRead (t :: rest) := by
        rw [gmlNodesRead_cons, gmlNodesRead_cons, gmlRename_length]
      rw [er, ek] at hm2
      generalize hk : gmlNodesRead (t :: rest) = k at hm hm2 hik
      cases k with
      | zero => omega
      | succ k0 =>
        rw [List.take_succ_cons] at hm hm2
        rw [gmlRename_take tag j k0 rest (by omega)] at hm2
        have hj : (rest.take k0)[j]? = some n := by
          rw [List.getElem?_take, if_pos (by omega)]
          simpa using hn
        exact gmlMatched_rename_absurd t (rest.take k0) j n tag hj hne hm hm2

/-- In a sequence whose elements are matched, every name is carried by an
even number of nodes, the first node apart when the top-level element is not
closed. -/
theorem gmlMatched_even {l : List gmlNode} (h : gmlMatched l) (name : List Char) :
    (l.countP (fun n => decide (gmlLocalName n.Tag = name))) % 2 = 0 ∨
    (l.tail.countP (fun n => decide (gmlLocalName n.Tag = name))) % 2 = 0 := by
  rcases h with h | ⟨o, rest, e, hr⟩
  · exact Or.inl (gmlNested_even h name)
  · subst e
    exact Or.inr (gmlNested_even hr name)

/-- C17 (counterexample): the sequence of
`<gml:Point><gml:coordinates>1,2</coordinates></Point>`, whose two closing
tags carry names that differ from the names of their opening tags, is
translated into the point (1, 2); so is the sequence of
`<gml:Point><gml:coordinates>1,2<gml:coordinates></gml:Point>`, whose only
closing tag follows two opening tags `gml:coordinates`: the names are
compared by position and the kind of a node is not read. -/
theorem gml_build_geometry_accepts_prefix_mismatch :
    samplePointTree.map (fun n => (n.Tag, n.Type_)) =
      [("gml:Point", GML_PARSER_OPEN_NODE), ("gml:coordinates", GML_PARSER_OPEN_NODE),
       ("coordinates", GML_PARSER_CLOSED_NODE), ("Point", GML_PARSER_CLOSED_NODE)] ∧
    sampleGmlBuild samplePointTree =
      some (some ⟨-1, [⟨1, 2, 0, 0, GAIA_XY⟩], [], [], GAIA_XY, GAIA_POINT, none⟩) ∧
    sampleGmlBuild [gml_createNode "gml:Point" [] [],
        gml_createNode "gml:coordinates" [] ["1,2".toList],
        gml_createNode "gml:coordinates" [] [], gml_closingNode "gml:Point"] =
      some (some ⟨-1, [⟨1, 2, 0, 0, GAIA_XY⟩], [], [], GAIA_XY, GAIA_POINT, none⟩) := by
  decide

/-- C17 (amended): `gml_build_geometry` returns NULL, wherever its behaviour
is defined, on every node sequence in which the closing tag of some element
carries a name that differs from the name of its opening tag by more than
the prefix `gml:`, at any nesting level and for every kind of geometry: on
every sequence whose nodes, as far as they are read, are not complete
elements closed by tags of the names of their opening tags (inside a
top-level element that is closed by its name or left open), and in
particular on every sequence obtained from an accepted one by giving one
node read after the first, the closing tag of any element for instance, a
name that differs from its own by more than the prefix. The names are
compared by position: the kind of a node (opening, closing) is never
read. -/
theorem gml_closing_tags_match_up_to_prefix {S : Type} (atof : List Char → R)
    (sqlite_handle : Option S) (gml_proj_params : S → Int → List Char)
    (gaiaTransform : gaiaGeomColl R → List Char → List Char → Option (gaiaGeomColl R))
    (tree : List gmlNode)
    (hbad : ¬ gmlMatched (tree.take (gmlNodesRead tree)) ∨
      ∃ (tree0 : List gmlNode) (g : gaiaGeomColl R) (i : Nat) (n : gmlNode) (tag : String),
        gml_build_geometry atof sqlite_handle gml_proj_params gaiaTransform tree0 =
          some (some g) ∧
        0 < i ∧ i < gmlNodesRead tree0 ∧ tree0[i]? = some n ∧
        gmlLocalName tag ≠ gmlLocalName n.Tag ∧ tree = gmlRename tag i tree0)
    (hdef : gml_build_geometry atof sqlite_handle gml_proj_params gaiaTransform tree ≠ none) :
    ¬ gmlMatched (tree.take (gmlNodesRead tree)) ∧
    gml_build_geometry atof sqlite_handle gml_proj_params gaiaTransform tree = some none := by
  have hnm : ¬ gmlMatched (tree.take (gmlNodesRead tree)) := by
    rcases hbad with h | ⟨tree0, g, i, n, tag, hb, hi0, hik, hn, hne, e⟩
    · exact h
    · rw [e]
      exact gml_build_geometry_rename_unmatched atof sqlite_handle gml_proj_params
        gaiaTransform tree0 g i n tag hb hi0 hik hn hne
  refine ⟨hnm, ?_⟩
  cases hres : gml_build_geometry atof sqlite_handle gml_proj_params gaiaTransform tree with
  | none => exact absurd hres hdef
  | some r =>
    cases r with
    | none => rfl
    | some g2 =>
      exact absurd (gml_build_geometry_nested atof sqlite_handle gml_proj_params
        gaiaTransform tree g2 hres).1 hnm

/-- Witness for C17: in the MultiGeometry sequence of a Point member and a
LineString member, the closing tag of the Point (node 5, two levels down)
takes the name LineString; in the Polygon sequence with a hole, the closing
tag of the LinearRing of the hole (node 11) takes the name Ring; and the
sequence `<gml:Curve><gml:segments></gml:Curve>`, whose element `segments` is
closed by a Curve tag. -/
theorem gml_closing_tags_match_up_to_prefix_witness :
    (sampleGmlBuild sampleCollectionTree =
        some (some ⟨-1, [gaiaAllocPoint 1 2], [⟨2, [1, 2, 3, 4], GAIA_XY⟩], [], GAIA_XY,
          GAIA_GEOMETRYCOLLECTION, none⟩) ∧
      0 < 5 ∧ 5 < gmlNodesRead sampleCollectionTree ∧
      sampleCollectionTree[5]? = some (gml_closingNode "gml:Point") ∧
      gmlLocalName "gml:LineString" ≠ gmlLocalName (gml_closingNode "gml:Point").Tag) ∧
    sampleGmlBuild (gmlRename "gml:LineString" 5 sampleCollectionTree) ≠ none ∧
    (¬ gmlMatched ((gmlRename "gml:LineString" 5 sampleCollectionTree).take
        (gmlNodesRead (gmlRename "gml:LineString" 5 sampleCollectionTree))) ∧
      sampleGmlBuild (gmlRename "gml:LineString" 5 sampleCollectionTree) = some none) ∧
    (¬ gmlMatched ((gmlRename "gml:Ring" 11 samplePolygonTree).take
        (gmlNodesRead (gmlRename "gml:Ring" 11 samplePolygonTree))) ∧
      sampleGmlBuild (gmlRename "gml:Ring" 11 samplePolygonTree) = some none) ∧
    (¬ gmlMatched (List.take
        (gmlNodesRead [gml_createNode "gml:Curve" [] [], gml_createNode "gml:segments" [] [],
          gml_closingNode "gml:Curve"])
        [gml_createNode "gml:Curve" [] [], gml_createNode "gml:segments" [] [],
          gml_closingNode "gml:Curve"]) ∧
      sampleGmlBuild [gml_createNode "gml:Curve" [] [], gml_createNode "gml:segments" [] [],
        gml_closingNode "gml:Curve"] = some none) :=
  ⟨by decide, by decide,
    gml_closing_tags_match_up_to_prefix sampleAtof (none : Option Unit) (fun _ _ => [])
      (fun _ _ _ => none) (gmlRename "gml:LineString" 5 sampleCollectionTree)
      (Or.inr ⟨sampleCollectionTree,
        ⟨-1, [gaiaAllocPoint 1 2], [⟨2, [1, 2, 3, 4], GAIA_XY⟩], [], GAIA_XY,
          GAIA_GEOMETRYCOLLECTION, none⟩, 5, gml_closingNode "gml:Point", "gml:LineString",
        by decide, by decide, by decide, by decide, by decide, rfl⟩)
      (by decide),
    gml_closing_tags_match_up_to_prefix sampleAtof (none : Option Unit) (fun _ _ => [])
      (fun _ _ _ => none) (gmlRename "gml:Ring" 11 samplePolygonTree)
      (Or.inr ⟨samplePolygonTree,
        ⟨4326, [], [], [⟨⟨4, [0, 0, 4, 0, 4, 4, 0, 0], GAIA_XY⟩,
          [⟨4, [1, 1, 2, 1, 2, 2, 1, 1], GAIA_XY⟩], 0, GAIA_XY⟩], GAIA_XY, GAIA_POLYGON,
          none⟩, 11, gml_closingNode "gml:LinearRing", "gml:Ring",
        by decide, by decide, by decide, by decide, by decide, rfl⟩)
      (by decide),
    gml_closing_tags_match_up_to_prefix sampleAtof (none : Option Unit) (fun _ _ => [])
      (fun _ _ _ => none)
      [gml_createNode "gml:Curve" [] [], gml_createNode "gml:segments" [] [],
        gml_closingNode "gml:Curve"]
      (Or.inl (fun h => absurd (gmlMatched_even h "segments".toList) (by decide)))
      (by decide)⟩

end GmlProofs

section NetProofs
variable {V R : Type} [IntCast R]

/-! ### The network module -/

/-- The value of `check_matching_srid_dims`. -/
theorem check_matching_srid_dims_eq (net : gaia_network) (srid dims : Int) :
    check_matching_srid_dims net srid dims =
      if srid = net.srid ∧ ((dims = GAIA_XY_Z ∨ dims = GAIA_XY_Z_M) ↔ net.has_z ≠ 0) then 1
      else 0 := by
  unfold check_matching_srid_dims
  by_cases h1 : net.srid = srid
  · have h1b : srid = net.srid := h1.symm
    by_cases h2 : net.has_z = 0 <;> by_cases h3 : dims = GAIA_XY_Z ∨ dims = GAIA_XY_Z_M <;>
      simp [h1, h2, h3]
  · have h1b : ¬ srid = net.srid := fun h => h1 h.symm
    simp [h1, h1b]

/-- C40: `check_matching_srid_dims` returns 1 exactly when the SRID is the one
of the network and the geometry carries Z (`GAIA_XY_Z` or `GAIA_XY_Z_M`)
exactly when the network has Z, and 0 otherwise; when it returns 0 on the
geometry decoded from the blob argument, `ST_AddIsoNetNode`,
`ST_MoveIsoNetNode` and `ST_AddLink` raise the exception "invalid geometry
(mismatching SRID or dimensions)". -/
theorem check_matching_srid_dims_spec (sql : sqlite3_api V R) (api : network_api R)
    (net : gaia_network) (srid dims : Int) (argv0 argv1 argv2 blob : V)
    (geom : gaiaGeomColl R)
    (h0 : sql.sqlite3_value_type argv0 = SQLITE_TEXT)
    (h1 : sql.sqlite3_value_type argv1 = SQLITE_INTEGER)
    (h2 : sql.sqlite3_value_type argv2 = SQLITE_INTEGER)
    (hb : sql.sqlite3_value_type blob = SQLITE_BLOB)
    (hnet : api.gaiaGetNetwork (sql.sqlite3_value_text argv0) = some net)
    (hsp : net.spatial ≠ 0)
    (hgeom : api.gaiaFromSpatiaLiteBlobWkbEx (sql.sqlite3_value_blob blob) = some geom)
    (hcheck : check_matching_srid_dims net geom.Srid geom.DimensionModel = 0) :
    (check_matching_srid_dims net srid dims = 1 ↔
      (srid = net.srid ∧ ((dims = GAIA_XY_Z ∨ dims = GAIA_XY_Z_M) ↔ net.has_z ≠ 0))) ∧
    (check_matching_srid_dims net srid dims = 0 ↔
      ¬ (srid = net.srid ∧ ((dims = GAIA_XY_Z ∨ dims = GAIA_XY_Z_M) ↔ net.has_z ≠ 0))) ∧
    (fnctaux_point_invalid geom = false →
      fnctaux_AddIsoNetNode sql api argv0 blob = fnctaux_invalid_geom ∧
      fnctaux_MoveIsoNetNode sql api argv0 argv1 blob = fnctaux_invalid_geom) ∧
    (fnctaux_line_invalid geom = false →
      fnctaux_AddLink sql api argv0 argv1 argv2 blob = fnctaux_invalid_geom) ∧
    fnctaux_invalid_geom = sqlite3_result.sqlite3_result_error
      "SQL/MM Spatial exception - invalid geometry (mismatching SRID or dimensions)." := by
  have e := check_matching_srid_dims_eq net srid dims
  have n0 : ¬ SQLITE_TEXT = SQLITE_NULL := by decide
  have n1 : ¬ SQLITE_INTEGER = SQLITE_NULL := by decide
  have n2 : ¬ SQLITE_BLOB = SQLITE_NULL := by decide
  refine ⟨?_, ?_, ?_, ?_, rfl⟩
  · rw [e]; split_ifs with h <;> simp [h]
  · rw [e]; split_ifs with h <;> simp [h]
  · intro hv
    constructor
    · simp only [fnctaux_AddIsoNetNode, h0, hb, n0, n2, if_false, if_true, hnet, hsp, hgeom, hv,
        hcheck, Bool.false_eq_true]
    · simp only [fnctaux_MoveIsoNetNode, h0, h1, hb, n0, n1, n2, if_false, if_true, hnet, hsp,
        hgeom, hv, hcheck, Bool.false_eq_true]
  · intro hv
    simp only [fnctaux_AddLink, h0, h1, h2, hb, n0, n1, n2, if_false, if_true, hnet, hsp,
      hgeom, hv, hcheck, Bool.false_eq_true]

/-- C40 (witness): a point and a linestring in EPSG:3003 offered to the
network `roads`, which is in EPSG:4326. -/
theorem check_matching_srid_dims_spec_witness :
    (fnctaux_AddIsoNetNode sampleSqlite sampleNetwork (.text "roads") (.blob [2]) =
        fnctaux_invalid_geom ∧
     fnctaux_MoveIsoNetNode sampleSqlite sampleNetwork (.text "roads") (.integer 1)
        (.blob [2]) = fnctaux_invalid_geom) ∧
    fnctaux_AddLink sampleSqlite sampleNetwork (.text "roads") (.integer 1) (.integer 2)
      (.blob [5]) = fnctaux_invalid_geom :=
  ⟨(check_matching_srid_dims_spec sampleSqlite sampleNetwork ⟨1, 4326, 0⟩ 3003 GAIA_XY
      (.text "roads") (.integer 1) (.integer 2) (.blob [2])
      ⟨3003, [gaiaAllocPoint ⟨10000⟩ ⟨20000⟩], [], [], GAIA_XY, GAIA_POINT, none⟩
      rfl rfl rfl rfl rfl (by decide) rfl rfl).2.2.1 rfl,
   (check_matching_srid_dims_spec sampleSqlite sampleNetwork ⟨1, 4326, 0⟩ 3003 GAIA_XY
      (.text "roads") (.integer 1) (.integer 2) (.blob [5])
      ⟨3003, [], [⟨2, [⟨0⟩, ⟨0⟩, ⟨1000⟩, ⟨1000⟩], GAIA_XY⟩], [], GAIA_XY, GAIA_LINESTRING, none⟩
      rfl rfl rfl rfl rfl (by decide) rfl rfl).2.2.2.1 rfl⟩

/-- C39: the tolerance that `GetNetNodeByPoint` and `GetLinkByPoint` hand to
the network engine for a floating point argument is the `int` read by
`sqlite3_value_int`, converted back to `double`, and not the `double` of the
argument, which `TopoNet_Simplify` reads with `sqlite3_value_double`: with
the tolerance 0.5 the sample engine, which finds the node 7 and the link 9
within 0.4, is called with 0 and finds nothing. -/
theorem fnctaux_by_point_truncates_float_tolerance (sql : sqlite3_api V R)
    (api : network_api R) (argv0 argv1 argv2 : V)
    (h0 : sql.sqlite3_value_type argv0 = SQLITE_TEXT)
    (h1 : sql.sqlite3_value_type argv1 = SQLITE_BLOB)
    (h2 : sql.sqlite3_value_type argv2 = SQLITE_FLOAT) :
    fnctaux_GetNetNodeByPoint sql api argv0 argv1 argv2 =
      fnctaux_by_point api api.gaiaGetNetNodeByPoint
        "GetNetNodekByPoint() cannot be applied to Logical Network."
        (sql.sqlite3_value_text argv0) (sql.sqlite3_value_blob argv1)
        ((sql.sqlite3_value_int argv2 : Int) : R) ∧
    fnctaux_GetLinkByPoint sql api argv0 argv1 argv2 =
      fnctaux_by_point api api.gaiaGetLinkByPoint
        "GetLinkByPoint() cannot be applied to Logical Network."
        (sql.sqlite3_value_text argv0) (sql.sqlite3_value_blob argv1)
        ((sql.sqlite3_value_int argv2 : Int) : R) ∧
    fnctaux_TopoNet_Simplify sql api argv0 argv2 =
      fnctaux_TopoNet_Simplify.run api (sql.sqlite3_value_text argv0)
        (sql.sqlite3_value_double argv2) ∧
    fnctaux_GetNetNodeByPoint sampleSqlite sampleNetwork (.text "roads") (.blob [1])
      (.float ⟨500⟩) = .sqlite3_result_int64 0 ∧
    fnctaux_by_point sampleNetwork sampleNetwork.gaiaGetNetNodeByPoint
      "GetNetNodekByPoint() cannot be applied to Logical Network." "roads" [1] ⟨500⟩ =
      .sqlite3_result_int64 7 ∧
    fnctaux_GetLinkByPoint sampleSqlite sampleNetwork (.text "roads") (.blob [1])
      (.float ⟨500⟩) = .sqlite3_result_int64 0 ∧
    fnctaux_by_point sampleNetwork sampleNetwork.gaiaGetLinkByPoint
      "GetLinkByPoint() cannot be applied to Logical Network." "roads" [1] ⟨500⟩ =
      .sqlite3_result_int64 9 ∧
    fnctaux_TopoNet_Simplify sampleSqlite sampleNetwork (.text "roads") (.float ⟨500⟩) =
      .sqlite3_result_int 1 := by
  have n0 : ¬ SQLITE_TEXT = SQLITE_NULL := by decide
  have n1 : ¬ SQLITE_BLOB = SQLITE_NULL := by decide
  have n2 : ¬ SQLITE_FLOAT = SQLITE_NULL := by decide
  have n3 : ¬ SQLITE_FLOAT = SQLITE_INTEGER := by decide
  refine ⟨?_, ?_, ?_, ?_, ?_, ?_, ?_, ?_⟩
  · simp only [fnctaux_GetNetNodeByPoint, h0, h1, h2, n0, n1, n2, n3, if_false, if_true]
  · simp only [fnctaux_GetLinkByPoint, h0, h1, h2, n0, n1, n2, n3, if_false, if_true]
  · simp only [fnctaux_TopoNet_Simplify, h0, h2, n0, n2, n3, if_false, if_true]
  all_goals decide

/-- C39 (witness): the tolerance 0.5 on the sample network. -/
theorem fnctaux_by_point_truncates_float_tolerance_witness :
    fnctaux_GetNetNodeByPoint sampleSqlite sampleNetwork (.text "roads") (.blob [1])
      (.float ⟨500⟩) =
      fnctaux_by_point sampleNetwork sampleNetwork.gaiaGetNetNodeByPoint
        "GetNetNodekByPoint() cannot be applied to Logical Network." "roads" [1]
        (((0 : Int) : sampleDouble)) :=
  (fnctaux_by_point_truncates_float_tolerance sampleSqlite sampleNetwork (.text "roads")
    (.blob [1]) (.float ⟨500⟩) rfl rfl rfl).1

end NetProofs

end Spatialite
